import Mathlib

/-!
# Type analysis of the cminusminus compiler (project 5)

A shallow embedding of `types.hpp` and `type_analysis.cpp`.

* `DataType` objects live on a heap (`TypeRegistry.heap`); a `const DataType *`
  is an address into it, and identity equality of two handles is equality of
  addresses.  `new` appends to the heap; nothing is ever freed or mutated.
* The function-local statics of `ErrorType::produce`, `BasicType::produce`
  and `PtrType::produce` are the fields `error`, `flyweights` and `map` of
  `TypeRegistry`.
* An AST node is identified by its address (`ASTNode.addr`), the key of the
  node-to-type map.
* Code that can throw or dereference a null pointer returns `Except Crash`.
-/

namespace cminusminus

/-! ## types.hpp -/

/-- The enum `BaseType`. -/
inductive BaseType where
  | INT
  | VOID
  | STRING
  | BOOL
  | SHORT
  deriving DecidableEq, Repr

/-- Address of a `DataType` object: the value of a non-null `const DataType *`. -/
abbrev Addr := Nat

/-- Fields of a `BasicType` object. -/
structure BasicType where
  myBaseType : BaseType
  deriving DecidableEq, Repr

/-- Fields of a `PtrType` object. -/
structure PtrType where
  myBase : Addr
  deriving DecidableEq, Repr

/-- Fields of a `FnType` object; the formal list is immutable once built and is held by value. -/
structure FnType where
  myFormalTypes : List Addr
  myRetType : Addr
  deriving DecidableEq, Repr

/-- An object of one of the four concrete subclasses of `DataType`. -/
inductive DataType where
  | error
  | basic (b : BasicType)
  | ptr (p : PtrType)
  | fn (f : FnType)
  deriving DecidableEq, Repr

namespace BasicType

def getBaseType (b : BasicType) : BaseType := b.myBaseType

def isInt (b : BasicType) : Bool := b.myBaseType == BaseType.INT

def isString (b : BasicType) : Bool := b.myBaseType == BaseType.STRING

def isBool (b : BasicType) : Bool := b.myBaseType == BaseType.BOOL

def isVoid (b : BasicType) : Bool := b.myBaseType == BaseType.VOID

/-- `BasicType` does not override `isShort`; it inherits `DataType::isShort`, which returns false. -/
def isShort (_b : BasicType) : Bool := false

def validVarType (b : BasicType) : Bool := !b.isVoid

end BasicType

namespace PtrType

def getBase (p : PtrType) : Addr := p.myBase

end PtrType

namespace FnType

def getReturnType (f : FnType) : Addr := f.myRetType

def getFormalTypes (f : FnType) : List Addr := f.myFormalTypes

end FnType

namespace DataType

/-- `asBasic()`: the object itself seen as a `BasicType`, or null. -/
def asBasic : DataType → Option BasicType
  | .basic b => some b
  | _ => none

/-- `asPtr()`: the object itself seen as a `PtrType`, or null. -/
def asPtr : DataType → Option PtrType
  | .ptr p => some p
  | _ => none

/-- `asFn()`: the object itself seen as a `FnType`, or null. -/
def asFn : DataType → Option FnType
  | .fn f => some f
  | _ => none

/-- `asError()`: non-null exactly for the `ErrorType` object (`true` stands for `this`). -/
def asError : DataType → Bool
  | .error => true
  | _ => false

def isVoid : DataType → Bool
  | .basic b => b.isVoid
  | _ => false

def isInt : DataType → Bool
  | .basic b => b.isInt
  | _ => false

def isBool : DataType → Bool
  | .basic b => b.isBool
  | _ => false

def isString : DataType → Bool
  | .basic b => b.isString
  | _ => false

/-- No subclass overrides `isShort`. -/
def isShort : DataType → Bool
  | _ => false

def isPtr : DataType → Bool
  | .ptr _ => true
  | _ => false

def validVarType : DataType → Bool
  | .error => false
  | .basic b => b.validVarType
  | .ptr _ => true
  | .fn _ => false

end DataType

/-- The heap of `DataType` objects together with the three function-local statics of `types.hpp`. -/
structure TypeRegistry where
  /-- All `DataType` objects allocated so far; the object at address `a` is `heap[a]`. -/
  heap : List DataType
  /-- The static `error` of `ErrorType::produce`; `none` before its first call. -/
  error : Option Addr
  /-- The static `flyweights` of `BasicType::produce`. -/
  flyweights : List Addr
  /-- The static `map` of `PtrType::produce`, as an association list keyed by base address. -/
  map : List (Addr × Addr)
  deriving DecidableEq, Repr

namespace TypeRegistry

/-- The state of a process in which no type has been produced yet. -/
def empty : TypeRegistry := { heap := [], error := none, flyweights := [], map := [] }

/-- The object an address points to, if the address is allocated. -/
def deref (r : TypeRegistry) (a : Addr) : Option DataType := r.heap[a]?

/-- The effect of `new T(...)`: the object is placed at the next free address. -/
def alloc (r : TypeRegistry) (obj : DataType) : Addr × TypeRegistry :=
  (r.heap.length, { r with heap := r.heap ++ [obj] })

/-- `fly->getBaseType()` for an entry `fly` of the flyweights list. -/
def getBaseType (r : TypeRegistry) (fly : Addr) : Option BaseType :=
  match r.deref fly with
  | some (DataType.basic b) => some b.getBaseType
  | _ => none

end TypeRegistry

/-- `ErrorType::produce`: the static is initialised by `new ErrorType()` on the first call only. -/
def ErrorType.produce (r : TypeRegistry) : Addr × TypeRegistry :=
  match r.error with
  | some error => (error, r)
  | none =>
    let p := r.alloc DataType.error
    (p.1, { p.2 with error := some p.1 })

/-- The loop of `BasicType::produce` over the flyweights: the first `fly` with
`fly->getBaseType() == base`. -/
def BasicType.findFly (r : TypeRegistry) (base : BaseType) : List Addr → Option Addr
  | [] => none
  | fly :: rest =>
    if r.getBaseType fly = some base then some fly
    else BasicType.findFly r base rest

/-- `BasicType::produce`. -/
def BasicType.produce (base : BaseType) (r : TypeRegistry) : Addr × TypeRegistry :=
  match BasicType.findFly r base r.flyweights with
  | some fly => (fly, r)
  | none =>
    let p := r.alloc (DataType.basic { myBaseType := base })
    (p.1, { p.2 with flyweights := p.2.flyweights ++ [p.1] })

/-- `BasicType::VOID()`. -/
def BasicType.VOID (r : TypeRegistry) : Addr × TypeRegistry := BasicType.produce BaseType.VOID r

/-- `map.find(baseType)`. -/
def PtrType.find (baseType : Addr) : List (Addr × Addr) → Option Addr
  | [] => none
  | (k, v) :: rest => if k = baseType then some v else PtrType.find baseType rest

/-- `PtrType::produce`. -/
def PtrType.produce (baseType : Addr) (r : TypeRegistry) : Addr × TypeRegistry :=
  match PtrType.find baseType r.map with
  | none =>
    let p := r.alloc (DataType.ptr { myBase := baseType })
    (p.1, { p.2 with map := p.2.map ++ [(baseType, p.1)] })
  | some res => (res, r)

/-- The constructor call `new FnType(formalsIn, retTypeIn)`. -/
def FnType.new (formalsIn : List Addr) (retTypeIn : Addr) (r : TypeRegistry) : Addr × TypeRegistry :=
  r.alloc (DataType.fn { myFormalTypes := formalsIn, myRetType := retTypeIn })

/-! ## The type-analysis context (`type_analysis.hpp`) and the error reporter -/

/-- Ways in which the pass can stop without returning. -/
inductive Crash where
  /-- The `InternalError` thrown by the one-argument `nodeType` for a node without a type. -/
  | internalError
  /-- A member call through a null pointer. -/
  | nullDeref
  /-- A member call through a pointer that is not the address of an object of the expected class. -/
  | badPointer
  deriving DecidableEq, Repr

/-- Modelled from the spec: the reporting operations of the context (`type_analysis.hpp` is not
among the sources), one per error category, under the names by which `type_analysis.cpp` calls
them. `errWritePtr` is the write-pointer category of the spec; the pass never calls it. -/
inductive ErrorKind where
  | errAssignOpd
  | errAssignOpr
  | errMathOpd
  | errRelOpd
  | errLogicOpd
  | errEqOpd
  | errEqOpr
  | errDerefOpd
  | errArgCount
  | errArgMatch
  | errCallee
  | errRetWrong
  | errRetEmpty
  | extraRetValue
  | errIfCond
  | errWhileCond
  | errWriteFn
  | errWriteVoid
  | errWritePtr
  | errReadPtr
  | errAssignFn
  deriving DecidableEq, Repr

/-- Modelled from the spec: a source position (`Position` is declared outside the sources); only
its identity matters here, so it is the value of the `Position *`. -/
abbrev Position := Nat

/-- Modelled from the spec: one diagnostic handed to the error reporter, a category and a source
position. -/
structure Diagnostic where
  kind : ErrorKind
  pos : Position
  deriving DecidableEq, Repr

/-- Modelled from the spec: the `TypeAnalysis` object of `type_analysis.hpp`, which is not among
the sources: the node-to-type mapping, the current-function-type slot and the failure flag.
A recorded type and the slot are nullable pointers. -/
structure TypeAnalysis where
  /-- The root handed to `build` (address of the `ProgramNode`). -/
  ast : Option Nat
  /-- Keys are node addresses, each at most once. -/
  nodeToType : List (Nat × Option Addr)
  /-- `none` while unset. -/
  currentFnType : Option Addr
  hasError : Bool
  deriving DecidableEq, Repr

namespace TypeAnalysis

/-- Modelled from the spec: the context as created by the entry operation: nothing recorded,
no current function, failure flag clear. -/
def new : TypeAnalysis :=
  { ast := none, nodeToType := [], currentFnType := none, hasError := false }

/-- Modelled from the spec: lookup in the node-to-type mapping. -/
def find (node : Nat) : List (Nat × Option Addr) → Option (Option Addr)
  | [] => none
  | (k, v) :: rest => if k = node then some v else find node rest

/-- Modelled from the spec: insertion into the node-to-type mapping; an existing entry for the key
is overwritten, so keys stay unique. -/
def insert (node : Nat) (type : Option Addr) : List (Nat × Option Addr) → List (Nat × Option Addr)
  | [] => [(node, type)]
  | (k, v) :: rest => if k = node then (node, type) :: rest else (k, v) :: insert node type rest

/-- Modelled from the spec: `passed()`, true iff no diagnostic has been reported so far. -/
def passed (ta : TypeAnalysis) : Bool := !ta.hasError

end TypeAnalysis

/-- Everything the pass reads and writes: the statics of `types.hpp`, the diagnostics handed to
the reporter so far (oldest first), and the `TypeAnalysis` object. -/
structure State where
  reg : TypeRegistry
  reports : List Diagnostic
  ta : TypeAnalysis
  deriving DecidableEq, Repr

namespace State

/-- Modelled from the spec: the two-argument `nodeType(node, type)` of the context: records the
type, overwriting an earlier one. -/
def setNodeType (st : State) (node : Nat) (type : Option Addr) : State :=
  { st with ta := { st.ta with nodeToType := TypeAnalysis.insert node type st.ta.nodeToType } }

/-- Modelled from the spec: the one-argument `nodeType(node)` of the context: fails with an
internal-consistency error when no type was recorded for the node. -/
def nodeType (st : State) (node : Nat) : Except Crash Addr :=
  match TypeAnalysis.find node st.ta.nodeToType with
  | some (some type) => Except.ok type
  | _ => Except.error Crash.internalError

/-- Modelled from the spec: a reporting operation of the context: it records the diagnostic and
sets the failure flag. -/
def report (st : State) (kind : ErrorKind) (pos : Position) : State :=
  { st with reports := st.reports ++ [{ kind := kind, pos := pos }],
            ta := { st.ta with hasError := true } }

/-- Modelled from the spec: `getCurrentFnType()`. -/
def getCurrentFnType (st : State) : Option Addr := st.ta.currentFnType

/-- Modelled from the spec: `setCurrentFnType(type)`. -/
def setCurrentFnType (st : State) (type : Option Addr) : State :=
  { st with ta := { st.ta with currentFnType := type } }

/-- A virtual member call `p->...` on a non-null `const DataType *`: the object it dispatches on. -/
def deref (st : State) (p : Addr) : Except Crash DataType :=
  match st.reg.deref p with
  | some obj => Except.ok obj
  | none => Except.error Crash.badPointer

/-- The statement `ta->nodeType(node, ErrorType::produce());`. -/
def setError (st : State) (node : Nat) : State :=
  let p := ErrorType.produce st.reg
  { st with reg := p.2 }.setNodeType node (some p.1)

/-- The statement `ta->nodeType(node, BasicType::produce(base));`. -/
def setBasic (st : State) (node : Nat) (base : BaseType) : State :=
  let p := BasicType.produce base st.reg
  { st with reg := p.2 }.setNodeType node (some p.1)

end State

/-! ## ast.hpp -/

/-- The part common to all AST nodes: the node's own address and its `myPos`. -/
structure ASTNode where
  addr : Nat
  myPos : Position
  deriving DecidableEq, Repr

/-- Modelled from the spec: the symbol that name analysis attaches to an identifier
(`symbol_table.hpp` is not among the sources); it carries the declared type. -/
structure SemSymbol where
  myType : Addr
  deriving DecidableEq, Repr

/-- Modelled from the spec: `SemSymbol::getDataType`, the declared type stored on the symbol. -/
def SemSymbol.getDataType (s : SemSymbol) : Addr := s.myType

structure IDNode extends ASTNode where
  mySymbol : SemSymbol
  deriving DecidableEq, Repr

def IDNode.getSymbol (self : IDNode) : SemSymbol := self.mySymbol

structure DerefNode extends ASTNode where
  myID : IDNode
  deriving DecidableEq, Repr

structure RefNode extends ASTNode where
  myID : IDNode
  deriving DecidableEq, Repr

/-- The two concrete subclasses of `LValNode`. -/
inductive LValNode where
  | idNode (n : IDNode)
  | derefNode (n : DerefNode)
  deriving DecidableEq, Repr

def LValNode.toASTNode : LValNode → ASTNode
  | .idNode n => n.toASTNode
  | .derefNode n => n.toASTNode

mutual
/-- The concrete subclasses of `ExpNode`; literal values play no part in the pass and are left out. -/
inductive ExpNode where
  | lval (l : LValNode)
  | assignExp (a : AssignExpNode)
  | callExp (c : CallExpNode)
  | plusNode (n : ASTNode) (myExp1 myExp2 : ExpNode)
  | minusNode (n : ASTNode) (myExp1 myExp2 : ExpNode)
  | timesNode (n : ASTNode) (myExp1 myExp2 : ExpNode)
  | divideNode (n : ASTNode) (myExp1 myExp2 : ExpNode)
  | andNode (n : ASTNode) (myExp1 myExp2 : ExpNode)
  | orNode (n : ASTNode) (myExp1 myExp2 : ExpNode)
  | equalsNode (n : ASTNode) (myExp1 myExp2 : ExpNode)
  | notEqualsNode (n : ASTNode) (myExp1 myExp2 : ExpNode)
  | lessNode (n : ASTNode) (myExp1 myExp2 : ExpNode)
  | lessEqNode (n : ASTNode) (myExp1 myExp2 : ExpNode)
  | greaterNode (n : ASTNode) (myExp1 myExp2 : ExpNode)
  | greaterEqNode (n : ASTNode) (myExp1 myExp2 : ExpNode)
  | refNode (r : RefNode)
  | negNode (n : ASTNode) (myExp : ExpNode)
  | notNode (n : ASTNode) (myExp : ExpNode)
  | shortLitNode (n : ASTNode)
  | intLitNode (n : ASTNode)
  | strLitNode (n : ASTNode)
  | trueNode (n : ASTNode)
  | falseNode (n : ASTNode)
/-- `AssignExpNode(p, dstIn, srcIn)`. -/
inductive AssignExpNode where
  | mk (n : ASTNode) (myDst : LValNode) (mySrc : ExpNode)
/-- `CallExpNode(p, id, argsIn)`. -/
inductive CallExpNode where
  | mk (n : ASTNode) (myID : IDNode) (myArgs : List ExpNode)
end

def AssignExpNode.toASTNode : AssignExpNode → ASTNode
  | .mk n _ _ => n

def CallExpNode.toASTNode : CallExpNode → ASTNode
  | .mk n _ _ => n

def CallExpNode.myID : CallExpNode → IDNode
  | .mk _ myID _ => myID

def CallExpNode.myArgs : CallExpNode → List ExpNode
  | .mk _ _ myArgs => myArgs

def AssignExpNode.myDst : AssignExpNode → LValNode
  | .mk _ myDst _ => myDst

def AssignExpNode.mySrc : AssignExpNode → ExpNode
  | .mk _ _ mySrc => mySrc

/-- The address and position of an expression node. -/
def ExpNode.toASTNode : ExpNode → ASTNode
  | .lval l => l.toASTNode
  | .assignExp a => a.toASTNode
  | .callExp c => c.toASTNode
  | .plusNode n _ _ => n
  | .minusNode n _ _ => n
  | .timesNode n _ _ => n
  | .divideNode n _ _ => n
  | .andNode n _ _ => n
  | .orNode n _ _ => n
  | .equalsNode n _ _ => n
  | .notEqualsNode n _ _ => n
  | .lessNode n _ _ => n
  | .lessEqNode n _ _ => n
  | .greaterNode n _ _ => n
  | .greaterEqNode n _ _ => n
  | .refNode r => r.toASTNode
  | .negNode n _ => n
  | .notNode n _ => n
  | .shortLitNode n => n
  | .intLitNode n => n
  | .strLitNode n => n
  | .trueNode n => n
  | .falseNode n => n

/-- The subclasses of `TypeNode` (type annotations). -/
inductive TypeNode where
  | voidTypeNode (n : ASTNode)
  | ptrTypeNode (n : ASTNode) (myBaseType : TypeNode)
  | intTypeNode (n : ASTNode)
  | shortTypeNode (n : ASTNode)
  | boolTypeNode (n : ASTNode)
  | stringTypeNode (n : ASTNode)
  deriving DecidableEq, Repr

/-- Modelled from the spec: `TypeNode::getType`, whose overrides are not among the sources: a type
annotation produces its `DataType` instance from the type registry. -/
def TypeNode.getType : TypeNode → TypeRegistry → Addr × TypeRegistry
  | .voidTypeNode _, r => BasicType.produce BaseType.VOID r
  | .ptrTypeNode _ myBaseType, r =>
    let p := myBaseType.getType r
    PtrType.produce p.1 p.2
  | .intTypeNode _, r => BasicType.produce BaseType.INT r
  | .shortTypeNode _, r => BasicType.produce BaseType.SHORT r
  | .boolTypeNode _, r => BasicType.produce BaseType.BOOL r
  | .stringTypeNode _, r => BasicType.produce BaseType.STRING r

structure VarDeclNode extends ASTNode where
  myType : TypeNode
  myID : IDNode
  deriving DecidableEq, Repr

def VarDeclNode.getTypeNode (self : VarDeclNode) : TypeNode := self.myType

structure FormalDeclNode extends VarDeclNode
  deriving DecidableEq, Repr

structure AssignStmtNode extends ASTNode where
  myExp : AssignExpNode

structure ReadStmtNode extends ASTNode where
  myDst : LValNode

structure WriteStmtNode extends ASTNode where
  mySrc : ExpNode

structure PostDecStmtNode extends ASTNode where
  myLVal : LValNode

structure PostIncStmtNode extends ASTNode where
  myLVal : LValNode

/-- `myExp` is `none` for `return;` (the null `myExp`). -/
structure ReturnStmtNode extends ASTNode where
  myExp : Option ExpNode

structure CallStmtNode extends ASTNode where
  myCallExp : CallExpNode

mutual
/-- The concrete subclasses of `StmtNode`; a `DeclNode` is a `StmtNode`. -/
inductive StmtNode where
  | decl (d : DeclNode)
  | assignStmt (s : AssignStmtNode)
  | readStmt (s : ReadStmtNode)
  | writeStmt (s : WriteStmtNode)
  | postDecStmt (s : PostDecStmtNode)
  | postIncStmt (s : PostIncStmtNode)
  | ifStmt (n : ASTNode) (myCond : ExpNode) (myBody : List StmtNode)
  | ifElseStmt (n : ASTNode) (myCond : ExpNode) (myBodyTrue myBodyFalse : List StmtNode)
  | whileStmt (n : ASTNode) (myCond : ExpNode) (myBody : List StmtNode)
  | returnStmt (s : ReturnStmtNode)
  | callStmt (s : CallStmtNode)
/-- The concrete subclasses of `DeclNode`; a `FormalDeclNode` is analysed as the `VarDeclNode` it is. -/
inductive DeclNode where
  | varDecl (v : VarDeclNode)
  | fnDecl (n : ASTNode) (myRetType : TypeNode) (myID : IDNode)
      (myFormals : List FormalDeclNode) (myBody : List StmtNode)
end

structure ProgramNode extends ASTNode where
  myGlobals : List DeclNode

/-- Modelled from the spec: the result of name analysis handed to `build`
(`name_analysis.hpp` is not among the sources): the name-resolved program. -/
structure NameAnalysis where
  ast : ProgramNode

/-! ## type_analysis.cpp

Each `typeAnalysis` member that first analyses its children is split in two: the recursive calls
on the children stay in `ExpNode.typeAnalysis` / `StmtNode.typeAnalysis`, and the rest of the
member's body is a definition of its own named `typeRule`, applied to the state the children
left behind. -/

/-- `IDNode::typeAnalysis`. -/
def IDNode.typeAnalysis (self : IDNode) (st : State) : State :=
  st.setNodeType self.addr (some self.getSymbol.getDataType)

/-- `DerefNode::typeAnalysis`. -/
def DerefNode.typeAnalysis (self : DerefNode) (st : State) : Except Crash State := do
  let st := self.myID.typeAnalysis st
  let type ← st.nodeType self.myID.addr
  let obj ← st.deref type
  match obj.asPtr with
  | some p => pure (st.setNodeType self.addr (some p.getBase))
  | none => pure ((st.report ErrorKind.errDerefOpd self.myID.myPos).setError self.addr)

/-- Virtual dispatch of `typeAnalysis` on an `LValNode`. -/
def LValNode.typeAnalysis : LValNode → State → Except Crash State
  | .idNode n, st => pure (n.typeAnalysis st)
  | .derefNode n, st => n.typeAnalysis st

/-- `RefNode::typeAnalysis`. -/
def RefNode.typeAnalysis (self : RefNode) (st : State) : Except Crash State := do
  let st := self.myID.typeAnalysis st
  let base ← st.nodeType self.myID.addr
  let p := PtrType.produce base st.reg
  pure ({ st with reg := p.2 }.setNodeType self.addr (some p.1))

/-- `IntLitNode::typeAnalysis`. -/
def IntLitNode.typeAnalysis (self : ASTNode) (st : State) : State :=
  st.setBasic self.addr BaseType.INT

/-- `ShortLitNode::typeAnalysis`. -/
def ShortLitNode.typeAnalysis (self : ASTNode) (st : State) : State :=
  st.setBasic self.addr BaseType.SHORT

/-- `StrLitNode::typeAnalysis`. -/
def StrLitNode.typeAnalysis (self : ASTNode) (st : State) : State :=
  st.setBasic self.addr BaseType.STRING

/-- `TrueNode::typeAnalysis`. -/
def TrueNode.typeAnalysis (self : ASTNode) (st : State) : State :=
  st.setBasic self.addr BaseType.BOOL

/-- `FalseNode::typeAnalysis`. -/
def FalseNode.typeAnalysis (self : ASTNode) (st : State) : State :=
  st.setBasic self.addr BaseType.BOOL

/-- `AssignExpNode::typeAnalysis` after the two sub-expressions have been analysed. -/
def AssignExpNode.typeRule (self myDst mySrc : ASTNode) (st : State) : Except Crash State := do
  let tgtType ← st.nodeType myDst.addr
  let srcType ← st.nodeType mySrc.addr
  let tgtObj ← st.deref tgtType
  if tgtObj.asError then pure (st.setError self.addr)
  else do
    let srcObj ← st.deref srcType
    if srcObj.asError then pure (st.setError self.addr)
    else if !tgtObj.validVarType then
      pure ((st.report ErrorKind.errAssignOpd myDst.myPos).setError self.addr)
    else if !srcObj.validVarType then
      pure ((st.report ErrorKind.errAssignOpd mySrc.myPos).setError self.addr)
    else if tgtType = srcType then
      pure (st.setNodeType self.addr (some tgtType))
    else
      pure ((st.report ErrorKind.errAssignOpr self.myPos).setError self.addr)

/-- The `while` loop of `CallExpNode::typeAnalysis` over the actuals and the formal types; it runs
only when both lists have the same length. -/
def CallExpNode.matchArgs (self : ASTNode) : List ASTNode → List Addr → State → Except Crash State
  | [], _, st => pure st
  | _ :: _, [], _ => throw Crash.badPointer
  | acItr :: myArgs, formalType :: formalTypes, st => do
    let actualType ← st.nodeType acItr.addr
    let actualObj ← st.deref actualType
    let st ← (if !actualObj.asError then do
        let formalObj ← st.deref formalType
        if !formalObj.asError && formalType != actualType then
          pure (st.report ErrorKind.errArgMatch self.myPos)
        else pure st
      else pure st)
    CallExpNode.matchArgs self myArgs formalTypes st

/-- `CallExpNode::typeAnalysis` after the loop that analyses every argument. -/
def CallExpNode.typeRule (self : ASTNode) (myID : IDNode) (myArgs : List ASTNode) (st : State) :
    Except Crash State := do
  let idType := myID.getSymbol.getDataType
  let idObj ← st.deref idType
  match idObj.asFn with
  | some fType =>
    let st ← (if myArgs.length != fType.getFormalTypes.length then
        pure ((st.report ErrorKind.errArgCount myID.myPos).setError self.addr)
      else CallExpNode.matchArgs self myArgs fType.getFormalTypes st)
    pure (st.setNodeType self.addr (some fType.getReturnType))
  | none => pure ((st.report ErrorKind.errCallee myID.myPos).setError self.addr)

/-- One operand test of an arithmetic or relational node: `if (opd->asFn() == nullptr) ... else ...`,
reporting `kind` at `pos` when the operand (or the return type of a function operand) is not Int. -/
def State.intOperand (st : State) (opd : Addr) (kind : ErrorKind) (pos : Position) :
    Except Crash State := do
  let obj ← st.deref opd
  match obj.asFn with
  | none => if !obj.isInt then pure (st.report kind pos) else pure st
  | some f => do
    let ret ← st.deref f.getReturnType
    if !ret.isInt then pure (st.report kind pos) else pure st

/-- The text shared by the four arithmetic and the four relational members after their operands
have been analysed; they differ in the reporting operation, the reported positions and the
final basic type only. -/
def binaryIntRule (kind : ErrorKind) (pos1 pos2 : Position) (result : BaseType)
    (self myExp1 myExp2 : ASTNode) (st : State) : Except Crash State := do
  let left ← st.nodeType myExp1.addr
  let right ← st.nodeType myExp2.addr
  let st ← st.intOperand left kind pos1
  let st ← st.intOperand right kind pos2
  let st := if !st.ta.passed then st.setError self.addr else st
  pure (st.setBasic self.addr result)

/-- `PlusNode::typeAnalysis` after its operands have been analysed. -/
def PlusNode.typeRule (self myExp1 myExp2 : ASTNode) (st : State) : Except Crash State :=
  binaryIntRule ErrorKind.errMathOpd self.myPos self.myPos BaseType.INT self myExp1 myExp2 st

/-- `MinusNode::typeAnalysis` after its operands have been analysed. -/
def MinusNode.typeRule (self myExp1 myExp2 : ASTNode) (st : State) : Except Crash State :=
  binaryIntRule ErrorKind.errMathOpd self.myPos self.myPos BaseType.INT self myExp1 myExp2 st

/-- `TimesNode::typeAnalysis` after its operands have been analysed. -/
def TimesNode.typeRule (self myExp1 myExp2 : ASTNode) (st : State) : Except Crash State :=
  binaryIntRule ErrorKind.errMathOpd self.myPos self.myPos BaseType.INT self myExp1 myExp2 st

/-- `DivideNode::typeAnalysis` after its operands have been analysed. -/
def DivideNode.typeRule (self myExp1 myExp2 : ASTNode) (st : State) : Except Crash State :=
  binaryIntRule ErrorKind.errMathOpd self.myPos self.myPos BaseType.INT self myExp1 myExp2 st

/-- `LessNode::typeAnalysis` after its operands have been analysed. -/
def LessNode.typeRule (self myExp1 myExp2 : ASTNode) (st : State) : Except Crash State :=
  binaryIntRule ErrorKind.errRelOpd myExp1.myPos myExp2.myPos BaseType.BOOL self myExp1 myExp2 st

/-- `LessEqNode::typeAnalysis` after its operands have been analysed. -/
def LessEqNode.typeRule (self myExp1 myExp2 : ASTNode) (st : State) : Except Crash State :=
  binaryIntRule ErrorKind.errRelOpd myExp1.myPos myExp2.myPos BaseType.BOOL self myExp1 myExp2 st

/-- `GreaterNode::typeAnalysis` after its operands have been analysed. -/
def GreaterNode.typeRule (self myExp1 myExp2 : ASTNode) (st : State) : Except Crash State :=
  binaryIntRule ErrorKind.errRelOpd myExp1.myPos myExp2.myPos BaseType.BOOL self myExp1 myExp2 st

/-- `GreaterEqNode::typeAnalysis` after its operands have been analysed. -/
def GreaterEqNode.typeRule (self myExp1 myExp2 : ASTNode) (st : State) : Except Crash State :=
  binaryIntRule ErrorKind.errRelOpd myExp1.myPos myExp2.myPos BaseType.BOOL self myExp1 myExp2 st

/-- `p->asBasic()->isBool()`: a member call through the result of `asBasic()`, which is null for
every object that is not a `BasicType`. -/
def State.asBasicIsBool (st : State) (p : Addr) : Except Crash Bool := do
  let obj ← st.deref p
  match obj.asBasic with
  | some b => pure b.isBool
  | none => throw Crash.nullDeref

/-- `AndNode::typeAnalysis` after its operands have been analysed. The right operand is tested
only when the left one is Bool (`||` short-circuits). -/
def AndNode.typeRule (self myExp1 myExp2 : ASTNode) (st : State) : Except Crash State := do
  let left ← st.nodeType myExp1.addr
  let right ← st.nodeType myExp2.addr
  if !(← st.asBasicIsBool left) then
    pure ((st.report ErrorKind.errLogicOpd self.myPos).setError self.addr)
  else if !(← st.asBasicIsBool right) then
    pure ((st.report ErrorKind.errLogicOpd self.myPos).setError self.addr)
  else pure st

/-- `OrNode::typeAnalysis` after its operands have been analysed. -/
def OrNode.typeRule (self myExp1 myExp2 : ASTNode) (st : State) : Except Crash State := do
  let left ← st.nodeType myExp1.addr
  let right ← st.nodeType myExp2.addr
  if !(← st.asBasicIsBool left) then
    pure ((st.report ErrorKind.errLogicOpd self.myPos).setError self.addr)
  else if !(← st.asBasicIsBool right) then
    pure ((st.report ErrorKind.errLogicOpd self.myPos).setError self.addr)
  else pure st

/-- `NegNode::typeAnalysis` after its operand has been analysed. -/
def NegNode.typeRule (self myExp : ASTNode) (st : State) : Except Crash State := do
  let subType ← st.nodeType myExp.addr
  let obj ← st.deref subType
  if !obj.isInt && !obj.asError then
    pure ((st.report ErrorKind.errMathOpd myExp.myPos).setError self.addr)
  else pure (st.setNodeType self.addr (some subType))

/-- `NotNode::typeAnalysis` after its operand has been analysed. -/
def NotNode.typeRule (self myExp : ASTNode) (st : State) : Except Crash State := do
  let subType ← st.nodeType myExp.addr
  let obj ← st.deref subType
  if !obj.isBool && !obj.asError then
    pure ((st.report ErrorKind.errLogicOpd myExp.myPos).setError self.addr)
  else pure (st.setNodeType self.addr (some subType))

/-- One of the four `if(scenarioOpd == ...)` blocks of `opdTypeAnalysis`. -/
def opdScenario (opd : ASTNode) (which : Addr) (accepts : DataType → Bool) (kind : ErrorKind)
    (st : State) : Except Crash (Bool × State) := do
  let obj ← st.deref which
  if accepts obj then pure (true, st)
  else pure (false, (st.report kind opd.myPos).setError opd.addr)

/-- The static function `opdTypeAnalysis`; the virtual call `opd->typeAnalysis(ta)` is the
argument `analyse`. -/
def opdTypeAnalysis (analyse : State → Except Crash State) (opd : ASTNode) (scenarioOpd : String)
    (st : State) : Except Crash (Bool × State) := do
  let st ← analyse st
  let which ← st.nodeType opd.addr
  let r := (true, st)
  let r ← (if scenarioOpd = "compareOpd" then
      opdScenario opd which DataType.isInt ErrorKind.errRelOpd r.2 else pure r)
  let r ← (if scenarioOpd = "logicalOperatorOpd" then
      opdScenario opd which DataType.isBool ErrorKind.errLogicOpd r.2 else pure r)
  let r ← (if scenarioOpd = "notEqYesOpd" then
      opdScenario opd which (fun t => t.isInt || t.isBool) ErrorKind.errEqOpd r.2 else pure r)
  let r ← (if scenarioOpd = "plusMinusTimesDividOpd" then
      opdScenario opd which DataType.isInt ErrorKind.errMathOpd r.2 else pure r)
  pure r

/-- `EqualsNode::typeAnalysis` after the two calls of `opdTypeAnalysis`. -/
def EqualsNode.typeRule (self myExp1 myExp2 : ASTNode) (tmp1 tmp2 : Bool) (st : State) :
    Except Crash State := do
  if tmp2 = true ∧ tmp1 = true then
    let whichtmp1 ← st.nodeType myExp1.addr
    let whichtmp2 ← st.nodeType myExp2.addr
    if whichtmp2 != whichtmp1 then
      pure ((st.report ErrorKind.errEqOpr self.myPos).setError self.addr)
    else pure (st.setBasic self.addr BaseType.BOOL)
  else pure (st.setBasic self.addr BaseType.BOOL)

/-- `NotEqualsNode::typeAnalysis` after the two calls of `opdTypeAnalysis`. -/
def NotEqualsNode.typeRule (self myExp1 myExp2 : ASTNode) (tmp1 tmp2 : Bool) (st : State) :
    Except Crash State := do
  if tmp2 = true ∧ tmp1 = true then
    let whichtmp1 ← st.nodeType myExp1.addr
    let whichtmp2 ← st.nodeType myExp2.addr
    if whichtmp2 != whichtmp1 then
      pure ((st.report ErrorKind.errEqOpr self.myPos).setError self.addr)
    else pure (st.setBasic self.addr BaseType.BOOL)
  else pure (st.setBasic self.addr BaseType.BOOL)

mutual
/-- Virtual dispatch of `typeAnalysis` on an `ExpNode`. -/
def ExpNode.typeAnalysis : ExpNode → State → Except Crash State
  | .lval l, st => l.typeAnalysis st
  | .assignExp a, st => AssignExpNode.typeAnalysis a st
  | .callExp c, st => CallExpNode.typeAnalysis c st
  | .plusNode n myExp1 myExp2, st => do
    let st ← ExpNode.typeAnalysis myExp1 st
    let st ← ExpNode.typeAnalysis myExp2 st
    PlusNode.typeRule n myExp1.toASTNode myExp2.toASTNode st
  | .minusNode n myExp1 myExp2, st => do
    let st ← ExpNode.typeAnalysis myExp1 st
    let st ← ExpNode.typeAnalysis myExp2 st
    MinusNode.typeRule n myExp1.toASTNode myExp2.toASTNode st
  | .timesNode n myExp1 myExp2, st => do
    let st ← ExpNode.typeAnalysis myExp1 st
    let st ← ExpNode.typeAnalysis myExp2 st
    TimesNode.typeRule n myExp1.toASTNode myExp2.toASTNode st
  | .divideNode n myExp1 myExp2, st => do
    let st ← ExpNode.typeAnalysis myExp1 st
    let st ← ExpNode.typeAnalysis myExp2 st
    DivideNode.typeRule n myExp1.toASTNode myExp2.toASTNode st
  | .andNode n myExp1 myExp2, st => do
    let st ← ExpNode.typeAnalysis myExp1 st
    let st ← ExpNode.typeAnalysis myExp2 st
    AndNode.typeRule n myExp1.toASTNode myExp2.toASTNode st
  | .orNode n myExp1 myExp2, st => do
    let st ← ExpNode.typeAnalysis myExp1 st
    let st ← ExpNode.typeAnalysis myExp2 st
    OrNode.typeRule n myExp1.toASTNode myExp2.toASTNode st
  | .equalsNode n myExp1 myExp2, st => do
    let tmp1 ← opdTypeAnalysis (ExpNode.typeAnalysis myExp1) myExp1.toASTNode "notEqYesOpd" st
    let tmp2 ← opdTypeAnalysis (ExpNode.typeAnalysis myExp2) myExp2.toASTNode "notEqYesOpd" tmp1.2
    EqualsNode.typeRule n myExp1.toASTNode myExp2.toASTNode tmp1.1 tmp2.1 tmp2.2
  | .notEqualsNode n myExp1 myExp2, st => do
    let tmp1 ← opdTypeAnalysis (ExpNode.typeAnalysis myExp1) myExp1.toASTNode "notEqYesOpd" st
    let tmp2 ← opdTypeAnalysis (ExpNode.typeAnalysis myExp2) myExp2.toASTNode "notEqYesOpd" tmp1.2
    NotEqualsNode.typeRule n myExp1.toASTNode myExp2.toASTNode tmp1.1 tmp2.1 tmp2.2
  | .lessNode n myExp1 myExp2, st => do
    let st ← ExpNode.typeAnalysis myExp1 st
    let st ← ExpNode.typeAnalysis myExp2 st
    LessNode.typeRule n myExp1.toASTNode myExp2.toASTNode st
  | .lessEqNode n myExp1 myExp2, st => do
    let st ← ExpNode.typeAnalysis myExp1 st
    let st ← ExpNode.typeAnalysis myExp2 st
    LessEqNode.typeRule n myExp1.toASTNode myExp2.toASTNode st
  | .greaterNode n myExp1 myExp2, st => do
    let st ← ExpNode.typeAnalysis myExp1 st
    let st ← ExpNode.typeAnalysis myExp2 st
    GreaterNode.typeRule n myExp1.toASTNode myExp2.toASTNode st
  | .greaterEqNode n myExp1 myExp2, st => do
    let st ← ExpNode.typeAnalysis myExp1 st
    let st ← ExpNode.typeAnalysis myExp2 st
    GreaterEqNode.typeRule n myExp1.toASTNode myExp2.toASTNode st
  | .refNode r, st => r.typeAnalysis st
  | .negNode n myExp, st => do
    let st ← ExpNode.typeAnalysis myExp st
    NegNode.typeRule n myExp.toASTNode st
  | .notNode n myExp, st => do
    let st ← ExpNode.typeAnalysis myExp st
    NotNode.typeRule n myExp.toASTNode st
  | .shortLitNode n, st => pure (ShortLitNode.typeAnalysis n st)
  | .intLitNode n, st => pure (IntLitNode.typeAnalysis n st)
  | .strLitNode n, st => pure (StrLitNode.typeAnalysis n st)
  | .trueNode n, st => pure (TrueNode.typeAnalysis n st)
  | .falseNode n, st => pure (FalseNode.typeAnalysis n st)
/-- `AssignExpNode::typeAnalysis`. -/
def AssignExpNode.typeAnalysis : AssignExpNode → State → Except Crash State
  | .mk n myDst mySrc, st => do
    let st ← myDst.typeAnalysis st
    let st ← ExpNode.typeAnalysis mySrc st
    AssignExpNode.typeRule n myDst.toASTNode mySrc.toASTNode st
/-- `CallExpNode::typeAnalysis`. -/
def CallExpNode.typeAnalysis : CallExpNode → State → Except Crash State
  | .mk n myID myArgs, st => do
    let st ← CallExpNode.analyseArgs myArgs st
    CallExpNode.typeRule n myID (myArgs.map ExpNode.toASTNode) st
/-- The loop `for (auto arg : *myArgs) arg->typeAnalysis(ta);`. -/
def CallExpNode.analyseArgs : List ExpNode → State → Except Crash State
  | [], st => pure st
  | arg :: myArgs, st => do
    let st ← ExpNode.typeAnalysis arg st
    CallExpNode.analyseArgs myArgs st
end

/-- `AssignStmtNode::typeAnalysis`. -/
def AssignStmtNode.typeAnalysis (self : AssignStmtNode) (st : State) : Except Crash State := do
  let st ← self.myExp.typeAnalysis st
  let subType ← st.nodeType self.myExp.toASTNode.addr
  let obj ← st.deref subType
  if obj.asError then pure (st.setNodeType self.addr (some subType))
  else pure (st.setBasic self.addr BaseType.VOID)

/-- `VarDeclNode::typeAnalysis`. -/
def VarDeclNode.typeAnalysis (self : VarDeclNode) (st : State) : State :=
  st.setBasic self.addr BaseType.VOID

/-- `CallStmtNode::typeAnalysis`. -/
def CallStmtNode.typeAnalysis (self : CallStmtNode) (st : State) : Except Crash State := do
  let st ← self.myCallExp.typeAnalysis st
  pure (st.setBasic self.addr BaseType.VOID)

/-- A member call through a `const FnType *` that may be null. -/
def State.derefFn (st : State) (p : Option Addr) : Except Crash FnType :=
  match p with
  | none => throw Crash.nullDeref
  | some a =>
    match st.reg.deref a with
    | some (DataType.fn f) => pure f
    | _ => throw Crash.badPointer

/-- `ReturnStmtNode::typeAnalysis`. Each comparison with `BasicType::VOID()` calls
`BasicType::produce`, whose effect on the registry is kept. -/
def ReturnStmtNode.typeAnalysis (self : ReturnStmtNode) (st : State) : Except Crash State := do
  let funcType := st.getCurrentFnType
  let funcReturnType := (← st.derefFn funcType).getReturnType
  match self.myExp with
  | some myExp =>
    let void := BasicType.VOID st.reg
    let st := { st with reg := void.2 }
    if funcReturnType != void.1 then do
      let st ← myExp.typeAnalysis st
      let subType ← st.nodeType myExp.toASTNode.addr
      if subType != funcReturnType then do
        let obj ← st.deref subType
        if !obj.asError then
          pure ((st.report ErrorKind.errRetWrong myExp.toASTNode.myPos).setError self.addr)
        else pure (st.setBasic self.addr BaseType.VOID)
      else pure (st.setBasic self.addr BaseType.VOID)
    else do
      let st ← myExp.typeAnalysis st
      pure ((st.report ErrorKind.extraRetValue myExp.toASTNode.myPos).setError self.addr)
  | none =>
    let void := BasicType.VOID st.reg
    let st := { st with reg := void.2 }
    if funcReturnType != void.1 then
      pure ((st.report ErrorKind.errRetEmpty self.myPos).setError self.addr)
    else pure (st.setBasic self.addr BaseType.VOID)

/-- The condition test shared by `WhileStmtNode`, `IfStmtNode` and `IfElseStmtNode`, which differ
in the reporting operation only: the part of the member between the analysis of the condition
and the loop over the body. -/
def condRule (kind : ErrorKind) (self myCond : ASTNode) (st : State) : Except Crash State := do
  let condType ← st.nodeType myCond.addr
  let obj ← st.deref condType
  if !obj.isBool && !obj.asError then
    pure ((st.report kind myCond.myPos).setError self.addr)
  else pure st

/-- `WhileStmtNode::typeAnalysis` between the analysis of the condition and the body loop. -/
def WhileStmtNode.condRule (self myCond : ASTNode) (st : State) : Except Crash State :=
  cminusminus.condRule ErrorKind.errWhileCond self myCond st

/-- `IfStmtNode::typeAnalysis` between the analysis of the condition and the body loop. -/
def IfStmtNode.condRule (self myCond : ASTNode) (st : State) : Except Crash State :=
  cminusminus.condRule ErrorKind.errIfCond self myCond st

/-- `IfElseStmtNode::typeAnalysis` between the analysis of the condition and the body loops. -/
def IfElseStmtNode.condRule (self myCond : ASTNode) (st : State) : Except Crash State :=
  cminusminus.condRule ErrorKind.errIfCond self myCond st

/-- `PostDecStmtNode::typeAnalysis`. -/
def PostDecStmtNode.typeAnalysis (self : PostDecStmtNode) (st : State) : Except Crash State := do
  let st ← self.myLVal.typeAnalysis st
  let lValType ← st.nodeType self.myLVal.toASTNode.addr
  let obj ← st.deref lValType
  let st := if !obj.isInt then
      (st.report ErrorKind.errMathOpd self.myLVal.toASTNode.myPos).setError self.addr
    else st
  pure (st.setBasic self.addr BaseType.VOID)

/-- `PostIncStmtNode::typeAnalysis`. -/
def PostIncStmtNode.typeAnalysis (self : PostIncStmtNode) (st : State) : Except Crash State := do
  let st ← self.myLVal.typeAnalysis st
  let lValType ← st.nodeType self.myLVal.toASTNode.addr
  let obj ← st.deref lValType
  let st := if !obj.isInt then
      (st.report ErrorKind.errMathOpd self.myLVal.toASTNode.myPos).setError self.addr
    else st
  pure (st.setBasic self.addr BaseType.VOID)

/-- `WriteStmtNode::typeAnalysis`. -/
def WriteStmtNode.typeAnalysis (self : WriteStmtNode) (st : State) : Except Crash State := do
  let st ← self.mySrc.typeAnalysis st
  let subType ← st.nodeType self.mySrc.toASTNode.addr
  let obj ← st.deref subType
  if obj.asFn.isSome then
    pure ((st.report ErrorKind.errWriteFn self.mySrc.toASTNode.myPos).setError self.addr)
  else if obj.isVoid then
    pure ((st.report ErrorKind.errWriteVoid self.mySrc.toASTNode.myPos).setError self.addr)
  else if obj.isPtr then
    pure ((st.report ErrorKind.errReadPtr self.mySrc.toASTNode.myPos).setError self.addr)
  else pure (st.setBasic self.addr BaseType.VOID)

/-- `ReadStmtNode::typeAnalysis`. -/
def ReadStmtNode.typeAnalysis (self : ReadStmtNode) (st : State) : Except Crash State := do
  let st ← self.myDst.typeAnalysis st
  let subType ← st.nodeType self.myDst.toASTNode.addr
  let obj ← st.deref subType
  if obj.asFn.isSome then
    pure ((st.report ErrorKind.errAssignFn self.myDst.toASTNode.myPos).setError self.addr)
  else if obj.isPtr then
    pure ((st.report ErrorKind.errReadPtr self.myDst.toASTNode.myPos).setError self.addr)
  else pure (st.setBasic self.addr BaseType.VOID)

/-- The first loop of `FnDeclNode::typeAnalysis`: the list of the formals' types, each obtained by
`formal->getTypeNode()->getType()`. -/
def FnDeclNode.formalTypes : List FormalDeclNode → TypeRegistry → List Addr × TypeRegistry
  | [], r => ([], r)
  | formal :: myFormals, r =>
    let fType := formal.getTypeNode.getType r
    let rest := FnDeclNode.formalTypes myFormals fType.2
    (fType.1 :: rest.1, rest.2)

/-- `FnDeclNode::typeAnalysis` up to the loop over the body. -/
def FnDeclNode.enter (self : ASTNode) (myRetType : TypeNode) (myFormals : List FormalDeclNode)
    (st : State) : State :=
  let st := st.setNodeType self.addr st.getCurrentFnType
  let formals := FnDeclNode.formalTypes myFormals st.reg
  let ret := myRetType.getType formals.2
  let functionType := FnType.new formals.1 ret.1 ret.2
  { st with reg := functionType.2 }.setCurrentFnType (some functionType.1)

mutual
/-- Virtual dispatch of `typeAnalysis` on a `StmtNode`. -/
def StmtNode.typeAnalysis : StmtNode → State → Except Crash State
  | .decl d, st => DeclNode.typeAnalysis d st
  | .assignStmt s, st => s.typeAnalysis st
  | .readStmt s, st => s.typeAnalysis st
  | .writeStmt s, st => s.typeAnalysis st
  | .postDecStmt s, st => s.typeAnalysis st
  | .postIncStmt s, st => s.typeAnalysis st
  | .ifStmt n myCond myBody, st => do
    let st ← myCond.typeAnalysis st
    let st ← IfStmtNode.condRule n myCond.toASTNode st
    let st ← StmtNode.analyseList myBody st
    pure (st.setBasic n.addr BaseType.VOID)
  | .ifElseStmt n myCond myBodyTrue myBodyFalse, st => do
    let st ← myCond.typeAnalysis st
    let st ← IfElseStmtNode.condRule n myCond.toASTNode st
    let st ← StmtNode.analyseList myBodyTrue st
    let st ← StmtNode.analyseList myBodyFalse st
    pure (st.setBasic n.addr BaseType.VOID)
  | .whileStmt n myCond myBody, st => do
    let st ← myCond.typeAnalysis st
    let st ← WhileStmtNode.condRule n myCond.toASTNode st
    let st ← StmtNode.analyseList myBody st
    pure (st.setBasic n.addr BaseType.VOID)
  | .returnStmt s, st => s.typeAnalysis st
  | .callStmt s, st => s.typeAnalysis st
/-- Virtual dispatch of `typeAnalysis` on a `DeclNode`; the second case is
`FnDeclNode::typeAnalysis`. -/
def DeclNode.typeAnalysis : DeclNode → State → Except Crash State
  | .varDecl v, st => pure (v.typeAnalysis st)
  | .fnDecl n myRetType _ myFormals myBody, st =>
    StmtNode.analyseList myBody (FnDeclNode.enter n myRetType myFormals st)
/-- The loop `for (auto stmt : *body) stmt->typeAnalysis(ta);`. -/
def StmtNode.analyseList : List StmtNode → State → Except Crash State
  | [], st => pure st
  | stmt :: body, st => do
    let st ← StmtNode.typeAnalysis stmt st
    StmtNode.analyseList body st
end

/-- The loop `for (auto global : *myGlobals) global->typeAnalysis(ta);`. -/
def ProgramNode.analyseGlobals : List DeclNode → State → Except Crash State
  | [], st => pure st
  | global :: myGlobals, st => do
    let st ← global.typeAnalysis st
    ProgramNode.analyseGlobals myGlobals st

/-- `ProgramNode::typeAnalysis`. -/
def ProgramNode.typeAnalysis (self : ProgramNode) (st : State) : Except Crash State := do
  let st ← ProgramNode.analyseGlobals self.myGlobals st
  pure (st.setBasic self.addr BaseType.VOID)

/-- `TypeAnalysis::build`, run in a process whose type registry is `reg` and whose reporter has
printed `reports` so far. The result is the returned pointer (`none` for `nullptr`, otherwise the
`TypeAnalysis` object it points to) and the state of the process at the return. -/
def TypeAnalysis.build (nameAnalysis : NameAnalysis) (reg : TypeRegistry)
    (reports : List Diagnostic) : Except Crash (Option TypeAnalysis × State) := do
  let typeAnalysis := TypeAnalysis.new
  let ast := nameAnalysis.ast
  let typeAnalysis := { typeAnalysis with ast := some ast.addr }
  let st ← ast.typeAnalysis { reg := reg, reports := reports, ta := typeAnalysis }
  if st.ta.hasError then pure (none, st)
  else pure (some st.ta, st)

/-! ## Invariants of the registry and of the context -/

/-- The static of `ErrorType::produce`, once set, is the address of an `ErrorType` object. -/
def TypeRegistry.ErrorOK (r : TypeRegistry) : Prop :=
  ∀ a, r.error = some a → r.deref a = some DataType.error

/-! ## Example programs

Registries as name analysis leaves them, and small name-resolved trees. Node `k` sits at
address `k` and at position `100 + k`. -/

namespace Example

/-- Heap after name analysis of a program that declares Int and Bool variables, a pointer to Int,
`int f(int a)` and `void g()`: Int at 0, Bool at 1, Void at 2, pointer-to-Int at 3, the type of
`f` at 4 and the type of `g` at 5. `ErrorType::produce` has not been called yet. -/
def reg : TypeRegistry :=
  { heap := [DataType.basic { myBaseType := BaseType.INT },
             DataType.basic { myBaseType := BaseType.BOOL },
             DataType.basic { myBaseType := BaseType.VOID },
             DataType.ptr { myBase := 0 },
             DataType.fn { myFormalTypes := [0], myRetType := 0 },
             DataType.fn { myFormalTypes := [], myRetType := 2 }],
    error := none,
    flyweights := [0, 1, 2],
    map := [(0, 3)] }

/-- The state in which `build` starts the traversal. -/
def st : State := { reg := reg, reports := [], ta := TypeAnalysis.new }

/-- The state while the body of `int f(int a)` is walked. -/
def stF : State := st.setCurrentFnType (some 4)

/-- The state while the body of `void g()` is walked. -/
def stG : State := st.setCurrentFnType (some 5)

def node (k : Nat) : ASTNode := { addr := k, myPos := 100 + k }

/-- An occurrence at node `k` of an identifier whose symbol has the type at address `t`. -/
def ident (k : Nat) (t : Addr) : IDNode := { toASTNode := node k, mySymbol := { myType := t } }

/-- The statement `b = 5;` for `bool b`: statement 10, assignment 11, `b` 12, `5` 13. -/
def boolAssign : AssignStmtNode :=
  { toASTNode := node 10,
    myExp := AssignExpNode.mk (node 11) (LValNode.idNode (ident 12 1)) (ExpNode.intLitNode (node 13)) }

/-- The statement `x = 5;` for `int x`: statement 10, assignment 11, `x` 12, `5` 13. -/
def intAssign : AssignStmtNode :=
  { toASTNode := node 10,
    myExp := AssignExpNode.mk (node 11) (LValNode.idNode (ident 12 0)) (ExpNode.intLitNode (node 13)) }

/-- The call `f(1, 2)` of `int f(int a)`: call 20, `f` 21, `1` 22, `2` 23. -/
def callF12 : CallExpNode :=
  CallExpNode.mk (node 20) (ident 21 4) [ExpNode.intLitNode (node 22), ExpNode.intLitNode (node 23)]

/-- The call `x(true && false)` for `int x`: call 20, `x` 21, `&&` 22, `true` 23, `false` 24. -/
def callX : CallExpNode :=
  CallExpNode.mk (node 20) (ident 21 0)
    [ExpNode.andNode (node 22) (ExpNode.trueNode (node 23)) (ExpNode.falseNode (node 24))]

/-- The statement `return;`, at node 30. -/
def returnNothing : ReturnStmtNode := { toASTNode := node 30, myExp := none }

/-- The statement `return 1;`: statement 30, `1` 31. -/
def returnOne : ReturnStmtNode :=
  { toASTNode := node 30, myExp := some (ExpNode.intLitNode (node 31)) }

/-- The statement `return true;`: statement 30, `true` 31. -/
def returnTrue : ReturnStmtNode :=
  { toASTNode := node 30, myExp := some (ExpNode.trueNode (node 31)) }

/-- The expression `true && false`: `&&` 40, `true` 41, `false` 42. -/
def andTrueFalse : ExpNode :=
  ExpNode.andNode (node 40) (ExpNode.trueNode (node 41)) (ExpNode.falseNode (node 42))

/-- The expression `true || false`: `||` 40, `true` 41, `false` 42. -/
def orTrueFalse : ExpNode :=
  ExpNode.orNode (node 40) (ExpNode.trueNode (node 41)) (ExpNode.falseNode (node 42))

/-- The program `int x; void g(){ x = 5; return; }`: program 1, declaration of `x` 2 (its
annotation 3, its identifier 4), declaration of `g` 5 (its annotation 6, its identifier 7),
and the two statements of the body as above. -/
def program : ProgramNode :=
  { toASTNode := node 1,
    myGlobals := [
      DeclNode.varDecl
        { toASTNode := node 2, myType := TypeNode.intTypeNode (node 3), myID := ident 4 0 },
      DeclNode.fnDecl (node 5) (TypeNode.voidTypeNode (node 6)) (ident 7 5) []
        [StmtNode.assignStmt intAssign, StmtNode.returnStmt returnNothing]] }

/-- The program `bool b; void g(){ b = true && false; }`: program 1, declaration of `b` 2
(annotation 3, identifier 4), declaration of `g` 5 (annotation 6, identifier 7), statement 10,
assignment 11, `b` 12, `&&` 40, `true` 41, `false` 42. -/
def programAnd : ProgramNode :=
  { toASTNode := node 1,
    myGlobals := [
      DeclNode.varDecl
        { toASTNode := node 2, myType := TypeNode.boolTypeNode (node 3), myID := ident 4 1 },
      DeclNode.fnDecl (node 5) (TypeNode.voidTypeNode (node 6)) (ident 7 5) []
        [StmtNode.assignStmt
          { toASTNode := node 10,
            myExp := AssignExpNode.mk (node 11) (LValNode.idNode (ident 12 1)) andTrueFalse }]] }

/-- The state in which the traversal of `program` ends when it starts from `reg` with nothing
reported: the type `FnDeclNode::typeAnalysis` builds for `g` is the new object at address 6. -/
def programEnd : State :=
  { reg := { reg with heap := reg.heap ++ [DataType.fn { myFormalTypes := [], myRetType := 2 }] },
    reports := [],
    ta := { ast := some 1,
            nodeToType := [(2, some 2), (5, none), (12, some 0), (13, some 0), (11, some 0),
              (10, some 2), (30, some 2), (1, some 2)],
            currentFnType := some 6,
            hasError := false } }

/-- An identifier occurrence, at node `k`, used as an expression; its symbol has the type at
address `t`. -/
def idExp (k : Nat) (t : Addr) : ExpNode := ExpNode.lval (LValNode.idNode (ident k t))

/-- The expression `*x` for `int x`, which is recorded with the Error type: `*x` at node `k`,
`x` at node `k + 1`. -/
def derefInt (k : Nat) : ExpNode :=
  ExpNode.lval (LValNode.derefNode { toASTNode := node k, myID := ident (k + 1) 0 })

/-- The expression `p && true` for `int *p`: `&&` 40, `p` 41, `true` 42. -/
def andPtrTrue : ExpNode :=
  ExpNode.andNode (node 40) (idExp 41 3) (ExpNode.trueNode (node 42))

/-- The expression `true && p` for `int *p`: `&&` 40, `true` 41, `p` 42. -/
def andTruePtr : ExpNode :=
  ExpNode.andNode (node 40) (ExpNode.trueNode (node 41)) (idExp 42 3)

/-- The expression `*x || true` for `int x`: `||` 40, `*x` 41, `x` 42, `true` 43. -/
def orErrorTrue : ExpNode :=
  ExpNode.orNode (node 40) (derefInt 41) (ExpNode.trueNode (node 43))

/-- The expression `f || true` for `int f(int a)`: `||` 40, `f` 41, `true` 43. -/
def orFnTrue : ExpNode :=
  ExpNode.orNode (node 40) (idExp 41 4) (ExpNode.trueNode (node 43))

/-- The four arithmetic nodes over `true` and `1`: operator 50, `true` 51, `1` 52. -/
def arithTrueOne : List ExpNode :=
  [ExpNode.plusNode (node 50) (ExpNode.trueNode (node 51)) (ExpNode.intLitNode (node 52)),
   ExpNode.minusNode (node 50) (ExpNode.trueNode (node 51)) (ExpNode.intLitNode (node 52)),
   ExpNode.timesNode (node 50) (ExpNode.trueNode (node 51)) (ExpNode.intLitNode (node 52)),
   ExpNode.divideNode (node 50) (ExpNode.trueNode (node 51)) (ExpNode.intLitNode (node 52))]

/-- The four relational nodes over `true` and `1`: operator 50, `true` 51, `1` 52. -/
def relTrueOne : List ExpNode :=
  [ExpNode.lessNode (node 50) (ExpNode.trueNode (node 51)) (ExpNode.intLitNode (node 52)),
   ExpNode.lessEqNode (node 50) (ExpNode.trueNode (node 51)) (ExpNode.intLitNode (node 52)),
   ExpNode.greaterNode (node 50) (ExpNode.trueNode (node 51)) (ExpNode.intLitNode (node 52)),
   ExpNode.greaterEqNode (node 50) (ExpNode.trueNode (node 51)) (ExpNode.intLitNode (node 52))]

/-- The expression `f + 1` for `int f(int a)`, a bare reference to a function that returns Int:
`+` 50, `f` 51, `1` 52. -/
def plusFnOne : ExpNode :=
  ExpNode.plusNode (node 50) (idExp 51 4) (ExpNode.intLitNode (node 52))

/-- The expression `*x + 1` for `int x`: `+` 50, `*x` 51, `x` 52, `1` 53. -/
def plusErrorOne : ExpNode :=
  ExpNode.plusNode (node 50) (derefInt 51) (ExpNode.intLitNode (node 53))

/-- The expression `*x < 1` for `int x`: `<` 50, `*x` 51, `x` 52, `1` 53. -/
def lessErrorOne : ExpNode :=
  ExpNode.lessNode (node 50) (derefInt 51) (ExpNode.intLitNode (node 53))

/-- The statement `if (1) { }`: statement 60, `1` 61. -/
def ifOne : StmtNode := StmtNode.ifStmt (node 60) (ExpNode.intLitNode (node 61)) []

/-- The statement `if (1) { } else { }`: statement 60, `1` 61. -/
def ifElseOne : StmtNode := StmtNode.ifElseStmt (node 60) (ExpNode.intLitNode (node 61)) [] []

/-- The statement `while (1) { }`: statement 60, `1` 61. -/
def whileOne : StmtNode := StmtNode.whileStmt (node 60) (ExpNode.intLitNode (node 61)) []

/-- The statement `write p;` for `int *p`: statement 70, `p` 71. -/
def writePtr : WriteStmtNode := { toASTNode := node 70, mySrc := idExp 71 3 }

/-- The expression `1 == true`: `==` 80, `1` 81, `true` 82. -/
def eqOneTrue : ExpNode :=
  ExpNode.equalsNode (node 80) (ExpNode.intLitNode (node 81)) (ExpNode.trueNode (node 82))

/-- The expression `p != 1` for `int *p`: `!=` 80, `p` 81, `1` 82. -/
def neqPtrOne : ExpNode :=
  ExpNode.notEqualsNode (node 80) (idExp 81 3) (ExpNode.intLitNode (node 82))

/-- The statement `while (*x) { }` for `int x`, whose condition has the Error type: statement
60, `*x` 61, `x` 62. -/
def whileError : StmtNode := StmtNode.whileStmt (node 60) (derefInt 61) []

/-- The statement `write f;` for `int f(int a)`: statement 70, `f` 71. -/
def writeFn : WriteStmtNode := { toASTNode := node 70, mySrc := idExp 71 4 }

/-- The statement `read v;` for an identifier `v` whose symbol has the type at address `t`:
statement 70, `v` 71. -/
def readOf (t : Addr) : ReadStmtNode := { toASTNode := node 70, myDst := LValNode.idNode (ident 71 t) }

/-- The node `*v` for an identifier `v` whose symbol has the type at address `t`: `*v` 61,
`v` 62. -/
def derefOf (t : Addr) : DerefNode := { toASTNode := node 61, myID := ident 62 t }

/-- The expression `f = g` for the functions `int f(int a)` and `void g()`: assignment 11,
`f` 12, `g` 13. -/
def assignFnFn : AssignExpNode :=
  AssignExpNode.mk (node 11) (LValNode.idNode (ident 12 4)) (idExp 13 5)

/-- The expression `x = g` for `int x` and the function `void g()`: assignment 11, `x` 12,
`g` 13. -/
def assignIntFn : AssignExpNode :=
  AssignExpNode.mk (node 11) (LValNode.idNode (ident 12 0)) (idExp 13 5)

/-- The statement `v++;` for an identifier `v` whose symbol has the type at address `t`:
statement 70, `v` 71. -/
def postIncOf (t : Addr) : StmtNode :=
  StmtNode.postIncStmt { toASTNode := node 70, myLVal := LValNode.idNode (ident 71 t) }

end Example

/-- One call into `types.hpp`: the registry before and after it. -/
inductive TypeRegistry.Step : TypeRegistry → TypeRegistry → Prop where
  | produceError (r : TypeRegistry) : TypeRegistry.Step r (ErrorType.produce r).2
  | produceBasic (base : BaseType) (r : TypeRegistry) :
      TypeRegistry.Step r (BasicType.produce base r).2
  | producePtr (baseType : Addr) (r : TypeRegistry) :
      TypeRegistry.Step r (PtrType.produce baseType r).2
  | newFn (formalsIn : List Addr) (retTypeIn : Addr) (r : TypeRegistry) :
      TypeRegistry.Step r (FnType.new formalsIn retTypeIn r).2

/-- A relation between the state before and the state after a piece of the pass that holds
across every primitive operation the pass is made of, and is reflexive and transitive. Whatever
holds across the primitives in this sense holds across every `typeAnalysis` member. The pass
records a pointer that may be null in one place only, where `FnDeclNode::typeAnalysis` records
the current function type (`recordFnType`). -/
structure State.Closed (R : State → State → Prop) : Prop where
  refl : ∀ st, R st st
  trans : ∀ a b c, R a b → R b c → R a c
  setNodeType : ∀ st node (type : Addr), R st (st.setNodeType node (some type))
  recordFnType : ∀ st node, R st (st.setNodeType node st.getCurrentFnType)
  report : ∀ st kind pos, R st (st.report kind pos)
  setCurrentFnType : ∀ st (type : Addr), R st (st.setCurrentFnType (some type))
  setReg : ∀ (st : State) r, TypeRegistry.Step st.reg r → R st { st with reg := r }

/-- Reports and failure flag: the later state has the reports of the earlier one followed by new ones,
and its failure flag is set exactly when the earlier flag was set or a new report exists. -/
def State.Reported (st st2 : State) : Prop :=
  ∃ new : List Diagnostic, st2.reports = st.reports ++ new ∧
    st2.ta.hasError = (st.ta.hasError || !new.isEmpty)

/-- The type an operand of an arithmetic or relational node resolves to: the return type when
the operand has a function type, the operand's own type otherwise. `none` when an address
involved is not allocated. -/
def TypeRegistry.resolved (r : TypeRegistry) (opd : Addr) : Option DataType :=
  match r.deref opd with
  | some (DataType.fn f) => r.deref f.getReturnType
  | other => other

/-- The number of operands, among two with the given resolved types, that are not Int. -/
def notIntCount (lo ro : DataType) : Nat :=
  (if lo.isInt then 0 else 1) + (if ro.isInt then 0 else 1)

/-! ## Conditions on the nodes of a subtree -/

/-- The identifier node satisfies `p`, and as an identifier it satisfies `q`. -/
def IDNode.all (p : ASTNode → Bool) (q : IDNode → Bool) (i : IDNode) : Bool :=
  p i.toASTNode && q i

/-- Every node of the lvalue satisfies `p` and every identifier in it satisfies `q`. -/
def LValNode.all (p : ASTNode → Bool) (q : IDNode → Bool) : LValNode → Bool
  | .idNode i => i.all p q
  | .derefNode d => p d.toASTNode && d.myID.all p q

mutual
/-- Every node of the expression satisfies `p` and every identifier in it satisfies `q`. -/
def ExpNode.all (p : ASTNode → Bool) (q : IDNode → Bool) : ExpNode → Bool
  | .lval l => l.all p q
  | .assignExp a => AssignExpNode.all p q a
  | .callExp c => CallExpNode.all p q c
  | .plusNode n myExp1 myExp2 => p n && ExpNode.all p q myExp1 && ExpNode.all p q myExp2
  | .minusNode n myExp1 myExp2 => p n && ExpNode.all p q myExp1 && ExpNode.all p q myExp2
  | .timesNode n myExp1 myExp2 => p n && ExpNode.all p q myExp1 && ExpNode.all p q myExp2
  | .divideNode n myExp1 myExp2 => p n && ExpNode.all p q myExp1 && ExpNode.all p q myExp2
  | .andNode n myExp1 myExp2 => p n && ExpNode.all p q myExp1 && ExpNode.all p q myExp2
  | .orNode n myExp1 myExp2 => p n && ExpNode.all p q myExp1 && ExpNode.all p q myExp2
  | .equalsNode n myExp1 myExp2 => p n && ExpNode.all p q myExp1 && ExpNode.all p q myExp2
  | .notEqualsNode n myExp1 myExp2 => p n && ExpNode.all p q myExp1 && ExpNode.all p q myExp2
  | .lessNode n myExp1 myExp2 => p n && ExpNode.all p q myExp1 && ExpNode.all p q myExp2
  | .lessEqNode n myExp1 myExp2 => p n && ExpNode.all p q myExp1 && ExpNode.all p q myExp2
  | .greaterNode n myExp1 myExp2 => p n && ExpNode.all p q myExp1 && ExpNode.all p q myExp2
  | .greaterEqNode n myExp1 myExp2 => p n && ExpNode.all p q myExp1 && ExpNode.all p q myExp2
  | .refNode r => p r.toASTNode && r.myID.all p q
  | .negNode n myExp => p n && ExpNode.all p q myExp
  | .notNode n myExp => p n && ExpNode.all p q myExp
  | .shortLitNode n => p n
  | .intLitNode n => p n
  | .strLitNode n => p n
  | .trueNode n => p n
  | .falseNode n => p n
/-- The same for an assignment expression. -/
def AssignExpNode.all (p : ASTNode → Bool) (q : IDNode → Bool) : AssignExpNode → Bool
  | .mk n myDst mySrc => p n && myDst.all p q && ExpNode.all p q mySrc
/-- The same for a call. -/
def CallExpNode.all (p : ASTNode → Bool) (q : IDNode → Bool) : CallExpNode → Bool
  | .mk n myID myArgs => p n && myID.all p q && ExpNode.allList p q myArgs
/-- The same for a list of expressions. -/
def ExpNode.allList (p : ASTNode → Bool) (q : IDNode → Bool) : List ExpNode → Bool
  | [] => true
  | e :: rest => ExpNode.all p q e && ExpNode.allList p q rest
end

mutual
/-- Every statement and expression node of the statement satisfies `p` and every identifier
used in it satisfies `q`. -/
def StmtNode.all (p : ASTNode → Bool) (q : IDNode → Bool) : StmtNode → Bool
  | .decl d => DeclNode.all p q d
  | .assignStmt s => p s.toASTNode && s.myExp.all p q
  | .readStmt s => p s.toASTNode && s.myDst.all p q
  | .writeStmt s => p s.toASTNode && s.mySrc.all p q
  | .postDecStmt s => p s.toASTNode && s.myLVal.all p q
  | .postIncStmt s => p s.toASTNode && s.myLVal.all p q
  | .ifStmt n myCond myBody => p n && myCond.all p q && StmtNode.allList p q myBody
  | .ifElseStmt n myCond myBodyTrue myBodyFalse =>
    p n && myCond.all p q && StmtNode.allList p q myBodyTrue &&
      StmtNode.allList p q myBodyFalse
  | .whileStmt n myCond myBody => p n && myCond.all p q && StmtNode.allList p q myBody
  | .returnStmt s =>
    p s.toASTNode &&
      (match s.myExp with
       | some myExp => myExp.all p q
       | none => true)
  | .callStmt s => p s.toASTNode && s.myCallExp.all p q
/-- The same for a declaration; of a function declaration, the node itself and the body. -/
def DeclNode.all (p : ASTNode → Bool) (q : IDNode → Bool) : DeclNode → Bool
  | .varDecl v => p v.toASTNode
  | .fnDecl n _ _ _ myBody => p n && StmtNode.allList p q myBody
/-- The same for a list of statements. -/
def StmtNode.allList (p : ASTNode → Bool) (q : IDNode → Bool) : List StmtNode → Bool
  | [] => true
  | stmt :: rest => StmtNode.all p q stmt && StmtNode.allList p q rest
end

/-- The node of a declaration. -/
def DeclNode.toASTNode : DeclNode → ASTNode
  | .varDecl v => v.toASTNode
  | .fnDecl n _ _ _ _ => n

/-- The node of a statement. -/
def StmtNode.toASTNode : StmtNode → ASTNode
  | .decl d => d.toASTNode
  | .assignStmt s => s.toASTNode
  | .readStmt s => s.toASTNode
  | .writeStmt s => s.toASTNode
  | .postDecStmt s => s.toASTNode
  | .postIncStmt s => s.toASTNode
  | .ifStmt n _ _ => n
  | .ifElseStmt n _ _ _ => n
  | .whileStmt n _ _ => n
  | .returnStmt s => s.toASTNode
  | .callStmt s => s.toASTNode

/-! ## Two runs of the pass side by side

The second run may hold the `ErrorType` object before the first one creates it, so the
addresses at which later objects are allocated differ between the runs; the runs are compared
up to a renaming of addresses. -/

/-- The object with every address it holds renamed. -/
def DataType.rename (ρ : Addr → Addr) : DataType → DataType
  | .error => .error
  | .basic b => .basic b
  | .ptr p => .ptr { myBase := ρ p.myBase }
  | .fn f => .fn { myFormalTypes := f.myFormalTypes.map ρ, myRetType := ρ f.myRetType }

/-- Every address the object holds is below `m`. -/
def DataType.live (m : Nat) : DataType → Bool
  | .error => true
  | .basic _ => true
  | .ptr p => decide (p.myBase < m)
  | .fn f => f.myFormalTypes.all (fun a => decide (a < m)) && decide (f.myRetType < m)

/-- No dangling pointer in the registry: every address held by an object or by one of the three
statics is the address of an allocated object. -/
def TypeRegistry.live (r : TypeRegistry) : Bool :=
  r.heap.all (DataType.live r.heap.length) &&
  r.error.all (fun a => decide (a < r.heap.length)) &&
  r.flyweights.all (fun a => decide (a < r.heap.length)) &&
  r.map.all (fun kv => decide (kv.1 < r.heap.length) && decide (kv.2 < r.heap.length))

/-- No dangling pointer in the process: the registry is live, and every recorded type and the
current function type, when not null, is the address of an allocated object. -/
def State.live (st : State) : Bool :=
  st.reg.live &&
  st.ta.nodeToType.all (fun kv => kv.2.all (fun a => decide (a < st.reg.heap.length))) &&
  st.ta.currentFnType.all (fun a => decide (a < st.reg.heap.length))

/-- The registries of two runs correspond under the renaming `ρ` of the addresses of the first
run. Addresses below `base` are those the syntax tree holds; they are the same in both runs. The
second run may hold an `ErrorType` object that the first run has not created yet. -/
structure TypeRegistry.Sim (base : Nat) (ρ : Addr → Addr) (r1 r2 : TypeRegistry) : Prop where
  base_le : base ≤ r1.heap.length
  fix : ∀ a, a < base → ρ a = a
  inj : ∀ a b, a < r1.heap.length → b < r1.heap.length → ρ a = ρ b → a = b
  objLive : ∀ a obj, r1.deref a = some obj → obj.live r1.heap.length = true
  obj : ∀ a obj, r1.deref a = some obj → r2.deref (ρ a) = some (obj.rename ρ)
  error : ∀ e, r1.error = some e → e < r1.heap.length ∧ r2.error = some (ρ e)
  fresh : r1.error = none → ∀ e2, r2.error = some e2 →
    r2.deref e2 = some DataType.error ∧ ∀ a, a < r1.heap.length → ρ a ≠ e2
  flyLive : ∀ a, a ∈ r1.flyweights → a < r1.heap.length
  fly : r2.flyweights = r1.flyweights.map ρ
  mapLive : ∀ kv, kv ∈ r1.map → kv.1 < r1.heap.length ∧ kv.2 < r1.heap.length
  map : r2.map = r1.map.map (fun kv => (ρ kv.1, ρ kv.2))

/-- The states of two runs correspond under the renaming `ρ`: the registries do; the recorded
types of the nodes outside `D` and the current function types are the same up to `ρ`; the second
run has its failure flag set when the first has; and since the reports `p1` of the first run and
`p2` of the second, the two runs have reported the same diagnostics. -/
structure State.Sim (base : Nat) (D : Nat → Prop) (p1 p2 : List Diagnostic) (ρ : Addr → Addr)
    (s1 s2 : State) : Prop where
  reg : TypeRegistry.Sim base ρ s1.reg s2.reg
  nodes : ∀ k, ¬ D k → TypeAnalysis.find k s2.ta.nodeToType
    = (TypeAnalysis.find k s1.ta.nodeToType).map (Option.map ρ)
  nodesLive : ∀ k a, TypeAnalysis.find k s1.ta.nodeToType = some (some a) →
    a < s1.reg.heap.length
  cur : s2.ta.currentFnType = s1.ta.currentFnType.map ρ
  curLive : ∀ a, s1.ta.currentFnType = some a → a < s1.reg.heap.length
  flag : s1.ta.hasError = true → s2.ta.hasError = true
  reports : ∃ d, s1.reports = p1 ++ d ∧ s2.reports = p2 ++ d

/-- The states `a` and `b` of the two runs correspond under a renaming that extends `ρ`, which
relates the states one step earlier, the first run then being in state `s1`. -/
def State.Next (base : Nat) (D : Nat → Prop) (p1 p2 : List Diagnostic) (ρ : Addr → Addr)
    (s1 : State) (a b : State) : Prop :=
  ∃ ρ2 : Addr → Addr, (∀ x, x < s1.reg.heap.length → ρ2 x = ρ x) ∧
    s1.reg.heap.length ≤ a.reg.heap.length ∧ State.Sim base D p1 p2 ρ2 a b

/-- Two outcomes correspond: both runs stop, or both return and the results are related. -/
def Except.Rel {α β : Type} (P : α → β → Prop) : Except Crash α → Except Crash β → Prop
  | .ok a, .ok b => P a b
  | .error _, .error _ => True
  | _, _ => False

/-- The results of one call into `types.hpp` made in both runs correspond: the registries do,
under a renaming that extends `ρ`, which related the registries before the call (`r1` being the
registry of the first run then), and so do the two addresses returned. -/
def TypeRegistry.Next (base : Nat) (ρ : Addr → Addr) (r1 : TypeRegistry)
    (x1 x2 : Addr × TypeRegistry) : Prop :=
  ∃ ρ2 : Addr → Addr, (∀ x, x < r1.heap.length → ρ2 x = ρ x) ∧
    r1.heap.length ≤ x1.2.heap.length ∧ TypeRegistry.Sim base ρ2 x1.2 x2.2 ∧
    x1.1 < x1.2.heap.length ∧ x2.1 = ρ2 x1.1

/-- The same as `TypeRegistry.Next`, for a call that returns a list of addresses. -/
def TypeRegistry.NextList (base : Nat) (ρ : Addr → Addr) (r1 : TypeRegistry)
    (x1 x2 : List Addr × TypeRegistry) : Prop :=
  ∃ ρ2 : Addr → Addr, (∀ x, x < r1.heap.length → ρ2 x = ρ x) ∧
    r1.heap.length ≤ x1.2.heap.length ∧ TypeRegistry.Sim base ρ2 x1.2 x2.2 ∧
    (∀ a, a ∈ x1.1 → a < x1.2.heap.length) ∧ x2.1 = x1.1.map ρ2

/-- The registry `r2` is the registry `r` after any number of calls into `types.hpp`. -/
def TypeRegistry.Later : TypeRegistry → TypeRegistry → Prop :=
  Relation.ReflTransGen TypeRegistry.Step

/-- A registry state that a process can be in: the constructors of `ErrorType`, `BasicType` and
`PtrType` are private, so the statics and the heap are what calls of the three `produce`
functions and of `new FnType` have made of the empty registry. -/
def TypeRegistry.Reachable (r : TypeRegistry) : Prop :=
  TypeRegistry.Later TypeRegistry.empty r

/-- Every entry of the static `flyweights` is the address of an allocated object. -/
def TypeRegistry.FlyOK (r : TypeRegistry) : Prop :=
  ∀ a, a ∈ r.flyweights → a < r.heap.length

/-- The static `map` of `PtrType::produce` holds, for a base, the address of a `PtrType` object
with that base. -/
def TypeRegistry.PtrOK (r : TypeRegistry) : Prop :=
  ∀ k v, PtrType.find k r.map = some v → r.deref v = some (DataType.ptr { myBase := k })


/-- Two type annotations spell the same type. -/
def TypeNode.sameType : TypeNode → TypeNode → Bool
  | .voidTypeNode _, .voidTypeNode _ => true
  | .ptrTypeNode _ a, .ptrTypeNode _ b => TypeNode.sameType a b
  | .intTypeNode _, .intTypeNode _ => true
  | .shortTypeNode _, .shortTypeNode _ => true
  | .boolTypeNode _, .boolTypeNode _ => true
  | .stringTypeNode _, .stringTypeNode _ => true
  | _, _ => false

/-- Two formal lists have the same length and, position by position, annotations that spell
the same type. -/
def FnDeclNode.sameFormals : List FormalDeclNode → List FormalDeclNode → Bool
  | [], [] => true
  | f :: fs, g :: gs => f.getTypeNode.sameType g.getTypeNode && FnDeclNode.sameFormals fs gs
  | _, _ => false

namespace Example

/-- The node `&v` for an identifier `v` whose symbol has the type at address `t`: `&v` 51,
`v` 52. -/
def refOf (t : Addr) : RefNode := { toASTNode := node 51, myID := ident 52 t }

/-- The formal `int a` of `f`: declaration 8, annotation 9, identifier 14. -/
def formalA : FormalDeclNode :=
  { toASTNode := node 8, myType := TypeNode.intTypeNode (node 9), myID := ident 14 0 }

/-- The formal `int b` of another function: declaration 15, annotation 16, identifier 17. -/
def formalB : FormalDeclNode :=
  { toASTNode := node 15, myType := TypeNode.intTypeNode (node 16), myID := ident 17 0 }

end Example

/-! ## What a piece of the pass leaves alone -/

/-- A relation between the state before and the state after a piece of the pass that holds
across the primitive operations that pieces without a function declaration are made of, a type
being recorded for the nodes in `P` only. -/
structure State.Local (P : Nat → Prop) (R : State → State → Prop) : Prop where
  refl : ∀ st, R st st
  trans : ∀ a b c, R a b → R b c → R a c
  setNodeType : ∀ st node (type : Addr), P node → R st (st.setNodeType node (some type))
  report : ∀ st kind pos, R st (st.report kind pos)
  setReg : ∀ (st : State) r, TypeRegistry.Step st.reg r → R st { st with reg := r }

/-- The later state has the current function type of the earlier one, and the recorded types
of the earlier one for every node outside `P`. -/
def State.Frame (P : Nat → Prop) (st st2 : State) : Prop :=
  st2.getCurrentFnType = st.getCurrentFnType ∧
  ∀ k, ¬ P k → TypeAnalysis.find k st2.ta.nodeToType = TypeAnalysis.find k st.ta.nodeToType

mutual
/-- No function declaration occurs in the statement. -/
def StmtNode.noFnDecl : StmtNode → Bool
  | .decl d =>
    match d with
    | .varDecl _ => true
    | .fnDecl _ _ _ _ _ => false
  | .ifStmt _ _ myBody => StmtNode.noFnDeclList myBody
  | .ifElseStmt _ _ myBodyTrue myBodyFalse =>
    StmtNode.noFnDeclList myBodyTrue && StmtNode.noFnDeclList myBodyFalse
  | .whileStmt _ _ myBody => StmtNode.noFnDeclList myBody
  | _ => true
/-- No function declaration occurs in the statements of the list. -/
def StmtNode.noFnDeclList : List StmtNode → Bool
  | [] => true
  | stmt :: rest => StmtNode.noFnDecl stmt && StmtNode.noFnDeclList rest
end


namespace Example

/-- The declaration `void g(){ x = 5; return; }` of `program`: declaration 5, its annotation 6,
its identifier 7, and the two statements of the body. -/
def declG : DeclNode :=
  DeclNode.fnDecl (node 5) (TypeNode.voidTypeNode (node 6)) (ident 7 5) []
    [StmtNode.assignStmt intAssign, StmtNode.returnStmt returnNothing]

end Example

/-! ## Types as values -/

/-- A type of the language as a value: what a `const DataType *` stands for when the objects it
leads to are read out. Two instances stand for the same type when their values are equal. -/
inductive Ty where
  | error : Ty
  | basic (kind : BaseType) : Ty
  | ptr (base : Ty) : Ty
  | fn (formals : List Ty) (ret : Ty) : Ty

/-- All the readings of a list, when each one succeeded. -/
def Ty.collect : List (Option Ty) → Option (List Ty)
  | [] => some []
  | none :: _ => none
  | some t :: rest => (Ty.collect rest).map (fun ts => t :: ts)

/-- The type the instance at address `a` stands for, read through at most `depth` objects:
`none` when an address met on the way is not allocated or the type is nested deeper than
`depth`. -/
def TypeRegistry.typeAt (r : TypeRegistry) : Nat → Addr → Option Ty
  | 0, _ => none
  | depth + 1, a =>
    match r.deref a with
    | none => none
    | some DataType.error => some Ty.error
    | some (DataType.basic b) => some (Ty.basic b.myBaseType)
    | some (DataType.ptr p) => (TypeRegistry.typeAt r depth p.myBase).map Ty.ptr
    | some (DataType.fn f) =>
      match Ty.collect (f.myFormalTypes.map (TypeRegistry.typeAt r depth)),
          TypeRegistry.typeAt r depth f.myRetType with
      | some formals, some ret => some (Ty.fn formals ret)
      | _, _ => none

/-- What the context holds for node `k`, with the recorded instance read to depth `depth`: `none`
when nothing is recorded, `some none` for a recorded null pointer. -/
def State.recordedType (st : State) (depth : Nat) (k : Nat) : Option (Option (Option Ty)) :=
  (TypeAnalysis.find k st.ta.nodeToType).map (Option.map (st.reg.typeAt depth))

/-- Two runs, which had reported `p1` and `p2` before, have the same outcome: they have reported
the same new diagnostics; every node has the same recorded type in both, read to any depth; and
two nodes are recorded with one instance in one run exactly when they are in the other. -/
def State.SameOutcome (p1 p2 : List Diagnostic) (a b : State) : Prop :=
  (∃ d : List Diagnostic, a.reports = p1 ++ d ∧ b.reports = p2 ++ d) ∧
  (∀ depth k, b.recordedType depth k = a.recordedType depth k) ∧
  (∀ k1 k2, TypeAnalysis.find k1 a.ta.nodeToType = TypeAnalysis.find k2 a.ta.nodeToType ↔
    TypeAnalysis.find k1 b.ta.nodeToType = TypeAnalysis.find k2 b.ta.nodeToType)


namespace Example

/-- The state of `st` after an earlier diagnostic: one report collected and the failure flag
set, the registry and the recorded types being those of `st`. -/
def stFailed : State :=
  { st with reports := [{ kind := ErrorKind.errWriteVoid, pos := 100 }],
            ta := { st.ta with hasError := true } }

/-- The expression `(1 + 1) + &b` for `bool b`: the outer sum 90, the inner sum 91, its
operands 92 and 93, `&b` 51, `b` 52. -/
def sumRef : ExpNode :=
  ExpNode.plusNode (node 90)
    (ExpNode.plusNode (node 91) (ExpNode.intLitNode (node 92)) (ExpNode.intLitNode (node 93)))
    (ExpNode.refNode (refOf 1))

end Example

/-! # Properties -/

/-! ## Lemmas on the node-to-type mapping -/

theorem TypeAnalysis.find_insert_self (node : Nat) (type : Option Addr)
    (m : List (Nat × Option Addr)) :
    TypeAnalysis.find node (TypeAnalysis.insert node type m) = some type := by
  induction m with
  | nil => simp [TypeAnalysis.insert, TypeAnalysis.find]
  | cons kv rest ih =>
    obtain ⟨k, v⟩ := kv
    by_cases h : k = node
    · simp [TypeAnalysis.insert, TypeAnalysis.find, h]
    · simp [TypeAnalysis.insert, TypeAnalysis.find, h, ih]

theorem TypeAnalysis.find_insert_ne (node other : Nat) (type : Option Addr)
    (m : List (Nat × Option Addr)) (hne : other ≠ node) :
    TypeAnalysis.find other (TypeAnalysis.insert node type m) = TypeAnalysis.find other m := by
  induction m with
  | nil => simp [TypeAnalysis.insert, TypeAnalysis.find, hne.symm]
  | cons kv rest ih =>
    obtain ⟨k, v⟩ := kv
    by_cases h : k = node
    · subst h
      simp [TypeAnalysis.insert, TypeAnalysis.find, hne.symm]
    · by_cases h2 : k = other
      · subst h2
        simp [TypeAnalysis.insert, TypeAnalysis.find, h]
      · simp [TypeAnalysis.insert, TypeAnalysis.find, h, h2, ih]

theorem State.nodeType_setNodeType_self (st : State) (node : Nat) (type : Addr) :
    (st.setNodeType node (some type)).nodeType node = Except.ok type := by
  simp [State.nodeType, State.setNodeType, TypeAnalysis.find_insert_self]

theorem State.nodeType_setNodeType_ne (st : State) (node other : Nat) (type : Option Addr)
    (hne : other ≠ node) :
    (st.setNodeType node type).nodeType other = st.nodeType other := by
  simp [State.nodeType, State.setNodeType, TypeAnalysis.find_insert_ne _ _ _ _ hne]

/-! ## Lemmas on the heap: allocation never disturbs an existing object -/

theorem TypeRegistry.deref_alloc (r : TypeRegistry) (obj o : DataType) (a : Addr)
    (h : r.deref a = some o) : (r.alloc obj).2.deref a = some o := by
  simp only [TypeRegistry.deref, TypeRegistry.alloc] at *
  have hlt : a < r.heap.length := by
    by_contra hc
    rw [List.getElem?_eq_none (Nat.le_of_not_lt hc)] at h
    cases h
  rw [List.getElem?_append_left hlt]; exact h

theorem TypeRegistry.deref_alloc_new (r : TypeRegistry) (obj : DataType) :
    (r.alloc obj).2.deref (r.alloc obj).1 = some obj := by
  simp [TypeRegistry.deref, TypeRegistry.alloc]

theorem ErrorType.deref_produceError (r : TypeRegistry) (h : r.ErrorOK) :
    (ErrorType.produce r).2.deref (ErrorType.produce r).1 = some DataType.error := by
  unfold ErrorType.produce
  cases he : r.error with
  | some a => simpa using h a he
  | none => simp [TypeRegistry.alloc, TypeRegistry.deref]

theorem ErrorType.deref_produceError_of (r : TypeRegistry) (o : DataType) (a : Addr)
    (h : r.deref a = some o) : (ErrorType.produce r).2.deref a = some o := by
  unfold ErrorType.produce
  cases he : r.error with
  | some e => simpa using h
  | none =>
    have := TypeRegistry.deref_alloc r DataType.error o a h
    simpa [TypeRegistry.deref] using this

theorem BasicType.findFly_some (r : TypeRegistry) (base : BaseType) (l : List Addr) (fly : Addr)
    (h : BasicType.findFly r base l = some fly) :
    r.deref fly = some (DataType.basic { myBaseType := base }) := by
  induction l with
  | nil => simp [BasicType.findFly] at h
  | cons x rest ih =>
    simp only [BasicType.findFly] at h
    split at h
    · rename_i hx
      cases h
      simp only [TypeRegistry.getBaseType] at hx
      split at hx
      · rename_i b hb
        simp only [BasicType.getBaseType, Option.some.injEq] at hx
        rw [hb]; cases b; simp_all
      · cases hx
    · exact ih h

theorem BasicType.deref_produceBasic (base : BaseType) (r : TypeRegistry) :
    (BasicType.produce base r).2.deref (BasicType.produce base r).1
      = some (DataType.basic { myBaseType := base }) := by
  unfold BasicType.produce
  cases hf : BasicType.findFly r base r.flyweights with
  | some fly => simpa using BasicType.findFly_some r base _ fly hf
  | none => simp [TypeRegistry.alloc, TypeRegistry.deref]

theorem BasicType.deref_produceBasic_of (base : BaseType) (r : TypeRegistry) (o : DataType) (a : Addr)
    (h : r.deref a = some o) : (BasicType.produce base r).2.deref a = some o := by
  unfold BasicType.produce
  cases hf : BasicType.findFly r base r.flyweights with
  | some fly => simpa using h
  | none =>
    have := TypeRegistry.deref_alloc r (DataType.basic { myBaseType := base }) o a h
    simpa [TypeRegistry.deref] using this

/-! ## Lemmas on the state -/

theorem State.deref_ok_iff (st : State) (p : Addr) (o : DataType) :
    st.deref p = Except.ok o ↔ st.reg.deref p = some o := by
  unfold State.deref
  cases h : st.reg.deref p <;> simp

theorem State.deref_setError_of (st : State) (node : Nat) (p : Addr) (o : DataType)
    (h : st.deref p = Except.ok o) : (st.setError node).deref p = Except.ok o := by
  rw [State.deref_ok_iff] at *
  exact ErrorType.deref_produceError_of st.reg o p h

theorem State.deref_setError_self (st : State) (node : Nat) (h : st.reg.ErrorOK) :
    (st.setError node).deref (ErrorType.produce st.reg).1 = Except.ok DataType.error := by
  rw [State.deref_ok_iff]
  exact ErrorType.deref_produceError st.reg h

theorem State.nodeType_setError_self (st : State) (node : Nat) :
    (st.setError node).nodeType node = Except.ok (ErrorType.produce st.reg).1 := by
  simp [State.setError, State.nodeType_setNodeType_self]

theorem State.deref_setBasic_of (st : State) (node : Nat) (base : BaseType) (p : Addr)
    (o : DataType) (h : st.deref p = Except.ok o) :
    (st.setBasic node base).deref p = Except.ok o := by
  rw [State.deref_ok_iff] at *
  exact BasicType.deref_produceBasic_of base st.reg o p h

theorem State.deref_setBasic_self (st : State) (node : Nat) (base : BaseType) :
    (st.setBasic node base).deref (BasicType.produce base st.reg).1
      = Except.ok (DataType.basic { myBaseType := base }) := by
  rw [State.deref_ok_iff]
  exact BasicType.deref_produceBasic base st.reg

theorem State.nodeType_setBasic_self (st : State) (node : Nat) (base : BaseType) :
    (st.setBasic node base).nodeType node = Except.ok (BasicType.produce base st.reg).1 := by
  simp [State.setBasic, State.nodeType_setNodeType_self]

/-! ## Assignment -/

/-- What `AssignExpNode::typeAnalysis` does once both sides have a recorded, dereferenceable
type, by cases as in the source. -/
theorem AssignExpNode.typeRule_eq (self myDst mySrc : ASTNode) (st : State)
    (tgtType srcType : Addr) (tgtObj srcObj : DataType)
    (htgt : st.nodeType myDst.addr = Except.ok tgtType)
    (hsrc : st.nodeType mySrc.addr = Except.ok srcType)
    (htobj : st.deref tgtType = Except.ok tgtObj)
    (hsobj : st.deref srcType = Except.ok srcObj) :
    AssignExpNode.typeRule self myDst mySrc st = Except.ok
      (if tgtObj.asError || srcObj.asError then st.setError self.addr
       else if !tgtObj.validVarType then
        (st.report ErrorKind.errAssignOpd myDst.myPos).setError self.addr
       else if !srcObj.validVarType then
        (st.report ErrorKind.errAssignOpd mySrc.myPos).setError self.addr
       else if tgtType = srcType then st.setNodeType self.addr (some tgtType)
       else (st.report ErrorKind.errAssignOpr self.myPos).setError self.addr) := by
  simp only [AssignExpNode.typeRule, htgt, hsrc, htobj, hsobj, bind, Except.bind, pure,
    Except.pure]
  cases tgtObj.asError <;> cases srcObj.asError <;> cases tgtObj.validVarType <;>
    cases srcObj.validVarType <;> simp
  split <;> rfl

/-- C2: an assignment whose two sides have non-Error, valid variable types that are not the same
instance (as in `bool b; b = 5;`) raises exactly one AssignOperator diagnostic, at the position
of the assignment, and no AssignOperand diagnostic; the assignment expression is recorded with
the canonical Error type, and so is the enclosing assignment statement. -/
theorem C2_assign_distinct_types (s : AssignStmtNode) (n : ASTNode) (myDst : LValNode)
    (mySrc : ExpNode) (st st1 st2 : State) (tgtType srcType : Addr) (tgtObj srcObj : DataType)
    (hs : s.myExp = AssignExpNode.mk n myDst mySrc)
    (hdst : myDst.typeAnalysis st = Except.ok st1)
    (hsrc : mySrc.typeAnalysis st1 = Except.ok st2)
    (hreg : st2.reg.ErrorOK)
    (htgt : st2.nodeType myDst.toASTNode.addr = Except.ok tgtType)
    (hsrcT : st2.nodeType mySrc.toASTNode.addr = Except.ok srcType)
    (htobj : st2.deref tgtType = Except.ok tgtObj)
    (hsobj : st2.deref srcType = Except.ok srcObj)
    (hterr : tgtObj.asError = false) (hserr : srcObj.asError = false)
    (htv : tgtObj.validVarType = true) (hsv : srcObj.validVarType = true)
    (hne : tgtType ≠ srcType) :
    ∃ st3 st4 : State,
      s.myExp.typeAnalysis st = Except.ok st3 ∧
      st3.reports = st2.reports ++ [{ kind := ErrorKind.errAssignOpr, pos := n.myPos }] ∧
      st3.nodeType n.addr = Except.ok (ErrorType.produce st2.reg).1 ∧
      st3.deref (ErrorType.produce st2.reg).1 = Except.ok DataType.error ∧
      s.typeAnalysis st = Except.ok st4 ∧
      st4.reports = st3.reports ∧
      st4.nodeType s.addr = Except.ok (ErrorType.produce st2.reg).1 ∧
      st4.deref (ErrorType.produce st2.reg).1 = Except.ok DataType.error := by
  have hrule := AssignExpNode.typeRule_eq n myDst.toASTNode mySrc.toASTNode st2 tgtType srcType
    tgtObj srcObj htgt hsrcT htobj hsobj
  simp only [hterr, hserr, htv, hsv, hne, Bool.or_self, Bool.not_true, if_false,
    Bool.false_eq_true] at hrule
  have hexp : s.myExp.typeAnalysis st
      = Except.ok ((st2.report ErrorKind.errAssignOpr n.myPos).setError n.addr) := by
    rw [hs]
    simp only [AssignExpNode.typeAnalysis, hdst, hsrc, bind, Except.bind]
    exact hrule
  have hself : ((st2.report ErrorKind.errAssignOpr n.myPos).setError n.addr).deref
      (ErrorType.produce st2.reg).1 = Except.ok DataType.error :=
    State.deref_setError_self (st2.report ErrorKind.errAssignOpr n.myPos) n.addr hreg
  refine ⟨(st2.report ErrorKind.errAssignOpr n.myPos).setError n.addr,
    ((st2.report ErrorKind.errAssignOpr n.myPos).setError n.addr).setNodeType s.addr
      (some (ErrorType.produce st2.reg).1), hexp, rfl, ?_, hself, ?_, rfl, ?_, ?_⟩
  · exact State.nodeType_setError_self (st2.report ErrorKind.errAssignOpr n.myPos) n.addr
  · have hn : AssignExpNode.toASTNode s.myExp = n := by rw [hs]; rfl
    simp only [AssignStmtNode.typeAnalysis, hexp, bind, Except.bind, hn,
      State.nodeType_setError_self (st2.report ErrorKind.errAssignOpr n.myPos) n.addr]
    simp only [State.report] at hself ⊢
    rw [hself]
    simp only [DataType.asError, if_true, pure, Except.pure]
  · exact State.nodeType_setNodeType_self _ _ _
  · exact hself

/-- The witness of C2: `b = 5;` for `bool b`. The Error type is created at address 6. -/
theorem C2_assign_distinct_types_witness :
    ∃ st3 st4 : State,
      Example.boolAssign.myExp.typeAnalysis Example.st = Except.ok st3 ∧
      st3.reports = [{ kind := ErrorKind.errAssignOpr, pos := 111 }] ∧
      st3.nodeType 11 = Except.ok 6 ∧
      st3.deref 6 = Except.ok DataType.error ∧
      Example.boolAssign.typeAnalysis Example.st = Except.ok st4 ∧
      st4.reports = st3.reports ∧
      st4.nodeType 10 = Except.ok 6 ∧
      st4.deref 6 = Except.ok DataType.error :=
  C2_assign_distinct_types Example.boolAssign (Example.node 11)
    (LValNode.idNode (Example.ident 12 1)) (ExpNode.intLitNode (Example.node 13))
    Example.st ((Example.ident 12 1).typeAnalysis Example.st)
    (IntLitNode.typeAnalysis (Example.node 13) ((Example.ident 12 1).typeAnalysis Example.st))
    1 0 (DataType.basic { myBaseType := BaseType.BOOL })
    (DataType.basic { myBaseType := BaseType.INT })
    rfl rfl rfl (by intro a h; cases h) rfl rfl rfl rfl rfl rfl rfl rfl (by decide)

theorem DataType.asError_of_validVarType (obj : DataType) (h : obj.validVarType = true) :
    obj.asError = false := by
  cases obj <;> simp_all [DataType.validVarType, DataType.asError]

/-- C3: an assignment whose two sides have the same type instance, a valid variable type (as in
`int x; x = 5;`), raises no diagnostic; the assignment expression is recorded with that type and
the enclosing assignment statement with the canonical Void type. -/
theorem C3_assign_same_type (s : AssignStmtNode) (n : ASTNode) (myDst : LValNode)
    (mySrc : ExpNode) (st st1 st2 : State) (type : Addr) (obj : DataType)
    (hs : s.myExp = AssignExpNode.mk n myDst mySrc)
    (hdst : myDst.typeAnalysis st = Except.ok st1)
    (hsrc : mySrc.typeAnalysis st1 = Except.ok st2)
    (htgt : st2.nodeType myDst.toASTNode.addr = Except.ok type)
    (hsrcT : st2.nodeType mySrc.toASTNode.addr = Except.ok type)
    (hobj : st2.deref type = Except.ok obj)
    (hv : obj.validVarType = true) :
    ∃ st3 st4 : State,
      s.myExp.typeAnalysis st = Except.ok st3 ∧
      st3.reports = st2.reports ∧
      st3.nodeType n.addr = Except.ok type ∧
      s.typeAnalysis st = Except.ok st4 ∧
      st4.reports = st2.reports ∧
      st4.nodeType s.addr = Except.ok (BasicType.produce BaseType.VOID st2.reg).1 ∧
      st4.deref (BasicType.produce BaseType.VOID st2.reg).1
        = Except.ok (DataType.basic { myBaseType := BaseType.VOID }) := by
  have herr := DataType.asError_of_validVarType obj hv
  have hrule := AssignExpNode.typeRule_eq n myDst.toASTNode mySrc.toASTNode st2 type type
    obj obj htgt hsrcT hobj hobj
  simp only [herr, hv, Bool.or_self, Bool.not_true, if_false, if_true,
    Bool.false_eq_true] at hrule
  have hexp : s.myExp.typeAnalysis st = Except.ok (st2.setNodeType n.addr (some type)) := by
    rw [hs]
    simp only [AssignExpNode.typeAnalysis, hdst, hsrc, bind, Except.bind]
    exact hrule
  have hderef : (st2.setNodeType n.addr (some type)).deref type = Except.ok obj := hobj
  refine ⟨st2.setNodeType n.addr (some type),
    (st2.setNodeType n.addr (some type)).setBasic s.addr BaseType.VOID, hexp, rfl, ?_, ?_, rfl,
    ?_, ?_⟩
  · exact State.nodeType_setNodeType_self _ _ _
  · have hn : AssignExpNode.toASTNode s.myExp = n := by rw [hs]; rfl
    simp only [AssignStmtNode.typeAnalysis, hexp, bind, Except.bind, hn,
      State.nodeType_setNodeType_self, hderef, herr, pure, Except.pure]
    rfl
  · exact State.nodeType_setBasic_self (st2.setNodeType n.addr (some type)) s.addr BaseType.VOID
  · exact State.deref_setBasic_self (st2.setNodeType n.addr (some type)) s.addr BaseType.VOID

/-- The witness of C3: `x = 5;` for `int x`; Void is the instance at address 2. -/
theorem C3_assign_same_type_witness :
    ∃ st3 st4 : State,
      Example.intAssign.myExp.typeAnalysis Example.st = Except.ok st3 ∧
      st3.reports = [] ∧
      st3.nodeType 11 = Except.ok 0 ∧
      Example.intAssign.typeAnalysis Example.st = Except.ok st4 ∧
      st4.reports = [] ∧
      st4.nodeType 10 = Except.ok 2 ∧
      st4.deref 2 = Except.ok (DataType.basic { myBaseType := BaseType.VOID }) :=
  C3_assign_same_type Example.intAssign (Example.node 11)
    (LValNode.idNode (Example.ident 12 0)) (ExpNode.intLitNode (Example.node 13))
    Example.st ((Example.ident 12 0).typeAnalysis Example.st)
    (IntLitNode.typeAnalysis (Example.node 13) ((Example.ident 12 0).typeAnalysis Example.st))
    0 (DataType.basic { myBaseType := BaseType.INT })
    rfl rfl rfl rfl rfl rfl rfl

/-! ## Function calls -/

/-- `CallExpNode::typeAnalysis` for a callee of function type whose formal count differs from
the argument count. -/
theorem CallExpNode.typeAnalysis_count (n : ASTNode) (myID : IDNode) (myArgs : List ExpNode)
    (st st1 : State) (fType : FnType)
    (hargs : CallExpNode.analyseArgs myArgs st = Except.ok st1)
    (hfn : st1.deref myID.getSymbol.getDataType = Except.ok (DataType.fn fType))
    (hcount : myArgs.length ≠ fType.getFormalTypes.length) :
    CallExpNode.typeAnalysis (CallExpNode.mk n myID myArgs) st = Except.ok
      (((st1.report ErrorKind.errArgCount myID.myPos).setError n.addr).setNodeType n.addr
        (some fType.getReturnType)) := by
  simp only [CallExpNode.typeAnalysis, hargs, CallExpNode.typeRule, hfn, bind, Except.bind,
    DataType.asFn, List.length_map, pure, Except.pure]
  simp [hcount]

/-- C4: a call whose callee has a function type and whose argument count differs from the formal
count raises, after its arguments have been analysed, exactly one ArgCount diagnostic (at the
callee identifier) and no ArgMatch diagnostic, whatever the arguments are. -/
theorem C4_call_arg_count (n : ASTNode) (myID : IDNode) (myArgs : List ExpNode)
    (st st1 : State) (fType : FnType)
    (hargs : CallExpNode.analyseArgs myArgs st = Except.ok st1)
    (hfn : st1.deref myID.getSymbol.getDataType = Except.ok (DataType.fn fType))
    (hcount : myArgs.length ≠ fType.getFormalTypes.length) :
    ∃ st2 : State,
      CallExpNode.typeAnalysis (CallExpNode.mk n myID myArgs) st = Except.ok st2 ∧
      st2.reports = st1.reports ++ [{ kind := ErrorKind.errArgCount, pos := myID.myPos }] :=
  ⟨_, CallExpNode.typeAnalysis_count n myID myArgs st st1 fType hargs hfn hcount, rfl⟩

/-- The witness of C4: `f(1, 2)` for `int f(int a)`. -/
theorem C4_call_arg_count_witness :
    ∃ st2 : State,
      CallExpNode.typeAnalysis Example.callF12 Example.st = Except.ok st2 ∧
      st2.reports = [{ kind := ErrorKind.errArgCount, pos := 121 }] :=
  C4_call_arg_count (Example.node 20) (Example.ident 21 4)
    [ExpNode.intLitNode (Example.node 22), ExpNode.intLitNode (Example.node 23)]
    Example.st
    (IntLitNode.typeAnalysis (Example.node 23) (IntLitNode.typeAnalysis (Example.node 22) Example.st))
    { myFormalTypes := [0], myRetType := 0 } rfl rfl (by decide)

/-- C5 (the code departs from the claim): after `f(1, 2)` for `int f(int a)` the ArgCount
diagnostic has been raised and the Error type exists at address 6, but the type recorded for the
call is the instance at address 0, which is Int, the return type of `f`: the Error type recorded
in the mismatch branch is overwritten by the final `nodeType(this, fType->getReturnType())`. -/
theorem C5_call_arg_count_records_return_type :
    ∃ st2 : State,
      CallExpNode.typeAnalysis Example.callF12 Example.st = Except.ok st2 ∧
      st2.reports = [{ kind := ErrorKind.errArgCount, pos := 121 }] ∧
      ErrorType.produce st2.reg = (6, st2.reg) ∧
      st2.nodeType 20 = Except.ok 0 ∧
      st2.deref 0 = Except.ok (DataType.basic { myBaseType := BaseType.INT }) :=
  ⟨_, rfl, rfl, rfl, rfl, rfl⟩

/-- `CallExpNode::typeAnalysis` for a callee that is not of function type: after the arguments
have been analysed, one Callee report at the callee identifier, and the call is recorded Error. -/
theorem CallExpNode.typeAnalysis_callee (n : ASTNode) (myID : IDNode) (myArgs : List ExpNode)
    (st st1 : State) (idObj : DataType)
    (hargs : CallExpNode.analyseArgs myArgs st = Except.ok st1)
    (hid : st1.deref myID.getSymbol.getDataType = Except.ok idObj)
    (hfn : idObj.asFn = none) :
    CallExpNode.typeAnalysis (CallExpNode.mk n myID myArgs) st = Except.ok
      ((st1.report ErrorKind.errCallee myID.myPos).setError n.addr) := by
  simp only [CallExpNode.typeAnalysis, hargs, CallExpNode.typeRule, hid, hfn, bind, Except.bind,
    pure, Except.pure]

/-- C7 (the code departs from the claim): in `x(true && false)` for `int x` the call raises the
Callee diagnostic and is recorded with the Error type (created at address 6), and the argument
has been analysed (its operands 23 and 24 are recorded Bool, address 1), yet no type is recorded
for the argument node 22 itself: `AndNode::typeAnalysis` records nothing when both operands are
Bool. -/
theorem C7_call_non_function_argument_untyped :
    ∃ st2 : State,
      CallExpNode.typeAnalysis Example.callX Example.st = Except.ok st2 ∧
      st2.reports = [{ kind := ErrorKind.errCallee, pos := 121 }] ∧
      st2.nodeType 20 = Except.ok 6 ∧
      st2.deref 6 = Except.ok DataType.error ∧
      st2.nodeType 23 = Except.ok 1 ∧ st2.nodeType 24 = Except.ok 1 ∧
      TypeAnalysis.find 22 st2.ta.nodeToType = none ∧
      st2.nodeType 22 = Except.error Crash.internalError :=
  ⟨_, rfl, rfl, rfl, rfl, rfl, rfl, rfl, rfl⟩

/-! ## Return statements -/

theorem State.derefFn_eq (st : State) (f : Addr) (fn : FnType)
    (hcur : st.getCurrentFnType = some f) (hfn : st.reg.deref f = some (DataType.fn fn)) :
    st.derefFn st.getCurrentFnType = Except.ok fn := by
  rw [hcur]
  simp only [State.derefFn, hfn]
  rfl

/-- `return e;` in a function whose return type is the Void instance. -/
theorem ReturnStmtNode.typeAnalysis_extra (self : ReturnStmtNode) (e : ExpNode)
    (st st1 : State) (f : Addr) (fn : FnType)
    (hcur : st.getCurrentFnType = some f) (hfn : st.reg.deref f = some (DataType.fn fn))
    (hexp : self.myExp = some e)
    (he : e.typeAnalysis { st with reg := (BasicType.VOID st.reg).2 } = Except.ok st1)
    (hvoid : fn.getReturnType = (BasicType.VOID st.reg).1) :
    self.typeAnalysis st = Except.ok
      ((st1.report ErrorKind.extraRetValue e.toASTNode.myPos).setError self.addr) := by
  simp only [ReturnStmtNode.typeAnalysis, State.derefFn_eq st f fn hcur hfn, hexp, bind,
    Except.bind, hvoid, bne_self_eq_false, he, pure, Except.pure]
  rfl

/-- `return e;` in a function whose return type is not the Void instance, by the type recorded
for `e`. -/
theorem ReturnStmtNode.typeAnalysis_value (self : ReturnStmtNode) (e : ExpNode)
    (st st1 : State) (f : Addr) (fn : FnType) (subType : Addr) (obj : DataType)
    (hcur : st.getCurrentFnType = some f) (hfn : st.reg.deref f = some (DataType.fn fn))
    (hexp : self.myExp = some e)
    (he : e.typeAnalysis { st with reg := (BasicType.VOID st.reg).2 } = Except.ok st1)
    (hvoid : fn.getReturnType ≠ (BasicType.VOID st.reg).1)
    (hsub : st1.nodeType e.toASTNode.addr = Except.ok subType)
    (hobj : st1.deref subType = Except.ok obj) :
    self.typeAnalysis st = Except.ok
      (if subType ≠ fn.getReturnType ∧ obj.asError = false then
        (st1.report ErrorKind.errRetWrong e.toASTNode.myPos).setError self.addr
       else st1.setBasic self.addr BaseType.VOID) := by
  have hv : (fn.getReturnType != (BasicType.VOID st.reg).1) = true := by simpa using hvoid
  simp only [ReturnStmtNode.typeAnalysis, State.derefFn_eq st f fn hcur hfn, hexp, bind,
    Except.bind, hv, he, hsub, hobj, pure, Except.pure, if_true]
  by_cases h1 : subType = fn.getReturnType
  · simp [h1]
  · cases h2 : obj.asError <;> simp [h1]

/-- `return;`. -/
theorem ReturnStmtNode.typeAnalysis_empty (self : ReturnStmtNode)
    (st : State) (f : Addr) (fn : FnType)
    (hcur : st.getCurrentFnType = some f) (hfn : st.reg.deref f = some (DataType.fn fn))
    (hexp : self.myExp = none) :
    self.typeAnalysis st = Except.ok
      (if fn.getReturnType ≠ (BasicType.VOID st.reg).1 then
        ({ st with reg := (BasicType.VOID st.reg).2 }.report ErrorKind.errRetEmpty
          self.myPos).setError self.addr
       else { st with reg := (BasicType.VOID st.reg).2 }.setBasic self.addr BaseType.VOID) := by
  simp only [ReturnStmtNode.typeAnalysis, State.derefFn_eq st f fn hcur hfn, hexp, bind,
    Except.bind, pure, Except.pure]
  by_cases h : fn.getReturnType = (BasicType.VOID st.reg).1
  · simp [h]
  · simp [h]

/-- `return e;` in a function whose return type is not the Void instance, when `e` is recorded
with the return type itself: the value's type is not inspected further. -/
theorem ReturnStmtNode.typeAnalysis_same (self : ReturnStmtNode) (e : ExpNode)
    (st st1 : State) (f : Addr) (fn : FnType)
    (hcur : st.getCurrentFnType = some f) (hfn : st.reg.deref f = some (DataType.fn fn))
    (hexp : self.myExp = some e)
    (he : e.typeAnalysis { st with reg := (BasicType.VOID st.reg).2 } = Except.ok st1)
    (hvoid : fn.getReturnType ≠ (BasicType.VOID st.reg).1)
    (hsub : st1.nodeType e.toASTNode.addr = Except.ok fn.getReturnType) :
    self.typeAnalysis st = Except.ok (st1.setBasic self.addr BaseType.VOID) := by
  have hv : (fn.getReturnType != (BasicType.VOID st.reg).1) = true := by simpa using hvoid
  simp only [ReturnStmtNode.typeAnalysis, State.derefFn_eq st f fn hcur hfn, hexp, bind,
    Except.bind, hv, he, hsub, pure, Except.pure, if_true]
  simp

/-- C8: the diagnostic a return statement itself raises, for a current function type with return
type `R = fn.getReturnType`, where "Void" is the instance `BasicType::VOID()` returns:
a value and `R` Void: exactly one ExtraRetValue; a value, `R` not Void, the value's type neither
`R` nor Error: exactly one RetWrong; no value and `R` not Void: exactly one RetEmpty; in every
other case none. A value is analysed first, and the reports are counted from the state its
analysis leaves. -/
theorem C8_return_diagnostics (self : ReturnStmtNode) (st : State) (f : Addr) (fn : FnType)
    (hcur : st.getCurrentFnType = some f) (hfn : st.reg.deref f = some (DataType.fn fn)) :
    (∀ (e : ExpNode) (st1 : State), self.myExp = some e →
      e.typeAnalysis { st with reg := (BasicType.VOID st.reg).2 } = Except.ok st1 →
      fn.getReturnType = (BasicType.VOID st.reg).1 →
      ∃ st2, self.typeAnalysis st = Except.ok st2 ∧
        st2.reports = st1.reports ++
          [{ kind := ErrorKind.extraRetValue, pos := e.toASTNode.myPos }]) ∧
    (∀ (e : ExpNode) (st1 : State) (subType : Addr) (obj : DataType), self.myExp = some e →
      e.typeAnalysis { st with reg := (BasicType.VOID st.reg).2 } = Except.ok st1 →
      fn.getReturnType ≠ (BasicType.VOID st.reg).1 →
      st1.nodeType e.toASTNode.addr = Except.ok subType →
      st1.deref subType = Except.ok obj →
      subType ≠ fn.getReturnType → obj.asError = false →
      ∃ st2, self.typeAnalysis st = Except.ok st2 ∧
        st2.reports = st1.reports ++
          [{ kind := ErrorKind.errRetWrong, pos := e.toASTNode.myPos }]) ∧
    (self.myExp = none → fn.getReturnType ≠ (BasicType.VOID st.reg).1 →
      ∃ st2, self.typeAnalysis st = Except.ok st2 ∧
        st2.reports = st.reports ++ [{ kind := ErrorKind.errRetEmpty, pos := self.myPos }]) ∧
    (∀ (e : ExpNode) (st1 : State), self.myExp = some e →
      e.typeAnalysis { st with reg := (BasicType.VOID st.reg).2 } = Except.ok st1 →
      fn.getReturnType ≠ (BasicType.VOID st.reg).1 →
      st1.nodeType e.toASTNode.addr = Except.ok fn.getReturnType →
      ∃ st2, self.typeAnalysis st = Except.ok st2 ∧ st2.reports = st1.reports) ∧
    (∀ (e : ExpNode) (st1 : State) (subType : Addr) (obj : DataType), self.myExp = some e →
      e.typeAnalysis { st with reg := (BasicType.VOID st.reg).2 } = Except.ok st1 →
      fn.getReturnType ≠ (BasicType.VOID st.reg).1 →
      st1.nodeType e.toASTNode.addr = Except.ok subType →
      st1.deref subType = Except.ok obj →
      obj.asError = true →
      ∃ st2, self.typeAnalysis st = Except.ok st2 ∧ st2.reports = st1.reports) ∧
    (self.myExp = none → fn.getReturnType = (BasicType.VOID st.reg).1 →
      ∃ st2, self.typeAnalysis st = Except.ok st2 ∧ st2.reports = st.reports) := by
  refine ⟨?_, ?_, ?_, ?_, ?_, ?_⟩
  · intro e st1 hexp he hvoid
    exact ⟨_, ReturnStmtNode.typeAnalysis_extra self e st st1 f fn hcur hfn hexp he hvoid, rfl⟩
  · intro e st1 subType obj hexp he hvoid hsub hobj hne herr
    refine ⟨_, ReturnStmtNode.typeAnalysis_value self e st st1 f fn subType obj hcur hfn hexp he
      hvoid hsub hobj, ?_⟩
    simp only [hne, herr, ne_eq, not_false_eq_true, and_self, if_true]
    rfl
  · intro hexp hvoid
    refine ⟨_, ReturnStmtNode.typeAnalysis_empty self st f fn hcur hfn hexp, ?_⟩
    simp only [hvoid, ne_eq, not_false_eq_true, if_true]
    rfl
  · intro e st1 hexp he hvoid hsub
    exact ⟨_, ReturnStmtNode.typeAnalysis_same self e st st1 f fn hcur hfn hexp he hvoid hsub,
      rfl⟩
  · intro e st1 subType obj hexp he hvoid hsub hobj herr
    refine ⟨_, ReturnStmtNode.typeAnalysis_value self e st st1 f fn subType obj hcur hfn hexp he
      hvoid hsub hobj, ?_⟩
    simp only [herr, Bool.true_eq_false, and_false, if_false]
    rfl
  · intro hexp hvoid
    refine ⟨_, ReturnStmtNode.typeAnalysis_empty self st f fn hcur hfn hexp, ?_⟩
    simp only [hvoid, ne_eq, not_true_eq_false, if_false]
    rfl

/-- The witness of C8: `return;` in `int f(int a)` raises RetEmpty, `return 1;` in `void g()`
raises ExtraRetValue, and `return true;` in `int f(int a)` raises RetWrong. -/
theorem C8_return_diagnostics_witness :
    (∃ st2, Example.returnNothing.typeAnalysis Example.stF = Except.ok st2 ∧
      st2.reports = [{ kind := ErrorKind.errRetEmpty, pos := 130 }]) ∧
    (∃ st2, Example.returnOne.typeAnalysis Example.stG = Except.ok st2 ∧
      st2.reports = [{ kind := ErrorKind.extraRetValue, pos := 131 }]) ∧
    (∃ st2, Example.returnTrue.typeAnalysis Example.stF = Except.ok st2 ∧
      st2.reports = [{ kind := ErrorKind.errRetWrong, pos := 131 }]) :=
  ⟨(C8_return_diagnostics Example.returnNothing Example.stF 4
      { myFormalTypes := [0], myRetType := 0 } rfl rfl).2.2.1 rfl (by decide),
   (C8_return_diagnostics Example.returnOne Example.stG 5
      { myFormalTypes := [], myRetType := 2 } rfl rfl).1
      (ExpNode.intLitNode (Example.node 31))
      (IntLitNode.typeAnalysis (Example.node 31) Example.stG) rfl rfl rfl,
   (C8_return_diagnostics Example.returnTrue Example.stF 4
      { myFormalTypes := [0], myRetType := 0 } rfl rfl).2.1
      (ExpNode.trueNode (Example.node 31))
      (TrueNode.typeAnalysis (Example.node 31) Example.stF) 1
      (DataType.basic { myBaseType := BaseType.BOOL }) rfl rfl (by decide) rfl rfl (by decide)
      rfl⟩

/-- `AndNode::typeAnalysis` with two Bool operands leaves the state as the operands left it. -/
theorem AndNode.andNodeRule_bool (self myExp1 myExp2 : ASTNode) (st : State) (left right : Addr)
    (hl : st.nodeType myExp1.addr = Except.ok left)
    (hr : st.nodeType myExp2.addr = Except.ok right)
    (hlb : st.deref left = Except.ok (DataType.basic { myBaseType := BaseType.BOOL }))
    (hrb : st.deref right = Except.ok (DataType.basic { myBaseType := BaseType.BOOL })) :
    AndNode.typeRule self myExp1 myExp2 st = Except.ok st := by
  simp [AndNode.typeRule, State.asBasicIsBool, hl, hr, hlb, hrb, bind, Except.bind, pure,
    Except.pure, DataType.asBasic, BasicType.isBool]

/-- `OrNode::typeAnalysis` with two Bool operands leaves the state as the operands left it. -/
theorem OrNode.orNodeRule_bool (self myExp1 myExp2 : ASTNode) (st : State) (left right : Addr)
    (hl : st.nodeType myExp1.addr = Except.ok left)
    (hr : st.nodeType myExp2.addr = Except.ok right)
    (hlb : st.deref left = Except.ok (DataType.basic { myBaseType := BaseType.BOOL }))
    (hrb : st.deref right = Except.ok (DataType.basic { myBaseType := BaseType.BOOL })) :
    OrNode.typeRule self myExp1 myExp2 st = Except.ok st := by
  simp [OrNode.typeRule, State.asBasicIsBool, hl, hr, hlb, hrb, bind, Except.bind, pure,
    Except.pure, DataType.asBasic, BasicType.isBool]

/-- C10 (the code departs from the claim): for `true && false` and for `true || false`, whose
operands are both recorded Bool (address 1), the analysis completes without a diagnostic but
records no type for the `&&` / `||` node 40: the mapping has no entry for it and `nodeType` fails
with the internal error. The members record a type in the failing branch only. -/
theorem C10_logical_bool_operands_unrecorded :
    (∃ st2 : State,
      Example.andTrueFalse.typeAnalysis Example.st = Except.ok st2 ∧
      st2.nodeType 41 = Except.ok 1 ∧ st2.nodeType 42 = Except.ok 1 ∧
      st2.deref 1 = Except.ok (DataType.basic { myBaseType := BaseType.BOOL }) ∧
      st2.reports = [] ∧
      TypeAnalysis.find 40 st2.ta.nodeToType = none ∧
      st2.nodeType 40 = Except.error Crash.internalError) ∧
    (∃ st2 : State,
      Example.orTrueFalse.typeAnalysis Example.st = Except.ok st2 ∧
      st2.nodeType 41 = Except.ok 1 ∧ st2.nodeType 42 = Except.ok 1 ∧
      st2.deref 1 = Except.ok (DataType.basic { myBaseType := BaseType.BOOL }) ∧
      st2.reports = [] ∧
      TypeAnalysis.find 40 st2.ta.nodeToType = none ∧
      st2.nodeType 40 = Except.error Crash.internalError) :=
  ⟨⟨_, rfl, rfl, rfl, rfl, rfl, rfl, rfl⟩, ⟨_, rfl, rfl, rfl, rfl, rfl, rfl, rfl⟩⟩

/-! ## What holds across every primitive holds across the pass -/


theorem Except.bind_ok_iff {ε α β : Type} (x : Except ε α) (f : α → Except ε β) (b : β) :
    (x >>= f) = Except.ok b ↔ ∃ a, x = Except.ok a ∧ f a = Except.ok b := by
  cases x <;> simp [bind, Except.bind]

theorem Except.pure_ok_iff {ε α : Type} (a b : α) :
    (pure a : Except ε α) = Except.ok b ↔ a = b := by
  simp [pure, Except.pure]

namespace State.Closed

variable {R : State → State → Prop}

theorem then_setNodeType (hR : State.Closed R) {st x : State} (node : Nat) (type : Addr)
    (h : R st x) : R st (x.setNodeType node (some type)) :=
  hR.trans _ _ _ h (hR.setNodeType x node type)

theorem then_report (hR : State.Closed R) {st x : State} (kind : ErrorKind) (pos : Position)
    (h : R st x) : R st (x.report kind pos) :=
  hR.trans _ _ _ h (hR.report x kind pos)

theorem then_setError (hR : State.Closed R) {st x : State} (node : Nat)
    (h : R st x) : R st (x.setError node) :=
  hR.trans _ _ _ h (hR.trans _ _ _ (hR.setReg x _ (TypeRegistry.Step.produceError x.reg))
    (hR.setNodeType _ node _))

theorem then_setBasic (hR : State.Closed R) {st x : State} (node : Nat) (base : BaseType)
    (h : R st x) : R st (x.setBasic node base) :=
  hR.trans _ _ _ h (hR.trans _ _ _ (hR.setReg x _ (TypeRegistry.Step.produceBasic base x.reg))
    (hR.setNodeType _ node _))

end State.Closed

theorem AssignExpNode.assignExpNodeRule_closed {R : State → State → Prop} (hR : State.Closed R)
    (self myDst mySrc : ASTNode) (st st2 : State)
    (h : AssignExpNode.typeRule self myDst mySrc st = Except.ok st2) : R st st2 := by
  simp only [AssignExpNode.typeRule, bind, Except.bind, pure, Except.pure] at h
  repeat' split at h
  all_goals cases h
  all_goals
    repeat' first
      | exact hR.refl _
      | apply hR.then_setError
      | apply hR.then_setBasic
      | apply hR.then_setNodeType
      | apply hR.then_report

theorem State.intOperand_closed {R : State → State → Prop} (hR : State.Closed R)
    (st st2 : State) (opd : Addr) (kind : ErrorKind) (pos : Position)
    (h : st.intOperand opd kind pos = Except.ok st2) : R st st2 := by
  simp only [State.intOperand, bind, Except.bind, pure, Except.pure] at h
  repeat' split at h
  all_goals cases h
  all_goals
    repeat' first
      | exact hR.refl _
      | apply hR.then_setError
      | apply hR.then_setBasic
      | apply hR.then_setNodeType
      | apply hR.then_report

theorem binaryIntRule_closed {R : State → State → Prop} (hR : State.Closed R)
    (kind : ErrorKind) (pos1 pos2 : Position) (result : BaseType)
    (self myExp1 myExp2 : ASTNode) (st st2 : State)
    (h : binaryIntRule kind pos1 pos2 result self myExp1 myExp2 st = Except.ok st2) : R st st2 := by
  simp only [binaryIntRule, Except.bind_ok_iff, Except.pure_ok_iff] at h
  obtain ⟨left, _, right, _, st3, h3, st4, h4, h5⟩ := h
  subst h5
  have h34 := hR.trans _ _ _ (State.intOperand_closed hR _ _ _ _ _ h3)
    (State.intOperand_closed hR _ _ _ _ _ h4)
  apply hR.then_setBasic
  split
  · exact hR.then_setError _ h34
  · exact h34



theorem IDNode.iDNode_closed {R : State → State → Prop} (hR : State.Closed R)
    (self : IDNode) (st : State) : R st (self.typeAnalysis st) :=
  hR.setNodeType st _ _

theorem DerefNode.derefNode_closed {R : State → State → Prop} (hR : State.Closed R)
    (self : DerefNode) (st st2 : State)
    (h : self.typeAnalysis st = Except.ok st2) : R st st2 := by
  simp only [DerefNode.typeAnalysis, IDNode.typeAnalysis, bind, Except.bind, pure,
    Except.pure] at h
  repeat' split at h
  all_goals cases h
  all_goals
    repeat' first
      | exact hR.refl _
      | apply hR.then_setError
      | apply hR.then_setBasic
      | apply hR.then_setNodeType
      | apply hR.then_report

theorem LValNode.lValNode_closed {R : State → State → Prop} (hR : State.Closed R)
    (self : LValNode) (st st2 : State)
    (h : self.typeAnalysis st = Except.ok st2) : R st st2 := by
  cases self with
  | idNode n =>
    simp only [LValNode.typeAnalysis, Except.pure_ok_iff] at h
    subst h
    exact IDNode.iDNode_closed hR n st
  | derefNode n => exact DerefNode.derefNode_closed hR n st st2 h

theorem RefNode.refNode_closed {R : State → State → Prop} (hR : State.Closed R)
    (self : RefNode) (st st2 : State)
    (h : self.typeAnalysis st = Except.ok st2) : R st st2 := by
  simp only [RefNode.typeAnalysis, Except.bind_ok_iff, Except.pure_ok_iff] at h
  obtain ⟨base, _, h2⟩ := h
  subst h2
  apply hR.then_setNodeType
  exact hR.trans _ _ _ (IDNode.iDNode_closed hR self.myID st)
    (hR.setReg _ _ (TypeRegistry.Step.producePtr base _))

theorem CallExpNode.matchArgs_closed {R : State → State → Prop} (hR : State.Closed R)
    (self : ASTNode) : ∀ (myArgs : List ASTNode) (formals : List Addr) (st st2 : State),
      CallExpNode.matchArgs self myArgs formals st = Except.ok st2 → R st st2 := by
  intro myArgs
  induction myArgs with
  | nil =>
    intro formals st st2 h
    simp only [CallExpNode.matchArgs, Except.pure_ok_iff] at h
    subst h
    exact hR.refl _
  | cons arg rest ih =>
    intro formals st st2 h
    cases formals with
    | nil => simp [CallExpNode.matchArgs, throw, throwThe, MonadExceptOf.throw] at h
    | cons f formals =>
      simp only [CallExpNode.matchArgs, Except.bind_ok_iff] at h
      obtain ⟨actualType, _, actualObj, _, st3, h3, h4⟩ := h
      refine hR.trans _ _ _ ?_ (ih formals st3 st2 h4)
      simp only [bind, Except.bind, pure, Except.pure] at h3
      repeat' split at h3
      all_goals cases h3
      all_goals
        repeat' first
          | exact hR.refl _
          | apply hR.then_report

theorem CallExpNode.callExpNodeRule_closed {R : State → State → Prop} (hR : State.Closed R)
    (self : ASTNode) (myID : IDNode) (myArgs : List ASTNode) (st st2 : State)
    (h : CallExpNode.typeRule self myID myArgs st = Except.ok st2) : R st st2 := by
  simp only [CallExpNode.typeRule, Except.bind_ok_iff] at h
  obtain ⟨idObj, _, h2⟩ := h
  split at h2
  · simp only [Except.bind_ok_iff, Except.pure_ok_iff] at h2
    obtain ⟨st3, h3, h4⟩ := h2
    subst h4
    apply hR.then_setNodeType
    split at h3
    · simp only [Except.pure_ok_iff] at h3
      subst h3
      exact hR.then_setError _ (hR.report _ _ _)
    · exact CallExpNode.matchArgs_closed hR self _ _ _ _ h3
  · simp only [Except.pure_ok_iff] at h2
    subst h2
    exact hR.then_setError _ (hR.report _ _ _)

theorem AndNode.andNodeRule_closed {R : State → State → Prop} (hR : State.Closed R)
    (self myExp1 myExp2 : ASTNode) (st st2 : State)
    (h : AndNode.typeRule self myExp1 myExp2 st = Except.ok st2) : R st st2 := by
  simp only [AndNode.typeRule, bind, Except.bind, pure, Except.pure] at h
  repeat' split at h
  all_goals cases h
  all_goals
    repeat' first
      | exact hR.refl _
      | apply hR.then_setError
      | apply hR.then_report

theorem OrNode.orNodeRule_closed {R : State → State → Prop} (hR : State.Closed R)
    (self myExp1 myExp2 : ASTNode) (st st2 : State)
    (h : OrNode.typeRule self myExp1 myExp2 st = Except.ok st2) : R st st2 := by
  simp only [OrNode.typeRule, bind, Except.bind, pure, Except.pure] at h
  repeat' split at h
  all_goals cases h
  all_goals
    repeat' first
      | exact hR.refl _
      | apply hR.then_setError
      | apply hR.then_report

theorem NegNode.negNodeRule_closed {R : State → State → Prop} (hR : State.Closed R)
    (self myExp : ASTNode) (st st2 : State)
    (h : NegNode.typeRule self myExp st = Except.ok st2) : R st st2 := by
  simp only [NegNode.typeRule, bind, Except.bind, pure, Except.pure] at h
  repeat' split at h
  all_goals cases h
  all_goals
    repeat' first
      | exact hR.refl _
      | apply hR.then_setError
      | apply hR.then_setNodeType
      | apply hR.then_report

theorem NotNode.notNodeRule_closed {R : State → State → Prop} (hR : State.Closed R)
    (self myExp : ASTNode) (st st2 : State)
    (h : NotNode.typeRule self myExp st = Except.ok st2) : R st st2 := by
  simp only [NotNode.typeRule, bind, Except.bind, pure, Except.pure] at h
  repeat' split at h
  all_goals cases h
  all_goals
    repeat' first
      | exact hR.refl _
      | apply hR.then_setError
      | apply hR.then_setNodeType
      | apply hR.then_report

theorem opdScenario_closed {R : State → State → Prop} (hR : State.Closed R)
    (opd : ASTNode) (which : Addr) (accepts : DataType → Bool) (kind : ErrorKind)
    (st : State) (r : Bool × State)
    (h : opdScenario opd which accepts kind st = Except.ok r) : R st r.2 := by
  simp only [opdScenario, bind, Except.bind, pure, Except.pure] at h
  repeat' split at h
  all_goals cases h
  all_goals
    repeat' first
      | exact hR.refl _
      | apply hR.then_setError
      | apply hR.then_report

theorem opdTypeAnalysis_closed {R : State → State → Prop} (hR : State.Closed R)
    (analyse : State → Except Crash State) (opd : ASTNode) (scenarioOpd : String)
    (st : State) (r : Bool × State)
    (hana : ∀ a b, analyse a = Except.ok b → R a b)
    (h : opdTypeAnalysis analyse opd scenarioOpd st = Except.ok r) : R st r.2 := by
  simp only [opdTypeAnalysis, Except.bind_ok_iff, Except.pure_ok_iff] at h
  obtain ⟨st1, h1, which, _, r1, h2, r2, h3, r3, h4, r4, h5, h6⟩ := h
  subst h6
  have s1 : R st1 r1.2 := by
    split at h2
    · exact opdScenario_closed hR _ _ _ _ _ _ h2
    · simp only [Except.pure_ok_iff] at h2; subst h2; exact hR.refl _
  have s2 : R r1.2 r2.2 := by
    split at h3
    · exact opdScenario_closed hR _ _ _ _ _ _ h3
    · simp only [Except.pure_ok_iff] at h3; subst h3; exact hR.refl _
  have s3 : R r2.2 r3.2 := by
    split at h4
    · exact opdScenario_closed hR _ _ _ _ _ _ h4
    · simp only [Except.pure_ok_iff] at h4; subst h4; exact hR.refl _
  have s4 : R r3.2 r4.2 := by
    split at h5
    · exact opdScenario_closed hR _ _ _ _ _ _ h5
    · simp only [Except.pure_ok_iff] at h5; subst h5; exact hR.refl _
  exact hR.trans _ _ _ (hana _ _ h1) (hR.trans _ _ _ s1 (hR.trans _ _ _ s2 (hR.trans _ _ _ s3 s4)))

theorem EqualsNode.equalsNodeRule_closed {R : State → State → Prop} (hR : State.Closed R)
    (self myExp1 myExp2 : ASTNode) (tmp1 tmp2 : Bool) (st st2 : State)
    (h : EqualsNode.typeRule self myExp1 myExp2 tmp1 tmp2 st = Except.ok st2) : R st st2 := by
  simp only [EqualsNode.typeRule, bind, Except.bind, pure, Except.pure] at h
  repeat' split at h
  all_goals cases h
  all_goals
    repeat' first
      | exact hR.refl _
      | apply hR.then_setError
      | apply hR.then_setBasic
      | apply hR.then_report

theorem NotEqualsNode.notEqualsNodeRule_closed {R : State → State → Prop} (hR : State.Closed R)
    (self myExp1 myExp2 : ASTNode) (tmp1 tmp2 : Bool) (st st2 : State)
    (h : NotEqualsNode.typeRule self myExp1 myExp2 tmp1 tmp2 st = Except.ok st2) : R st st2 := by
  simp only [NotEqualsNode.typeRule, bind, Except.bind, pure, Except.pure] at h
  repeat' split at h
  all_goals cases h
  all_goals
    repeat' first
      | exact hR.refl _
      | apply hR.then_setError
      | apply hR.then_setBasic
      | apply hR.then_report


mutual
theorem ExpNode.expNode_closed {R : State → State → Prop} (hR : State.Closed R) :
    ∀ (e : ExpNode) (st st2 : State), e.typeAnalysis st = Except.ok st2 → R st st2
  | .lval l, st, st2, h => by
    simp only [ExpNode.typeAnalysis] at h
    exact LValNode.lValNode_closed hR l st st2 h
  | .assignExp a, st, st2, h => by
    simp only [ExpNode.typeAnalysis] at h
    exact AssignExpNode.assignExpNode_closed hR a st st2 h
  | .callExp c, st, st2, h => by
    simp only [ExpNode.typeAnalysis] at h
    exact CallExpNode.callExpNode_closed hR c st st2 h
  | .plusNode n e1 e2, st, st2, h => by
    simp only [ExpNode.typeAnalysis, Except.bind_ok_iff] at h
    obtain ⟨s1, h1, s2, h2, h3⟩ := h
    exact hR.trans _ _ _ (ExpNode.expNode_closed hR e1 _ _ h1)
      (hR.trans _ _ _ (ExpNode.expNode_closed hR e2 _ _ h2)
        (binaryIntRule_closed hR _ _ _ _ _ _ _ _ _ h3))
  | .minusNode n e1 e2, st, st2, h => by
    simp only [ExpNode.typeAnalysis, Except.bind_ok_iff] at h
    obtain ⟨s1, h1, s2, h2, h3⟩ := h
    exact hR.trans _ _ _ (ExpNode.expNode_closed hR e1 _ _ h1)
      (hR.trans _ _ _ (ExpNode.expNode_closed hR e2 _ _ h2)
        (binaryIntRule_closed hR _ _ _ _ _ _ _ _ _ h3))
  | .timesNode n e1 e2, st, st2, h => by
    simp only [ExpNode.typeAnalysis, Except.bind_ok_iff] at h
    obtain ⟨s1, h1, s2, h2, h3⟩ := h
    exact hR.trans _ _ _ (ExpNode.expNode_closed hR e1 _ _ h1)
      (hR.trans _ _ _ (ExpNode.expNode_closed hR e2 _ _ h2)
        (binaryIntRule_closed hR _ _ _ _ _ _ _ _ _ h3))
  | .divideNode n e1 e2, st, st2, h => by
    simp only [ExpNode.typeAnalysis, Except.bind_ok_iff] at h
    obtain ⟨s1, h1, s2, h2, h3⟩ := h
    exact hR.trans _ _ _ (ExpNode.expNode_closed hR e1 _ _ h1)
      (hR.trans _ _ _ (ExpNode.expNode_closed hR e2 _ _ h2)
        (binaryIntRule_closed hR _ _ _ _ _ _ _ _ _ h3))
  | .andNode n e1 e2, st, st2, h => by
    simp only [ExpNode.typeAnalysis, Except.bind_ok_iff] at h
    obtain ⟨s1, h1, s2, h2, h3⟩ := h
    exact hR.trans _ _ _ (ExpNode.expNode_closed hR e1 _ _ h1)
      (hR.trans _ _ _ (ExpNode.expNode_closed hR e2 _ _ h2)
        (AndNode.andNodeRule_closed hR _ _ _ _ _ h3))
  | .orNode n e1 e2, st, st2, h => by
    simp only [ExpNode.typeAnalysis, Except.bind_ok_iff] at h
    obtain ⟨s1, h1, s2, h2, h3⟩ := h
    exact hR.trans _ _ _ (ExpNode.expNode_closed hR e1 _ _ h1)
      (hR.trans _ _ _ (ExpNode.expNode_closed hR e2 _ _ h2)
        (OrNode.orNodeRule_closed hR _ _ _ _ _ h3))
  | .equalsNode n e1 e2, st, st2, h => by
    simp only [ExpNode.typeAnalysis, Except.bind_ok_iff] at h
    obtain ⟨r1, h1, r2, h2, h3⟩ := h
    exact hR.trans _ _ _
      (opdTypeAnalysis_closed hR _ _ _ _ _ (ExpNode.expNode_closed hR e1) h1)
      (hR.trans _ _ _
        (opdTypeAnalysis_closed hR _ _ _ _ _ (ExpNode.expNode_closed hR e2) h2)
        (EqualsNode.equalsNodeRule_closed hR _ _ _ _ _ _ _ h3))
  | .notEqualsNode n e1 e2, st, st2, h => by
    simp only [ExpNode.typeAnalysis, Except.bind_ok_iff] at h
    obtain ⟨r1, h1, r2, h2, h3⟩ := h
    exact hR.trans _ _ _
      (opdTypeAnalysis_closed hR _ _ _ _ _ (ExpNode.expNode_closed hR e1) h1)
      (hR.trans _ _ _
        (opdTypeAnalysis_closed hR _ _ _ _ _ (ExpNode.expNode_closed hR e2) h2)
        (NotEqualsNode.notEqualsNodeRule_closed hR _ _ _ _ _ _ _ h3))
  | .lessNode n e1 e2, st, st2, h => by
    simp only [ExpNode.typeAnalysis, Except.bind_ok_iff] at h
    obtain ⟨s1, h1, s2, h2, h3⟩ := h
    exact hR.trans _ _ _ (ExpNode.expNode_closed hR e1 _ _ h1)
      (hR.trans _ _ _ (ExpNode.expNode_closed hR e2 _ _ h2)
        (binaryIntRule_closed hR _ _ _ _ _ _ _ _ _ h3))
  | .lessEqNode n e1 e2, st, st2, h => by
    simp only [ExpNode.typeAnalysis, Except.bind_ok_iff] at h
    obtain ⟨s1, h1, s2, h2, h3⟩ := h
    exact hR.trans _ _ _ (ExpNode.expNode_closed hR e1 _ _ h1)
      (hR.trans _ _ _ (ExpNode.expNode_closed hR e2 _ _ h2)
        (binaryIntRule_closed hR _ _ _ _ _ _ _ _ _ h3))
  | .greaterNode n e1 e2, st, st2, h => by
    simp only [ExpNode.typeAnalysis, Except.bind_ok_iff] at h
    obtain ⟨s1, h1, s2, h2, h3⟩ := h
    exact hR.trans _ _ _ (ExpNode.expNode_closed hR e1 _ _ h1)
      (hR.trans _ _ _ (ExpNode.expNode_closed hR e2 _ _ h2)
        (binaryIntRule_closed hR _ _ _ _ _ _ _ _ _ h3))
  | .greaterEqNode n e1 e2, st, st2, h => by
    simp only [ExpNode.typeAnalysis, Except.bind_ok_iff] at h
    obtain ⟨s1, h1, s2, h2, h3⟩ := h
    exact hR.trans _ _ _ (ExpNode.expNode_closed hR e1 _ _ h1)
      (hR.trans _ _ _ (ExpNode.expNode_closed hR e2 _ _ h2)
        (binaryIntRule_closed hR _ _ _ _ _ _ _ _ _ h3))
  | .refNode r, st, st2, h => by
    simp only [ExpNode.typeAnalysis] at h
    exact RefNode.refNode_closed hR r st st2 h
  | .negNode n e, st, st2, h => by
    simp only [ExpNode.typeAnalysis, Except.bind_ok_iff] at h
    obtain ⟨s1, h1, h2⟩ := h
    exact hR.trans _ _ _ (ExpNode.expNode_closed hR e _ _ h1)
      (NegNode.negNodeRule_closed hR _ _ _ _ h2)
  | .notNode n e, st, st2, h => by
    simp only [ExpNode.typeAnalysis, Except.bind_ok_iff] at h
    obtain ⟨s1, h1, h2⟩ := h
    exact hR.trans _ _ _ (ExpNode.expNode_closed hR e _ _ h1)
      (NotNode.notNodeRule_closed hR _ _ _ _ h2)
  | .shortLitNode n, st, st2, h => by
    simp only [ExpNode.typeAnalysis, Except.pure_ok_iff] at h
    subst h
    exact hR.then_setBasic _ _ (hR.refl _)
  | .intLitNode n, st, st2, h => by
    simp only [ExpNode.typeAnalysis, Except.pure_ok_iff] at h
    subst h
    exact hR.then_setBasic _ _ (hR.refl _)
  | .strLitNode n, st, st2, h => by
    simp only [ExpNode.typeAnalysis, Except.pure_ok_iff] at h
    subst h
    exact hR.then_setBasic _ _ (hR.refl _)
  | .trueNode n, st, st2, h => by
    simp only [ExpNode.typeAnalysis, Except.pure_ok_iff] at h
    subst h
    exact hR.then_setBasic _ _ (hR.refl _)
  | .falseNode n, st, st2, h => by
    simp only [ExpNode.typeAnalysis, Except.pure_ok_iff] at h
    subst h
    exact hR.then_setBasic _ _ (hR.refl _)
theorem AssignExpNode.assignExpNode_closed {R : State → State → Prop} (hR : State.Closed R) :
    ∀ (a : AssignExpNode) (st st2 : State), a.typeAnalysis st = Except.ok st2 → R st st2
  | .mk n myDst mySrc, st, st2, h => by
    simp only [AssignExpNode.typeAnalysis, Except.bind_ok_iff] at h
    obtain ⟨s1, h1, s2, h2, h3⟩ := h
    exact hR.trans _ _ _ (LValNode.lValNode_closed hR myDst _ _ h1)
      (hR.trans _ _ _ (ExpNode.expNode_closed hR mySrc _ _ h2)
        (AssignExpNode.assignExpNodeRule_closed hR _ _ _ _ _ h3))
theorem CallExpNode.callExpNode_closed {R : State → State → Prop} (hR : State.Closed R) :
    ∀ (c : CallExpNode) (st st2 : State), c.typeAnalysis st = Except.ok st2 → R st st2
  | .mk n myID myArgs, st, st2, h => by
    simp only [CallExpNode.typeAnalysis, Except.bind_ok_iff] at h
    obtain ⟨s1, h1, h2⟩ := h
    exact hR.trans _ _ _ (CallExpNode.analyseArgs_closed hR myArgs _ _ h1)
      (CallExpNode.callExpNodeRule_closed hR _ _ _ _ _ h2)
theorem CallExpNode.analyseArgs_closed {R : State → State → Prop} (hR : State.Closed R) :
    ∀ (myArgs : List ExpNode) (st st2 : State),
      CallExpNode.analyseArgs myArgs st = Except.ok st2 → R st st2
  | [], st, st2, h => by
    simp only [CallExpNode.analyseArgs, Except.pure_ok_iff] at h
    subst h
    exact hR.refl _
  | arg :: myArgs, st, st2, h => by
    simp only [CallExpNode.analyseArgs, Except.bind_ok_iff] at h
    obtain ⟨s1, h1, h2⟩ := h
    exact hR.trans _ _ _ (ExpNode.expNode_closed hR arg _ _ h1)
      (CallExpNode.analyseArgs_closed hR myArgs _ _ h2)
end


theorem AssignStmtNode.assignStmtNode_closed {R : State → State → Prop} (hR : State.Closed R)
    (self : AssignStmtNode) (st st2 : State)
    (h : self.typeAnalysis st = Except.ok st2) : R st st2 := by
  simp only [AssignStmtNode.typeAnalysis, Except.bind_ok_iff] at h
  obtain ⟨s1, h1, subType, _, obj, _, h2⟩ := h
  refine hR.trans _ _ _ (AssignExpNode.assignExpNode_closed hR _ _ _ h1) ?_
  split at h2 <;> simp only [Except.pure_ok_iff] at h2 <;> subst h2
  · exact hR.setNodeType _ _ _
  · exact hR.then_setBasic _ _ (hR.refl _)

theorem CallStmtNode.callStmtNode_closed {R : State → State → Prop} (hR : State.Closed R)
    (self : CallStmtNode) (st st2 : State)
    (h : self.typeAnalysis st = Except.ok st2) : R st st2 := by
  simp only [CallStmtNode.typeAnalysis, Except.bind_ok_iff, Except.pure_ok_iff] at h
  obtain ⟨s1, h1, h2⟩ := h
  subst h2
  exact hR.then_setBasic _ _ (CallExpNode.callExpNode_closed hR _ _ _ h1)

theorem ReturnStmtNode.returnStmtNode_closed {R : State → State → Prop} (hR : State.Closed R)
    (self : ReturnStmtNode) (st st2 : State)
    (h : self.typeAnalysis st = Except.ok st2) : R st st2 := by
  have hvoid : R st { st with reg := (BasicType.VOID st.reg).2 } :=
    hR.setReg st _ (TypeRegistry.Step.produceBasic BaseType.VOID st.reg)
  simp only [ReturnStmtNode.typeAnalysis, Except.bind_ok_iff] at h
  obtain ⟨fn, _, h2⟩ := h
  split at h2
  · rename_i myExp _
    split at h2
    · simp only [Except.bind_ok_iff] at h2
      obtain ⟨s1, h1, subType, _, h3⟩ := h2
      have he := hR.trans _ _ _ hvoid (ExpNode.expNode_closed hR myExp _ _ h1)
      split at h3
      · simp only [Except.bind_ok_iff] at h3
        obtain ⟨obj, _, h4⟩ := h3
        split at h4 <;> simp only [Except.pure_ok_iff] at h4 <;> subst h4
        · exact hR.then_setError _ (hR.then_report _ _ he)
        · exact hR.then_setBasic _ _ he
      · simp only [Except.pure_ok_iff] at h3
        subst h3
        exact hR.then_setBasic _ _ he
    · simp only [Except.bind_ok_iff, Except.pure_ok_iff] at h2
      obtain ⟨s1, h1, h3⟩ := h2
      subst h3
      exact hR.then_setError _ (hR.then_report _ _
        (hR.trans _ _ _ hvoid (ExpNode.expNode_closed hR myExp _ _ h1)))
  · split at h2 <;> simp only [Except.pure_ok_iff] at h2 <;> subst h2
    · exact hR.then_setError _ (hR.then_report _ _ hvoid)
    · exact hR.then_setBasic _ _ hvoid

theorem condRule_closed {R : State → State → Prop} (hR : State.Closed R)
    (kind : ErrorKind) (self myCond : ASTNode) (st st2 : State)
    (h : condRule kind self myCond st = Except.ok st2) : R st st2 := by
  simp only [condRule, bind, Except.bind, pure, Except.pure] at h
  repeat' split at h
  all_goals cases h
  all_goals
    repeat' first
      | exact hR.refl _
      | apply hR.then_setError
      | apply hR.then_report

theorem PostDecStmtNode.postDecStmtNode_closed {R : State → State → Prop} (hR : State.Closed R)
    (self : PostDecStmtNode) (st st2 : State)
    (h : self.typeAnalysis st = Except.ok st2) : R st st2 := by
  simp only [PostDecStmtNode.typeAnalysis, Except.bind_ok_iff, Except.pure_ok_iff] at h
  obtain ⟨s1, h1, lValType, _, obj, _, h2⟩ := h
  subst h2
  have hl := LValNode.lValNode_closed hR _ _ _ h1
  apply hR.then_setBasic
  split
  · exact hR.then_setError _ (hR.then_report _ _ hl)
  · exact hl

theorem PostIncStmtNode.postIncStmtNode_closed {R : State → State → Prop} (hR : State.Closed R)
    (self : PostIncStmtNode) (st st2 : State)
    (h : self.typeAnalysis st = Except.ok st2) : R st st2 := by
  simp only [PostIncStmtNode.typeAnalysis, Except.bind_ok_iff, Except.pure_ok_iff] at h
  obtain ⟨s1, h1, lValType, _, obj, _, h2⟩ := h
  subst h2
  have hl := LValNode.lValNode_closed hR _ _ _ h1
  apply hR.then_setBasic
  split
  · exact hR.then_setError _ (hR.then_report _ _ hl)
  · exact hl

theorem WriteStmtNode.writeStmtNode_closed {R : State → State → Prop} (hR : State.Closed R)
    (self : WriteStmtNode) (st st2 : State)
    (h : self.typeAnalysis st = Except.ok st2) : R st st2 := by
  simp only [WriteStmtNode.typeAnalysis, Except.bind_ok_iff] at h
  obtain ⟨s1, h1, subType, _, obj, _, h2⟩ := h
  have he := ExpNode.expNode_closed hR _ _ _ h1
  repeat' split at h2
  all_goals simp only [Except.pure_ok_iff] at h2
  all_goals subst h2
  all_goals
    first
      | exact hR.then_setError _ (hR.then_report _ _ he)
      | exact hR.then_setBasic _ _ he

theorem ReadStmtNode.readStmtNode_closed {R : State → State → Prop} (hR : State.Closed R)
    (self : ReadStmtNode) (st st2 : State)
    (h : self.typeAnalysis st = Except.ok st2) : R st st2 := by
  simp only [ReadStmtNode.typeAnalysis, Except.bind_ok_iff] at h
  obtain ⟨s1, h1, subType, _, obj, _, h2⟩ := h
  have he := LValNode.lValNode_closed hR _ _ _ h1
  repeat' split at h2
  all_goals simp only [Except.pure_ok_iff] at h2
  all_goals subst h2
  all_goals
    first
      | exact hR.then_setError _ (hR.then_report _ _ he)
      | exact hR.then_setBasic _ _ he

/-- The reflexive-transitive closure of registry steps holds across `TypeNode::getType`. -/
theorem TypeNode.getType_closed {R : State → State → Prop} (hR : State.Closed R) :
    ∀ (t : TypeNode) (st : State), R st { st with reg := (t.getType st.reg).2 } := by
  intro t
  induction t with
  | voidTypeNode n => intro st; exact hR.setReg st _ (TypeRegistry.Step.produceBasic _ _)
  | intTypeNode n => intro st; exact hR.setReg st _ (TypeRegistry.Step.produceBasic _ _)
  | shortTypeNode n => intro st; exact hR.setReg st _ (TypeRegistry.Step.produceBasic _ _)
  | boolTypeNode n => intro st; exact hR.setReg st _ (TypeRegistry.Step.produceBasic _ _)
  | stringTypeNode n => intro st; exact hR.setReg st _ (TypeRegistry.Step.produceBasic _ _)
  | ptrTypeNode n b ih =>
    intro st
    exact hR.trans _ _ _ (ih st)
      (hR.setReg { st with reg := (b.getType st.reg).2 } _
        (TypeRegistry.Step.producePtr (b.getType st.reg).1 _))

theorem FnDeclNode.formalTypes_closed {R : State → State → Prop} (hR : State.Closed R) :
    ∀ (myFormals : List FormalDeclNode) (st : State),
      R st { st with reg := (FnDeclNode.formalTypes myFormals st.reg).2 } := by
  intro myFormals
  induction myFormals with
  | nil => intro st; exact hR.refl _
  | cons formal rest ih =>
    intro st
    exact hR.trans _ _ _ (TypeNode.getType_closed hR formal.getTypeNode st)
      (ih { st with reg := (formal.getTypeNode.getType st.reg).2 })

theorem FnDeclNode.enter_closed {R : State → State → Prop} (hR : State.Closed R)
    (self : ASTNode) (myRetType : TypeNode) (myFormals : List FormalDeclNode) (st : State) :
    R st (FnDeclNode.enter self myRetType myFormals st) := by
  unfold FnDeclNode.enter
  have h1 := hR.recordFnType st self.addr
  have h2 := FnDeclNode.formalTypes_closed hR myFormals (st.setNodeType self.addr st.getCurrentFnType)
  have h3 := TypeNode.getType_closed hR myRetType
    { (st.setNodeType self.addr st.getCurrentFnType) with
      reg := (FnDeclNode.formalTypes myFormals (st.setNodeType self.addr st.getCurrentFnType).reg).2 }
  have h4 := hR.setReg
    { (st.setNodeType self.addr st.getCurrentFnType) with
      reg := (myRetType.getType (FnDeclNode.formalTypes myFormals
        (st.setNodeType self.addr st.getCurrentFnType).reg).2).2 } _
    (TypeRegistry.Step.newFn
      (FnDeclNode.formalTypes myFormals (st.setNodeType self.addr st.getCurrentFnType).reg).1
      (myRetType.getType (FnDeclNode.formalTypes myFormals
        (st.setNodeType self.addr st.getCurrentFnType).reg).2).1 _)
  exact hR.trans _ _ _ h1 (hR.trans _ _ _ h2 (hR.trans _ _ _ h3 (hR.trans _ _ _ h4
    (hR.setCurrentFnType _ _))))

mutual
theorem StmtNode.stmtNode_closed {R : State → State → Prop} (hR : State.Closed R) :
    ∀ (s : StmtNode) (st st2 : State), s.typeAnalysis st = Except.ok st2 → R st st2
  | .decl d, st, st2, h => by
    simp only [StmtNode.typeAnalysis] at h
    exact DeclNode.declNode_closed hR d st st2 h
  | .assignStmt s, st, st2, h => by
    simp only [StmtNode.typeAnalysis] at h
    exact AssignStmtNode.assignStmtNode_closed hR s st st2 h
  | .readStmt s, st, st2, h => by
    simp only [StmtNode.typeAnalysis] at h
    exact ReadStmtNode.readStmtNode_closed hR s st st2 h
  | .writeStmt s, st, st2, h => by
    simp only [StmtNode.typeAnalysis] at h
    exact WriteStmtNode.writeStmtNode_closed hR s st st2 h
  | .postDecStmt s, st, st2, h => by
    simp only [StmtNode.typeAnalysis] at h
    exact PostDecStmtNode.postDecStmtNode_closed hR s st st2 h
  | .postIncStmt s, st, st2, h => by
    simp only [StmtNode.typeAnalysis] at h
    exact PostIncStmtNode.postIncStmtNode_closed hR s st st2 h
  | .ifStmt n myCond myBody, st, st2, h => by
    simp only [StmtNode.typeAnalysis, Except.bind_ok_iff, Except.pure_ok_iff] at h
    obtain ⟨s1, h1, s2, h2, s3, h3, h4⟩ := h
    subst h4
    exact hR.then_setBasic _ _ (hR.trans _ _ _ (ExpNode.expNode_closed hR _ _ _ h1)
      (hR.trans _ _ _ (condRule_closed hR _ _ _ _ _ h2)
        (StmtNode.analyseList_closed hR myBody _ _ h3)))
  | .ifElseStmt n myCond myBodyTrue myBodyFalse, st, st2, h => by
    simp only [StmtNode.typeAnalysis, Except.bind_ok_iff, Except.pure_ok_iff] at h
    obtain ⟨s1, h1, s2, h2, s3, h3, s4, h4, h5⟩ := h
    subst h5
    exact hR.then_setBasic _ _ (hR.trans _ _ _ (ExpNode.expNode_closed hR _ _ _ h1)
      (hR.trans _ _ _ (condRule_closed hR _ _ _ _ _ h2)
        (hR.trans _ _ _ (StmtNode.analyseList_closed hR myBodyTrue _ _ h3)
          (StmtNode.analyseList_closed hR myBodyFalse _ _ h4))))
  | .whileStmt n myCond myBody, st, st2, h => by
    simp only [StmtNode.typeAnalysis, Except.bind_ok_iff, Except.pure_ok_iff] at h
    obtain ⟨s1, h1, s2, h2, s3, h3, h4⟩ := h
    subst h4
    exact hR.then_setBasic _ _ (hR.trans _ _ _ (ExpNode.expNode_closed hR _ _ _ h1)
      (hR.trans _ _ _ (condRule_closed hR _ _ _ _ _ h2)
        (StmtNode.analyseList_closed hR myBody _ _ h3)))
  | .returnStmt s, st, st2, h => by
    simp only [StmtNode.typeAnalysis] at h
    exact ReturnStmtNode.returnStmtNode_closed hR s st st2 h
  | .callStmt s, st, st2, h => by
    simp only [StmtNode.typeAnalysis] at h
    exact CallStmtNode.callStmtNode_closed hR s st st2 h
theorem DeclNode.declNode_closed {R : State → State → Prop} (hR : State.Closed R) :
    ∀ (d : DeclNode) (st st2 : State), d.typeAnalysis st = Except.ok st2 → R st st2
  | .varDecl v, st, st2, h => by
    simp only [DeclNode.typeAnalysis, Except.pure_ok_iff] at h
    subst h
    exact hR.then_setBasic _ _ (hR.refl _)
  | .fnDecl n myRetType myID myFormals myBody, st, st2, h => by
    simp only [DeclNode.typeAnalysis] at h
    exact hR.trans _ _ _ (FnDeclNode.enter_closed hR n myRetType myFormals st)
      (StmtNode.analyseList_closed hR myBody _ _ h)
theorem StmtNode.analyseList_closed {R : State → State → Prop} (hR : State.Closed R) :
    ∀ (body : List StmtNode) (st st2 : State),
      StmtNode.analyseList body st = Except.ok st2 → R st st2
  | [], st, st2, h => by
    simp only [StmtNode.analyseList, Except.pure_ok_iff] at h
    subst h
    exact hR.refl _
  | stmt :: body, st, st2, h => by
    simp only [StmtNode.analyseList, Except.bind_ok_iff] at h
    obtain ⟨s1, h1, h2⟩ := h
    exact hR.trans _ _ _ (StmtNode.stmtNode_closed hR stmt _ _ h1)
      (StmtNode.analyseList_closed hR body _ _ h2)
end

theorem ProgramNode.analyseGlobals_closed {R : State → State → Prop} (hR : State.Closed R) :
    ∀ (myGlobals : List DeclNode) (st st2 : State),
      ProgramNode.analyseGlobals myGlobals st = Except.ok st2 → R st st2 := by
  intro myGlobals
  induction myGlobals with
  | nil =>
    intro st st2 h
    simp only [ProgramNode.analyseGlobals, Except.pure_ok_iff] at h
    subst h
    exact hR.refl _
  | cons g rest ih =>
    intro st st2 h
    simp only [ProgramNode.analyseGlobals, Except.bind_ok_iff] at h
    obtain ⟨s1, h1, h2⟩ := h
    exact hR.trans _ _ _ (DeclNode.declNode_closed hR g _ _ h1) (ih _ _ h2)

/-- Whatever holds across every primitive of the pass holds across the whole traversal. -/
theorem ProgramNode.programNode_closed {R : State → State → Prop} (hR : State.Closed R)
    (self : ProgramNode) (st st2 : State)
    (h : self.typeAnalysis st = Except.ok st2) : R st st2 := by
  simp only [ProgramNode.typeAnalysis, Except.bind_ok_iff, Except.pure_ok_iff] at h
  obtain ⟨s1, h1, h2⟩ := h
  subst h2
  exact hR.then_setBasic _ _ (ProgramNode.analyseGlobals_closed hR _ _ _ h1)


/-! ## The static of `ErrorType::produce` stays sound -/


theorem TypeRegistry.errorOK_empty : TypeRegistry.empty.ErrorOK := by
  intro a h; cases h

/-- A call into `types.hpp` keeps the static of `ErrorType::produce` sound. -/
theorem TypeRegistry.errorOK_step (r r2 : TypeRegistry) (hstep : TypeRegistry.Step r r2)
    (h : r.ErrorOK) : r2.ErrorOK := by
  cases hstep with
  | produceError =>
    intro a ha
    have hd := ErrorType.deref_produceError r h
    unfold ErrorType.produce at ha hd ⊢
    cases he : r.error with
    | some e => simp only [he] at ha hd ⊢; cases ha; exact hd
    | none => simp only [he] at ha hd ⊢; cases ha; exact hd
  | produceBasic base =>
    intro a ha
    have hd : ∀ o, r.deref a = some o → (BasicType.produce base r).2.deref a = some o :=
      fun o => BasicType.deref_produceBasic_of base r o a
    apply hd
    apply h
    unfold BasicType.produce at ha
    split at ha <;> simpa [TypeRegistry.alloc] using ha
  | producePtr baseType =>
    intro a ha
    unfold PtrType.produce at ha ⊢
    cases hf : PtrType.find baseType r.map with
    | none =>
      simp only [hf] at ha ⊢
      have := TypeRegistry.deref_alloc r (DataType.ptr { myBase := baseType }) DataType.error a
        (h a (by simpa [TypeRegistry.alloc] using ha))
      simpa [TypeRegistry.deref] using this
    | some res =>
      simp only [hf] at ha ⊢
      exact h a ha
  | newFn formalsIn retTypeIn =>
    intro a ha
    exact TypeRegistry.deref_alloc r _ DataType.error a
      (h a (by simpa [FnType.new, TypeRegistry.alloc] using ha))

/-- Soundness of the static of `ErrorType::produce` holds across every primitive of the pass,
hence across the pass. -/
theorem State.errorOK_closed :
    State.Closed (fun st st2 => st.reg.ErrorOK → st2.reg.ErrorOK) where
  refl := fun _ h => h
  trans := fun _ _ _ hab hbc h => hbc (hab h)
  setNodeType := fun _ _ _ h => h
  recordFnType := fun _ _ h => h
  report := fun _ _ _ h => h
  setCurrentFnType := fun _ _ h => h
  setReg := fun st r hstep h => TypeRegistry.errorOK_step st.reg r hstep h


/-! ## The entry point -/

theorem State.reported_closed : State.Closed State.Reported where
  refl := fun st => ⟨[], by simp, by simp⟩
  trans := by
    intro a b c hab hbc
    obtain ⟨n1, h1, h2⟩ := hab
    obtain ⟨n2, h3, h4⟩ := hbc
    refine ⟨n1 ++ n2, ?_, ?_⟩
    · rw [h3, h1, List.append_assoc]
    · rw [h4, h2]
      cases n1 <;> cases n2 <;> simp
  setNodeType := fun st _ _ => ⟨[], by simp [State.setNodeType], by simp [State.setNodeType]⟩
  recordFnType := fun st _ => ⟨[], by simp [State.setNodeType], by simp [State.setNodeType]⟩
  report := fun st kind pos => ⟨[{ kind := kind, pos := pos }], rfl, by simp [State.report]⟩
  setCurrentFnType := fun st _ =>
    ⟨[], by simp [State.setCurrentFnType], by simp [State.setCurrentFnType]⟩
  setReg := fun st _ _ => ⟨[], by simp, by simp⟩

/-- On the traversals that run to their end, `TypeAnalysis::build` returns null if and only if
at least one diagnostic was reported during the traversal, and when none was reported it returns
the context the traversal populated. When the traversal stops with an internal error or a null
dereference, `build` does not return. -/
theorem TypeAnalysis.build_of_traversal (nameAnalysis : NameAnalysis) (reg : TypeRegistry)
    (reports : List Diagnostic) :
    (∀ st2 : State,
      nameAnalysis.ast.typeAnalysis
        { reg := reg, reports := reports,
          ta := { TypeAnalysis.new with ast := some nameAnalysis.ast.addr } } = Except.ok st2 →
      ∃ (result : Option TypeAnalysis) (new : List Diagnostic),
        TypeAnalysis.build nameAnalysis reg reports = Except.ok (result, st2) ∧
        st2.reports = reports ++ new ∧
        (result = none ↔ new ≠ []) ∧
        (new = [] → result = some st2.ta)) ∧
    (∀ c : Crash,
      nameAnalysis.ast.typeAnalysis
        { reg := reg, reports := reports,
          ta := { TypeAnalysis.new with ast := some nameAnalysis.ast.addr } } = Except.error c →
      TypeAnalysis.build nameAnalysis reg reports = Except.error c) := by
  constructor
  · intro st2 h
    obtain ⟨new, hrep, hflag⟩ :=
      ProgramNode.programNode_closed State.reported_closed nameAnalysis.ast _ st2 h
    have hflag2 : st2.ta.hasError = !new.isEmpty := by
      simpa [TypeAnalysis.new] using hflag
    cases hnew : new with
    | nil =>
      have hf : st2.ta.hasError = false := by rw [hflag2, hnew]; rfl
      refine ⟨some st2.ta, [], ?_, by rw [hrep, hnew], by simp, fun _ => rfl⟩
      simp only [TypeAnalysis.build, h, bind, Except.bind, hf, pure, Except.pure]
      rfl
    | cons d rest =>
      have hf : st2.ta.hasError = true := by rw [hflag2, hnew]; rfl
      refine ⟨none, d :: rest, ?_, by rw [hrep, hnew], by simp, fun hc => by cases hc⟩
      simp only [TypeAnalysis.build, h, bind, Except.bind, hf, pure, Except.pure]
      rfl
  · intro c h
    simp only [TypeAnalysis.build, h, bind, Except.bind]

/-- The traversal of `bool b; void g(){ b = true && false; }` raises no diagnostic and stops
with the internal error when the assignment asks for the type of its source, so `build` does not
return. -/
theorem TypeAnalysis.build_aborts :
    TypeAnalysis.build { ast := Example.programAnd } Example.reg []
      = Except.error Crash.internalError := rfl

/-- The program `int x; void g(){ x = 5; return; }` raises no diagnostic and `build` returns
the populated context. -/
theorem TypeAnalysis.build_of_traversal_program :
    ∃ (result : Option TypeAnalysis) (new : List Diagnostic),
      TypeAnalysis.build { ast := Example.program } Example.reg []
        = Except.ok (result, Example.programEnd) ∧
      Example.programEnd.reports = [] ++ new ∧
      (result = none ↔ new ≠ []) ∧
      (new = [] → result = some Example.programEnd.ta) :=
  (TypeAnalysis.build_of_traversal { ast := Example.program } Example.reg []).1
    Example.programEnd rfl

/-- C1 (the code departs from the claim): for the name-resolved, well-typed program
`bool b; void g(){ b = true && false; }` no diagnostic is reported during the traversal, yet
`TypeAnalysis::build` returns neither the populated context nor null: it is left through the
internal error. The traversal reaches the assignment with the declaration of `b`, the entry of
`g`, the destination `b` and the source `true && false` all analysed, nothing reported and the
failure flag clear; `AndNode::typeAnalysis` has recorded no type for the source (node 40), so
the `nodeType(mySrc)` of `AssignExpNode::typeAnalysis` throws. -/
theorem C1_build_throws_without_diagnostic :
    TypeAnalysis.build { ast := Example.programAnd } Example.reg []
      = Except.error Crash.internalError ∧
    ∃ s : State,
      Example.andTrueFalse.typeAnalysis
        ((Example.ident 12 1).typeAnalysis
          (FnDeclNode.enter (Example.node 5) (TypeNode.voidTypeNode (Example.node 6)) []
            (VarDeclNode.typeAnalysis
              { toASTNode := Example.node 2, myType := TypeNode.boolTypeNode (Example.node 3),
                myID := Example.ident 4 1 }
              { reg := Example.reg, reports := [],
                ta := { TypeAnalysis.new with ast := some 1 } }))) = Except.ok s ∧
      s.reports = [] ∧ s.ta.hasError = false ∧
      s.nodeType 40 = Except.error Crash.internalError ∧
      AssignExpNode.typeRule (Example.node 11) (Example.node 12) (Example.node 40) s
        = Except.error Crash.internalError :=
  ⟨rfl, _, rfl, rfl, rfl, rfl, rfl⟩

/-! ## Logical operators: operands that are not basic types -/

/-- `p->asBasic()->isBool()` goes through a null pointer whenever the object is not a
`BasicType`: a pointer type, a function type or the Error type. -/
theorem State.asBasicIsBool_null (st : State) (p : Addr) (obj : DataType)
    (hobj : st.deref p = Except.ok obj) (hbasic : obj.asBasic = none) :
    st.asBasicIsBool p = Except.error Crash.nullDeref := by
  simp only [State.asBasicIsBool, hobj, hbasic, bind, Except.bind]
  rfl

/-- `AndNode::typeAnalysis` and `OrNode::typeAnalysis` stop with a null dereference whenever the
left operand is recorded with a type that is not a basic type. -/
theorem AndNode.logicRule_nullDeref (self myExp1 myExp2 : ASTNode) (st : State)
    (left right : Addr) (obj : DataType)
    (hl : st.nodeType myExp1.addr = Except.ok left)
    (hr : st.nodeType myExp2.addr = Except.ok right)
    (hobj : st.deref left = Except.ok obj) (hbasic : obj.asBasic = none) :
    AndNode.typeRule self myExp1 myExp2 st = Except.error Crash.nullDeref ∧
    OrNode.typeRule self myExp1 myExp2 st = Except.error Crash.nullDeref := by
  have h := State.asBasicIsBool_null st left obj hobj hbasic
  constructor
  · simp only [AndNode.typeRule, hl, hr, h, bind, Except.bind]
  · simp only [OrNode.typeRule, hl, hr, h, bind, Except.bind]

/-- C11 (the code departs from the claim): for `p && true` and `true && p` with `int *p`, for
`*x || true` with `int x` (left operand of type Error) and for `f || true` with a function `f`,
each with an operand that is not Bool, the analysis does not complete: it calls `isBool()`
through the null result of `asBasic()`. No LogicOperand diagnostic is raised and nothing is
recorded for the node. -/
theorem C11_logical_non_basic_operand_null_deref :
    Example.andPtrTrue.typeAnalysis Example.st = Except.error Crash.nullDeref ∧
    Example.andTruePtr.typeAnalysis Example.st = Except.error Crash.nullDeref ∧
    Example.orErrorTrue.typeAnalysis Example.st = Except.error Crash.nullDeref ∧
    Example.orFnTrue.typeAnalysis Example.st = Except.error Crash.nullDeref :=
  ⟨rfl, rfl, rfl, rfl⟩

/-! ## Arithmetic and relational operators -/

/-- One operand test: a report exactly when the resolved type of the operand is not Int. -/
theorem State.intOperand_eq (st : State) (opd : Addr) (kind : ErrorKind) (pos : Position)
    (o : DataType) (h : st.reg.resolved opd = some o) :
    st.intOperand opd kind pos
      = Except.ok (if o.isInt then st else st.report kind pos) := by
  unfold TypeRegistry.resolved at h
  cases hd : st.reg.deref opd with
  | none => rw [hd] at h; cases h
  | some obj =>
    rw [hd] at h
    have hobj : st.deref opd = Except.ok obj := (State.deref_ok_iff st opd obj).mpr hd
    cases obj with
    | fn f =>
      have hret : st.deref f.getReturnType = Except.ok o :=
        (State.deref_ok_iff st _ o).mpr h
      simp only [State.intOperand, hobj, DataType.asFn, hret, bind, Except.bind, pure,
        Except.pure]
      cases o.isInt <;> rfl
    | error =>
      cases h
      simp only [State.intOperand, hobj, DataType.asFn, bind, Except.bind, pure, Except.pure]
      rfl
    | basic b =>
      cases h
      simp only [State.intOperand, hobj, DataType.asFn, bind, Except.bind, pure, Except.pure]
      cases (DataType.basic b).isInt <;> rfl
    | ptr q =>
      cases h
      simp only [State.intOperand, hobj, DataType.asFn, bind, Except.bind, pure, Except.pure]
      rfl

/-- The text shared by the arithmetic and relational members, once both operands have a recorded
type: the two operand tests in turn, then the Error type recorded when the failure flag is set,
then the final basic type recorded in every case. -/
theorem binaryIntRule_eq (kind : ErrorKind) (pos1 pos2 : Position) (result : BaseType)
    (self myExp1 myExp2 : ASTNode) (st : State) (left right : Addr) (lo ro : DataType)
    (hl : st.nodeType myExp1.addr = Except.ok left)
    (hr : st.nodeType myExp2.addr = Except.ok right)
    (hlo : st.reg.resolved left = some lo) (hro : st.reg.resolved right = some ro) :
    ∃ s2 : State,
      s2.reports = st.reports ++ (if lo.isInt then [] else [{ kind := kind, pos := pos1 }])
        ++ (if ro.isInt then [] else [{ kind := kind, pos := pos2 }]) ∧
      s2.reg = st.reg ∧
      binaryIntRule kind pos1 pos2 result self myExp1 myExp2 st = Except.ok
        ((if !s2.ta.passed then s2.setError self.addr else s2).setBasic self.addr result) := by
  have h1 := State.intOperand_eq st left kind pos1 lo hlo
  have hro2 : (if lo.isInt then st else st.report kind pos1).reg.resolved right = some ro := by
    split <;> exact hro
  have h2 := State.intOperand_eq (if lo.isInt then st else st.report kind pos1) right kind pos2
    ro hro2
  refine ⟨if ro.isInt then (if lo.isInt then st else st.report kind pos1)
    else (if lo.isInt then st else st.report kind pos1).report kind pos2, ?_, ?_, ?_⟩
  · cases lo.isInt <;> cases ro.isInt <;> simp [State.report]
  · cases lo.isInt <;> cases ro.isInt <;> rfl
  · simp only [binaryIntRule, hl, hr, h1, h2, bind, Except.bind, pure, Except.pure]

/-- The type recorded by an arithmetic or relational member is the instance of its final basic
type in every case, also after the Error type has been recorded for the node. -/
theorem State.nodeType_setBasic_after (s : State) (node : Nat) (base : BaseType) (c : Bool) :
    ∃ r : TypeRegistry,
      ((if c then s.setError node else s).setBasic node base).nodeType node
        = Except.ok (BasicType.produce base r).1 ∧
      ((if c then s.setError node else s).setBasic node base).deref (BasicType.produce base r).1
        = Except.ok (DataType.basic { myBaseType := base }) :=
  ⟨(if c then s.setError node else s).reg,
    State.nodeType_setBasic_self _ node base, State.deref_setBasic_self _ node base⟩

/-- C12 (the code departs from the claim): each of `true + 1`, `true - 1`, `true * 1`,
`true / 1` raises one MathOperand diagnostic and creates the Error type (at address 6), yet the
type recorded for the node is the instance at address 0, Int: the Error type recorded under
`if (!ta->passed())` is overwritten by the unconditional `nodeType(this, ...INT)` that
follows. -/
theorem C12_arith_recorded_int_after_diagnostic :
    List.Forall (fun e => ∃ st2 : State,
      e.typeAnalysis Example.st = Except.ok st2 ∧
      st2.reports = [{ kind := ErrorKind.errMathOpd, pos := 150 }] ∧
      ErrorType.produce st2.reg = (6, st2.reg) ∧
      st2.nodeType 50 = Except.ok 0 ∧
      st2.deref 0 = Except.ok (DataType.basic { myBaseType := BaseType.INT }))
      Example.arithTrueOne := by
  refine List.forall_iff_forall_mem.2 ?_
  intro e he
  simp only [Example.arithTrueOne, List.mem_cons, List.mem_singleton, List.not_mem_nil,
    or_false] at he
  rcases he with h | h | h | h <;> subst h <;> exact ⟨_, rfl, rfl, rfl, rfl, rfl⟩

theorem State.reports_setBasic_after (s : State) (node : Nat) (base : BaseType) (c : Bool) :
    ((if c then s.setError node else s).setBasic node base).reports = s.reports := by
  cases c <;> rfl

/-- C13: an arithmetic node (+, -, *, /) raises, after its operands have been analysed, as many
MathOperand diagnostics (at the position of the node) as it has operands whose resolved type is
not Int, and no other diagnostic; the resolved type of an operand of function type is the
return type of the function, so a bare reference to a function that returns Int raises
nothing. The count is the same when an operand type is Error, which is not Int. -/
theorem C13_arith_operand_diagnostics (e : ExpNode) (n : ASTNode) (myExp1 myExp2 : ExpNode)
    (st s1 s2 : State) (left right : Addr) (lo ro : DataType)
    (he : e = ExpNode.plusNode n myExp1 myExp2 ∨ e = ExpNode.minusNode n myExp1 myExp2 ∨
      e = ExpNode.timesNode n myExp1 myExp2 ∨ e = ExpNode.divideNode n myExp1 myExp2)
    (h1 : myExp1.typeAnalysis st = Except.ok s1)
    (h2 : myExp2.typeAnalysis s1 = Except.ok s2)
    (hl : s2.nodeType myExp1.toASTNode.addr = Except.ok left)
    (hr : s2.nodeType myExp2.toASTNode.addr = Except.ok right)
    (hlo : s2.reg.resolved left = some lo) (hro : s2.reg.resolved right = some ro) :
    ∃ st2 : State,
      e.typeAnalysis st = Except.ok st2 ∧
      st2.reports = s2.reports ++
        List.replicate (notIntCount lo ro) { kind := ErrorKind.errMathOpd, pos := n.myPos } := by
  obtain ⟨s3, hrep, _, hrule⟩ := binaryIntRule_eq ErrorKind.errMathOpd n.myPos n.myPos
    BaseType.INT n myExp1.toASTNode myExp2.toASTNode s2 left right lo ro hl hr hlo hro
  refine ⟨(if !s3.ta.passed then s3.setError n.addr else s3).setBasic n.addr BaseType.INT,
    ?_, ?_⟩
  · rcases he with h | h | h | h <;> subst h <;>
      simp only [ExpNode.typeAnalysis, h1, h2, bind, Except.bind, PlusNode.typeRule,
        MinusNode.typeRule, TimesNode.typeRule, DivideNode.typeRule] <;>
      exact hrule
  · rw [State.reports_setBasic_after, hrep]
    cases hli : lo.isInt <;> cases hri : ro.isInt <;>
      simp [notIntCount, hli, hri, List.replicate]

/-- The witness of C13: `f + 1` for `int f(int a)` raises nothing, and `true + 1` raises one
MathOperand diagnostic. -/
theorem C13_arith_operand_diagnostics_witness :
    (∃ st2 : State, Example.plusFnOne.typeAnalysis Example.st = Except.ok st2 ∧
      st2.reports = []) ∧
    (∃ st2 : State,
      (ExpNode.plusNode (Example.node 50) (ExpNode.trueNode (Example.node 51))
        (ExpNode.intLitNode (Example.node 52))).typeAnalysis Example.st = Except.ok st2 ∧
      st2.reports = [{ kind := ErrorKind.errMathOpd, pos := 150 }]) :=
  ⟨C13_arith_operand_diagnostics Example.plusFnOne (Example.node 50) (Example.idExp 51 4)
      (ExpNode.intLitNode (Example.node 52)) Example.st
      ((Example.ident 51 4).typeAnalysis Example.st)
      (IntLitNode.typeAnalysis (Example.node 52) ((Example.ident 51 4).typeAnalysis Example.st))
      4 0 (DataType.basic { myBaseType := BaseType.INT })
      (DataType.basic { myBaseType := BaseType.INT })
      (Or.inl rfl) rfl rfl rfl rfl rfl rfl,
   C13_arith_operand_diagnostics _ (Example.node 50) (ExpNode.trueNode (Example.node 51))
      (ExpNode.intLitNode (Example.node 52)) Example.st
      (TrueNode.typeAnalysis (Example.node 51) Example.st)
      (IntLitNode.typeAnalysis (Example.node 52)
        (TrueNode.typeAnalysis (Example.node 51) Example.st))
      1 0 (DataType.basic { myBaseType := BaseType.BOOL })
      (DataType.basic { myBaseType := BaseType.INT })
      (Or.inl rfl) rfl rfl rfl rfl rfl rfl⟩

/-- C14 (the code departs from the claim): each of `true < 1`, `true <= 1`, `true > 1`,
`true >= 1` raises one RelOperand diagnostic, at the operand that is not Int, as claimed, and
creates the Error type (at address 6), yet the type recorded for the node is the instance at
address 1, Bool: the Error type recorded under `if (!ta->passed())` is overwritten by the
unconditional `nodeType(this, ...BOOL)` that follows. -/
theorem C14_rel_recorded_bool_after_diagnostic :
    List.Forall (fun e => ∃ st2 : State,
      e.typeAnalysis Example.st = Except.ok st2 ∧
      st2.reports = [{ kind := ErrorKind.errRelOpd, pos := 151 }] ∧
      ErrorType.produce st2.reg = (6, st2.reg) ∧
      st2.nodeType 50 = Except.ok 1 ∧
      st2.deref 1 = Except.ok (DataType.basic { myBaseType := BaseType.BOOL }))
      Example.relTrueOne := by
  refine List.forall_iff_forall_mem.2 ?_
  intro e he
  simp only [Example.relTrueOne, List.mem_cons, List.mem_singleton, List.not_mem_nil,
    or_false] at he
  rcases he with h | h | h | h <;> subst h <;> exact ⟨_, rfl, rfl, rfl, rfl, rfl⟩

/-- C15 (the code departs from the claim): in `*x + 1` and in `*x < 1` for `int x` the left
operand is recorded with the Error type (address 6) after its own DerefOperand diagnostic, and
the arithmetic / relational node raises a MathOperand / RelOperand diagnostic on account of
that operand: the operand test asks `isInt()` only and has no `asError()` exemption. -/
theorem C15_error_operand_reported :
    (∃ st2 : State,
      Example.plusErrorOne.typeAnalysis Example.st = Except.ok st2 ∧
      st2.nodeType 51 = Except.ok 6 ∧ st2.deref 6 = Except.ok DataType.error ∧
      st2.nodeType 53 = Except.ok 0 ∧
      st2.reports = [{ kind := ErrorKind.errDerefOpd, pos := 152 },
        { kind := ErrorKind.errMathOpd, pos := 150 }]) ∧
    (∃ st2 : State,
      Example.lessErrorOne.typeAnalysis Example.st = Except.ok st2 ∧
      st2.nodeType 51 = Except.ok 6 ∧ st2.deref 6 = Except.ok DataType.error ∧
      st2.nodeType 53 = Except.ok 0 ∧
      st2.reports = [{ kind := ErrorKind.errDerefOpd, pos := 152 },
        { kind := ErrorKind.errRelOpd, pos := 151 }]) :=
  ⟨⟨_, rfl, rfl, rfl, rfl, rfl⟩, ⟨_, rfl, rfl, rfl, rfl, rfl⟩⟩


/-- `opdTypeAnalysis` in the scenario of the equality members. -/
theorem opdTypeAnalysis_notEqYes (analyse : State → Except Crash State) (opd : ASTNode)
    (st s1 : State) (which : Addr) (o : DataType)
    (ha : analyse st = Except.ok s1)
    (hw : s1.nodeType opd.addr = Except.ok which)
    (ho : s1.deref which = Except.ok o) :
    opdTypeAnalysis analyse opd "notEqYesOpd" st = Except.ok
      (if o.isInt || o.isBool then (true, s1)
       else (false, (s1.report ErrorKind.errEqOpd opd.myPos).setError opd.addr)) := by
  simp only [opdTypeAnalysis, ha, hw, bind, Except.bind, pure, Except.pure]
  simp [opdScenario, ho, bind, Except.bind, pure, Except.pure]
  cases o.isInt <;> cases o.isBool <;> simp

/-- The two equality members after the two calls of `opdTypeAnalysis`, by the two results. -/
theorem EqualsNode.equalsRule_eq (self myExp1 myExp2 : ASTNode) (tmp1 tmp2 : Bool) (st : State)
    (t1 t2 : Addr)
    (h1 : tmp1 = true → tmp2 = true → st.nodeType myExp1.addr = Except.ok t1)
    (h2 : tmp1 = true → tmp2 = true → st.nodeType myExp2.addr = Except.ok t2) :
    EqualsNode.typeRule self myExp1 myExp2 tmp1 tmp2 st = Except.ok
      (if tmp1 = true ∧ tmp2 = true ∧ t2 ≠ t1 then
        (st.report ErrorKind.errEqOpr self.myPos).setError self.addr
       else st.setBasic self.addr BaseType.BOOL) ∧
    NotEqualsNode.typeRule self myExp1 myExp2 tmp1 tmp2 st = Except.ok
      (if tmp1 = true ∧ tmp2 = true ∧ t2 ≠ t1 then
        (st.report ErrorKind.errEqOpr self.myPos).setError self.addr
       else st.setBasic self.addr BaseType.BOOL) := by
  cases tmp1 <;> cases tmp2 <;>
    simp [EqualsNode.typeRule, NotEqualsNode.typeRule, bind, Except.bind, pure, Except.pure]
  have h1' := h1 rfl rfl
  have h2' := h2 rfl rfl
  simp only [h1', h2']
  by_cases h : t2 = t1 <;> simp [h]

/-- C16: for a `==` or `!=` node whose operands are analysed and have recorded types (the
second operand's analysis leaving the first operand's recorded type in place), the node raises
one EqOperand diagnostic, at the operand, for each operand whose type is neither Int nor Bool:
the first operand's before the second operand is analysed, the second operand's after. It
raises one EqOperator diagnostic, at the node, exactly when both operands are Int or Bool and
the two recorded types are not the same instance, and nothing else; so the node never raises
both kinds. -/
theorem C16_equality_diagnostics (e : ExpNode) (n : ASTNode) (myExp1 myExp2 : ExpNode)
    (st s1 s2 : State) (t1 t2 : Addr) (o1 o2 : DataType)
    (he : e = ExpNode.equalsNode n myExp1 myExp2 ∨ e = ExpNode.notEqualsNode n myExp1 myExp2)
    (h1 : myExp1.typeAnalysis st = Except.ok s1)
    (ht1 : s1.nodeType myExp1.toASTNode.addr = Except.ok t1)
    (ho1 : s1.deref t1 = Except.ok o1)
    (h2 : myExp2.typeAnalysis
      (if o1.isInt || o1.isBool then s1
       else (s1.report ErrorKind.errEqOpd myExp1.toASTNode.myPos).setError
        myExp1.toASTNode.addr) = Except.ok s2)
    (ht2 : s2.nodeType myExp2.toASTNode.addr = Except.ok t2)
    (ho2 : s2.deref t2 = Except.ok o2)
    (hkeep : s2.nodeType myExp1.toASTNode.addr =
      (if o1.isInt || o1.isBool then s1
       else (s1.report ErrorKind.errEqOpd myExp1.toASTNode.myPos).setError
        myExp1.toASTNode.addr).nodeType myExp1.toASTNode.addr) :
    ∃ st2 : State,
      e.typeAnalysis st = Except.ok st2 ∧
      (if o1.isInt || o1.isBool then s1
       else (s1.report ErrorKind.errEqOpd myExp1.toASTNode.myPos).setError
        myExp1.toASTNode.addr).reports
        = s1.reports ++ (if o1.isInt || o1.isBool then []
          else [{ kind := ErrorKind.errEqOpd, pos := myExp1.toASTNode.myPos }]) ∧
      st2.reports = s2.reports
        ++ (if o2.isInt || o2.isBool then []
          else [{ kind := ErrorKind.errEqOpd, pos := myExp2.toASTNode.myPos }])
        ++ (if (o1.isInt || o1.isBool) ∧ (o2.isInt || o2.isBool) ∧ t2 ≠ t1 then
            [{ kind := ErrorKind.errEqOpr, pos := n.myPos }] else []) := by
  have hopd1 := opdTypeAnalysis_notEqYes (ExpNode.typeAnalysis myExp1) myExp1.toASTNode st s1 t1
    o1 h1 ht1 ho1
  have hopd2 := opdTypeAnalysis_notEqYes (ExpNode.typeAnalysis myExp2) myExp2.toASTNode _ s2 t2
    o2 h2 ht2 ho2
  cases hc1 : (o1.isInt || o1.isBool) <;> cases hc2 : (o2.isInt || o2.isBool) <;>
    simp only [hc1, hc2, if_true, if_false, Bool.false_eq_true] at h2 hkeep hopd1 hopd2 ⊢
  · have hr := EqualsNode.equalsRule_eq n myExp1.toASTNode myExp2.toASTNode false false
      ((s2.report ErrorKind.errEqOpd myExp2.toASTNode.myPos).setError myExp2.toASTNode.addr)
      t1 t2 (fun h => by cases h) (fun h => by cases h)
    simp only [Bool.false_eq_true, false_and, if_false] at hr
    refine ⟨((s2.report ErrorKind.errEqOpd myExp2.toASTNode.myPos).setError
      myExp2.toASTNode.addr).setBasic n.addr BaseType.BOOL, ?_, rfl, ?_⟩
    · rcases he with h | h <;> subst h <;>
        simp only [ExpNode.typeAnalysis, hopd1, hopd2, bind, Except.bind]
      · exact hr.1
      · exact hr.2
    · simp [State.report, State.setError, State.setBasic, State.setNodeType]
  · have hr := EqualsNode.equalsRule_eq n myExp1.toASTNode myExp2.toASTNode false true s2
      t1 t2 (fun h => by cases h) (fun h => by cases h)
    simp only [Bool.false_eq_true, false_and, if_false] at hr
    refine ⟨s2.setBasic n.addr BaseType.BOOL, ?_, rfl, ?_⟩
    · rcases he with h | h <;> subst h <;>
        simp only [ExpNode.typeAnalysis, hopd1, hopd2, bind, Except.bind]
      · exact hr.1
      · exact hr.2
    · simp [State.setBasic, State.setNodeType]
  · have hr := EqualsNode.equalsRule_eq n myExp1.toASTNode myExp2.toASTNode true false
      ((s2.report ErrorKind.errEqOpd myExp2.toASTNode.myPos).setError myExp2.toASTNode.addr)
      t1 t2 (fun _ h => by cases h) (fun _ h => by cases h)
    simp only [Bool.false_eq_true, false_and, and_false, if_false] at hr
    refine ⟨((s2.report ErrorKind.errEqOpd myExp2.toASTNode.myPos).setError
      myExp2.toASTNode.addr).setBasic n.addr BaseType.BOOL, ?_, by simp, ?_⟩
    · rcases he with h | h <;> subst h <;>
        simp only [ExpNode.typeAnalysis, hopd1, hopd2, bind, Except.bind]
      · exact hr.1
      · exact hr.2
    · simp [State.report, State.setError, State.setBasic, State.setNodeType]
  · have hr := EqualsNode.equalsRule_eq n myExp1.toASTNode myExp2.toASTNode true true s2
      t1 t2 (fun _ _ => hkeep.trans ht1) (fun _ _ => ht2)
    simp only [true_and] at hr
    refine ⟨if t2 ≠ t1 then (s2.report ErrorKind.errEqOpr n.myPos).setError n.addr
      else s2.setBasic n.addr BaseType.BOOL, ?_, by simp, ?_⟩
    · rcases he with h | h <;> subst h <;>
        simp only [ExpNode.typeAnalysis, hopd1, hopd2, bind, Except.bind]
      · exact hr.1
      · exact hr.2
    · by_cases h : t2 = t1 <;>
        simp [h, State.report, State.setError, State.setBasic, State.setNodeType]

/-- The witness of C16: `1 == true` raises one EqOperator diagnostic and nothing else, and
`p != 1` for `int *p` raises one EqOperand diagnostic, at `p`, and nothing else. -/
theorem C16_equality_diagnostics_witness :
    (∃ st2 : State, Example.eqOneTrue.typeAnalysis Example.st = Except.ok st2 ∧
      st2.reports = [{ kind := ErrorKind.errEqOpr, pos := 180 }]) ∧
    (∃ st2 : State, Example.neqPtrOne.typeAnalysis Example.st = Except.ok st2 ∧
      st2.reports = [{ kind := ErrorKind.errEqOpd, pos := 181 }]) :=
  ⟨(C16_equality_diagnostics Example.eqOneTrue (Example.node 80)
      (ExpNode.intLitNode (Example.node 81)) (ExpNode.trueNode (Example.node 82)) Example.st
      (IntLitNode.typeAnalysis (Example.node 81) Example.st)
      (TrueNode.typeAnalysis (Example.node 82)
        (IntLitNode.typeAnalysis (Example.node 81) Example.st))
      0 1 (DataType.basic { myBaseType := BaseType.INT })
      (DataType.basic { myBaseType := BaseType.BOOL })
      (Or.inl rfl) rfl rfl rfl rfl rfl rfl rfl).imp fun _ h => ⟨h.1, h.2.2⟩,
   (C16_equality_diagnostics Example.neqPtrOne (Example.node 80)
      (Example.idExp 81 3) (ExpNode.intLitNode (Example.node 82)) Example.st
      ((Example.ident 81 3).typeAnalysis Example.st)
      (IntLitNode.typeAnalysis (Example.node 82)
        ((((Example.ident 81 3).typeAnalysis Example.st).report ErrorKind.errEqOpd 181).setError
          81))
      3 0 (DataType.ptr { myBase := 0 })
      (DataType.basic { myBaseType := BaseType.INT })
      (Or.inr rfl) rfl rfl rfl rfl rfl rfl rfl).imp fun _ h => ⟨h.1, h.2.2⟩⟩


/-- C17 (the code departs from the claim): each of `if (1) { }`, `if (1) { } else { }` and
`while (1) { }` has a condition of type Int, raises its condition diagnostic and creates the
Error type (at address 6), yet the type recorded for the statement is the instance at address
2, Void: the Error type recorded in the failing branch is overwritten by the unconditional
`nodeType(this, BasicType::produce(VOID))` that ends the member. -/
theorem C17_condition_failure_recorded_void :
    (∃ st2 : State, Example.ifOne.typeAnalysis Example.st = Except.ok st2 ∧
      st2.reports = [{ kind := ErrorKind.errIfCond, pos := 161 }] ∧
      ErrorType.produce st2.reg = (6, st2.reg) ∧
      st2.nodeType 61 = Except.ok 0 ∧ st2.nodeType 60 = Except.ok 2 ∧
      st2.deref 2 = Except.ok (DataType.basic { myBaseType := BaseType.VOID })) ∧
    (∃ st2 : State, Example.ifElseOne.typeAnalysis Example.st = Except.ok st2 ∧
      st2.reports = [{ kind := ErrorKind.errIfCond, pos := 161 }] ∧
      ErrorType.produce st2.reg = (6, st2.reg) ∧
      st2.nodeType 61 = Except.ok 0 ∧ st2.nodeType 60 = Except.ok 2 ∧
      st2.deref 2 = Except.ok (DataType.basic { myBaseType := BaseType.VOID })) ∧
    (∃ st2 : State, Example.whileOne.typeAnalysis Example.st = Except.ok st2 ∧
      st2.reports = [{ kind := ErrorKind.errWhileCond, pos := 161 }] ∧
      ErrorType.produce st2.reg = (6, st2.reg) ∧
      st2.nodeType 61 = Except.ok 0 ∧ st2.nodeType 60 = Except.ok 2 ∧
      st2.deref 2 = Except.ok (DataType.basic { myBaseType := BaseType.VOID })) :=
  ⟨⟨_, rfl, rfl, rfl, rfl, rfl, rfl⟩, ⟨_, rfl, rfl, rfl, rfl, rfl, rfl⟩,
    ⟨_, rfl, rfl, rfl, rfl, rfl, rfl⟩⟩

/-- The condition test of the three members, by the type recorded for the condition. -/
theorem condRule_eq (kind : ErrorKind) (self myCond : ASTNode) (st : State) (t : Addr)
    (obj : DataType) (ht : st.nodeType myCond.addr = Except.ok t)
    (ho : st.deref t = Except.ok obj) :
    condRule kind self myCond st = Except.ok
      (if !obj.isBool && !obj.asError then (st.report kind myCond.myPos).setError self.addr
       else st) := by
  simp only [condRule, ht, ho, bind, Except.bind, pure, Except.pure]
  split <;> rfl

/-- The body loop over two lists one after the other. -/
theorem StmtNode.analyseList_append (a b : List StmtNode) (st : State) :
    StmtNode.analyseList (a ++ b) st
      = (StmtNode.analyseList a st >>= fun s => StmtNode.analyseList b s) := by
  induction a generalizing st with
  | nil => simp [StmtNode.analyseList, bind, Except.bind, pure, Except.pure]
  | cons x rest ih =>
    simp only [List.cons_append, StmtNode.analyseList, bind, Except.bind]
    cases StmtNode.typeAnalysis x st with
    | error e => rfl
    | ok s => exact ih s

/-- C18: an if, if-else or while statement whose condition is analysed and has a recorded type
raises, between the diagnostics of its condition and those of its bodies, one condition
diagnostic (IfCond for if and if-else, WhileCond for while, at the condition) when the
condition's type is neither Bool nor Error, and none otherwise, in particular none for a
condition of the Error type; the only other diagnostics of the run are those of the bodies,
and the final recording step adds none. -/
theorem C18_condition_diagnostic (s : StmtNode) (n : ASTNode) (myCond : ExpNode)
    (myBody myBodyFalse : List StmtNode) (kind : ErrorKind)
    (st s1 s3 : State) (t : Addr) (obj : DataType)
    (hs : (s = StmtNode.ifStmt n myCond myBody ∧ myBodyFalse = [] ∧ kind = ErrorKind.errIfCond) ∨
      (s = StmtNode.ifElseStmt n myCond myBody myBodyFalse ∧ kind = ErrorKind.errIfCond) ∨
      (s = StmtNode.whileStmt n myCond myBody ∧ myBodyFalse = [] ∧
        kind = ErrorKind.errWhileCond))
    (h1 : myCond.typeAnalysis st = Except.ok s1)
    (ht : s1.nodeType myCond.toASTNode.addr = Except.ok t)
    (ho : s1.deref t = Except.ok obj)
    (hb : StmtNode.analyseList (myBody ++ myBodyFalse)
      (if !obj.isBool && !obj.asError then
        (s1.report kind myCond.toASTNode.myPos).setError n.addr else s1) = Except.ok s3) :
    (if !obj.isBool && !obj.asError then
        (s1.report kind myCond.toASTNode.myPos).setError n.addr else s1).reports
      = s1.reports ++ (if !obj.isBool && !obj.asError then
          [{ kind := kind, pos := myCond.toASTNode.myPos }] else []) ∧
    (obj.asError = true →
      (if !obj.isBool && !obj.asError then
        (s1.report kind myCond.toASTNode.myPos).setError n.addr else s1) = s1) ∧
    s.typeAnalysis st = Except.ok (s3.setBasic n.addr BaseType.VOID) ∧
    (s3.setBasic n.addr BaseType.VOID).reports = s3.reports := by
  refine ⟨?_, ?_, ?_, rfl⟩
  · split
    · rfl
    · simp
  · intro he
    simp [he]
  · have hc := condRule_eq kind n myCond.toASTNode s1 t obj ht ho
    rw [StmtNode.analyseList_append] at hb
    obtain ⟨s2, hx, hy⟩ := (Except.bind_ok_iff _ _ _).1 hb
    rcases hs with ⟨h, hf, hk⟩ | ⟨h, hk⟩ | ⟨h, hf, hk⟩
    · subst h hf hk
      cases hy
      simp only [StmtNode.typeAnalysis, IfStmtNode.condRule, h1, hc, hx, bind, Except.bind]
      rfl
    · subst h hk
      simp only [StmtNode.typeAnalysis, IfElseStmtNode.condRule, h1, hc, hx, hy, bind,
        Except.bind]
      rfl
    · subst h hf hk
      cases hy
      simp only [StmtNode.typeAnalysis, WhileStmtNode.condRule, h1, hc, hx, bind, Except.bind]
      rfl

/-- The witness of C18: `if (1) { }` raises one IfCond diagnostic, at the condition, and
`while (*x) { }` for `int x`, whose condition has the Error type, raises nothing of its own:
the only diagnostic is the DerefOperand of the condition. -/
theorem C18_condition_diagnostic_witness :
    (∃ st2 : State, Example.ifOne.typeAnalysis Example.st = Except.ok st2 ∧
      st2.reports = [{ kind := ErrorKind.errIfCond, pos := 161 }]) ∧
    (∃ st2 : State, Example.whileError.typeAnalysis Example.st = Except.ok st2 ∧
      st2.reports = [{ kind := ErrorKind.errDerefOpd, pos := 162 }]) :=
  ⟨⟨_, (C18_condition_diagnostic Example.ifOne (Example.node 60)
      (ExpNode.intLitNode (Example.node 61)) [] [] ErrorKind.errIfCond Example.st
      (IntLitNode.typeAnalysis (Example.node 61) Example.st)
      (((IntLitNode.typeAnalysis (Example.node 61) Example.st).report ErrorKind.errIfCond
        161).setError 60)
      0 (DataType.basic { myBaseType := BaseType.INT })
      (Or.inl ⟨rfl, rfl, rfl⟩) rfl rfl rfl rfl).2.2.1, rfl⟩,
   ⟨_, (C18_condition_diagnostic Example.whileError (Example.node 60)
      (Example.derefInt 61) [] [] ErrorKind.errWhileCond Example.st
      (((((Example.ident 62 0).typeAnalysis Example.st).report ErrorKind.errDerefOpd
        162).setError 61))
      (((((Example.ident 62 0).typeAnalysis Example.st).report ErrorKind.errDerefOpd
        162).setError 61))
      6 DataType.error
      (Or.inr (Or.inr ⟨rfl, rfl, rfl⟩)) rfl rfl rfl rfl).2.2.1, rfl⟩⟩

/-- The diagnostics of `WriteStmtNode::typeAnalysis`, by the type recorded for the source. -/
theorem WriteStmtNode.typeAnalysis_eq (self : WriteStmtNode) (st s1 : State) (t : Addr)
    (obj : DataType) (h1 : self.mySrc.typeAnalysis st = Except.ok s1)
    (ht : s1.nodeType self.mySrc.toASTNode.addr = Except.ok t)
    (ho : s1.deref t = Except.ok obj) :
    ∃ st2 : State, self.typeAnalysis st = Except.ok st2 ∧
      st2.reports = s1.reports ++
        (if obj.asFn.isSome then
          [{ kind := ErrorKind.errWriteFn, pos := self.mySrc.toASTNode.myPos }]
         else if obj.isVoid then
          [{ kind := ErrorKind.errWriteVoid, pos := self.mySrc.toASTNode.myPos }]
         else if obj.isPtr then
          [{ kind := ErrorKind.errReadPtr, pos := self.mySrc.toASTNode.myPos }]
         else []) := by
  simp only [WriteStmtNode.typeAnalysis, h1, ht, ho, bind, Except.bind, pure, Except.pure]
  split
  · exact ⟨_, rfl, rfl⟩
  · split
    · exact ⟨_, rfl, rfl⟩
    · split
      · exact ⟨_, rfl, rfl⟩
      · exact ⟨_, rfl, by simp [State.setBasic, State.setNodeType]⟩

/-- C20 (the code departs from the claim): `write p;` for `int *p` raises one diagnostic, and
it is of the read-pointer category, ReadPtr, not of the write-pointer category: the pointer
branch of `WriteStmtNode::typeAnalysis` calls `errReadPtr`. (`write f;` for a function `f` raises
one WriteFn diagnostic, as claimed.) -/
theorem C20_write_pointer_reports_read_pointer :
    (∃ st2 : State, Example.writePtr.typeAnalysis Example.st = Except.ok st2 ∧
      st2.reports = [{ kind := ErrorKind.errReadPtr, pos := 171 }] ∧
      st2.nodeType 71 = Except.ok 3 ∧
      st2.deref 3 = Except.ok (DataType.ptr { myBase := 0 }) ∧
      st2.nodeType 70 = Except.ok 6 ∧ st2.deref 6 = Except.ok DataType.error) ∧
    (∃ st2 : State, Example.writeFn.typeAnalysis Example.st = Except.ok st2 ∧
      st2.reports = [{ kind := ErrorKind.errWriteFn, pos := 171 }]) :=
  ⟨⟨_, rfl, rfl, rfl, rfl, rfl, rfl⟩, ⟨_, rfl, rfl⟩⟩

/-! ## Two runs side by side: the registry -/

section rename

variable (ρ : Addr → Addr) (obj : DataType)

@[simp] theorem DataType.isInt_rename : (obj.rename ρ).isInt = obj.isInt := by
  cases obj <;> rfl

@[simp] theorem DataType.isBool_rename : (obj.rename ρ).isBool = obj.isBool := by
  cases obj <;> rfl

@[simp] theorem DataType.isVoid_rename : (obj.rename ρ).isVoid = obj.isVoid := by
  cases obj <;> rfl

@[simp] theorem DataType.isPtr_rename : (obj.rename ρ).isPtr = obj.isPtr := by
  cases obj <;> rfl

@[simp] theorem DataType.asError_rename : (obj.rename ρ).asError = obj.asError := by
  cases obj <;> rfl

@[simp] theorem DataType.validVarType_rename :
    (obj.rename ρ).validVarType = obj.validVarType := by
  cases obj <;> rfl

@[simp] theorem DataType.asBasic_rename : (obj.rename ρ).asBasic = obj.asBasic := by
  cases obj <;> rfl

@[simp] theorem DataType.asPtr_rename :
    (obj.rename ρ).asPtr = obj.asPtr.map (fun p => { myBase := ρ p.myBase }) := by
  cases obj <;> rfl

@[simp] theorem DataType.asFn_rename :
    (obj.rename ρ).asFn = obj.asFn.map
      (fun f => { myFormalTypes := f.myFormalTypes.map ρ, myRetType := ρ f.myRetType }) := by
  cases obj <;> rfl

end rename

theorem Function.update_lt (ρ : Addr → Addr) (m v x : Nat) (h : x < m) :
    Function.update ρ m v x = ρ x :=
  Function.update_noteq (Nat.ne_of_lt h) _ _

theorem Function.update_at (ρ : Addr → Addr) (m v : Nat) : Function.update ρ m v m = v :=
  Function.update_same _ _ _

theorem DataType.rename_congr (ρ ρ2 : Addr → Addr) (m : Nat) (obj : DataType)
    (hl : obj.live m = true) (h : ∀ x, x < m → ρ2 x = ρ x) : obj.rename ρ2 = obj.rename ρ := by
  cases obj with
  | error => rfl
  | basic b => rfl
  | ptr p =>
    simp only [DataType.live, decide_eq_true_eq] at hl
    simp [DataType.rename, h _ hl]
  | fn f =>
    simp only [DataType.live, Bool.and_eq_true, List.all_eq_true, decide_eq_true_eq] at hl
    simp only [DataType.rename, h _ hl.2]
    congr 2
    exact List.map_congr_left (fun a ha => h a (hl.1 a ha))

theorem DataType.live_mono (m m2 : Nat) (obj : DataType) (hl : obj.live m = true)
    (h : m ≤ m2) : obj.live m2 = true := by
  cases obj with
  | error => rfl
  | basic b => rfl
  | ptr p =>
    simp only [DataType.live, decide_eq_true_eq] at hl ⊢
    exact Nat.lt_of_lt_of_le hl h
  | fn f =>
    simp only [DataType.live, Bool.and_eq_true, List.all_eq_true, decide_eq_true_eq] at hl ⊢
    exact ⟨fun a ha => Nat.lt_of_lt_of_le (hl.1 a ha) h, Nat.lt_of_lt_of_le hl.2 h⟩

theorem TypeRegistry.deref_lt (r : TypeRegistry) (a : Addr) (obj : DataType)
    (h : r.deref a = some obj) : a < r.heap.length := by
  simp only [TypeRegistry.deref] at h
  exact (List.getElem?_eq_some_iff.1 h).1

theorem TypeRegistry.deref_of_lt (r : TypeRegistry) (a : Addr) (h : a < r.heap.length) :
    ∃ obj, r.deref a = some obj := by
  simp only [TypeRegistry.deref]
  exact ⟨r.heap[a], List.getElem?_eq_getElem h⟩

namespace TypeRegistry.Sim

variable {base : Nat} {ρ : Addr → Addr} {r1 r2 : TypeRegistry}

theorem lt (h : TypeRegistry.Sim base ρ r1 r2) (a : Addr) (ha : a < r1.heap.length) :
    ρ a < r2.heap.length := by
  obtain ⟨obj, ho⟩ := r1.deref_of_lt a ha
  exact r2.deref_lt _ _ (h.obj a obj ho)

theorem eq_iff (h : TypeRegistry.Sim base ρ r1 r2) (a b : Addr) (ha : a < r1.heap.length)
    (hb : b < r1.heap.length) : ρ a = ρ b ↔ a = b :=
  ⟨h.inj a b ha hb, fun e => by rw [e]⟩

theorem getBaseType_eq (h : TypeRegistry.Sim base ρ r1 r2) (a : Addr)
    (ha : a < r1.heap.length) : r2.getBaseType (ρ a) = r1.getBaseType a := by
  obtain ⟨obj, ho⟩ := r1.deref_of_lt a ha
  simp only [TypeRegistry.getBaseType, ho, h.obj a obj ho]
  cases obj <;> rfl

theorem findFly_eq (h : TypeRegistry.Sim base ρ r1 r2) (b : BaseType) :
    ∀ l : List Addr, (∀ a, a ∈ l → a < r1.heap.length) →
      BasicType.findFly r2 b (l.map ρ) = (BasicType.findFly r1 b l).map ρ := by
  intro l
  induction l with
  | nil => intro _; rfl
  | cons fly rest ih =>
    intro hl
    have hf := hl fly (List.mem_cons_self _ _)
    simp only [List.map_cons, BasicType.findFly, h.getBaseType_eq fly hf]
    split
    · rfl
    · exact ih (fun a ha => hl a (List.mem_cons_of_mem _ ha))

theorem find_eq (h : TypeRegistry.Sim base ρ r1 r2) (b : Addr) (hb : b < r1.heap.length) :
    ∀ m : List (Addr × Addr), (∀ kv, kv ∈ m → kv.1 < r1.heap.length ∧ kv.2 < r1.heap.length) →
      PtrType.find (ρ b) (m.map (fun kv => (ρ kv.1, ρ kv.2))) = (PtrType.find b m).map ρ := by
  intro m
  induction m with
  | nil => intro _; rfl
  | cons kv rest ih =>
    intro hl
    obtain ⟨k, v⟩ := kv
    have hk := (hl (k, v) (List.mem_cons_self _ _)).1
    simp only [List.map_cons, PtrType.find, h.eq_iff k b hk hb]
    split
    · rfl
    · exact ih (fun a ha => hl a (List.mem_cons_of_mem _ ha))

end TypeRegistry.Sim

theorem TypeRegistry.deref_alloc_cases (r : TypeRegistry) (obj o : DataType) (a : Addr)
    (h : (r.alloc obj).2.deref a = some o) :
    (a < r.heap.length ∧ r.deref a = some o) ∨ (a = r.heap.length ∧ o = obj) := by
  simp only [TypeRegistry.deref, TypeRegistry.alloc] at *
  rcases Nat.lt_trichotomy a r.heap.length with hlt | heq | hgt
  · rw [List.getElem?_append_left hlt] at h
    exact Or.inl ⟨hlt, h⟩
  · subst heq
    simp at h
    exact Or.inr ⟨rfl, h.symm⟩
  · rw [List.getElem?_eq_none (by simp; omega)] at h
    cases h

theorem TypeRegistry.deref_alloc_lt (r : TypeRegistry) (obj : DataType) (a : Addr)
    (h : a < r.heap.length) : (r.alloc obj).2.deref a = r.deref a := by
  simp only [TypeRegistry.deref, TypeRegistry.alloc]
  exact List.getElem?_append_left h

namespace TypeRegistry.Sim

variable {base : Nat} {ρ : Addr → Addr} {r1 r2 : TypeRegistry}

/-- Both runs allocate corresponding objects. -/
theorem alloc_both (h : TypeRegistry.Sim base ρ r1 r2) (obj : DataType)
    (hl : obj.live r1.heap.length = true) :
    TypeRegistry.Sim base (Function.update ρ r1.heap.length r2.heap.length)
      (r1.alloc obj).2 (r2.alloc (obj.rename ρ)).2 := by
  have hag : ∀ x, x < r1.heap.length →
      Function.update ρ r1.heap.length r2.heap.length x = ρ x :=
    fun x hx => Function.update_noteq (Nat.ne_of_lt hx) _ _
  have hnew : Function.update ρ r1.heap.length r2.heap.length r1.heap.length
      = r2.heap.length := Function.update_same _ _ _
  have hlen : (r1.alloc obj).2.heap.length = r1.heap.length + 1 := by
    simp [TypeRegistry.alloc]
  have hcases : ∀ a, a < r1.heap.length + 1 → a < r1.heap.length ∨ a = r1.heap.length :=
    fun a ha => by omega
  refine
    { base_le := by rw [hlen]; exact Nat.le_succ_of_le h.base_le
      fix := fun a ha => by
        rw [hag a (Nat.lt_of_lt_of_le ha h.base_le)]; exact h.fix a ha
      inj := ?_
      objLive := ?_
      obj := ?_
      error := fun e he => ?_
      fresh := fun he e2 he2 => ?_
      flyLive := fun a ha => by rw [hlen]; exact Nat.lt_succ_of_lt (h.flyLive a ha)
      fly := ?_
      mapLive := fun kv hkv => by
        rw [hlen]; exact ⟨Nat.lt_succ_of_lt (h.mapLive kv hkv).1,
          Nat.lt_succ_of_lt (h.mapLive kv hkv).2⟩
      map := ?_ }
  · intro a b ha hb hab
    rw [hlen] at ha hb
    rcases hcases a ha with ha | ha <;> rcases hcases b hb with hb | hb
    · rw [hag a ha, hag b hb] at hab
      exact h.inj a b ha hb hab
    · subst hb
      rw [hag a ha, hnew] at hab
      exact absurd hab (Nat.ne_of_lt (h.lt a ha))
    · subst ha
      rw [hag b hb, hnew] at hab
      exact absurd hab.symm (Nat.ne_of_lt (h.lt b hb))
    · rw [ha, hb]
  · intro a o ho
    rw [hlen]
    rcases r1.deref_alloc_cases obj o a ho with ⟨_, ho⟩ | ⟨_, ho⟩
    · exact DataType.live_mono _ _ o (h.objLive a o ho) (Nat.le_succ _)
    · subst ho
      exact DataType.live_mono _ _ o hl (Nat.le_succ _)
  · intro a o ho
    rcases r1.deref_alloc_cases obj o a ho with ⟨ha, ho⟩ | ⟨ha, ho⟩
    · rw [hag a ha, DataType.rename_congr ρ _ _ o (h.objLive a o ho) hag]
      exact TypeRegistry.deref_alloc r2 _ _ _ (h.obj a o ho)
    · subst ho ha
      rw [hnew, DataType.rename_congr ρ _ _ o hl hag]
      exact TypeRegistry.deref_alloc_new r2 _
  · have he1 : r1.error = some e := he
    rw [hlen, hag e (h.error e he1).1]
    exact ⟨Nat.lt_succ_of_lt (h.error e he1).1, (h.error e he1).2⟩
  · have he1 : r1.error = none := he
    have he3 : r2.error = some e2 := he2
    obtain ⟨hd, hne⟩ := h.fresh he1 e2 he3
    refine ⟨TypeRegistry.deref_alloc r2 _ _ _ hd, fun a ha => ?_⟩
    rw [hlen] at ha
    rcases hcases a ha with ha | ha
    · rw [hag a ha]; exact hne a ha
    · subst ha
      rw [hnew]
      exact (Nat.ne_of_lt (r2.deref_lt _ _ hd)).symm
  · show r2.flyweights = r1.flyweights.map _
    rw [h.fly]
    exact (List.map_congr_left (fun a ha => hag a (h.flyLive a ha))).symm
  · show r2.map = r1.map.map _
    rw [h.map]
    exact (List.map_congr_left (fun kv hkv => by
      rw [hag _ (h.mapLive kv hkv).1, hag _ (h.mapLive kv hkv).2])).symm

end TypeRegistry.Sim

namespace TypeRegistry.Sim

variable {base : Nat} {ρ : Addr → Addr} {r1 r2 : TypeRegistry}

theorem withError (h : TypeRegistry.Sim base ρ r1 r2) (e : Addr) (he : e < r1.heap.length) :
    TypeRegistry.Sim base ρ { r1 with error := some e } { r2 with error := some (ρ e) } :=
  { base_le := h.base_le
    fix := h.fix
    inj := h.inj
    objLive := h.objLive
    obj := h.obj
    error := fun e2 he2 => by
      have : e = e2 := Option.some.inj he2
      subst this
      exact ⟨he, rfl⟩
    fresh := fun hn => by cases hn
    flyLive := h.flyLive
    fly := h.fly
    mapLive := h.mapLive
    map := h.map }

theorem withFly (h : TypeRegistry.Sim base ρ r1 r2) (a : Addr) (ha : a < r1.heap.length) :
    TypeRegistry.Sim base ρ { r1 with flyweights := r1.flyweights ++ [a] }
      { r2 with flyweights := r2.flyweights ++ [ρ a] } :=
  { base_le := h.base_le
    fix := h.fix
    inj := h.inj
    objLive := h.objLive
    obj := h.obj
    error := h.error
    fresh := h.fresh
    flyLive := fun x hx => by
      rcases List.mem_append.1 hx with hx | hx
      · exact h.flyLive x hx
      · rw [List.mem_singleton.1 hx]; exact ha
    fly := by
      show r2.flyweights ++ [ρ a] = (r1.flyweights ++ [a]).map ρ
      rw [h.fly, List.map_append]; rfl
    mapLive := h.mapLive
    map := h.map }

theorem withMap (h : TypeRegistry.Sim base ρ r1 r2) (b p : Addr) (hb : b < r1.heap.length)
    (hp : p < r1.heap.length) :
    TypeRegistry.Sim base ρ { r1 with map := r1.map ++ [(b, p)] }
      { r2 with map := r2.map ++ [(ρ b, ρ p)] } :=
  { base_le := h.base_le
    fix := h.fix
    inj := h.inj
    objLive := h.objLive
    obj := h.obj
    error := h.error
    fresh := h.fresh
    flyLive := h.flyLive
    fly := h.fly
    mapLive := fun x hx => by
      rcases List.mem_append.1 hx with hx | hx
      · exact h.mapLive x hx
      · rw [List.mem_singleton.1 hx]; exact ⟨hb, hp⟩
    map := by
      show r2.map ++ [(ρ b, ρ p)] = (r1.map ++ [(b, p)]).map _
      rw [h.map, List.map_append]; rfl }

/-- The first run creates the `ErrorType` object, which the second run holds already. -/
theorem alloc_errorLeft (h : TypeRegistry.Sim base ρ r1 r2) (he : r1.error = none) (e2 : Addr)
    (he2 : r2.error = some e2) :
    TypeRegistry.Sim base (Function.update ρ r1.heap.length e2) (ErrorType.produce r1).2 r2 := by
  have hag : ∀ x, x < r1.heap.length → Function.update ρ r1.heap.length e2 x = ρ x :=
    fun x hx => Function.update_noteq (Nat.ne_of_lt hx) _ _
  have hnew : Function.update ρ r1.heap.length e2 r1.heap.length = e2 :=
    Function.update_same _ _ _
  have hp : (ErrorType.produce r1).2
      = { (r1.alloc DataType.error).2 with error := some r1.heap.length } := by
    simp [ErrorType.produce, he, TypeRegistry.alloc]
  have hlen : (ErrorType.produce r1).2.heap.length = r1.heap.length + 1 := by
    rw [hp]; simp [TypeRegistry.alloc]
  have hder : ∀ a, (ErrorType.produce r1).2.deref a = (r1.alloc DataType.error).2.deref a := by
    intro a; rw [hp]; rfl
  have hcases : ∀ a, a < r1.heap.length + 1 → a < r1.heap.length ∨ a = r1.heap.length :=
    fun a ha => by omega
  obtain ⟨hd, hne⟩ := h.fresh he e2 he2
  refine
    { base_le := by rw [hlen]; exact Nat.le_succ_of_le h.base_le
      fix := fun a ha => by
        rw [hag a (Nat.lt_of_lt_of_le ha h.base_le)]; exact h.fix a ha
      inj := ?_
      objLive := ?_
      obj := ?_
      error := fun e hee => ?_
      fresh := fun hn => ?_
      flyLive := fun a ha => by
        rw [hlen]
        have ha1 : a ∈ r1.flyweights := by rw [hp] at ha; exact ha
        exact Nat.lt_succ_of_lt (h.flyLive a ha1)
      fly := ?_
      mapLive := fun kv hkv => by
        rw [hlen]
        have h1 : kv ∈ r1.map := by rw [hp] at hkv; exact hkv
        exact ⟨Nat.lt_succ_of_lt (h.mapLive kv h1).1, Nat.lt_succ_of_lt (h.mapLive kv h1).2⟩
      map := ?_ }
  · intro a b ha hb hab
    rw [hlen] at ha hb
    rcases hcases a ha with ha | ha <;> rcases hcases b hb with hb | hb
    · rw [hag a ha, hag b hb] at hab
      exact h.inj a b ha hb hab
    · subst hb
      rw [hag a ha, hnew] at hab
      exact absurd hab (hne a ha)
    · subst ha
      rw [hag b hb, hnew] at hab
      exact absurd hab.symm (hne b hb)
    · rw [ha, hb]
  · intro a o ho
    rw [hlen]
    rw [hder] at ho
    rcases r1.deref_alloc_cases _ o a ho with ⟨_, ho⟩ | ⟨_, ho⟩
    · exact DataType.live_mono _ _ o (h.objLive a o ho) (Nat.le_succ _)
    · subst ho
      rfl
  · intro a o ho
    rw [hder] at ho
    rcases r1.deref_alloc_cases _ o a ho with ⟨ha, ho⟩ | ⟨ha, ho⟩
    · rw [hag a ha, DataType.rename_congr ρ _ _ o (h.objLive a o ho) hag]
      exact h.obj a o ho
    · subst ho ha
      rw [hnew]
      exact hd
  · rw [hp] at hee
    have : r1.heap.length = e := Option.some.inj hee
    subst this
    rw [hlen, hnew]
    exact ⟨Nat.lt_succ_self _, he2⟩
  · rw [hp] at hn
    cases hn
  · have : (ErrorType.produce r1).2.flyweights = r1.flyweights := by rw [hp]; rfl
    rw [this, h.fly]
    exact (List.map_congr_left (fun a ha => hag a (h.flyLive a ha))).symm
  · have : (ErrorType.produce r1).2.map = r1.map := by rw [hp]; rfl
    rw [this, h.map]
    exact (List.map_congr_left (fun kv hkv => by
      rw [hag _ (h.mapLive kv hkv).1, hag _ (h.mapLive kv hkv).2])).symm

/-- Only the second run creates the `ErrorType` object. -/
theorem produceError_right (h : TypeRegistry.Sim base ρ r1 r2) :
    TypeRegistry.Sim base ρ r1 (ErrorType.produce r2).2 := by
  cases he2 : r2.error with
  | some e =>
    have : (ErrorType.produce r2).2 = r2 := by simp [ErrorType.produce, he2]
    rw [this]; exact h
  | none =>
    have hp : (ErrorType.produce r2).2
        = { (r2.alloc DataType.error).2 with error := some r2.heap.length } := by
      simp [ErrorType.produce, he2, TypeRegistry.alloc]
    have he1 : r1.error = none := by
      cases he1 : r1.error with
      | none => rfl
      | some e => rw [(h.error e he1).2] at he2; cases he2
    rw [hp]
    exact
      { base_le := h.base_le
        fix := h.fix
        inj := h.inj
        objLive := h.objLive
        obj := fun a o ho => TypeRegistry.deref_alloc r2 _ _ _ (h.obj a o ho)
        error := fun e he => by rw [he1] at he; cases he
        fresh := fun _ e2 hee => by
          have : r2.heap.length = e2 := Option.some.inj hee
          subst this
          exact ⟨TypeRegistry.deref_alloc_new r2 _,
            fun a ha => Nat.ne_of_lt (h.lt a ha)⟩
        flyLive := h.flyLive
        fly := h.fly
        mapLive := h.mapLive
        map := h.map }

end TypeRegistry.Sim

theorem PtrType.find_mem (b res : Addr) (m : List (Addr × Addr))
    (h : PtrType.find b m = some res) : (b, res) ∈ m := by
  induction m with
  | nil => simp [PtrType.find] at h
  | cons kv rest ih =>
    obtain ⟨k, v⟩ := kv
    simp only [PtrType.find] at h
    split at h
    · rename_i hk
      cases h
      rw [hk]
      exact List.mem_cons_self _ _
    · exact List.mem_cons_of_mem _ (ih h)

namespace TypeRegistry.Sim

variable {base : Nat} {ρ : Addr → Addr} {r1 r2 : TypeRegistry}

theorem next_of (h : TypeRegistry.Sim base ρ r1 r2) (a : Addr) (ha : a < r1.heap.length) :
    TypeRegistry.Next base ρ r1 (a, r1) (ρ a, r2) :=
  ⟨ρ, fun _ _ => rfl, Nat.le_refl _, h, ha, rfl⟩

theorem produceError (h : TypeRegistry.Sim base ρ r1 r2) :
    TypeRegistry.Next base ρ r1 (ErrorType.produce r1) (ErrorType.produce r2) := by
  cases he1 : r1.error with
  | some e =>
    obtain ⟨hlt, he2⟩ := h.error e he1
    have h1 : ErrorType.produce r1 = (e, r1) := by simp [ErrorType.produce, he1]
    have h2 : ErrorType.produce r2 = (ρ e, r2) := by simp [ErrorType.produce, he2]
    rw [h1, h2]
    exact h.next_of e hlt
  | none =>
    have h1 : (ErrorType.produce r1).1 = r1.heap.length := by
      simp [ErrorType.produce, he1, TypeRegistry.alloc]
    have hlen : (ErrorType.produce r1).2.heap.length = r1.heap.length + 1 := by
      simp [ErrorType.produce, he1, TypeRegistry.alloc]
    cases he2 : r2.error with
    | some e2 =>
      have h2 : ErrorType.produce r2 = (e2, r2) := by simp [ErrorType.produce, he2]
      refine ⟨Function.update ρ r1.heap.length e2,
        fun x hx => Function.update_lt ρ _ _ x hx, ?_, ?_, ?_, ?_⟩
      · rw [hlen]; exact Nat.le_succ _
      · rw [h2]; exact h.alloc_errorLeft he1 e2 he2
      · rw [h1, hlen]; exact Nat.lt_succ_self _
      · rw [h1, h2]; exact (Function.update_at ρ _ _).symm
    | none =>
      have hb := (h.alloc_both DataType.error rfl).withError r1.heap.length
        (by simp [TypeRegistry.alloc])
      rw [Function.update_at] at hb
      have hp1 : (ErrorType.produce r1).2
          = { (r1.alloc DataType.error).2 with error := some r1.heap.length } := by
        simp [ErrorType.produce, he1, TypeRegistry.alloc]
      have hp2 : ErrorType.produce r2
          = (r2.heap.length,
              { (r2.alloc DataType.error).2 with error := some r2.heap.length }) := by
        simp [ErrorType.produce, he2, TypeRegistry.alloc]
      refine ⟨Function.update ρ r1.heap.length r2.heap.length,
        fun x hx => Function.update_lt ρ _ _ x hx, ?_, ?_, ?_, ?_⟩
      · rw [hlen]; exact Nat.le_succ _
      · rw [hp1, hp2]; exact hb
      · rw [h1, hlen]; exact Nat.lt_succ_self _
      · rw [h1, hp2]; exact (Function.update_at ρ _ _).symm

theorem produceBasic (h : TypeRegistry.Sim base ρ r1 r2) (b : BaseType) :
    TypeRegistry.Next base ρ r1 (BasicType.produce b r1) (BasicType.produce b r2) := by
  have hf := h.findFly_eq b r1.flyweights h.flyLive
  rw [← h.fly] at hf
  cases hf1 : BasicType.findFly r1 b r1.flyweights with
  | some fly =>
    rw [hf1] at hf
    have h1 : BasicType.produce b r1 = (fly, r1) := by simp [BasicType.produce, hf1]
    have h2 : BasicType.produce b r2 = (ρ fly, r2) := by
      simp only [BasicType.produce, hf]; rfl
    rw [h1, h2]
    exact h.next_of fly (r1.deref_lt _ _ (BasicType.findFly_some r1 b _ fly hf1))
  | none =>
    rw [hf1] at hf
    have hb := (h.alloc_both (DataType.basic { myBaseType := b }) rfl).withFly r1.heap.length
      (by simp [TypeRegistry.alloc])
    rw [Function.update_at] at hb
    have hp1 : BasicType.produce b r1 = (r1.heap.length,
        { (r1.alloc (DataType.basic { myBaseType := b })).2 with
          flyweights := r1.flyweights ++ [r1.heap.length] }) := by
      simp [BasicType.produce, hf1, TypeRegistry.alloc]
    have hp2 : BasicType.produce b r2 = (r2.heap.length,
        { (r2.alloc (DataType.basic { myBaseType := b })).2 with
          flyweights := r2.flyweights ++ [r2.heap.length] }) := by
      simp only [BasicType.produce, hf]; simp [TypeRegistry.alloc]
    refine ⟨Function.update ρ r1.heap.length r2.heap.length,
      fun x hx => Function.update_lt ρ _ _ x hx, ?_, ?_, ?_, ?_⟩
    · rw [hp1]; simp [TypeRegistry.alloc]
    · rw [hp1, hp2]; exact hb
    · rw [hp1]; simp [TypeRegistry.alloc]
    · rw [hp1, hp2]; exact (Function.update_at ρ _ _).symm

theorem producePtr (h : TypeRegistry.Sim base ρ r1 r2) (b : Addr) (hb : b < r1.heap.length) :
    TypeRegistry.Next base ρ r1 (PtrType.produce b r1) (PtrType.produce (ρ b) r2) := by
  have hf := h.find_eq b hb r1.map h.mapLive
  rw [← h.map] at hf
  cases hf1 : PtrType.find b r1.map with
  | some res =>
    rw [hf1] at hf
    have h1 : PtrType.produce b r1 = (res, r1) := by simp [PtrType.produce, hf1]
    have h2 : PtrType.produce (ρ b) r2 = (ρ res, r2) := by
      simp only [PtrType.produce, hf]; rfl
    rw [h1, h2]
    exact h.next_of res (h.mapLive _ (PtrType.find_mem b res _ hf1)).2
  | none =>
    rw [hf1] at hf
    have hl : (DataType.ptr { myBase := b }).live r1.heap.length = true := by
      simp [DataType.live, hb]
    have hb2 := (h.alloc_both (DataType.ptr { myBase := b }) hl).withMap b r1.heap.length
      (by simp only [TypeRegistry.alloc, List.length_append, List.length_singleton]; exact Nat.lt_succ_of_lt hb) (by simp [TypeRegistry.alloc])
    rw [Function.update_at, Function.update_lt ρ _ _ b hb] at hb2
    have hp1 : PtrType.produce b r1 = (r1.heap.length,
        { (r1.alloc (DataType.ptr { myBase := b })).2 with
          map := r1.map ++ [(b, r1.heap.length)] }) := by
      simp [PtrType.produce, hf1, TypeRegistry.alloc]
    have hp2 : PtrType.produce (ρ b) r2 = (r2.heap.length,
        { (r2.alloc (DataType.ptr { myBase := ρ b })).2 with
          map := r2.map ++ [(ρ b, r2.heap.length)] }) := by
      simp only [PtrType.produce, hf]; simp [TypeRegistry.alloc]
    refine ⟨Function.update ρ r1.heap.length r2.heap.length,
      fun x hx => Function.update_lt ρ _ _ x hx, ?_, ?_, ?_, ?_⟩
    · rw [hp1]; simp [TypeRegistry.alloc]
    · rw [hp1, hp2]; exact hb2
    · rw [hp1]; simp [TypeRegistry.alloc]
    · rw [hp1, hp2]; exact (Function.update_at ρ _ _).symm

theorem newFn (h : TypeRegistry.Sim base ρ r1 r2) (formals : List Addr) (ret : Addr)
    (hf : ∀ a, a ∈ formals → a < r1.heap.length) (hr : ret < r1.heap.length) :
    TypeRegistry.Next base ρ r1 (FnType.new formals ret r1)
      (FnType.new (formals.map ρ) (ρ ret) r2) := by
  have hl : (DataType.fn { myFormalTypes := formals, myRetType := ret }).live r1.heap.length
      = true := by
    simp only [DataType.live, Bool.and_eq_true, List.all_eq_true, decide_eq_true_eq]
    exact ⟨hf, hr⟩
  refine ⟨Function.update ρ r1.heap.length r2.heap.length,
    fun x hx => Function.update_lt ρ _ _ x hx, ?_, ?_, ?_, ?_⟩
  · simp [FnType.new, TypeRegistry.alloc]
  · exact h.alloc_both _ hl
  · simp [FnType.new, TypeRegistry.alloc]
  · exact (Function.update_at ρ _ _).symm

end TypeRegistry.Sim

theorem TypeRegistry.Next.regNext_trans {base : Nat} {ρ ρ2 : Addr → Addr} {r1 : TypeRegistry}
    {x1 y1 y2 : Addr × TypeRegistry}
    (hag : ∀ x, x < r1.heap.length → ρ2 x = ρ x) (hle : r1.heap.length ≤ x1.2.heap.length)
    (h : TypeRegistry.Next base ρ2 x1.2 y1 y2) : TypeRegistry.Next base ρ r1 y1 y2 := by
  obtain ⟨ρ3, hag3, hle3, hs, hv, he⟩ := h
  exact ⟨ρ3, fun x hx => by rw [hag3 x (Nat.lt_of_lt_of_le hx hle), hag x hx],
    Nat.le_trans hle hle3, hs, hv, he⟩

theorem TypeRegistry.Sim.getType {base : Nat} (t : TypeNode) :
    ∀ {ρ : Addr → Addr} {r1 r2 : TypeRegistry}, TypeRegistry.Sim base ρ r1 r2 →
      TypeRegistry.Next base ρ r1 (t.getType r1) (t.getType r2) := by
  induction t with
  | voidTypeNode n => intro ρ r1 r2 h; exact h.produceBasic _
  | intTypeNode n => intro ρ r1 r2 h; exact h.produceBasic _
  | shortTypeNode n => intro ρ r1 r2 h; exact h.produceBasic _
  | boolTypeNode n => intro ρ r1 r2 h; exact h.produceBasic _
  | stringTypeNode n => intro ρ r1 r2 h; exact h.produceBasic _
  | ptrTypeNode n b ih =>
    intro ρ r1 r2 h
    obtain ⟨ρ2, hag, hle, hs, hv, he⟩ := ih h
    simp only [TypeNode.getType]
    rw [he]
    exact TypeRegistry.Next.regNext_trans hag hle (hs.producePtr _ hv)

theorem TypeRegistry.Sim.formalTypes {base : Nat} (l : List FormalDeclNode) :
    ∀ {ρ : Addr → Addr} {r1 r2 : TypeRegistry}, TypeRegistry.Sim base ρ r1 r2 →
      TypeRegistry.NextList base ρ r1 (FnDeclNode.formalTypes l r1)
        (FnDeclNode.formalTypes l r2) := by
  induction l with
  | nil =>
    intro ρ r1 r2 h
    exact ⟨ρ, fun _ _ => rfl, Nat.le_refl _, h, fun a ha => absurd ha (List.not_mem_nil a), rfl⟩
  | cons formal rest ih =>
    intro ρ r1 r2 h
    obtain ⟨ρ2, hag, hle, hs, hv, he⟩ := h.getType formal.getTypeNode
    obtain ⟨ρ3, hag3, hle3, hs3, hv3, he3⟩ := ih hs
    refine ⟨ρ3, fun x hx => by rw [hag3 x (Nat.lt_of_lt_of_le hx hle), hag x hx],
      Nat.le_trans hle hle3, hs3, ?_, ?_⟩
    · intro a ha
      simp only [FnDeclNode.formalTypes, List.mem_cons] at ha
      rcases ha with ha | ha
      · rw [ha]; exact Nat.lt_of_lt_of_le hv hle3
      · exact hv3 a ha
    · simp only [FnDeclNode.formalTypes, List.map_cons]
      rw [he, he3, hag3 _ hv]

/-! ## Two runs side by side: the state -/

theorem Except.Rel.bind {α β γ δ : Type} {P : α → β → Prop} {Q : γ → δ → Prop}
    {x : Except Crash α} {y : Except Crash β} {f : α → Except Crash γ}
    {g : β → Except Crash δ} (h : Except.Rel P x y)
    (hf : ∀ a b, P a b → Except.Rel Q (f a) (g b)) : Except.Rel Q (x >>= f) (y >>= g) := by
  cases x with
  | error e =>
    cases y with
    | error e2 => trivial
    | ok b => exact h.elim
  | ok a =>
    cases y with
    | error e2 => exact h.elim
    | ok b => exact hf a b h

theorem Except.Rel.mono {α β : Type} {P Q : α → β → Prop}
    {x : Except Crash α} {y : Except Crash β} (h : Except.Rel P x y)
    (hpq : ∀ a b, P a b → Q a b) : Except.Rel Q x y := by
  cases x with
  | error e =>
    cases y with
    | error e2 => trivial
    | ok b => exact h.elim
  | ok a =>
    cases y with
    | error e2 => exact h.elim
    | ok b => exact hpq a b h

namespace State.Sim

variable {base : Nat} {D : Nat → Prop} {p1 p2 : List Diagnostic} {ρ : Addr → Addr}
  {s1 s2 : State}

theorem next_refl (h : State.Sim base D p1 p2 ρ s1 s2) : State.Next base D p1 p2 ρ s1 s1 s2 :=
  ⟨ρ, fun _ _ => rfl, Nat.le_refl _, h⟩

theorem weaken (h : State.Sim base D p1 p2 ρ s1 s2) (D2 : Nat → Prop)
    (hd : ∀ k, D k → D2 k) : State.Sim base D2 p1 p2 ρ s1 s2 :=
  { reg := h.reg
    nodes := fun k hk => h.nodes k (fun hdk => hk (hd k hdk))
    nodesLive := h.nodesLive
    cur := h.cur
    curLive := h.curLive
    flag := h.flag
    reports := h.reports }

theorem nodeType_eq (h : State.Sim base D p1 p2 ρ s1 s2) (k : Nat) (hk : ¬ D k) :
    s2.nodeType k = (s1.nodeType k).map ρ := by
  simp only [State.nodeType, h.nodes k hk]
  cases TypeAnalysis.find k s1.ta.nodeToType with
  | none => rfl
  | some v => cases v <;> rfl

theorem nodeType_lt (h : State.Sim base D p1 p2 ρ s1 s2) (k : Nat) (a : Addr)
    (ha : s1.nodeType k = Except.ok a) : a < s1.reg.heap.length := by
  apply h.nodesLive k a
  simp only [State.nodeType] at ha
  split at ha
  · rename_i t ht
    cases ha
    exact ht
  · cases ha

theorem deref_eq (h : State.Sim base D p1 p2 ρ s1 s2) (a : Addr)
    (ha : a < s1.reg.heap.length) :
    ∃ obj, s1.deref a = Except.ok obj ∧ s2.deref (ρ a) = Except.ok (obj.rename ρ) ∧
      obj.live s1.reg.heap.length = true := by
  obtain ⟨obj, ho⟩ := s1.reg.deref_of_lt a ha
  exact ⟨obj, by simp [State.deref, ho], by simp [State.deref, h.reg.obj a obj ho],
    h.reg.objLive a obj ho⟩

theorem setReg (h : State.Sim base D p1 p2 ρ s1 s2) (ρ2 : Addr → Addr) (r1 r2 : TypeRegistry)
    (hag : ∀ x, x < s1.reg.heap.length → ρ2 x = ρ x)
    (hle : s1.reg.heap.length ≤ r1.heap.length) (hs : TypeRegistry.Sim base ρ2 r1 r2) :
    State.Sim base D p1 p2 ρ2 { s1 with reg := r1 } { s2 with reg := r2 } :=
  { reg := hs
    nodes := fun k hk => by
      show TypeAnalysis.find k s2.ta.nodeToType = _
      rw [h.nodes k hk]
      show _ = (TypeAnalysis.find k s1.ta.nodeToType).map (Option.map ρ2)
      cases hf : TypeAnalysis.find k s1.ta.nodeToType with
      | none => rfl
      | some v =>
        cases v with
        | none => rfl
        | some a => simp [hag a (h.nodesLive k a hf)]
    nodesLive := fun k a hf => Nat.lt_of_lt_of_le (h.nodesLive k a hf) hle
    cur := by
      show s2.ta.currentFnType = s1.ta.currentFnType.map ρ2
      rw [h.cur]
      cases hc : s1.ta.currentFnType with
      | none => rfl
      | some a => simp [hag a (h.curLive a hc)]
    curLive := fun a hc => Nat.lt_of_lt_of_le (h.curLive a hc) hle
    flag := h.flag
    reports := h.reports }

/-- Both runs record corresponding types for the node `k`; the node may have been in the set
`D2` of nodes on which the runs differ and leaves it. -/
theorem setNodeType {D2 : Nat → Prop} (h : State.Sim base D2 p1 p2 ρ s1 s2) (k : Nat) (a : Addr)
    (ha : a < s1.reg.heap.length) (hd : ∀ x, D2 x → D x ∨ x = k) :
    State.Sim base D p1 p2 ρ (s1.setNodeType k (some a)) (s2.setNodeType k (some (ρ a))) :=
  { reg := h.reg
    nodes := fun x hx => by
      show TypeAnalysis.find x (TypeAnalysis.insert k _ s2.ta.nodeToType)
        = (TypeAnalysis.find x (TypeAnalysis.insert k _ s1.ta.nodeToType)).map (Option.map ρ)
      by_cases hxk : x = k
      · subst hxk
        rw [TypeAnalysis.find_insert_self, TypeAnalysis.find_insert_self]
        rfl
      · rw [TypeAnalysis.find_insert_ne _ _ _ _ hxk, TypeAnalysis.find_insert_ne _ _ _ _ hxk]
        exact h.nodes x (fun hd2 => (hd x hd2).elim hx hxk)
    nodesLive := fun x b hf => by
      have hf2 : TypeAnalysis.find x (TypeAnalysis.insert k (some a) s1.ta.nodeToType)
          = some (some b) := hf
      by_cases hxk : x = k
      · subst hxk
        rw [TypeAnalysis.find_insert_self] at hf2
        cases hf2
        exact ha
      · rw [TypeAnalysis.find_insert_ne _ _ _ _ hxk] at hf2
        exact h.nodesLive x b hf2
    cur := h.cur
    curLive := h.curLive
    flag := h.flag
    reports := h.reports }

theorem report (h : State.Sim base D p1 p2 ρ s1 s2) (kind : ErrorKind) (pos : Position) :
    State.Sim base D p1 p2 ρ (s1.report kind pos) (s2.report kind pos) :=
  { reg := h.reg
    nodes := h.nodes
    nodesLive := h.nodesLive
    cur := h.cur
    curLive := h.curLive
    flag := fun _ => rfl
    reports := by
      obtain ⟨d, h1, h2⟩ := h.reports
      refine ⟨d ++ [{ kind := kind, pos := pos }], ?_, ?_⟩
      · show s1.reports ++ _ = _
        rw [h1, List.append_assoc]
      · show s2.reports ++ _ = _
        rw [h2, List.append_assoc] }

end State.Sim

theorem State.Next.next_trans {base : Nat} {D : Nat → Prop} {p1 p2 : List Diagnostic}
    {ρ ρ2 : Addr → Addr} {s1 a c d : State}
    (hag : ∀ x, x < s1.reg.heap.length → ρ2 x = ρ x)
    (hle : s1.reg.heap.length ≤ a.reg.heap.length)
    (h : State.Next base D p1 p2 ρ2 a c d) : State.Next base D p1 p2 ρ s1 c d := by
  obtain ⟨ρ3, hag3, hle3, hs⟩ := h
  exact ⟨ρ3, fun x hx => by rw [hag3 x (Nat.lt_of_lt_of_le hx hle), hag x hx],
    Nat.le_trans hle hle3, hs⟩

/-- Sequencing: the second step starts from states that correspond under a renaming that
extends the one before the first step. -/
theorem Except.Rel.bindNext {base : Nat} {D : Nat → Prop} {p1 p2 : List Diagnostic}
    {ρ : Addr → Addr} {s1 : State} {x y : Except Crash State}
    {f g : State → Except Crash State}
    (h : Except.Rel (State.Next base D p1 p2 ρ s1) x y)
    (hf : ∀ (ρ2 : Addr → Addr) (a b : State), (∀ x, x < s1.reg.heap.length → ρ2 x = ρ x) →
      s1.reg.heap.length ≤ a.reg.heap.length → State.Sim base D p1 p2 ρ2 a b →
      Except.Rel (State.Next base D p1 p2 ρ2 a) (f a) (g b)) :
    Except.Rel (State.Next base D p1 p2 ρ s1) (x >>= f) (y >>= g) := by
  refine Except.Rel.bind h ?_
  rintro a b ⟨ρ2, hag, hle, hs⟩
  exact Except.Rel.mono (hf ρ2 a b hag hle hs) (fun c d hn => State.Next.next_trans hag hle hn)

namespace State.Sim

variable {base : Nat} {D : Nat → Prop} {p1 p2 : List Diagnostic} {ρ : Addr → Addr}
  {s1 s2 : State}

theorem setError {D2 : Nat → Prop} (h : State.Sim base D2 p1 p2 ρ s1 s2) (k : Nat)
    (hd : ∀ x, D2 x → D x ∨ x = k) :
    State.Next base D p1 p2 ρ s1 (s1.setError k) (s2.setError k) := by
  obtain ⟨ρ2, hag, hle, hs, hv, he⟩ := h.reg.produceError
  refine ⟨ρ2, hag, hle, ?_⟩
  have h2 := (h.setReg ρ2 _ _ hag hle hs).setNodeType (D := D) k _ hv hd
  simp only [State.setError]
  rw [he]
  exact h2

theorem setBasic {D2 : Nat → Prop} (h : State.Sim base D2 p1 p2 ρ s1 s2) (k : Nat)
    (b : BaseType) (hd : ∀ x, D2 x → D x ∨ x = k) :
    State.Next base D p1 p2 ρ s1 (s1.setBasic k b) (s2.setBasic k b) := by
  obtain ⟨ρ2, hag, hle, hs, hv, he⟩ := h.reg.produceBasic b
  refine ⟨ρ2, hag, hle, ?_⟩
  have h2 := (h.setReg ρ2 _ _ hag hle hs).setNodeType (D := D) k _ hv hd
  simp only [State.setBasic]
  rw [he]
  exact h2

/-- Only the second run records a type, for a node on which the runs may differ. -/
theorem setNodeType_right (h : State.Sim base D p1 p2 ρ s1 s2) (k : Nat) (v : Option Addr)
    (hk : D k) : State.Sim base D p1 p2 ρ s1 (s2.setNodeType k v) :=
  { reg := h.reg
    nodes := fun x hx => by
      have hxk : x ≠ k := fun e => hx (e ▸ hk)
      show TypeAnalysis.find x (TypeAnalysis.insert k _ s2.ta.nodeToType) = _
      rw [TypeAnalysis.find_insert_ne _ _ _ _ hxk]
      exact h.nodes x hx
    nodesLive := h.nodesLive
    cur := h.cur
    curLive := h.curLive
    flag := h.flag
    reports := h.reports }

/-- Only the second run records the Error type, for a node on which the runs may differ. -/
theorem setError_right (h : State.Sim base D p1 p2 ρ s1 s2) (k : Nat) (hk : D k) :
    State.Sim base D p1 p2 ρ s1 (s2.setError k) := by
  have h2 : State.Sim base D p1 p2 ρ s1 { s2 with reg := (ErrorType.produce s2.reg).2 } :=
    { reg := h.reg.produceError_right
      nodes := h.nodes
      nodesLive := h.nodesLive
      cur := h.cur
      curLive := h.curLive
      flag := h.flag
      reports := h.reports }
  exact h2.setNodeType_right k _ hk

theorem setCurrentFnType (h : State.Sim base D p1 p2 ρ s1 s2) (a : Addr)
    (ha : a < s1.reg.heap.length) :
    State.Sim base D p1 p2 ρ (s1.setCurrentFnType (some a)) (s2.setCurrentFnType (some (ρ a))) :=
  { reg := h.reg
    nodes := h.nodes
    nodesLive := h.nodesLive
    cur := rfl
    curLive := fun b hb => by
      have : some a = some b := hb
      cases this
      exact ha
    flag := h.flag
    reports := h.reports }

theorem derefFn (h : State.Sim base D p1 p2 ρ s1 s2) :
    Except.Rel (fun f1 f2 : FnType => f2.myRetType = ρ f1.myRetType ∧
        f2.myFormalTypes = f1.myFormalTypes.map ρ ∧ f1.myRetType < s1.reg.heap.length ∧
        ∀ a, a ∈ f1.myFormalTypes → a < s1.reg.heap.length)
      (s1.derefFn s1.getCurrentFnType) (s2.derefFn s2.getCurrentFnType) := by
  simp only [State.getCurrentFnType, h.cur]
  cases hc : s1.ta.currentFnType with
  | none => trivial
  | some a =>
    obtain ⟨obj, ho⟩ := s1.reg.deref_of_lt a (h.curLive a hc)
    have hl := h.reg.objLive a obj ho
    simp only [Option.map, State.derefFn, ho, h.reg.obj a obj ho]
    cases obj with
    | error => trivial
    | basic b => trivial
    | ptr p => trivial
    | fn f =>
      simp only [DataType.live, Bool.and_eq_true, List.all_eq_true, decide_eq_true_eq] at hl
      exact ⟨rfl, rfl, hl.2, hl.1⟩

end State.Sim

/-! ## Two runs side by side: expressions -/

section rules

variable {base : Nat} {D : Nat → Prop} {p1 p2 : List Diagnostic} {ρ : Addr → Addr}
  {s1 s2 : State}

theorem IDNode.iDNode_sim (h : State.Sim base D p1 p2 ρ s1 s2) (self : IDNode)
    (ht : self.mySymbol.myType < base) :
    State.Sim base D p1 p2 ρ (self.typeAnalysis s1) (self.typeAnalysis s2) := by
  have h2 := h.setNodeType (D := D) self.addr self.mySymbol.myType
    (Nat.lt_of_lt_of_le ht h.reg.base_le) (fun x hx => Or.inl hx)
  rw [h.reg.fix _ ht] at h2
  exact h2

theorem IDNode.nodeType_iDNode (self : IDNode) (st : State) :
    (self.typeAnalysis st).nodeType self.addr = Except.ok self.mySymbol.myType := by
  simp [IDNode.typeAnalysis, State.nodeType_setNodeType_self, IDNode.getSymbol,
    SemSymbol.getDataType]

theorem DerefNode.derefNode_sim (h : State.Sim base D p1 p2 ρ s1 s2) (self : DerefNode)
    (ht : self.myID.mySymbol.myType < base) :
    Except.Rel (State.Next base D p1 p2 ρ s1) (self.typeAnalysis s1) (self.typeAnalysis s2) := by
  have hi := IDNode.iDNode_sim h self.myID ht
  have hlen : (self.myID.typeAnalysis s1).reg.heap.length = s1.reg.heap.length := rfl
  have hlt := Nat.lt_of_lt_of_le ht h.reg.base_le
  obtain ⟨obj, ho1, ho2, hl⟩ := hi.deref_eq self.myID.mySymbol.myType hlt
  rw [h.reg.fix _ ht] at ho2
  simp only [DerefNode.typeAnalysis, IDNode.nodeType_iDNode, ho1, ho2, bind, Except.bind,
    DataType.asPtr_rename]
  cases obj with
  | ptr p =>
    simp only [DataType.live, decide_eq_true_eq] at hl
    exact ⟨ρ, fun _ _ => rfl, Nat.le_refl _,
      hi.setNodeType self.addr p.myBase hl (fun x hx => Or.inl hx)⟩
  | error => exact (hi.report _ _).setError _ (fun x hx => Or.inl hx)
  | basic b => exact (hi.report _ _).setError _ (fun x hx => Or.inl hx)
  | fn f => exact (hi.report _ _).setError _ (fun x hx => Or.inl hx)

end rules

section rules

variable {base : Nat} {D : Nat → Prop} {p1 p2 : List Diagnostic} {ρ : Addr → Addr}
  {s1 s2 : State}

theorem RefNode.refNode_sim (h : State.Sim base D p1 p2 ρ s1 s2) (self : RefNode)
    (ht : self.myID.mySymbol.myType < base) :
    Except.Rel (State.Next base D p1 p2 ρ s1) (self.typeAnalysis s1) (self.typeAnalysis s2) := by
  have hi := IDNode.iDNode_sim h self.myID ht
  have hlt := Nat.lt_of_lt_of_le ht h.reg.base_le
  have hp := hi.reg.producePtr self.myID.mySymbol.myType hlt
  rw [h.reg.fix _ ht] at hp
  obtain ⟨ρ2, hag, hle, hs, hv, he⟩ := hp
  simp only [RefNode.typeAnalysis, IDNode.nodeType_iDNode, bind, Except.bind]
  refine ⟨ρ2, hag, hle, ?_⟩
  have h2 := (hi.setReg ρ2 _ _ hag hle hs).setNodeType (D := D) self.addr _ hv
    (fun x hx => Or.inl hx)
  rw [← he] at h2
  exact h2

theorem AssignExpNode.assignExpNodeRule_sim (h : State.Sim base D p1 p2 ρ s1 s2)
    (self myDst mySrc : ASTNode) (hd : ¬ D myDst.addr) (hs : ¬ D mySrc.addr) :
    Except.Rel (State.Next base D p1 p2 ρ s1) (AssignExpNode.typeRule self myDst mySrc s1)
      (AssignExpNode.typeRule self myDst mySrc s2) := by
  simp only [AssignExpNode.typeRule, bind, Except.bind, h.nodeType_eq _ hd, h.nodeType_eq _ hs]
  cases ht : s1.nodeType myDst.addr with
  | error e => trivial
  | ok tgt =>
    cases hsrc : s1.nodeType mySrc.addr with
    | error e => trivial
    | ok src =>
      have htl := h.nodeType_lt _ _ ht
      have hsl := h.nodeType_lt _ _ hsrc
      obtain ⟨tobj, hto1, hto2, -⟩ := h.deref_eq tgt htl
      obtain ⟨sobj, hso1, hso2, -⟩ := h.deref_eq src hsl
      simp only [Except.map, hto1, hto2, hso1, hso2, DataType.asError_rename,
        DataType.validVarType_rename, h.reg.eq_iff tgt src htl hsl, pure, Except.pure]
      split
      · exact h.setError _ (fun x hx => Or.inl hx)
      · split
        · exact h.setError _ (fun x hx => Or.inl hx)
        · split
          · exact (h.report _ _).setError _ (fun x hx => Or.inl hx)
          · split
            · exact (h.report _ _).setError _ (fun x hx => Or.inl hx)
            · split
              · exact (h.setNodeType _ tgt htl (fun x hx => Or.inl hx)).next_refl
              · exact (h.report _ _).setError _ (fun x hx => Or.inl hx)

theorem NegNode.negNodeRule_sim (h : State.Sim base D p1 p2 ρ s1 s2)
    (self myExp : ASTNode) (hk : ¬ D myExp.addr) :
    Except.Rel (State.Next base D p1 p2 ρ s1) (NegNode.typeRule self myExp s1)
      (NegNode.typeRule self myExp s2) := by
  simp only [NegNode.typeRule, bind, Except.bind, h.nodeType_eq _ hk]
  cases ht : s1.nodeType myExp.addr with
  | error e => trivial
  | ok t =>
    have htl := h.nodeType_lt _ _ ht
    obtain ⟨obj, ho1, ho2, -⟩ := h.deref_eq t htl
    simp only [Except.map, ho1, ho2, DataType.asError_rename, DataType.isInt_rename, pure,
      Except.pure]
    split
    · exact (h.report _ _).setError _ (fun x hx => Or.inl hx)
    · exact (h.setNodeType _ t htl (fun x hx => Or.inl hx)).next_refl

theorem NotNode.notNodeRule_sim (h : State.Sim base D p1 p2 ρ s1 s2)
    (self myExp : ASTNode) (hk : ¬ D myExp.addr) :
    Except.Rel (State.Next base D p1 p2 ρ s1) (NotNode.typeRule self myExp s1)
      (NotNode.typeRule self myExp s2) := by
  simp only [NotNode.typeRule, bind, Except.bind, h.nodeType_eq _ hk]
  cases ht : s1.nodeType myExp.addr with
  | error e => trivial
  | ok t =>
    have htl := h.nodeType_lt _ _ ht
    obtain ⟨obj, ho1, ho2, -⟩ := h.deref_eq t htl
    simp only [Except.map, ho1, ho2, DataType.asError_rename, DataType.isBool_rename, pure,
      Except.pure]
    split
    · exact (h.report _ _).setError _ (fun x hx => Or.inl hx)
    · exact (h.setNodeType _ t htl (fun x hx => Or.inl hx)).next_refl

theorem State.asBasicIsBool_sim (h : State.Sim base D p1 p2 ρ s1 s2) (a : Addr)
    (ha : a < s1.reg.heap.length) : s2.asBasicIsBool (ρ a) = s1.asBasicIsBool a := by
  obtain ⟨obj, ho1, ho2, -⟩ := h.deref_eq a ha
  simp only [State.asBasicIsBool, ho1, ho2, bind, Except.bind, DataType.asBasic_rename]

theorem AndNode.andNodeRule_sim (h : State.Sim base D p1 p2 ρ s1 s2)
    (self myExp1 myExp2 : ASTNode) (hk1 : ¬ D myExp1.addr) (hk2 : ¬ D myExp2.addr) :
    Except.Rel (State.Next base D p1 p2 ρ s1) (AndNode.typeRule self myExp1 myExp2 s1)
      (AndNode.typeRule self myExp1 myExp2 s2) := by
  simp only [AndNode.typeRule, bind, Except.bind, h.nodeType_eq _ hk1, h.nodeType_eq _ hk2]
  cases ht1 : s1.nodeType myExp1.addr with
  | error e => trivial
  | ok left =>
    cases ht2 : s1.nodeType myExp2.addr with
    | error e => trivial
    | ok right =>
      simp only [Except.map, State.asBasicIsBool_sim h left (h.nodeType_lt _ _ ht1),
        State.asBasicIsBool_sim h right (h.nodeType_lt _ _ ht2)]
      cases s1.asBasicIsBool left with
      | error e => trivial
      | ok bl =>
        cases bl with
        | false => exact (h.report _ _).setError _ (fun x hx => Or.inl hx)
        | true =>
          cases s1.asBasicIsBool right with
          | error e => trivial
          | ok br =>
            cases br with
            | false => exact (h.report _ _).setError _ (fun x hx => Or.inl hx)
            | true => exact h.next_refl

theorem OrNode.orNodeRule_sim (h : State.Sim base D p1 p2 ρ s1 s2)
    (self myExp1 myExp2 : ASTNode) (hk1 : ¬ D myExp1.addr) (hk2 : ¬ D myExp2.addr) :
    Except.Rel (State.Next base D p1 p2 ρ s1) (OrNode.typeRule self myExp1 myExp2 s1)
      (OrNode.typeRule self myExp1 myExp2 s2) :=
  AndNode.andNodeRule_sim h self myExp1 myExp2 hk1 hk2

end rules

theorem Except.ok_bind {α β : Type} (a : α) (f : α → Except Crash β) :
    (Except.ok a >>= f) = f a := rfl

theorem Except.error_bind {α β : Type} (e : Crash) (f : α → Except Crash β) :
    ((Except.error e : Except Crash α) >>= f) = Except.error e := rfl

section rules

variable {base : Nat} {D : Nat → Prop} {p1 p2 : List Diagnostic} {ρ : Addr → Addr}
  {s1 s2 : State}

theorem State.intOperand_sim (h : State.Sim base D p1 p2 ρ s1 s2) (opd : Addr)
    (ho : opd < s1.reg.heap.length) (kind : ErrorKind) (pos : Position) :
    Except.Rel (fun a b => State.Sim base D p1 p2 ρ a b ∧ a.reg = s1.reg)
      (s1.intOperand opd kind pos) (s2.intOperand (ρ opd) kind pos) := by
  obtain ⟨obj, ho1, ho2, hl⟩ := h.deref_eq opd ho
  simp only [State.intOperand, ho1, ho2, bind, Except.bind, DataType.asFn_rename,
    DataType.isInt_rename]
  cases obj with
  | fn f =>
    simp only [DataType.live, Bool.and_eq_true, List.all_eq_true, decide_eq_true_eq] at hl
    obtain ⟨ret, hr1, hr2, -⟩ := h.deref_eq f.myRetType hl.2
    simp only [DataType.asFn, Option.map, FnType.getReturnType, hr1, hr2,
      DataType.isInt_rename]
    split
    · exact ⟨h.report _ _, rfl⟩
    · exact ⟨h, rfl⟩
  | error =>
    simp only [DataType.asFn, Option.map]
    split
    · exact ⟨h.report _ _, rfl⟩
    · exact ⟨h, rfl⟩
  | basic b =>
    simp only [DataType.asFn, Option.map]
    split
    · exact ⟨h.report _ _, rfl⟩
    · exact ⟨h, rfl⟩
  | ptr p =>
    simp only [DataType.asFn, Option.map]
    split
    · exact ⟨h.report _ _, rfl⟩
    · exact ⟨h, rfl⟩

/-- The end of an arithmetic or relational member: the `passed()` test and the final record. -/
theorem State.Sim.passedStep (h : State.Sim base D p1 p2 ρ s1 s2) (k : Nat) (b : BaseType) :
    State.Next base D p1 p2 ρ s1
      ((if !s1.ta.passed then s1.setError k else s1).setBasic k b)
      ((if !s2.ta.passed then s2.setError k else s2).setBasic k b) := by
  cases hf1 : s1.ta.hasError with
  | true =>
    have hf2 := h.flag hf1
    simp only [TypeAnalysis.passed, hf1, hf2, Bool.not_true, Bool.not_false, if_true]
    obtain ⟨ρ2, hag, hle, hs⟩ := h.setError (D := D) k (fun x hx => Or.inl hx)
    exact State.Next.next_trans hag hle (hs.setBasic k b (fun x hx => Or.inl hx))
  | false =>
    cases hf2 : s2.ta.hasError with
    | false =>
      simp only [TypeAnalysis.passed, hf1, hf2, Bool.not_true, Bool.not_false]
      exact h.setBasic k b (fun x hx => Or.inl hx)
    | true =>
      simp only [TypeAnalysis.passed, hf1, hf2, Bool.not_true, Bool.not_false, if_true]
      have hw := (h.weaken (fun x => D x ∨ x = k) (fun x hx => Or.inl hx)).setError_right k
        (Or.inr rfl)
      exact hw.setBasic k b (fun x hx => hx)

theorem binaryIntRule_sim (h : State.Sim base D p1 p2 ρ s1 s2) (kind : ErrorKind)
    (pos1 pos2 : Position) (result : BaseType) (self myExp1 myExp2 : ASTNode)
    (hk1 : ¬ D myExp1.addr) (hk2 : ¬ D myExp2.addr) :
    Except.Rel (State.Next base D p1 p2 ρ s1)
      (binaryIntRule kind pos1 pos2 result self myExp1 myExp2 s1)
      (binaryIntRule kind pos1 pos2 result self myExp1 myExp2 s2) := by
  simp only [binaryIntRule, h.nodeType_eq _ hk1, h.nodeType_eq _ hk2]
  cases ht1 : s1.nodeType myExp1.addr with
  | error e => trivial
  | ok left =>
    cases ht2 : s1.nodeType myExp2.addr with
    | error e => trivial
    | ok right =>
      simp only [Except.map, Except.ok_bind]
      refine Except.Rel.bind (State.intOperand_sim h left (h.nodeType_lt _ _ ht1) kind pos1) ?_
      rintro a b ⟨hs, hreg⟩
      have hr : right < a.reg.heap.length := by rw [hreg]; exact h.nodeType_lt _ _ ht2
      refine Except.Rel.bind (State.intOperand_sim hs right hr kind pos2) ?_
      rintro c d ⟨hs2, hreg2⟩
      have hn := hs2.passedStep self.addr result
      have hlen : c.reg.heap.length = s1.reg.heap.length := by rw [hreg2, hreg]
      obtain ⟨ρ2, hag, hle, hs3⟩ := hn
      exact ⟨ρ2, fun x hx => hag x (by rw [hlen]; exact hx), by rw [← hlen]; exact hle, hs3⟩

end rules

section rules

variable {base : Nat} {D : Nat → Prop} {p1 p2 : List Diagnostic} {ρ : Addr → Addr}

theorem CallExpNode.matchArgs_sim (self : ASTNode) :
    ∀ (myArgs : List ASTNode) (formals : List Addr) (s1 s2 : State),
      State.Sim base D p1 p2 ρ s1 s2 → (∀ a, a ∈ myArgs → ¬ D a.addr) →
      (∀ f, f ∈ formals → f < s1.reg.heap.length) →
      Except.Rel (fun a b => State.Sim base D p1 p2 ρ a b ∧ a.reg = s1.reg)
        (CallExpNode.matchArgs self myArgs formals s1)
        (CallExpNode.matchArgs self myArgs (formals.map ρ) s2) := by
  intro myArgs
  induction myArgs with
  | nil =>
    intro formals s1 s2 h _ _
    exact ⟨h, rfl⟩
  | cons arg rest ih =>
    intro formals s1 s2 h hargs hformals
    cases formals with
    | nil => trivial
    | cons f fs =>
      have hk := hargs arg (List.mem_cons_self _ _)
      have hf := hformals f (List.mem_cons_self _ _)
      simp only [List.map_cons, CallExpNode.matchArgs, h.nodeType_eq _ hk]
      cases ht : s1.nodeType arg.addr with
      | error e => trivial
      | ok actual =>
        have hal := h.nodeType_lt _ _ ht
        obtain ⟨aobj, hao1, hao2, -⟩ := h.deref_eq actual hal
        obtain ⟨fobj, hfo1, hfo2, -⟩ := h.deref_eq f hf
        have hne : (ρ f != ρ actual) = (f != actual) := by
          by_cases hfa : f = actual
          · rw [hfa, bne_self_eq_false, bne_self_eq_false]
          · have hne2 : ρ f ≠ ρ actual := fun e => hfa (h.reg.inj f actual hf hal e)
            rw [bne_iff_ne.2 hfa, bne_iff_ne.2 hne2]
        simp only [Except.map, Except.ok_bind, hao1, hao2, hfo1, hfo2, DataType.asError_rename,
          hne]
        have hstep : Except.Rel (fun a b => State.Sim base D p1 p2 ρ a b ∧ a.reg = s1.reg)
            (if (!aobj.asError) = true then
              (if (!fobj.asError && f != actual) = true then
                pure (s1.report ErrorKind.errArgMatch self.myPos) else pure s1)
             else pure s1)
            (if (!aobj.asError) = true then
              (if (!fobj.asError && f != actual) = true then
                pure (s2.report ErrorKind.errArgMatch self.myPos) else pure s2)
             else pure s2) := by
          split
          · split
            · exact ⟨h.report _ _, rfl⟩
            · exact ⟨h, rfl⟩
          · exact ⟨h, rfl⟩
        refine Except.Rel.bind hstep ?_
        rintro a b ⟨hs, hreg⟩
        refine Except.Rel.mono (ih fs a b hs
          (fun x hx => hargs x (List.mem_cons_of_mem _ hx))
          (fun x hx => by rw [hreg]; exact hformals x (List.mem_cons_of_mem _ hx))) ?_
        rintro c d ⟨hs2, hreg2⟩
        exact ⟨hs2, by rw [hreg2, hreg]⟩

variable {s1 s2 : State}

theorem CallExpNode.callExpNodeRule_sim (h : State.Sim base D p1 p2 ρ s1 s2) (self : ASTNode)
    (myID : IDNode) (myArgs : List ASTNode) (ht : myID.mySymbol.myType < base)
    (hargs : ∀ a, a ∈ myArgs → ¬ D a.addr) :
    Except.Rel (State.Next base D p1 p2 ρ s1) (CallExpNode.typeRule self myID myArgs s1)
      (CallExpNode.typeRule self myID myArgs s2) := by
  have hlt := Nat.lt_of_lt_of_le ht h.reg.base_le
  obtain ⟨obj, ho1, ho2, hl⟩ := h.deref_eq myID.mySymbol.myType hlt
  rw [h.reg.fix _ ht] at ho2
  simp only [CallExpNode.typeRule, IDNode.getSymbol, SemSymbol.getDataType, ho1, ho2,
    Except.ok_bind, DataType.asFn_rename]
  cases obj with
  | error => exact (h.report _ _).setError _ (fun x hx => Or.inl hx)
  | basic b => exact (h.report _ _).setError _ (fun x hx => Or.inl hx)
  | ptr p => exact (h.report _ _).setError _ (fun x hx => Or.inl hx)
  | fn f =>
    simp only [DataType.live, Bool.and_eq_true, List.all_eq_true, decide_eq_true_eq] at hl
    simp only [DataType.asFn, Option.map, FnType.getFormalTypes, FnType.getReturnType,
      List.length_map]
    have hstep : Except.Rel (State.Next base D p1 p2 ρ s1)
        (if (myArgs.length != f.myFormalTypes.length) = true then
          pure ((s1.report ErrorKind.errArgCount myID.myPos).setError self.addr)
         else CallExpNode.matchArgs self myArgs f.myFormalTypes s1)
        (if (myArgs.length != f.myFormalTypes.length) = true then
          pure ((s2.report ErrorKind.errArgCount myID.myPos).setError self.addr)
         else CallExpNode.matchArgs self myArgs (f.myFormalTypes.map ρ) s2) := by
      split
      · exact (h.report _ _).setError _ (fun x hx => Or.inl hx)
      · refine Except.Rel.mono
          (CallExpNode.matchArgs_sim self myArgs f.myFormalTypes s1 s2 h hargs hl.1) ?_
        rintro a b ⟨hs, hreg⟩
        exact ⟨ρ, fun _ _ => rfl, by rw [hreg], hs⟩
    refine Except.Rel.bind hstep ?_
    rintro a b ⟨ρ2, hag, hle, hs⟩
    have h2 := hs.setNodeType (D := D) self.addr f.myRetType (Nat.lt_of_lt_of_le hl.2 hle)
      (fun x hx => Or.inl hx)
    rw [hag _ hl.2] at h2
    exact ⟨ρ2, hag, hle, h2⟩

end rules

section rules

variable {base : Nat} {D : Nat → Prop} {p1 p2 : List Diagnostic} {ρ : Addr → Addr}
  {s1 s2 : State}

theorem opdTypeAnalysis_sim (analyse : State → Except Crash State) (opd : ASTNode)
    (ha : Except.Rel (State.Next base D p1 p2 ρ s1) (analyse s1) (analyse s2))
    (hk : ¬ D opd.addr) :
    Except.Rel (fun a b => a.1 = b.1 ∧ State.Next base D p1 p2 ρ s1 a.2 b.2)
      (opdTypeAnalysis analyse opd "notEqYesOpd" s1)
      (opdTypeAnalysis analyse opd "notEqYesOpd" s2) := by
  cases h1 : analyse s1 with
  | error e =>
    cases h2 : analyse s2 with
    | error e2 =>
      simp only [opdTypeAnalysis, h1, h2, Except.error_bind]
      trivial
    | ok b => rw [h1, h2] at ha; exact ha.elim
  | ok a =>
    cases h2 : analyse s2 with
    | error e2 => rw [h1, h2] at ha; exact ha.elim
    | ok b =>
      rw [h1, h2] at ha
      obtain ⟨ρ2, hag, hle, hs⟩ := ha
      have hn := hs.nodeType_eq _ hk
      cases ht : a.nodeType opd.addr with
      | error e =>
        rw [ht] at hn
        simp only [opdTypeAnalysis, h1, h2, ht, hn, Except.map, Except.ok_bind,
          Except.error_bind]
        trivial
      | ok which =>
        rw [ht] at hn
        obtain ⟨obj, ho1, ho2, -⟩ := hs.deref_eq which (hs.nodeType_lt _ _ ht)
        rw [opdTypeAnalysis_notEqYes analyse opd s1 a which obj h1 ht ho1,
          opdTypeAnalysis_notEqYes analyse opd s2 b (ρ2 which) (obj.rename ρ2) h2 hn ho2]
        simp only [DataType.isInt_rename, DataType.isBool_rename]
        split
        · exact ⟨rfl, ρ2, hag, hle, hs⟩
        · exact ⟨rfl, State.Next.next_trans hag hle
            ((hs.report _ _).setError _ (fun x hx => Or.inl hx))⟩

theorem EqualsNode.equalsRule_sim (h : State.Sim base D p1 p2 ρ s1 s2)
    (self myExp1 myExp2 : ASTNode) (tmp1 tmp2 : Bool) (hk1 : ¬ D myExp1.addr)
    (hk2 : ¬ D myExp2.addr) :
    Except.Rel (State.Next base D p1 p2 ρ s1)
      (EqualsNode.typeRule self myExp1 myExp2 tmp1 tmp2 s1)
      (EqualsNode.typeRule self myExp1 myExp2 tmp1 tmp2 s2) := by
  simp only [EqualsNode.typeRule]
  split
  · simp only [h.nodeType_eq _ hk1, h.nodeType_eq _ hk2]
    cases ht1 : s1.nodeType myExp1.addr with
    | error e => trivial
    | ok t1 =>
      cases ht2 : s1.nodeType myExp2.addr with
      | error e => trivial
      | ok t2 =>
        have hl1 := h.nodeType_lt _ _ ht1
        have hl2 := h.nodeType_lt _ _ ht2
        have hne : (ρ t2 != ρ t1) = (t2 != t1) := by
          by_cases hfa : t2 = t1
          · rw [hfa, bne_self_eq_false, bne_self_eq_false]
          · have hne2 : ρ t2 ≠ ρ t1 := fun e => hfa (h.reg.inj t2 t1 hl2 hl1 e)
            rw [bne_iff_ne.2 hfa, bne_iff_ne.2 hne2]
        simp only [Except.map, Except.ok_bind, hne]
        split
        · exact (h.report _ _).setError _ (fun x hx => Or.inl hx)
        · exact h.setBasic _ _ (fun x hx => Or.inl hx)
  · exact h.setBasic _ _ (fun x hx => Or.inl hx)

theorem NotEqualsNode.notEqualsRule_sim (h : State.Sim base D p1 p2 ρ s1 s2)
    (self myExp1 myExp2 : ASTNode) (tmp1 tmp2 : Bool) (hk1 : ¬ D myExp1.addr)
    (hk2 : ¬ D myExp2.addr) :
    Except.Rel (State.Next base D p1 p2 ρ s1)
      (NotEqualsNode.typeRule self myExp1 myExp2 tmp1 tmp2 s1)
      (NotEqualsNode.typeRule self myExp1 myExp2 tmp1 tmp2 s2) :=
  EqualsNode.equalsRule_sim h self myExp1 myExp2 tmp1 tmp2 hk1 hk2

end rules

theorem LValNode.lValNode_root (p : ASTNode → Bool) (q : IDNode → Bool) (l : LValNode)
    (h : l.all p q = true) : p l.toASTNode = true := by
  cases l with
  | idNode i =>
    simp only [LValNode.all, IDNode.all, Bool.and_eq_true] at h
    exact h.1
  | derefNode d =>
    simp only [LValNode.all, Bool.and_eq_true] at h
    exact h.1

theorem ExpNode.expNode_root (p : ASTNode → Bool) (q : IDNode → Bool) (e : ExpNode)
    (h : e.all p q = true) : p e.toASTNode = true := by
  cases e with
  | lval l =>
    simp only [ExpNode.all] at h
    exact LValNode.lValNode_root p q l h
  | assignExp a =>
    cases a with
    | mk n myDst mySrc =>
      simp only [ExpNode.all, AssignExpNode.all, Bool.and_eq_true] at h
      exact h.1.1
  | callExp c =>
    cases c with
    | mk n myID myArgs =>
      simp only [ExpNode.all, CallExpNode.all, Bool.and_eq_true] at h
      exact h.1.1
  | refNode r =>
    simp only [ExpNode.all, Bool.and_eq_true] at h
    exact h.1
  | plusNode n myExp1 myExp2 =>
    simp only [ExpNode.all, Bool.and_eq_true] at h
    exact h.1.1
  | minusNode n myExp1 myExp2 =>
    simp only [ExpNode.all, Bool.and_eq_true] at h
    exact h.1.1
  | timesNode n myExp1 myExp2 =>
    simp only [ExpNode.all, Bool.and_eq_true] at h
    exact h.1.1
  | divideNode n myExp1 myExp2 =>
    simp only [ExpNode.all, Bool.and_eq_true] at h
    exact h.1.1
  | andNode n myExp1 myExp2 =>
    simp only [ExpNode.all, Bool.and_eq_true] at h
    exact h.1.1
  | orNode n myExp1 myExp2 =>
    simp only [ExpNode.all, Bool.and_eq_true] at h
    exact h.1.1
  | lessNode n myExp1 myExp2 =>
    simp only [ExpNode.all, Bool.and_eq_true] at h
    exact h.1.1
  | lessEqNode n myExp1 myExp2 =>
    simp only [ExpNode.all, Bool.and_eq_true] at h
    exact h.1.1
  | greaterNode n myExp1 myExp2 =>
    simp only [ExpNode.all, Bool.and_eq_true] at h
    exact h.1.1
  | greaterEqNode n myExp1 myExp2 =>
    simp only [ExpNode.all, Bool.and_eq_true] at h
    exact h.1.1
  | equalsNode n myExp1 myExp2 =>
    simp only [ExpNode.all, Bool.and_eq_true] at h
    exact h.1.1
  | notEqualsNode n myExp1 myExp2 =>
    simp only [ExpNode.all, Bool.and_eq_true] at h
    exact h.1.1
  | negNode n myExp =>
    simp only [ExpNode.all, Bool.and_eq_true] at h
    exact h.1
  | notNode n myExp =>
    simp only [ExpNode.all, Bool.and_eq_true] at h
    exact h.1
  | shortLitNode n =>
    simp only [ExpNode.all] at h
    exact h
  | intLitNode n =>
    simp only [ExpNode.all] at h
    exact h
  | strLitNode n =>
    simp only [ExpNode.all] at h
    exact h
  | trueNode n =>
    simp only [ExpNode.all] at h
    exact h
  | falseNode n =>
    simp only [ExpNode.all] at h
    exact h

theorem ExpNode.allList_root (p : ASTNode → Bool) (q : IDNode → Bool) :
    ∀ (l : List ExpNode), ExpNode.allList p q l = true →
      ∀ a, a ∈ l.map ExpNode.toASTNode → p a = true := by
  intro l
  induction l with
  | nil =>
    intro _ a ha
    exact absurd ha (List.not_mem_nil a)
  | cons e rest ih =>
    intro h a ha
    simp only [ExpNode.allList, Bool.and_eq_true] at h
    simp only [List.map_cons, List.mem_cons] at ha
    rcases ha with ha | ha
    · rw [ha]; exact ExpNode.expNode_root p q e h.1
    · exact ih h.2 a ha

section induction

variable {base : Nat} {D : Nat → Prop} {p1 p2 : List Diagnostic}
  {p : ASTNode → Bool} {q : IDNode → Bool}

theorem LValNode.lValNode_sim
    (hq : ∀ i, q i = true → i.mySymbol.myType < base) (l : LValNode) (ρ : Addr → Addr)
    (s1 s2 : State) (h : State.Sim base D p1 p2 ρ s1 s2) (ha : l.all p q = true) :
    Except.Rel (State.Next base D p1 p2 ρ s1) (l.typeAnalysis s1) (l.typeAnalysis s2) := by
  cases l with
  | idNode i =>
    simp only [LValNode.all, IDNode.all, Bool.and_eq_true] at ha
    exact (IDNode.iDNode_sim h i (hq i ha.2)).next_refl
  | derefNode d =>
    simp only [LValNode.all, IDNode.all, Bool.and_eq_true] at ha
    exact DerefNode.derefNode_sim h d (hq _ ha.2.2)

mutual
theorem ExpNode.expNode_sim (hp : ∀ x, p x = true → ¬ D x.addr)
    (hq : ∀ i, q i = true → i.mySymbol.myType < base) :
    ∀ (e : ExpNode) (ρ : Addr → Addr) (s1 s2 : State), State.Sim base D p1 p2 ρ s1 s2 →
      e.all p q = true →
      Except.Rel (State.Next base D p1 p2 ρ s1) (e.typeAnalysis s1) (e.typeAnalysis s2)
  | .lval l, ρ, s1, s2, h, ha => by
    simp only [ExpNode.all] at ha
    exact LValNode.lValNode_sim hq l ρ s1 s2 h ha
  | .assignExp a, ρ, s1, s2, h, ha => by
    simp only [ExpNode.all] at ha
    exact AssignExpNode.assignExpNode_sim hp hq a ρ s1 s2 h ha
  | .callExp c, ρ, s1, s2, h, ha => by
    simp only [ExpNode.all] at ha
    exact CallExpNode.callExpNode_sim hp hq c ρ s1 s2 h ha
  | .refNode r, ρ, s1, s2, h, ha => by
    simp only [ExpNode.all, IDNode.all, Bool.and_eq_true] at ha
    exact RefNode.refNode_sim h r (hq _ ha.2.2)
  | .plusNode n myExp1 myExp2, ρ, s1, s2, h, ha => by
    simp only [ExpNode.all, Bool.and_eq_true] at ha
    simp only [ExpNode.typeAnalysis]
    refine Except.Rel.bindNext (ExpNode.expNode_sim hp hq myExp1 ρ s1 s2 h ha.1.2) ?_
    intro ρ2 a b _ _ hs
    refine Except.Rel.bindNext (ExpNode.expNode_sim hp hq myExp2 ρ2 a b hs ha.2) ?_
    intro ρ3 c d _ _ hs3
    exact binaryIntRule_sim hs3 _ _ _ _ n _ _ (hp _ (ExpNode.expNode_root p q _ ha.1.2))
      (hp _ (ExpNode.expNode_root p q _ ha.2))
  | .minusNode n myExp1 myExp2, ρ, s1, s2, h, ha => by
    simp only [ExpNode.all, Bool.and_eq_true] at ha
    simp only [ExpNode.typeAnalysis]
    refine Except.Rel.bindNext (ExpNode.expNode_sim hp hq myExp1 ρ s1 s2 h ha.1.2) ?_
    intro ρ2 a b _ _ hs
    refine Except.Rel.bindNext (ExpNode.expNode_sim hp hq myExp2 ρ2 a b hs ha.2) ?_
    intro ρ3 c d _ _ hs3
    exact binaryIntRule_sim hs3 _ _ _ _ n _ _ (hp _ (ExpNode.expNode_root p q _ ha.1.2))
      (hp _ (ExpNode.expNode_root p q _ ha.2))
  | .timesNode n myExp1 myExp2, ρ, s1, s2, h, ha => by
    simp only [ExpNode.all, Bool.and_eq_true] at ha
    simp only [ExpNode.typeAnalysis]
    refine Except.Rel.bindNext (ExpNode.expNode_sim hp hq myExp1 ρ s1 s2 h ha.1.2) ?_
    intro ρ2 a b _ _ hs
    refine Except.Rel.bindNext (ExpNode.expNode_sim hp hq myExp2 ρ2 a b hs ha.2) ?_
    intro ρ3 c d _ _ hs3
    exact binaryIntRule_sim hs3 _ _ _ _ n _ _ (hp _ (ExpNode.expNode_root p q _ ha.1.2))
      (hp _ (ExpNode.expNode_root p q _ ha.2))
  | .divideNode n myExp1 myExp2, ρ, s1, s2, h, ha => by
    simp only [ExpNode.all, Bool.and_eq_true] at ha
    simp only [ExpNode.typeAnalysis]
    refine Except.Rel.bindNext (ExpNode.expNode_sim hp hq myExp1 ρ s1 s2 h ha.1.2) ?_
    intro ρ2 a b _ _ hs
    refine Except.Rel.bindNext (ExpNode.expNode_sim hp hq myExp2 ρ2 a b hs ha.2) ?_
    intro ρ3 c d _ _ hs3
    exact binaryIntRule_sim hs3 _ _ _ _ n _ _ (hp _ (ExpNode.expNode_root p q _ ha.1.2))
      (hp _ (ExpNode.expNode_root p q _ ha.2))
  | .andNode n myExp1 myExp2, ρ, s1, s2, h, ha => by
    simp only [ExpNode.all, Bool.and_eq_true] at ha
    simp only [ExpNode.typeAnalysis]
    refine Except.Rel.bindNext (ExpNode.expNode_sim hp hq myExp1 ρ s1 s2 h ha.1.2) ?_
    intro ρ2 a b _ _ hs
    refine Except.Rel.bindNext (ExpNode.expNode_sim hp hq myExp2 ρ2 a b hs ha.2) ?_
    intro ρ3 c d _ _ hs3
    exact AndNode.andNodeRule_sim hs3 n _ _ (hp _ (ExpNode.expNode_root p q _ ha.1.2))
      (hp _ (ExpNode.expNode_root p q _ ha.2))
  | .orNode n myExp1 myExp2, ρ, s1, s2, h, ha => by
    simp only [ExpNode.all, Bool.and_eq_true] at ha
    simp only [ExpNode.typeAnalysis]
    refine Except.Rel.bindNext (ExpNode.expNode_sim hp hq myExp1 ρ s1 s2 h ha.1.2) ?_
    intro ρ2 a b _ _ hs
    refine Except.Rel.bindNext (ExpNode.expNode_sim hp hq myExp2 ρ2 a b hs ha.2) ?_
    intro ρ3 c d _ _ hs3
    exact OrNode.orNodeRule_sim hs3 n _ _ (hp _ (ExpNode.expNode_root p q _ ha.1.2))
      (hp _ (ExpNode.expNode_root p q _ ha.2))
  | .lessNode n myExp1 myExp2, ρ, s1, s2, h, ha => by
    simp only [ExpNode.all, Bool.and_eq_true] at ha
    simp only [ExpNode.typeAnalysis]
    refine Except.Rel.bindNext (ExpNode.expNode_sim hp hq myExp1 ρ s1 s2 h ha.1.2) ?_
    intro ρ2 a b _ _ hs
    refine Except.Rel.bindNext (ExpNode.expNode_sim hp hq myExp2 ρ2 a b hs ha.2) ?_
    intro ρ3 c d _ _ hs3
    exact binaryIntRule_sim hs3 _ _ _ _ n _ _ (hp _ (ExpNode.expNode_root p q _ ha.1.2))
      (hp _ (ExpNode.expNode_root p q _ ha.2))
  | .lessEqNode n myExp1 myExp2, ρ, s1, s2, h, ha => by
    simp only [ExpNode.all, Bool.and_eq_true] at ha
    simp only [ExpNode.typeAnalysis]
    refine Except.Rel.bindNext (ExpNode.expNode_sim hp hq myExp1 ρ s1 s2 h ha.1.2) ?_
    intro ρ2 a b _ _ hs
    refine Except.Rel.bindNext (ExpNode.expNode_sim hp hq myExp2 ρ2 a b hs ha.2) ?_
    intro ρ3 c d _ _ hs3
    exact binaryIntRule_sim hs3 _ _ _ _ n _ _ (hp _ (ExpNode.expNode_root p q _ ha.1.2))
      (hp _ (ExpNode.expNode_root p q _ ha.2))
  | .greaterNode n myExp1 myExp2, ρ, s1, s2, h, ha => by
    simp only [ExpNode.all, Bool.and_eq_true] at ha
    simp only [ExpNode.typeAnalysis]
    refine Except.Rel.bindNext (ExpNode.expNode_sim hp hq myExp1 ρ s1 s2 h ha.1.2) ?_
    intro ρ2 a b _ _ hs
    refine Except.Rel.bindNext (ExpNode.expNode_sim hp hq myExp2 ρ2 a b hs ha.2) ?_
    intro ρ3 c d _ _ hs3
    exact binaryIntRule_sim hs3 _ _ _ _ n _ _ (hp _ (ExpNode.expNode_root p q _ ha.1.2))
      (hp _ (ExpNode.expNode_root p q _ ha.2))
  | .greaterEqNode n myExp1 myExp2, ρ, s1, s2, h, ha => by
    simp only [ExpNode.all, Bool.and_eq_true] at ha
    simp only [ExpNode.typeAnalysis]
    refine Except.Rel.bindNext (ExpNode.expNode_sim hp hq myExp1 ρ s1 s2 h ha.1.2) ?_
    intro ρ2 a b _ _ hs
    refine Except.Rel.bindNext (ExpNode.expNode_sim hp hq myExp2 ρ2 a b hs ha.2) ?_
    intro ρ3 c d _ _ hs3
    exact binaryIntRule_sim hs3 _ _ _ _ n _ _ (hp _ (ExpNode.expNode_root p q _ ha.1.2))
      (hp _ (ExpNode.expNode_root p q _ ha.2))
  | .equalsNode n myExp1 myExp2, ρ, s1, s2, h, ha => by
    simp only [ExpNode.all, Bool.and_eq_true] at ha
    have hk1 := hp _ (ExpNode.expNode_root p q _ ha.1.2)
    have hk2 := hp _ (ExpNode.expNode_root p q _ ha.2)
    simp only [ExpNode.typeAnalysis]
    refine Except.Rel.bind (opdTypeAnalysis_sim _ myExp1.toASTNode
      (ExpNode.expNode_sim hp hq myExp1 ρ s1 s2 h ha.1.2) hk1) ?_
    rintro ⟨t1, a⟩ ⟨u1, b⟩ ⟨ht, ρ2, hag, hle, hs⟩
    have ht1 : t1 = u1 := ht
    subst ht1
    refine Except.Rel.mono ?_ (fun c d hn => State.Next.next_trans hag hle hn)
    refine Except.Rel.bind (opdTypeAnalysis_sim _ myExp2.toASTNode
      (ExpNode.expNode_sim hp hq myExp2 ρ2 a b hs ha.2) hk2) ?_
    rintro ⟨t2, c⟩ ⟨u2, d⟩ ⟨ht2, ρ3, hag3, hle3, hs3⟩
    have ht3 : t2 = u2 := ht2
    subst ht3
    exact Except.Rel.mono (EqualsNode.equalsRule_sim hs3 n _ _ t1 t2 hk1 hk2)
      (fun x y hn => State.Next.next_trans hag3 hle3 hn)
  | .notEqualsNode n myExp1 myExp2, ρ, s1, s2, h, ha => by
    simp only [ExpNode.all, Bool.and_eq_true] at ha
    have hk1 := hp _ (ExpNode.expNode_root p q _ ha.1.2)
    have hk2 := hp _ (ExpNode.expNode_root p q _ ha.2)
    simp only [ExpNode.typeAnalysis]
    refine Except.Rel.bind (opdTypeAnalysis_sim _ myExp1.toASTNode
      (ExpNode.expNode_sim hp hq myExp1 ρ s1 s2 h ha.1.2) hk1) ?_
    rintro ⟨t1, a⟩ ⟨u1, b⟩ ⟨ht, ρ2, hag, hle, hs⟩
    have ht1 : t1 = u1 := ht
    subst ht1
    refine Except.Rel.mono ?_ (fun c d hn => State.Next.next_trans hag hle hn)
    refine Except.Rel.bind (opdTypeAnalysis_sim _ myExp2.toASTNode
      (ExpNode.expNode_sim hp hq myExp2 ρ2 a b hs ha.2) hk2) ?_
    rintro ⟨t2, c⟩ ⟨u2, d⟩ ⟨ht2, ρ3, hag3, hle3, hs3⟩
    have ht3 : t2 = u2 := ht2
    subst ht3
    exact Except.Rel.mono (NotEqualsNode.notEqualsRule_sim hs3 n _ _ t1 t2 hk1 hk2)
      (fun x y hn => State.Next.next_trans hag3 hle3 hn)
  | .negNode n myExp, ρ, s1, s2, h, ha => by
    simp only [ExpNode.all, Bool.and_eq_true] at ha
    simp only [ExpNode.typeAnalysis]
    refine Except.Rel.bindNext (ExpNode.expNode_sim hp hq myExp ρ s1 s2 h ha.2) ?_
    intro ρ2 a b _ _ hs
    exact NegNode.negNodeRule_sim hs n _ (hp _ (ExpNode.expNode_root p q _ ha.2))
  | .notNode n myExp, ρ, s1, s2, h, ha => by
    simp only [ExpNode.all, Bool.and_eq_true] at ha
    simp only [ExpNode.typeAnalysis]
    refine Except.Rel.bindNext (ExpNode.expNode_sim hp hq myExp ρ s1 s2 h ha.2) ?_
    intro ρ2 a b _ _ hs
    exact NotNode.notNodeRule_sim hs n _ (hp _ (ExpNode.expNode_root p q _ ha.2))
  | .shortLitNode n, ρ, s1, s2, h, _ => h.setBasic _ _ (fun x hx => Or.inl hx)
  | .intLitNode n, ρ, s1, s2, h, _ => h.setBasic _ _ (fun x hx => Or.inl hx)
  | .strLitNode n, ρ, s1, s2, h, _ => h.setBasic _ _ (fun x hx => Or.inl hx)
  | .trueNode n, ρ, s1, s2, h, _ => h.setBasic _ _ (fun x hx => Or.inl hx)
  | .falseNode n, ρ, s1, s2, h, _ => h.setBasic _ _ (fun x hx => Or.inl hx)
theorem AssignExpNode.assignExpNode_sim (hp : ∀ x, p x = true → ¬ D x.addr)
    (hq : ∀ i, q i = true → i.mySymbol.myType < base) :
    ∀ (e : AssignExpNode) (ρ : Addr → Addr) (s1 s2 : State), State.Sim base D p1 p2 ρ s1 s2 →
      e.all p q = true →
      Except.Rel (State.Next base D p1 p2 ρ s1) (e.typeAnalysis s1) (e.typeAnalysis s2)
  | .mk n myDst mySrc, ρ, s1, s2, h, ha => by
    simp only [AssignExpNode.all, Bool.and_eq_true] at ha
    simp only [AssignExpNode.typeAnalysis]
    refine Except.Rel.bindNext (LValNode.lValNode_sim hq myDst ρ s1 s2 h ha.1.2) ?_
    intro ρ2 a b _ _ hs
    refine Except.Rel.bindNext (ExpNode.expNode_sim hp hq mySrc ρ2 a b hs ha.2) ?_
    intro ρ3 c d _ _ hs3
    exact AssignExpNode.assignExpNodeRule_sim hs3 n _ _
      (hp _ (LValNode.lValNode_root p q _ ha.1.2)) (hp _ (ExpNode.expNode_root p q _ ha.2))
theorem CallExpNode.callExpNode_sim (hp : ∀ x, p x = true → ¬ D x.addr)
    (hq : ∀ i, q i = true → i.mySymbol.myType < base) :
    ∀ (e : CallExpNode) (ρ : Addr → Addr) (s1 s2 : State), State.Sim base D p1 p2 ρ s1 s2 →
      e.all p q = true →
      Except.Rel (State.Next base D p1 p2 ρ s1) (e.typeAnalysis s1) (e.typeAnalysis s2)
  | .mk n myID myArgs, ρ, s1, s2, h, ha => by
    simp only [CallExpNode.all, IDNode.all, Bool.and_eq_true] at ha
    simp only [CallExpNode.typeAnalysis]
    refine Except.Rel.bindNext (CallExpNode.analyseArgs_sim hp hq myArgs ρ s1 s2 h ha.2) ?_
    intro ρ2 a b _ _ hs
    exact CallExpNode.callExpNodeRule_sim hs n myID _ (hq _ ha.1.2.2)
      (fun x hx => hp x (ExpNode.allList_root p q myArgs ha.2 x hx))
theorem CallExpNode.analyseArgs_sim (hp : ∀ x, p x = true → ¬ D x.addr)
    (hq : ∀ i, q i = true → i.mySymbol.myType < base) :
    ∀ (l : List ExpNode) (ρ : Addr → Addr) (s1 s2 : State), State.Sim base D p1 p2 ρ s1 s2 →
      ExpNode.allList p q l = true →
      Except.Rel (State.Next base D p1 p2 ρ s1) (CallExpNode.analyseArgs l s1)
        (CallExpNode.analyseArgs l s2)
  | [], ρ, s1, s2, h, _ => h.next_refl
  | arg :: rest, ρ, s1, s2, h, ha => by
    simp only [ExpNode.allList, Bool.and_eq_true] at ha
    simp only [CallExpNode.analyseArgs]
    refine Except.Rel.bindNext (ExpNode.expNode_sim hp hq arg ρ s1 s2 h ha.1) ?_
    intro ρ2 a b _ _ hs
    exact CallExpNode.analyseArgs_sim hp hq rest ρ2 a b hs ha.2
end

end induction

/-! ## Two runs side by side: statements -/

theorem TypeRegistry.Sim.bne_eq {base : Nat} {ρ : Addr → Addr} {r1 r2 : TypeRegistry}
    (h : TypeRegistry.Sim base ρ r1 r2) (a b : Addr) (ha : a < r1.heap.length)
    (hb : b < r1.heap.length) : (ρ a != ρ b) = (a != b) := by
  by_cases hab : a = b
  · rw [hab, bne_self_eq_false, bne_self_eq_false]
  · have hne : ρ a ≠ ρ b := fun e => hab (h.inj a b ha hb e)
    rw [bne_iff_ne.2 hab, bne_iff_ne.2 hne]

theorem AssignExpNode.assignExpNode_root (p : ASTNode → Bool) (q : IDNode → Bool)
    (a : AssignExpNode) (h : a.all p q = true) : p a.toASTNode = true := by
  cases a with
  | mk n myDst mySrc =>
    simp only [AssignExpNode.all, Bool.and_eq_true] at h
    exact h.1.1

section rules

variable {base : Nat} {D : Nat → Prop} {p1 p2 : List Diagnostic} {ρ : Addr → Addr}
  {s1 s2 : State} {p : ASTNode → Bool} {q : IDNode → Bool}

theorem AssignStmtNode.assignStmtNode_sim (hp : ∀ x, p x = true → ¬ D x.addr)
    (hq : ∀ i, q i = true → i.mySymbol.myType < base) (self : AssignStmtNode)
    (h : State.Sim base D p1 p2 ρ s1 s2) (ha : self.myExp.all p q = true) :
    Except.Rel (State.Next base D p1 p2 ρ s1) (self.typeAnalysis s1) (self.typeAnalysis s2) := by
  simp only [AssignStmtNode.typeAnalysis]
  refine Except.Rel.bindNext (AssignExpNode.assignExpNode_sim hp hq self.myExp ρ s1 s2 h ha) ?_
  intro ρ2 a b _ _ hs
  rw [hs.nodeType_eq _ (hp _ (AssignExpNode.assignExpNode_root p q _ ha))]
  cases ht : a.nodeType self.myExp.toASTNode.addr with
  | error e => trivial
  | ok t =>
    have htl := hs.nodeType_lt _ _ ht
    obtain ⟨obj, ho1, ho2, -⟩ := hs.deref_eq t htl
    simp only [Except.map, Except.ok_bind, ho1, ho2, DataType.asError_rename]
    split
    · exact (hs.setNodeType _ t htl (fun x hx => Or.inl hx)).next_refl
    · exact hs.setBasic _ _ (fun x hx => Or.inl hx)

theorem CallStmtNode.callStmtNode_sim (hp : ∀ x, p x = true → ¬ D x.addr)
    (hq : ∀ i, q i = true → i.mySymbol.myType < base) (self : CallStmtNode)
    (h : State.Sim base D p1 p2 ρ s1 s2) (ha : self.myCallExp.all p q = true) :
    Except.Rel (State.Next base D p1 p2 ρ s1) (self.typeAnalysis s1) (self.typeAnalysis s2) := by
  simp only [CallStmtNode.typeAnalysis]
  refine Except.Rel.bindNext (CallExpNode.callExpNode_sim hp hq self.myCallExp ρ s1 s2 h ha) ?_
  intro ρ2 a b _ _ hs
  exact hs.setBasic _ _ (fun x hx => Or.inl hx)

theorem condRule_sim (h : State.Sim base D p1 p2 ρ s1 s2) (kind : ErrorKind)
    (self myCond : ASTNode) (hk : ¬ D myCond.addr) :
    Except.Rel (State.Next base D p1 p2 ρ s1) (condRule kind self myCond s1)
      (condRule kind self myCond s2) := by
  simp only [condRule, h.nodeType_eq _ hk]
  cases ht : s1.nodeType myCond.addr with
  | error e => trivial
  | ok t =>
    have htl := h.nodeType_lt _ _ ht
    obtain ⟨obj, ho1, ho2, -⟩ := h.deref_eq t htl
    simp only [Except.map, Except.ok_bind, ho1, ho2, DataType.asError_rename,
      DataType.isBool_rename]
    split
    · exact (h.report _ _).setError _ (fun x hx => Or.inl hx)
    · exact h.next_refl

theorem PostDecStmtNode.postDecStmtNode_sim
    (hp : ∀ x, p x = true → ¬ D x.addr)
    (hq : ∀ i, q i = true → i.mySymbol.myType < base) (self : PostDecStmtNode)
    (h : State.Sim base D p1 p2 ρ s1 s2) (ha : self.myLVal.all p q = true) :
    Except.Rel (State.Next base D p1 p2 ρ s1) (self.typeAnalysis s1) (self.typeAnalysis s2) := by
  simp only [PostDecStmtNode.typeAnalysis]
  refine Except.Rel.bindNext (LValNode.lValNode_sim hq self.myLVal ρ s1 s2 h ha) ?_
  intro ρ2 a b _ _ hs
  rw [hs.nodeType_eq _ (hp _ (LValNode.lValNode_root p q _ ha))]
  cases ht : a.nodeType self.myLVal.toASTNode.addr with
  | error e => trivial
  | ok t =>
    have htl := hs.nodeType_lt _ _ ht
    obtain ⟨obj, ho1, ho2, -⟩ := hs.deref_eq t htl
    simp only [Except.map, Except.ok_bind, ho1, ho2, DataType.isInt_rename]
    split
    · obtain ⟨ρ3, hag, hle, hs3⟩ := (hs.report ErrorKind.errMathOpd
        self.myLVal.toASTNode.myPos).setError (D := D) self.addr (fun x hx => Or.inl hx)
      exact State.Next.next_trans hag hle (hs3.setBasic _ _ (fun x hx => Or.inl hx))
    · exact hs.setBasic _ _ (fun x hx => Or.inl hx)

theorem PostIncStmtNode.postIncStmtNode_sim
    (hp : ∀ x, p x = true → ¬ D x.addr)
    (hq : ∀ i, q i = true → i.mySymbol.myType < base) (self : PostIncStmtNode)
    (h : State.Sim base D p1 p2 ρ s1 s2) (ha : self.myLVal.all p q = true) :
    Except.Rel (State.Next base D p1 p2 ρ s1) (self.typeAnalysis s1) (self.typeAnalysis s2) := by
  simp only [PostIncStmtNode.typeAnalysis]
  refine Except.Rel.bindNext (LValNode.lValNode_sim hq self.myLVal ρ s1 s2 h ha) ?_
  intro ρ2 a b _ _ hs
  rw [hs.nodeType_eq _ (hp _ (LValNode.lValNode_root p q _ ha))]
  cases ht : a.nodeType self.myLVal.toASTNode.addr with
  | error e => trivial
  | ok t =>
    have htl := hs.nodeType_lt _ _ ht
    obtain ⟨obj, ho1, ho2, -⟩ := hs.deref_eq t htl
    simp only [Except.map, Except.ok_bind, ho1, ho2, DataType.isInt_rename]
    split
    · obtain ⟨ρ3, hag, hle, hs3⟩ := (hs.report ErrorKind.errMathOpd
        self.myLVal.toASTNode.myPos).setError (D := D) self.addr (fun x hx => Or.inl hx)
      exact State.Next.next_trans hag hle (hs3.setBasic _ _ (fun x hx => Or.inl hx))
    · exact hs.setBasic _ _ (fun x hx => Or.inl hx)

theorem WriteStmtNode.writeStmtNode_sim (hp : ∀ x, p x = true → ¬ D x.addr)
    (hq : ∀ i, q i = true → i.mySymbol.myType < base) (self : WriteStmtNode)
    (h : State.Sim base D p1 p2 ρ s1 s2) (ha : self.mySrc.all p q = true) :
    Except.Rel (State.Next base D p1 p2 ρ s1) (self.typeAnalysis s1) (self.typeAnalysis s2) := by
  simp only [WriteStmtNode.typeAnalysis]
  refine Except.Rel.bindNext (ExpNode.expNode_sim hp hq self.mySrc ρ s1 s2 h ha) ?_
  intro ρ2 a b _ _ hs
  rw [hs.nodeType_eq _ (hp _ (ExpNode.expNode_root p q _ ha))]
  cases ht : a.nodeType self.mySrc.toASTNode.addr with
  | error e => trivial
  | ok t =>
    have htl := hs.nodeType_lt _ _ ht
    obtain ⟨obj, ho1, ho2, -⟩ := hs.deref_eq t htl
    simp only [Except.map, Except.ok_bind, ho1, ho2, DataType.asFn_rename,
      DataType.isVoid_rename, DataType.isPtr_rename, Option.isSome_map']
    split
    · exact (hs.report _ _).setError _ (fun x hx => Or.inl hx)
    · split
      · exact (hs.report _ _).setError _ (fun x hx => Or.inl hx)
      · split
        · exact (hs.report _ _).setError _ (fun x hx => Or.inl hx)
        · exact hs.setBasic _ _ (fun x hx => Or.inl hx)

theorem ReadStmtNode.readStmtNode_sim (hp : ∀ x, p x = true → ¬ D x.addr)
    (hq : ∀ i, q i = true → i.mySymbol.myType < base) (self : ReadStmtNode)
    (h : State.Sim base D p1 p2 ρ s1 s2) (ha : self.myDst.all p q = true) :
    Except.Rel (State.Next base D p1 p2 ρ s1) (self.typeAnalysis s1) (self.typeAnalysis s2) := by
  simp only [ReadStmtNode.typeAnalysis]
  refine Except.Rel.bindNext (LValNode.lValNode_sim hq self.myDst ρ s1 s2 h ha) ?_
  intro ρ2 a b _ _ hs
  rw [hs.nodeType_eq _ (hp _ (LValNode.lValNode_root p q _ ha))]
  cases ht : a.nodeType self.myDst.toASTNode.addr with
  | error e => trivial
  | ok t =>
    have htl := hs.nodeType_lt _ _ ht
    obtain ⟨obj, ho1, ho2, -⟩ := hs.deref_eq t htl
    simp only [Except.map, Except.ok_bind, ho1, ho2, DataType.asFn_rename,
      DataType.isPtr_rename, Option.isSome_map']
    split
    · exact (hs.report _ _).setError _ (fun x hx => Or.inl hx)
    · split
      · exact (hs.report _ _).setError _ (fun x hx => Or.inl hx)
      · exact hs.setBasic _ _ (fun x hx => Or.inl hx)

end rules

section rules

variable {base : Nat} {D : Nat → Prop} {p1 p2 : List Diagnostic} {ρ : Addr → Addr}
  {s1 s2 : State} {p : ASTNode → Bool} {q : IDNode → Bool}

theorem ReturnStmtNode.returnStmtNode_sim (hp : ∀ x, p x = true → ¬ D x.addr)
    (hq : ∀ i, q i = true → i.mySymbol.myType < base) (self : ReturnStmtNode)
    (h : State.Sim base D p1 p2 ρ s1 s2)
    (ha : ∀ e, self.myExp = some e → e.all p q = true) :
    Except.Rel (State.Next base D p1 p2 ρ s1) (self.typeAnalysis s1) (self.typeAnalysis s2) := by
  simp only [ReturnStmtNode.typeAnalysis]
  refine Except.Rel.bind h.derefFn ?_
  rintro f1 f2 ⟨hret, -, hrl, -⟩
  obtain ⟨ρ2, hag, hle, hr, hv, he⟩ := h.reg.produceBasic BaseType.VOID
  have hs := h.setReg ρ2 _ _ hag hle hr
  have hrl2 := Nat.lt_of_lt_of_le hrl hle
  have hne : (f2.myRetType != (BasicType.produce BaseType.VOID s2.reg).1)
      = (f1.myRetType != (BasicType.produce BaseType.VOID s1.reg).1) := by
    rw [hret, he, ← hag _ hrl]
    exact hr.bne_eq _ _ hrl2 hv
  have htrans : ∀ c d, State.Next base D p1 p2 ρ2
      { s1 with reg := (BasicType.produce BaseType.VOID s1.reg).2 } c d →
      State.Next base D p1 p2 ρ s1 c d := fun c d hn => State.Next.next_trans hag hle hn
  cases hm : self.myExp with
  | none =>
    simp only [BasicType.VOID, FnType.getReturnType, hne]
    split
    · exact htrans _ _ ((hs.report _ _).setError _ (fun x hx => Or.inl hx))
    · exact htrans _ _ (hs.setBasic _ _ (fun x hx => Or.inl hx))
  | some e =>
    have hall := ha e hm
    have hk := hp _ (ExpNode.expNode_root p q e hall)
    simp only [BasicType.VOID, FnType.getReturnType, hne]
    split
    · refine Except.Rel.mono ?_ htrans
      refine Except.Rel.bindNext (ExpNode.expNode_sim hp hq e ρ2 _ _ hs hall) ?_
      intro ρ3 a b hag3 hle3 hs3
      rw [hs3.nodeType_eq _ hk]
      cases ht : a.nodeType e.toASTNode.addr with
      | error e => trivial
      | ok t =>
        have htl := hs3.nodeType_lt _ _ ht
        have hrl3 : f1.myRetType < a.reg.heap.length := Nat.lt_of_lt_of_le hrl2 hle3
        have hne3 : (ρ3 t != f2.myRetType) = (t != f1.myRetType) := by
          rw [hret, ← hag _ hrl, ← hag3 _ hrl2]
          exact hs3.reg.bne_eq _ _ htl hrl3
        obtain ⟨obj, ho1, ho2, -⟩ := hs3.deref_eq t htl
        simp only [Except.map, Except.ok_bind, hne3, ho1, ho2, DataType.asError_rename]
        split
        · split
          · exact (hs3.report _ _).setError _ (fun x hx => Or.inl hx)
          · exact hs3.setBasic _ _ (fun x hx => Or.inl hx)
        · exact hs3.setBasic _ _ (fun x hx => Or.inl hx)
    · refine Except.Rel.mono ?_ htrans
      refine Except.Rel.bindNext (ExpNode.expNode_sim hp hq e ρ2 _ _ hs hall) ?_
      intro ρ3 a b _ _ hs3
      exact (hs3.report _ _).setError _ (fun x hx => Or.inl hx)

theorem FnDeclNode.enter_sim (h : State.Sim base D p1 p2 ρ s1 s2) (self : ASTNode)
    (myRetType : TypeNode) (myFormals : List FormalDeclNode) :
    State.Next base D p1 p2 ρ s1 (FnDeclNode.enter self myRetType myFormals s1)
      (FnDeclNode.enter self myRetType myFormals s2) := by
  have h0 : State.Sim base D p1 p2 ρ (s1.setNodeType self.addr s1.getCurrentFnType)
      (s2.setNodeType self.addr s2.getCurrentFnType) := by
    simp only [State.getCurrentFnType, h.cur]
    cases hc : s1.ta.currentFnType with
    | some a => exact h.setNodeType _ a (h.curLive a hc) (fun x hx => Or.inl hx)
    | none =>
      exact
        { reg := h.reg
          nodes := fun x hx => by
            show TypeAnalysis.find x (TypeAnalysis.insert self.addr none s2.ta.nodeToType)
              = (TypeAnalysis.find x
                (TypeAnalysis.insert self.addr none s1.ta.nodeToType)).map (Option.map ρ)
            by_cases hxk : x = self.addr
            · subst hxk
              rw [TypeAnalysis.find_insert_self, TypeAnalysis.find_insert_self]
              rfl
            · rw [TypeAnalysis.find_insert_ne _ _ _ _ hxk,
                TypeAnalysis.find_insert_ne _ _ _ _ hxk]
              exact h.nodes x hx
          nodesLive := fun x b hf => by
            have hf2 : TypeAnalysis.find x (TypeAnalysis.insert self.addr none
                s1.ta.nodeToType) = some (some b) := hf
            by_cases hxk : x = self.addr
            · subst hxk
              rw [TypeAnalysis.find_insert_self] at hf2
              cases hf2
            · rw [TypeAnalysis.find_insert_ne _ _ _ _ hxk] at hf2
              exact h.nodesLive x b hf2
          cur := h.cur
          curLive := h.curLive
          flag := h.flag
          reports := h.reports }
  obtain ⟨ρ2, hag2, hle2, hr2, hv2, he2⟩ := h0.reg.formalTypes myFormals
  obtain ⟨ρ3, hag3, hle3, hr3, hv3, he3⟩ := hr2.getType myRetType
  have hv2b : ∀ a, a ∈ (FnDeclNode.formalTypes myFormals
      (s1.setNodeType self.addr s1.getCurrentFnType).reg).1 →
      a < (myRetType.getType (FnDeclNode.formalTypes myFormals
        (s1.setNodeType self.addr s1.getCurrentFnType).reg).2).2.heap.length :=
    fun a ha => Nat.lt_of_lt_of_le (hv2 a ha) hle3
  obtain ⟨ρ4, hag4, hle4, hr4, hv4, he4⟩ := hr3.newFn _ _ hv2b hv3
  have hmap : (FnDeclNode.formalTypes myFormals
      (s2.setNodeType self.addr s2.getCurrentFnType).reg).1
      = (FnDeclNode.formalTypes myFormals
        (s1.setNodeType self.addr s1.getCurrentFnType).reg).1.map ρ3 := by
    rw [he2]
    exact (List.map_congr_left (fun a ha => hag3 a (hv2 a ha))).symm
  rw [← hmap, ← he3] at hr4 he4
  have hagAll : ∀ x, x < s1.reg.heap.length → ρ4 x = ρ x := fun x hx => by
    have hx2 : x < (FnDeclNode.formalTypes myFormals
        (s1.setNodeType self.addr s1.getCurrentFnType).reg).2.heap.length :=
      Nat.lt_of_lt_of_le hx hle2
    rw [hag4 x (Nat.lt_of_lt_of_le hx2 hle3), hag3 x hx2, hag2 x hx]
  have hleAll := Nat.le_trans (Nat.le_trans hle2 hle3) hle4
  have hs := (h0.setReg ρ4 _ _ hagAll hleAll hr4).setCurrentFnType _ hv4
  rw [← he4] at hs
  exact ⟨ρ4, hagAll, hleAll, hs⟩

theorem VarDeclNode.varDeclNode_sim (h : State.Sim base D p1 p2 ρ s1 s2) (self : VarDeclNode) :
    State.Next base D p1 p2 ρ s1 (self.typeAnalysis s1) (self.typeAnalysis s2) :=
  h.setBasic _ _ (fun _ hx => Or.inl hx)

end rules

section induction

variable {base : Nat} {D : Nat → Prop} {p1 p2 : List Diagnostic}
  {p : ASTNode → Bool} {q : IDNode → Bool}

mutual
theorem StmtNode.stmtNode_sim (hp : ∀ x, p x = true → ¬ D x.addr)
    (hq : ∀ i, q i = true → i.mySymbol.myType < base) :
    ∀ (s : StmtNode) (ρ : Addr → Addr) (s1 s2 : State), State.Sim base D p1 p2 ρ s1 s2 →
      s.all p q = true →
      Except.Rel (State.Next base D p1 p2 ρ s1) (s.typeAnalysis s1) (s.typeAnalysis s2)
  | .decl d, ρ, s1, s2, h, ha => by
    simp only [StmtNode.all] at ha
    simp only [StmtNode.typeAnalysis]
    exact DeclNode.declNode_sim hp hq d ρ s1 s2 h ha
  | .assignStmt s, ρ, s1, s2, h, ha => by
    simp only [StmtNode.all, Bool.and_eq_true] at ha
    simp only [StmtNode.typeAnalysis]
    exact AssignStmtNode.assignStmtNode_sim hp hq s h ha.2
  | .readStmt s, ρ, s1, s2, h, ha => by
    simp only [StmtNode.all, Bool.and_eq_true] at ha
    simp only [StmtNode.typeAnalysis]
    exact ReadStmtNode.readStmtNode_sim hp hq s h ha.2
  | .writeStmt s, ρ, s1, s2, h, ha => by
    simp only [StmtNode.all, Bool.and_eq_true] at ha
    simp only [StmtNode.typeAnalysis]
    exact WriteStmtNode.writeStmtNode_sim hp hq s h ha.2
  | .postDecStmt s, ρ, s1, s2, h, ha => by
    simp only [StmtNode.all, Bool.and_eq_true] at ha
    simp only [StmtNode.typeAnalysis]
    exact PostDecStmtNode.postDecStmtNode_sim hp hq s h ha.2
  | .postIncStmt s, ρ, s1, s2, h, ha => by
    simp only [StmtNode.all, Bool.and_eq_true] at ha
    simp only [StmtNode.typeAnalysis]
    exact PostIncStmtNode.postIncStmtNode_sim hp hq s h ha.2
  | .ifStmt n myCond myBody, ρ, s1, s2, h, ha => by
    simp only [StmtNode.all, Bool.and_eq_true] at ha
    simp only [StmtNode.typeAnalysis]
    refine Except.Rel.bindNext (ExpNode.expNode_sim hp hq myCond ρ s1 s2 h ha.1.2) ?_
    intro ρ2 a b _ _ hs
    refine Except.Rel.bindNext
      (condRule_sim hs _ n _ (hp _ (ExpNode.expNode_root p q _ ha.1.2))) ?_
    intro ρ3 c d _ _ hs3
    refine Except.Rel.bindNext (StmtNode.analyseList_sim hp hq myBody ρ3 c d hs3 ha.2) ?_
    intro ρ4 e f _ _ hs4
    exact hs4.setBasic _ _ (fun x hx => Or.inl hx)
  | .ifElseStmt n myCond myBodyTrue myBodyFalse, ρ, s1, s2, h, ha => by
    simp only [StmtNode.all, Bool.and_eq_true] at ha
    simp only [StmtNode.typeAnalysis]
    refine Except.Rel.bindNext (ExpNode.expNode_sim hp hq myCond ρ s1 s2 h ha.1.1.2) ?_
    intro ρ2 a b _ _ hs
    refine Except.Rel.bindNext
      (condRule_sim hs _ n _ (hp _ (ExpNode.expNode_root p q _ ha.1.1.2))) ?_
    intro ρ3 c d _ _ hs3
    refine Except.Rel.bindNext (StmtNode.analyseList_sim hp hq myBodyTrue ρ3 c d hs3 ha.1.2) ?_
    intro ρ4 e f _ _ hs4
    refine Except.Rel.bindNext (StmtNode.analyseList_sim hp hq myBodyFalse ρ4 e f hs4 ha.2) ?_
    intro ρ5 e2 f2 _ _ hs5
    exact hs5.setBasic _ _ (fun x hx => Or.inl hx)
  | .whileStmt n myCond myBody, ρ, s1, s2, h, ha => by
    simp only [StmtNode.all, Bool.and_eq_true] at ha
    simp only [StmtNode.typeAnalysis]
    refine Except.Rel.bindNext (ExpNode.expNode_sim hp hq myCond ρ s1 s2 h ha.1.2) ?_
    intro ρ2 a b _ _ hs
    refine Except.Rel.bindNext
      (condRule_sim hs _ n _ (hp _ (ExpNode.expNode_root p q _ ha.1.2))) ?_
    intro ρ3 c d _ _ hs3
    refine Except.Rel.bindNext (StmtNode.analyseList_sim hp hq myBody ρ3 c d hs3 ha.2) ?_
    intro ρ4 e f _ _ hs4
    exact hs4.setBasic _ _ (fun x hx => Or.inl hx)
  | .returnStmt s, ρ, s1, s2, h, ha => by
    simp only [StmtNode.all, Bool.and_eq_true] at ha
    simp only [StmtNode.typeAnalysis]
    refine ReturnStmtNode.returnStmtNode_sim hp hq s h ?_
    intro e he
    have h2 := ha.2
    rw [he] at h2
    exact h2
  | .callStmt s, ρ, s1, s2, h, ha => by
    simp only [StmtNode.all, Bool.and_eq_true] at ha
    simp only [StmtNode.typeAnalysis]
    exact CallStmtNode.callStmtNode_sim hp hq s h ha.2
theorem DeclNode.declNode_sim (hp : ∀ x, p x = true → ¬ D x.addr)
    (hq : ∀ i, q i = true → i.mySymbol.myType < base) :
    ∀ (d : DeclNode) (ρ : Addr → Addr) (s1 s2 : State), State.Sim base D p1 p2 ρ s1 s2 →
      d.all p q = true →
      Except.Rel (State.Next base D p1 p2 ρ s1) (d.typeAnalysis s1) (d.typeAnalysis s2)
  | .varDecl v, ρ, s1, s2, h, _ => VarDeclNode.varDeclNode_sim h v
  | .fnDecl n myRetType myID myFormals myBody, ρ, s1, s2, h, ha => by
    simp only [DeclNode.all, Bool.and_eq_true] at ha
    simp only [DeclNode.typeAnalysis]
    obtain ⟨ρ2, hag, hle, hs⟩ := FnDeclNode.enter_sim h n myRetType myFormals
    exact Except.Rel.mono (StmtNode.analyseList_sim hp hq myBody ρ2 _ _ hs ha.2)
      (fun c d hn => State.Next.next_trans hag hle hn)
theorem StmtNode.analyseList_sim (hp : ∀ x, p x = true → ¬ D x.addr)
    (hq : ∀ i, q i = true → i.mySymbol.myType < base) :
    ∀ (l : List StmtNode) (ρ : Addr → Addr) (s1 s2 : State), State.Sim base D p1 p2 ρ s1 s2 →
      StmtNode.allList p q l = true →
      Except.Rel (State.Next base D p1 p2 ρ s1) (StmtNode.analyseList l s1)
        (StmtNode.analyseList l s2)
  | [], ρ, s1, s2, h, _ => h.next_refl
  | stmt :: rest, ρ, s1, s2, h, ha => by
    simp only [StmtNode.allList, Bool.and_eq_true] at ha
    simp only [StmtNode.analyseList]
    refine Except.Rel.bindNext (StmtNode.stmtNode_sim hp hq stmt ρ s1 s2 h ha.1) ?_
    intro ρ2 a b _ _ hs
    exact StmtNode.analyseList_sim hp hq rest ρ2 a b hs ha.2
end

end induction

/-! ## No recorded type is lost -/

theorem DataType.rename_self (obj : DataType) : obj.rename (fun a => a) = obj := by
  cases obj with
  | error => rfl
  | basic b => rfl
  | ptr p => rfl
  | fn f => simp [DataType.rename]

theorem TypeRegistry.Sim.regSim_of_live (r : TypeRegistry) (h : r.live = true) :
    TypeRegistry.Sim r.heap.length (fun a => a) r r := by
  simp only [TypeRegistry.live, Bool.and_eq_true, List.all_eq_true, decide_eq_true_eq] at h
  obtain ⟨⟨⟨hheap, herr⟩, hfly⟩, hmap⟩ := h
  exact
    { base_le := Nat.le_refl _
      fix := fun _ _ => rfl
      inj := fun _ _ _ _ e => e
      objLive := fun a obj ho => by
        simp only [TypeRegistry.deref] at ho
        obtain ⟨hlt, hget⟩ := List.getElem?_eq_some_iff.1 ho
        exact hheap obj (hget ▸ List.getElem_mem hlt)
      obj := fun a obj ho => by rw [DataType.rename_self]; exact ho
      error := fun e he => by
        rw [he] at herr
        simp only [Option.all_some, decide_eq_true_eq] at herr
        exact ⟨herr, he⟩
      fresh := fun hn e2 he2 => by rw [hn] at he2; cases he2
      flyLive := hfly
      fly := by simp
      mapLive := fun kv hkv => hmap kv hkv
      map := by simp }

theorem State.Sim.sim_of_live (s : State) (h : s.live = true) (D : Nat → Prop) :
    State.Sim s.reg.heap.length D s.reports s.reports (fun a => a) s s := by
  simp only [State.live, Bool.and_eq_true, List.all_eq_true] at h
  obtain ⟨⟨hreg, hnodes⟩, hcur⟩ := h
  have hfind : ∀ (m : List (Nat × Option Addr)) (k : Nat) (a : Addr),
      (∀ kv, kv ∈ m → kv.2.all (fun a => decide (a < s.reg.heap.length)) = true) →
      TypeAnalysis.find k m = some (some a) → a < s.reg.heap.length := by
    intro m
    induction m with
    | nil => intro k a _ hf; simp [TypeAnalysis.find] at hf
    | cons kv rest ih =>
      intro k a hall hf
      obtain ⟨k2, v⟩ := kv
      simp only [TypeAnalysis.find] at hf
      split at hf
      · cases hf
        have := hall (k2, some a) (List.mem_cons_self _ _)
        simpa using this
      · exact ih k a (fun x hx => hall x (List.mem_cons_of_mem _ hx)) hf
  exact
    { reg := TypeRegistry.Sim.regSim_of_live s.reg hreg
      nodes := fun k _ => by
        cases TypeAnalysis.find k s.ta.nodeToType with
        | none => rfl
        | some v => cases v <;> rfl
      nodesLive := fun k a hf => hfind _ k a hnodes hf
      cur := by cases s.ta.currentFnType <;> rfl
      curLive := fun a ha => by
        rw [ha] at hcur
        simpa using hcur
      flag := fun hf => hf
      reports := ⟨[], by simp, by simp⟩ }

/-- C21: a read statement whose target has been analysed and has a recorded type raises, by
that type: for a function type one AssignFn diagnostic (at the target) and is recorded with the
canonical Error type; for a pointer type one ReadPtr diagnostic and is recorded with the
canonical Error type; for any other type nothing and is recorded with the canonical Void
type. -/
theorem C21_read_statement (self : ReadStmtNode) (st s1 : State) (t : Addr) (obj : DataType)
    (h1 : self.myDst.typeAnalysis st = Except.ok s1)
    (ht : s1.nodeType self.myDst.toASTNode.addr = Except.ok t)
    (ho : s1.deref t = Except.ok obj)
    (hreg : s1.reg.ErrorOK) :
    ∃ st2 : State, self.typeAnalysis st = Except.ok st2 ∧
      (∀ f, obj = DataType.fn f →
        st2.reports = s1.reports ++
          [{ kind := ErrorKind.errAssignFn, pos := self.myDst.toASTNode.myPos }] ∧
        st2.nodeType self.addr = Except.ok (ErrorType.produce s1.reg).1 ∧
        st2.deref (ErrorType.produce s1.reg).1 = Except.ok DataType.error) ∧
      (∀ p, obj = DataType.ptr p →
        st2.reports = s1.reports ++
          [{ kind := ErrorKind.errReadPtr, pos := self.myDst.toASTNode.myPos }] ∧
        st2.nodeType self.addr = Except.ok (ErrorType.produce s1.reg).1 ∧
        st2.deref (ErrorType.produce s1.reg).1 = Except.ok DataType.error) ∧
      (obj.asFn = none → obj.isPtr = false →
        st2.reports = s1.reports ∧
        st2.nodeType self.addr = Except.ok (BasicType.produce BaseType.VOID s1.reg).1 ∧
        st2.deref (BasicType.produce BaseType.VOID s1.reg).1
          = Except.ok (DataType.basic { myBaseType := BaseType.VOID })) := by
  cases obj with
  | fn f =>
    refine ⟨(s1.report ErrorKind.errAssignFn self.myDst.toASTNode.myPos).setError self.addr,
      ?_, ?_, ?_, ?_⟩
    · simp [ReadStmtNode.typeAnalysis, h1, ht, ho, bind, Except.bind, pure, Except.pure,
        DataType.asFn]
    · intro _ _
      exact ⟨rfl, State.nodeType_setError_self _ _,
        State.deref_setError_self (s1.report _ _) _ hreg⟩
    · intro p hp; cases hp
    · intro hf; cases hf
  | ptr p =>
    refine ⟨(s1.report ErrorKind.errReadPtr self.myDst.toASTNode.myPos).setError self.addr,
      ?_, ?_, ?_, ?_⟩
    · simp [ReadStmtNode.typeAnalysis, h1, ht, ho, bind, Except.bind, pure, Except.pure,
        DataType.asFn, DataType.isPtr]
    · intro f hf; cases hf
    · intro _ _
      exact ⟨rfl, State.nodeType_setError_self _ _,
        State.deref_setError_self (s1.report _ _) _ hreg⟩
    · intro _ hp; cases hp
  | error =>
    refine ⟨s1.setBasic self.addr BaseType.VOID, ?_, ?_, ?_, ?_⟩
    · simp [ReadStmtNode.typeAnalysis, h1, ht, ho, bind, Except.bind, pure, Except.pure,
        DataType.asFn, DataType.isPtr]
    · intro f hf; cases hf
    · intro p hp; cases hp
    · intro _ _
      exact ⟨rfl, State.nodeType_setBasic_self _ _ _, State.deref_setBasic_self _ _ _⟩
  | basic b =>
    refine ⟨s1.setBasic self.addr BaseType.VOID, ?_, ?_, ?_, ?_⟩
    · simp [ReadStmtNode.typeAnalysis, h1, ht, ho, bind, Except.bind, pure, Except.pure,
        DataType.asFn, DataType.isPtr]
    · intro f hf; cases hf
    · intro p hp; cases hp
    · intro _ _
      exact ⟨rfl, State.nodeType_setBasic_self _ _ _, State.deref_setBasic_self _ _ _⟩

/-- C22: a dereference `*id` of an identifier whose type is a pointer type raises nothing and is
recorded with the base of that pointer type; for an identifier of any other type it raises one
DerefOperand diagnostic (at the identifier) and is recorded with the canonical Error type. -/
theorem C22_deref_node (self : DerefNode) (st : State) (obj : DataType)
    (ho : st.deref self.myID.getSymbol.getDataType = Except.ok obj)
    (hreg : st.reg.ErrorOK) :
    ∃ st2 : State, self.typeAnalysis st = Except.ok st2 ∧
      (∀ p, obj = DataType.ptr p →
        st2.reports = st.reports ∧ st2.nodeType self.addr = Except.ok p.getBase) ∧
      (obj.asPtr = none →
        st2.reports = st.reports ++
          [{ kind := ErrorKind.errDerefOpd, pos := self.myID.myPos }] ∧
        st2.nodeType self.addr = Except.ok (ErrorType.produce st.reg).1 ∧
        st2.deref (ErrorType.produce st.reg).1 = Except.ok DataType.error) := by
  have hid : (self.myID.typeAnalysis st).nodeType self.myID.addr
      = Except.ok self.myID.getSymbol.getDataType := by
    simp [IDNode.typeAnalysis, State.nodeType_setNodeType_self]
  have hd : (self.myID.typeAnalysis st).deref self.myID.getSymbol.getDataType
      = Except.ok obj := ho
  cases hp : obj.asPtr with
  | some p =>
    refine ⟨(self.myID.typeAnalysis st).setNodeType self.addr (some p.getBase), ?_, ?_, ?_⟩
    · simp only [DerefNode.typeAnalysis, hid, hd, hp, bind, Except.bind, pure, Except.pure]
    · intro p2 hobj
      subst hobj
      simp only [DataType.asPtr, Option.some.injEq] at hp
      subst hp
      exact ⟨rfl, State.nodeType_setNodeType_self _ _ _⟩
    · intro hn; cases hn
  | none =>
    refine ⟨((self.myID.typeAnalysis st).report ErrorKind.errDerefOpd
      self.myID.myPos).setError self.addr, ?_, ?_, ?_⟩
    · simp only [DerefNode.typeAnalysis, hid, hd, hp, bind, Except.bind, pure, Except.pure]
    · intro p2 hobj
      subst hobj
      cases hp
    · intro _
      exact ⟨rfl, State.nodeType_setError_self _ _,
        State.deref_setError_self ((self.myID.typeAnalysis st).report _ _) _ hreg⟩

/-- C24: a unary negate whose operand has been analysed raises nothing and is recorded with
exactly the operand's type when that type is Int or Error, and otherwise raises one MathOperand
diagnostic (at the operand) and is recorded with the canonical Error type. A unary not does the
same with Bool in the place of Int and LogicOperand in the place of MathOperand: a Bool operand
gives no diagnostic and the operand's type, Bool, and an operand that is neither Bool nor Error
gives one LogicOperand diagnostic and Error. -/
theorem C24_unary_nodes (e : ExpNode) (n : ASTNode) (myExp : ExpNode)
    (accepts : DataType → Bool) (kind : ErrorKind) (st s1 : State) (t : Addr) (obj : DataType)
    (he : (e = ExpNode.negNode n myExp ∧ accepts = DataType.isInt ∧
        kind = ErrorKind.errMathOpd) ∨
      (e = ExpNode.notNode n myExp ∧ accepts = DataType.isBool ∧
        kind = ErrorKind.errLogicOpd))
    (h1 : myExp.typeAnalysis st = Except.ok s1)
    (ht : s1.nodeType myExp.toASTNode.addr = Except.ok t)
    (ho : s1.deref t = Except.ok obj)
    (hreg : s1.reg.ErrorOK) :
    ∃ st2 : State, e.typeAnalysis st = Except.ok st2 ∧
      (accepts obj = true ∨ obj.asError = true →
        st2.reports = s1.reports ∧ st2.nodeType n.addr = Except.ok t ∧
        st2.deref t = Except.ok obj) ∧
      (accepts obj = false → obj.asError = false →
        st2.reports = s1.reports ++ [{ kind := kind, pos := myExp.toASTNode.myPos }] ∧
        st2.nodeType n.addr = Except.ok (ErrorType.produce s1.reg).1 ∧
        st2.deref (ErrorType.produce s1.reg).1 = Except.ok DataType.error) := by
  have hrule : e.typeAnalysis st = Except.ok
      (if !accepts obj && !obj.asError then
        (s1.report kind myExp.toASTNode.myPos).setError n.addr
       else s1.setNodeType n.addr (some t)) := by
    rcases he with ⟨h, ha, hk⟩ | ⟨h, ha, hk⟩
    · subst h ha hk
      simp only [ExpNode.typeAnalysis, h1, NegNode.typeRule, ht, ho, bind, Except.bind, pure,
        Except.pure]
      split <;> rfl
    · subst h ha hk
      simp only [ExpNode.typeAnalysis, h1, NotNode.typeRule, ht, ho, bind, Except.bind, pure,
        Except.pure]
      split <;> rfl
  refine ⟨_, hrule, ?_, ?_⟩
  · intro hacc
    have hc : (!accepts obj && !obj.asError) = false := by
      rcases hacc with h | h <;> simp [h]
    simp only [hc, Bool.false_eq_true, if_false]
    exact ⟨rfl, State.nodeType_setNodeType_self _ _ _, ho⟩
  · intro ha herr
    simp only [ha, herr, Bool.not_false, Bool.and_self, if_true]
    exact ⟨rfl, State.nodeType_setError_self _ _,
      State.deref_setError_self (s1.report _ _) _ hreg⟩

/-- A type that is not the Error type is a valid variable type unless it is Void or a function
type. -/
theorem DataType.validVarType_eq (obj : DataType) (h : obj.asError = false) :
    obj.validVarType = !(obj.isVoid || obj.asFn.isSome) := by
  cases obj with
  | error => cases h
  | basic b => simp [DataType.validVarType, DataType.isVoid, DataType.asFn,
      BasicType.validVarType]
  | ptr p => rfl
  | fn f => rfl

/-- C26: an assignment expression whose sides are both not of the Error type and of which at
least one is Void or a function type raises exactly one diagnostic, AssignOperand, at the
destination when the destination is Void or a function type and at the source otherwise (so
at the destination when both are), and is recorded with the canonical Error type. -/
theorem C26_assign_invalid_side (n : ASTNode) (myDst : LValNode) (mySrc : ExpNode)
    (st st1 st2 : State) (tgtType srcType : Addr) (tgtObj srcObj : DataType)
    (hdst : myDst.typeAnalysis st = Except.ok st1)
    (hsrc : mySrc.typeAnalysis st1 = Except.ok st2)
    (hreg : st2.reg.ErrorOK)
    (htgt : st2.nodeType myDst.toASTNode.addr = Except.ok tgtType)
    (hsrcT : st2.nodeType mySrc.toASTNode.addr = Except.ok srcType)
    (htobj : st2.deref tgtType = Except.ok tgtObj)
    (hsobj : st2.deref srcType = Except.ok srcObj)
    (hterr : tgtObj.asError = false) (hserr : srcObj.asError = false)
    (hinv : (tgtObj.isVoid || tgtObj.asFn.isSome) = true ∨
      (srcObj.isVoid || srcObj.asFn.isSome) = true) :
    ∃ st3 : State,
      (AssignExpNode.mk n myDst mySrc).typeAnalysis st = Except.ok st3 ∧
      st3.reports = st2.reports ++
        [{ kind := ErrorKind.errAssignOpd,
           pos := if tgtObj.isVoid || tgtObj.asFn.isSome then myDst.toASTNode.myPos
                  else mySrc.toASTNode.myPos }] ∧
      st3.nodeType n.addr = Except.ok (ErrorType.produce st2.reg).1 ∧
      st3.deref (ErrorType.produce st2.reg).1 = Except.ok DataType.error := by
  have hrule := AssignExpNode.typeRule_eq n myDst.toASTNode mySrc.toASTNode st2 tgtType srcType
    tgtObj srcObj htgt hsrcT htobj hsobj
  rw [DataType.validVarType_eq tgtObj hterr, DataType.validVarType_eq srcObj hserr] at hrule
  simp only [hterr, hserr, Bool.or_self, Bool.false_eq_true, if_false, Bool.not_not] at hrule
  cases hc : (tgtObj.isVoid || tgtObj.asFn.isSome) with
  | true =>
    simp only [hc, if_true] at hrule ⊢
    refine ⟨(st2.report ErrorKind.errAssignOpd myDst.toASTNode.myPos).setError n.addr,
      ?_, rfl, State.nodeType_setError_self _ _,
      State.deref_setError_self (st2.report _ _) _ hreg⟩
    simp only [AssignExpNode.typeAnalysis, hdst, hsrc, bind, Except.bind]
    exact hrule
  | false =>
    have hs : (srcObj.isVoid || srcObj.asFn.isSome) = true := by
      rcases hinv with h | h
      · rw [hc] at h; cases h
      · exact h
    simp only [hc, hs, if_true, Bool.false_eq_true, if_false] at hrule ⊢
    refine ⟨(st2.report ErrorKind.errAssignOpd mySrc.toASTNode.myPos).setError n.addr,
      ?_, rfl, State.nodeType_setError_self _ _,
      State.deref_setError_self (st2.report _ _) _ hreg⟩
    simp only [AssignExpNode.typeAnalysis, hdst, hsrc, bind, Except.bind]
    exact hrule

/-- C27: a post-increment or post-decrement statement whose operand has been analysed raises
one MathOperand diagnostic (at the operand) when the operand's recorded type is not Int and
nothing when it is Int, and in both cases the statement ends up recorded with the canonical
Void type: the Error type recorded in the failing branch is overwritten by the final
`nodeType(this, BasicType::produce(VOID))`. -/
theorem C27_post_inc_dec (s : StmtNode) (n : ASTNode) (myLVal : LValNode)
    (st s1 : State) (t : Addr) (obj : DataType)
    (hs : s = StmtNode.postDecStmt { toASTNode := n, myLVal := myLVal } ∨
      s = StmtNode.postIncStmt { toASTNode := n, myLVal := myLVal })
    (h1 : myLVal.typeAnalysis st = Except.ok s1)
    (ht : s1.nodeType myLVal.toASTNode.addr = Except.ok t)
    (ho : s1.deref t = Except.ok obj) :
    ∃ st2 : State, s.typeAnalysis st = Except.ok st2 ∧
      st2.reports = s1.reports ++
        (if obj.isInt then []
         else [{ kind := ErrorKind.errMathOpd, pos := myLVal.toASTNode.myPos }]) ∧
      st2.nodeType n.addr = Except.ok (BasicType.produce BaseType.VOID
        (if obj.isInt then s1
         else (s1.report ErrorKind.errMathOpd myLVal.toASTNode.myPos).setError n.addr).reg).1 ∧
      st2.deref (BasicType.produce BaseType.VOID
        (if obj.isInt then s1
         else (s1.report ErrorKind.errMathOpd myLVal.toASTNode.myPos).setError n.addr).reg).1
        = Except.ok (DataType.basic { myBaseType := BaseType.VOID }) := by
  have hrule : s.typeAnalysis st = Except.ok
      ((if obj.isInt then s1
        else (s1.report ErrorKind.errMathOpd myLVal.toASTNode.myPos).setError
          n.addr).setBasic n.addr BaseType.VOID) := by
    rcases hs with h | h <;> subst h <;>
      simp only [StmtNode.typeAnalysis, PostDecStmtNode.typeAnalysis,
        PostIncStmtNode.typeAnalysis, h1, ht, ho, bind, Except.bind, pure, Except.pure] <;>
      cases obj.isInt <;> rfl
  refine ⟨_, hrule, ?_, State.nodeType_setBasic_self _ _ _, State.deref_setBasic_self _ _ _⟩
  cases obj.isInt
  · rfl
  · simp [State.setBasic, State.setNodeType]

/-- The witness of C21: `read f;` for a function `f` raises AssignFn and is recorded Error (the
Error type is created at address 6), `read p;` for `int *p` raises ReadPtr and is recorded
Error, and `read x;` for `int x` raises nothing and is recorded Void (address 2). -/
theorem C21_read_statement_witness :
    (∃ st2 : State, (Example.readOf 4).typeAnalysis Example.st = Except.ok st2 ∧
      st2.reports = [{ kind := ErrorKind.errAssignFn, pos := 171 }] ∧
      st2.nodeType 70 = Except.ok 6 ∧ st2.deref 6 = Except.ok DataType.error) ∧
    (∃ st2 : State, (Example.readOf 3).typeAnalysis Example.st = Except.ok st2 ∧
      st2.reports = [{ kind := ErrorKind.errReadPtr, pos := 171 }] ∧
      st2.nodeType 70 = Except.ok 6 ∧ st2.deref 6 = Except.ok DataType.error) ∧
    (∃ st2 : State, (Example.readOf 0).typeAnalysis Example.st = Except.ok st2 ∧
      st2.reports = [] ∧ st2.nodeType 70 = Except.ok 2 ∧
      st2.deref 2 = Except.ok (DataType.basic { myBaseType := BaseType.VOID })) :=
  ⟨(C21_read_statement (Example.readOf 4) Example.st
      ((Example.ident 71 4).typeAnalysis Example.st) 4
      (DataType.fn { myFormalTypes := [0], myRetType := 0 }) rfl rfl rfl
      (by intro a h; cases h)).imp fun _ h => ⟨h.1, h.2.1 _ rfl⟩,
   (C21_read_statement (Example.readOf 3) Example.st
      ((Example.ident 71 3).typeAnalysis Example.st) 3
      (DataType.ptr { myBase := 0 }) rfl rfl rfl
      (by intro a h; cases h)).imp fun _ h => ⟨h.1, h.2.2.1 _ rfl⟩,
   (C21_read_statement (Example.readOf 0) Example.st
      ((Example.ident 71 0).typeAnalysis Example.st) 0
      (DataType.basic { myBaseType := BaseType.INT }) rfl rfl rfl
      (by intro a h; cases h)).imp fun _ h => ⟨h.1, h.2.2.2 rfl rfl⟩⟩

/-- The witness of C22: `*p` for `int *p` raises nothing and is recorded Int (address 0), and
`*x` for `int x` raises DerefOperand and is recorded Error (created at address 6). -/
theorem C22_deref_node_witness :
    (∃ st2 : State, (Example.derefOf 3).typeAnalysis Example.st = Except.ok st2 ∧
      st2.reports = [] ∧ st2.nodeType 61 = Except.ok 0) ∧
    (∃ st2 : State, (Example.derefOf 0).typeAnalysis Example.st = Except.ok st2 ∧
      st2.reports = [{ kind := ErrorKind.errDerefOpd, pos := 162 }] ∧
      st2.nodeType 61 = Except.ok 6 ∧ st2.deref 6 = Except.ok DataType.error) :=
  ⟨(C22_deref_node (Example.derefOf 3) Example.st (DataType.ptr { myBase := 0 }) rfl
      (by intro a h; cases h)).imp fun _ h => ⟨h.1, h.2.1 _ rfl⟩,
   (C22_deref_node (Example.derefOf 0) Example.st
      (DataType.basic { myBaseType := BaseType.INT }) rfl
      (by intro a h; cases h)).imp fun _ h => ⟨h.1, h.2.2 rfl⟩⟩

/-- The witness of C24: `-1` raises nothing and is recorded Int (address 0); `-true` raises
MathOperand and is recorded Error (created at address 6); `!true` raises nothing and is
recorded Bool (address 1); `!1` raises LogicOperand and is recorded Error. -/
theorem C24_unary_nodes_witness :
    (∃ st2 : State,
      (ExpNode.negNode (Example.node 50) (ExpNode.intLitNode (Example.node 51))).typeAnalysis
        Example.st = Except.ok st2 ∧
      st2.reports = [] ∧ st2.nodeType 50 = Except.ok 0 ∧
      st2.deref 0 = Except.ok (DataType.basic { myBaseType := BaseType.INT })) ∧
    (∃ st2 : State,
      (ExpNode.negNode (Example.node 50) (ExpNode.trueNode (Example.node 51))).typeAnalysis
        Example.st = Except.ok st2 ∧
      st2.reports = [{ kind := ErrorKind.errMathOpd, pos := 151 }] ∧
      st2.nodeType 50 = Except.ok 6 ∧ st2.deref 6 = Except.ok DataType.error) ∧
    (∃ st2 : State,
      (ExpNode.notNode (Example.node 50) (ExpNode.trueNode (Example.node 51))).typeAnalysis
        Example.st = Except.ok st2 ∧
      st2.reports = [] ∧ st2.nodeType 50 = Except.ok 1 ∧
      st2.deref 1 = Except.ok (DataType.basic { myBaseType := BaseType.BOOL })) ∧
    (∃ st2 : State,
      (ExpNode.notNode (Example.node 50) (ExpNode.intLitNode (Example.node 51))).typeAnalysis
        Example.st = Except.ok st2 ∧
      st2.reports = [{ kind := ErrorKind.errLogicOpd, pos := 151 }] ∧
      st2.nodeType 50 = Except.ok 6 ∧ st2.deref 6 = Except.ok DataType.error) :=
  ⟨(C24_unary_nodes _ (Example.node 50) (ExpNode.intLitNode (Example.node 51)) DataType.isInt
      ErrorKind.errMathOpd Example.st (IntLitNode.typeAnalysis (Example.node 51) Example.st) 0
      (DataType.basic { myBaseType := BaseType.INT }) (Or.inl ⟨rfl, rfl, rfl⟩) rfl rfl rfl
      (by intro a h; cases h)).imp fun _ h => ⟨h.1, h.2.1 (Or.inl rfl)⟩,
   (C24_unary_nodes _ (Example.node 50) (ExpNode.trueNode (Example.node 51)) DataType.isInt
      ErrorKind.errMathOpd Example.st (TrueNode.typeAnalysis (Example.node 51) Example.st) 1
      (DataType.basic { myBaseType := BaseType.BOOL }) (Or.inl ⟨rfl, rfl, rfl⟩) rfl rfl rfl
      (by intro a h; cases h)).imp fun _ h => ⟨h.1, h.2.2 rfl rfl⟩,
   (C24_unary_nodes _ (Example.node 50) (ExpNode.trueNode (Example.node 51)) DataType.isBool
      ErrorKind.errLogicOpd Example.st (TrueNode.typeAnalysis (Example.node 51) Example.st) 1
      (DataType.basic { myBaseType := BaseType.BOOL }) (Or.inr ⟨rfl, rfl, rfl⟩) rfl rfl rfl
      (by intro a h; cases h)).imp fun _ h => ⟨h.1, h.2.1 (Or.inl rfl)⟩,
   (C24_unary_nodes _ (Example.node 50) (ExpNode.intLitNode (Example.node 51)) DataType.isBool
      ErrorKind.errLogicOpd Example.st (IntLitNode.typeAnalysis (Example.node 51) Example.st) 0
      (DataType.basic { myBaseType := BaseType.INT }) (Or.inr ⟨rfl, rfl, rfl⟩) rfl rfl rfl
      (by intro a h; cases h)).imp fun _ h => ⟨h.1, h.2.2 rfl rfl⟩⟩

/-- The witness of C26: `f = g` for two functions raises one AssignOperand diagnostic, at the
destination `f`, and `x = g` for `int x` raises one at the source `g`; both are recorded
Error. -/
theorem C26_assign_invalid_side_witness :
    (∃ st3 : State,
      Example.assignFnFn.typeAnalysis Example.st = Except.ok st3 ∧
      st3.reports = [{ kind := ErrorKind.errAssignOpd, pos := 112 }] ∧
      st3.nodeType 11 = Except.ok 6 ∧ st3.deref 6 = Except.ok DataType.error) ∧
    (∃ st3 : State,
      Example.assignIntFn.typeAnalysis Example.st = Except.ok st3 ∧
      st3.reports = [{ kind := ErrorKind.errAssignOpd, pos := 113 }] ∧
      st3.nodeType 11 = Except.ok 6 ∧ st3.deref 6 = Except.ok DataType.error) :=
  ⟨C26_assign_invalid_side (Example.node 11) (LValNode.idNode (Example.ident 12 4))
      (Example.idExp 13 5) Example.st ((Example.ident 12 4).typeAnalysis Example.st)
      ((Example.ident 13 5).typeAnalysis ((Example.ident 12 4).typeAnalysis Example.st))
      4 5 (DataType.fn { myFormalTypes := [0], myRetType := 0 })
      (DataType.fn { myFormalTypes := [], myRetType := 2 })
      rfl rfl (by intro a h; cases h) rfl rfl rfl rfl rfl rfl (Or.inl rfl),
   C26_assign_invalid_side (Example.node 11) (LValNode.idNode (Example.ident 12 0))
      (Example.idExp 13 5) Example.st ((Example.ident 12 0).typeAnalysis Example.st)
      ((Example.ident 13 5).typeAnalysis ((Example.ident 12 0).typeAnalysis Example.st))
      0 5 (DataType.basic { myBaseType := BaseType.INT })
      (DataType.fn { myFormalTypes := [], myRetType := 2 })
      rfl rfl (by intro a h; cases h) rfl rfl rfl rfl rfl rfl (Or.inr rfl)⟩

/-- The witness of C27: `x++` for `int x` raises nothing, `b++` for `bool b` raises one
MathOperand diagnostic, and both statements are recorded Void (address 2). -/
theorem C27_post_inc_dec_witness :
    (∃ st2 : State, (Example.postIncOf 0).typeAnalysis Example.st = Except.ok st2 ∧
      st2.reports = [] ∧ st2.nodeType 70 = Except.ok 2 ∧
      st2.deref 2 = Except.ok (DataType.basic { myBaseType := BaseType.VOID })) ∧
    (∃ st2 : State, (Example.postIncOf 1).typeAnalysis Example.st = Except.ok st2 ∧
      st2.reports = [{ kind := ErrorKind.errMathOpd, pos := 171 }] ∧
      st2.nodeType 70 = Except.ok 2 ∧
      st2.deref 2 = Except.ok (DataType.basic { myBaseType := BaseType.VOID })) :=
  ⟨C27_post_inc_dec (Example.postIncOf 0) (Example.node 70)
      (LValNode.idNode (Example.ident 71 0)) Example.st
      ((Example.ident 71 0).typeAnalysis Example.st) 0
      (DataType.basic { myBaseType := BaseType.INT }) (Or.inr rfl) rfl rfl rfl,
   C27_post_inc_dec (Example.postIncOf 1) (Example.node 70)
      (LValNode.idNode (Example.ident 71 1)) Example.st
      ((Example.ident 71 1).typeAnalysis Example.st) 1
      (DataType.basic { myBaseType := BaseType.BOOL }) (Or.inr rfl) rfl rfl rfl⟩

/-! ## The registry over time: interning -/

/-- A call into `types.hpp` never changes or frees an existing object. -/
theorem TypeRegistry.Step.deref_step {r r2 : TypeRegistry} (h : TypeRegistry.Step r r2)
    (a : Addr) (o : DataType) (hd : r.deref a = some o) : r2.deref a = some o := by
  cases h with
  | produceError => exact ErrorType.deref_produceError_of r o a hd
  | produceBasic base => exact BasicType.deref_produceBasic_of base r o a hd
  | producePtr baseType =>
    unfold PtrType.produce
    cases hf : PtrType.find baseType r.map with
    | none =>
      have := TypeRegistry.deref_alloc r (DataType.ptr { myBase := baseType }) o a hd
      simpa [TypeRegistry.deref] using this
    | some res => simpa using hd
  | newFn formalsIn retTypeIn =>
    exact TypeRegistry.deref_alloc r _ o a hd

theorem TypeRegistry.Later.deref_later {r r2 : TypeRegistry} (h : TypeRegistry.Later r r2)
    (a : Addr) (o : DataType) (hd : r.deref a = some o) : r2.deref a = some o := by
  induction h with
  | refl => exact hd
  | tail _ hstep ih => exact hstep.deref_step a o ih

theorem TypeRegistry.Later.length_le {r r2 : TypeRegistry} (h : TypeRegistry.Later r r2) :
    r.heap.length ≤ r2.heap.length := by
  by_contra hc
  have hlt : r2.heap.length < r.heap.length := Nat.lt_of_not_le hc
  obtain ⟨o, ho⟩ := r.deref_of_lt r2.heap.length hlt
  exact absurd (r2.deref_lt _ _ (h.deref_later _ o ho)) (Nat.lt_irrefl _)

theorem TypeRegistry.Later.later_trans {a b c : TypeRegistry} (hab : TypeRegistry.Later a b)
    (hbc : TypeRegistry.Later b c) : TypeRegistry.Later a c :=
  Relation.ReflTransGen.trans hab hbc

theorem TypeRegistry.Step.later {r r2 : TypeRegistry} (h : TypeRegistry.Step r r2) :
    TypeRegistry.Later r r2 :=
  Relation.ReflTransGen.single h

/-! ### The flyweights of `BasicType::produce` -/

theorem BasicType.findFly_append (r : TypeRegistry) (base : BaseType) (l1 l2 : List Addr) :
    BasicType.findFly r base (l1 ++ l2)
      = (match BasicType.findFly r base l1 with
         | some fly => some fly
         | none => BasicType.findFly r base l2) := by
  induction l1 with
  | nil => rfl
  | cons x rest ih =>
    simp only [List.cons_append, BasicType.findFly]
    split
    · rfl
    · exact ih

theorem BasicType.findFly_congr (r r2 : TypeRegistry) (base : BaseType) (l : List Addr)
    (h : ∀ a, a ∈ l → r2.getBaseType a = r.getBaseType a) :
    BasicType.findFly r2 base l = BasicType.findFly r base l := by
  induction l with
  | nil => rfl
  | cons x rest ih =>
    simp only [BasicType.findFly, h x (List.mem_cons_self _ _)]
    split
    · rfl
    · exact ih (fun a ha => h a (List.mem_cons_of_mem _ ha))

theorem TypeRegistry.getBaseType_of_deref (r r2 : TypeRegistry) (a : Addr)
    (ha : a < r.heap.length) (h : ∀ o, r.deref a = some o → r2.deref a = some o) :
    r2.getBaseType a = r.getBaseType a := by
  obtain ⟨o, ho⟩ := r.deref_of_lt a ha
  simp only [TypeRegistry.getBaseType, ho, h o ho]

/-- `BasicType::produce` returns the flyweight it finds and leaves the registry alone. -/
theorem BasicType.produce_of_findFly (r : TypeRegistry) (base : BaseType) (fly : Addr)
    (h : BasicType.findFly r base r.flyweights = some fly) :
    BasicType.produce base r = (fly, r) := by
  simp [BasicType.produce, h]

/-- After `BasicType::produce(base)` the loop over the flyweights finds the instance returned. -/
theorem BasicType.findFly_produce (r : TypeRegistry) (hfly : r.FlyOK) (base : BaseType) :
    BasicType.findFly (BasicType.produce base r).2 base (BasicType.produce base r).2.flyweights
      = some (BasicType.produce base r).1 := by
  cases hf : BasicType.findFly r base r.flyweights with
  | some fly =>
    rw [BasicType.produce_of_findFly r base fly hf]
    exact hf
  | none =>
    have hp : BasicType.produce base r = (r.heap.length,
        { (r.alloc (DataType.basic { myBaseType := base })).2 with
          flyweights := r.flyweights ++ [r.heap.length] }) := by
      simp [BasicType.produce, hf, TypeRegistry.alloc]
    rw [hp]
    show BasicType.findFly _ base (r.flyweights ++ [r.heap.length]) = some r.heap.length
    rw [BasicType.findFly_append]
    have hold : BasicType.findFly
        { (r.alloc (DataType.basic { myBaseType := base })).2 with
          flyweights := r.flyweights ++ [r.heap.length] } base r.flyweights = none := by
      rw [← hf]
      refine BasicType.findFly_congr r _ base r.flyweights (fun a ha => ?_)
      exact TypeRegistry.getBaseType_of_deref r _ a (hfly a ha)
        (fun o ho => TypeRegistry.deref_alloc r _ o a ho)
    rw [hold]
    simp [BasicType.findFly, TypeRegistry.getBaseType, TypeRegistry.deref, TypeRegistry.alloc,
      BasicType.getBaseType]

theorem TypeRegistry.Step.flyOK_step {r r2 : TypeRegistry} (h : TypeRegistry.Step r r2)
    (hfly : r.FlyOK) : r2.FlyOK := by
  have hle := h.later.length_le
  cases h with
  | produceError =>
    intro a ha
    have ha1 : a ∈ r.flyweights := by
      unfold ErrorType.produce at ha
      split at ha
      · exact ha
      · simpa [TypeRegistry.alloc] using ha
    exact Nat.lt_of_lt_of_le (hfly a ha1) hle
  | produceBasic base =>
    intro a ha
    unfold BasicType.produce at ha hle ⊢
    split at ha
    · rename_i fly hf
      simp only [hf] at hle ⊢
      exact hfly a ha
    · rename_i hf
      simp only [hf] at hle ⊢
      simp only [TypeRegistry.alloc, List.mem_append, List.mem_singleton] at ha
      rcases ha with ha | ha
      · exact Nat.lt_of_lt_of_le (hfly a ha) hle
      · subst ha
        simp [TypeRegistry.alloc]
  | producePtr baseType =>
    intro a ha
    have ha1 : a ∈ r.flyweights := by
      unfold PtrType.produce at ha
      split at ha
      · simpa [TypeRegistry.alloc] using ha
      · exact ha
    exact Nat.lt_of_lt_of_le (hfly a ha1) hle
  | newFn formalsIn retTypeIn =>
    intro a ha
    exact Nat.lt_of_lt_of_le (hfly a ha) hle

/-- A later call into `types.hpp` does not change what the loop over the flyweights finds. -/
theorem TypeRegistry.Step.findFly_step {r r2 : TypeRegistry} (h : TypeRegistry.Step r r2)
    (hfly : r.FlyOK) (base : BaseType) (fly : Addr)
    (hf : BasicType.findFly r base r.flyweights = some fly) :
    BasicType.findFly r2 base r2.flyweights = some fly := by
  have hold : BasicType.findFly r2 base r.flyweights = some fly := by
    rw [← hf]
    refine BasicType.findFly_congr r r2 base r.flyweights (fun a ha => ?_)
    exact TypeRegistry.getBaseType_of_deref r r2 a (hfly a ha) (fun o ho => h.deref_step a o ho)
  cases h with
  | produceError =>
    have hfl : (ErrorType.produce r).2.flyweights = r.flyweights := by
      unfold ErrorType.produce
      split <;> rfl
    rw [hfl]; exact hold
  | produceBasic b =>
    cases hb : BasicType.findFly r b r.flyweights with
    | some x =>
      rw [BasicType.produce_of_findFly r b x hb] at hold ⊢
      exact hold
    | none =>
      have hp : BasicType.produce b r = (r.heap.length,
          { (r.alloc (DataType.basic { myBaseType := b })).2 with
            flyweights := r.flyweights ++ [r.heap.length] }) := by
        simp [BasicType.produce, hb, TypeRegistry.alloc]
      rw [hp] at hold ⊢
      show BasicType.findFly _ base (r.flyweights ++ [r.heap.length]) = some fly
      rw [BasicType.findFly_append, hold]
  | producePtr baseType =>
    have hfl : (PtrType.produce baseType r).2.flyweights = r.flyweights := by
      unfold PtrType.produce
      split <;> rfl
    rw [hfl]; exact hold
  | newFn formalsIn retTypeIn => exact hold

theorem TypeRegistry.Later.flyOK_later {r r2 : TypeRegistry} (h : TypeRegistry.Later r r2)
    (hfly : r.FlyOK) : r2.FlyOK := by
  induction h with
  | refl => exact hfly
  | tail _ hstep ih => exact hstep.flyOK_step ih

theorem TypeRegistry.Later.findFly_later {r r2 : TypeRegistry} (h : TypeRegistry.Later r r2)
    (hfly : r.FlyOK) (base : BaseType) (fly : Addr)
    (hf : BasicType.findFly r base r.flyweights = some fly) :
    BasicType.findFly r2 base r2.flyweights = some fly := by
  induction h with
  | refl => exact hf
  | tail hab hstep ih => exact hstep.findFly_step (TypeRegistry.Later.flyOK_later hab hfly) base fly ih

/-! ### The map of `PtrType::produce` -/

theorem PtrType.find_append (b : Addr) (m1 m2 : List (Addr × Addr)) :
    PtrType.find b (m1 ++ m2)
      = (match PtrType.find b m1 with
         | some v => some v
         | none => PtrType.find b m2) := by
  induction m1 with
  | nil => rfl
  | cons kv rest ih =>
    obtain ⟨k, v⟩ := kv
    simp only [List.cons_append, PtrType.find]
    split
    · rfl
    · exact ih

/-- `PtrType::produce` returns the instance it finds and leaves the registry alone. -/
theorem PtrType.produce_of_find (r : TypeRegistry) (b v : Addr)
    (h : PtrType.find b r.map = some v) : PtrType.produce b r = (v, r) := by
  simp [PtrType.produce, h]

theorem PtrType.produce_of_find_none (r : TypeRegistry) (b : Addr)
    (h : PtrType.find b r.map = none) :
    PtrType.produce b r = (r.heap.length,
      { (r.alloc (DataType.ptr { myBase := b })).2 with
        map := r.map ++ [(b, r.heap.length)] }) := by
  simp [PtrType.produce, h, TypeRegistry.alloc]

/-- After `PtrType::produce(b)` the map holds the instance returned for `b`. -/
theorem PtrType.find_produce (r : TypeRegistry) (b : Addr) :
    PtrType.find b (PtrType.produce b r).2.map = some (PtrType.produce b r).1 := by
  cases hf : PtrType.find b r.map with
  | some v =>
    rw [PtrType.produce_of_find r b v hf]
    exact hf
  | none =>
    rw [PtrType.produce_of_find_none r b hf]
    show PtrType.find b (r.map ++ [(b, r.heap.length)]) = some r.heap.length
    rw [PtrType.find_append, hf]
    simp [PtrType.find]

/-- A later call into `types.hpp` does not change the instance the map holds for a base. -/
theorem TypeRegistry.Step.find_step {r r2 : TypeRegistry} (h : TypeRegistry.Step r r2)
    (b v : Addr) (hf : PtrType.find b r.map = some v) : PtrType.find b r2.map = some v := by
  cases h with
  | produceError =>
    have hm : (ErrorType.produce r).2.map = r.map := by
      unfold ErrorType.produce
      split <;> rfl
    rw [hm]; exact hf
  | produceBasic base =>
    have hm : (BasicType.produce base r).2.map = r.map := by
      unfold BasicType.produce
      split <;> rfl
    rw [hm]; exact hf
  | producePtr baseType =>
    cases hb : PtrType.find baseType r.map with
    | some x =>
      rw [PtrType.produce_of_find r baseType x hb]
      exact hf
    | none =>
      rw [PtrType.produce_of_find_none r baseType hb]
      show PtrType.find b (r.map ++ [(baseType, r.heap.length)]) = some v
      rw [PtrType.find_append, hf]
  | newFn formalsIn retTypeIn => exact hf

theorem TypeRegistry.Later.find_later {r r2 : TypeRegistry} (h : TypeRegistry.Later r r2)
    (b v : Addr) (hf : PtrType.find b r.map = some v) : PtrType.find b r2.map = some v := by
  induction h with
  | refl => exact hf
  | tail _ hstep ih => exact hstep.find_step b v ih

theorem TypeRegistry.Step.ptrOK_step {r r2 : TypeRegistry} (h : TypeRegistry.Step r r2)
    (hp : r.PtrOK) : r2.PtrOK := by
  have hder := h.deref_step
  cases h with
  | produceError =>
    have hm : (ErrorType.produce r).2.map = r.map := by
      unfold ErrorType.produce
      split <;> rfl
    intro k v hf
    rw [hm] at hf
    exact hder v _ (hp k v hf)
  | produceBasic base =>
    have hm : (BasicType.produce base r).2.map = r.map := by
      unfold BasicType.produce
      split <;> rfl
    intro k v hf
    rw [hm] at hf
    exact hder v _ (hp k v hf)
  | producePtr baseType =>
    intro k v hf
    cases hb : PtrType.find baseType r.map with
    | some x =>
      rw [PtrType.produce_of_find r baseType x hb] at hf ⊢
      exact hp k v hf
    | none =>
      rw [PtrType.produce_of_find_none r baseType hb] at hf hder ⊢
      have hf2 : PtrType.find k (r.map ++ [(baseType, r.heap.length)]) = some v := hf
      rw [PtrType.find_append] at hf2
      cases hk : PtrType.find k r.map with
      | some v2 =>
        rw [hk] at hf2
        cases hf2
        exact hder v _ (hp k v hk)
      | none =>
        rw [hk] at hf2
        simp only [PtrType.find] at hf2
        split at hf2
        · rename_i hkb
          cases hf2
          subst hkb
          simp [TypeRegistry.deref, TypeRegistry.alloc]
        · cases hf2
  | newFn formalsIn retTypeIn =>
    intro k v hf
    exact hder v _ (hp k v hf)

theorem TypeRegistry.Later.ptrOK_later {r r2 : TypeRegistry} (h : TypeRegistry.Later r r2)
    (hp : r.PtrOK) : r2.PtrOK := by
  induction h with
  | refl => exact hp
  | tail _ hstep ih => exact hstep.ptrOK_step ih

/-- In a reachable registry the statics of `BasicType::produce` and `PtrType::produce` are
sound. -/
theorem TypeRegistry.Reachable.sound {r : TypeRegistry} (h : r.Reachable) :
    r.FlyOK ∧ r.PtrOK :=
  ⟨TypeRegistry.Later.flyOK_later h (fun a ha => absurd ha (List.not_mem_nil a)),
   TypeRegistry.Later.ptrOK_later h (fun k v hf => by simp [TypeRegistry.empty, PtrType.find] at hf)⟩

/-- The instance `PtrType::produce(b)` returns is a `PtrType` object with base `b`. -/
theorem PtrType.deref_producePtr (r : TypeRegistry) (hp : r.PtrOK) (b : Addr) :
    (PtrType.produce b r).2.deref (PtrType.produce b r).1
      = some (DataType.ptr { myBase := b }) :=
  (TypeRegistry.Step.ptrOK_step (TypeRegistry.Step.producePtr b r) hp) b _
    (PtrType.find_produce r b)

/-- C28: in a reachable registry state, let `BasicType::produce(k1)` be called and then, after
any number of further calls into `types.hpp`, `BasicType::produce(k2)`: the second call returns
the instance the first call returned if and only if `k2 = k1`. Likewise `PtrType::produce(b2)`
called any time after `PtrType::produce(b1)` returns the same instance if and only if `b2` and
`b1` are the same base instance. In particular no call changes the instance returned for a
key. -/
theorem C28_produce_interning (r : TypeRegistry) (hr : r.Reachable) :
    (∀ (k1 k2 : BaseType) (r2 : TypeRegistry),
      TypeRegistry.Later (BasicType.produce k1 r).2 r2 →
      ((BasicType.produce k2 r2).1 = (BasicType.produce k1 r).1 ↔ k2 = k1)) ∧
    (∀ (b1 b2 : Addr) (r2 : TypeRegistry),
      TypeRegistry.Later (PtrType.produce b1 r).2 r2 →
      ((PtrType.produce b2 r2).1 = (PtrType.produce b1 r).1 ↔ b2 = b1)) := by
  obtain ⟨hfly, hptr⟩ := hr.sound
  constructor
  · intro k1 k2 r2 hl
    have hfly1 := (TypeRegistry.Step.produceBasic k1 r).flyOK_step hfly
    constructor
    · intro he
      have h1 := (TypeRegistry.Step.produceBasic k2 r2).deref_step _ _
        (hl.deref_later _ _ (BasicType.deref_produceBasic k1 r))
      rw [← he, BasicType.deref_produceBasic k2 r2] at h1
      simp only [Option.some.injEq, DataType.basic.injEq, BasicType.mk.injEq] at h1
      exact h1
    · intro he
      subst he
      rw [BasicType.produce_of_findFly r2 k2 _
        (hl.findFly_later hfly1 k2 _ (BasicType.findFly_produce r hfly k2))]
  · intro b1 b2 r2 hl
    have hptr2 : r2.PtrOK :=
      hl.ptrOK_later ((TypeRegistry.Step.producePtr b1 r).ptrOK_step hptr)
    constructor
    · intro he
      have h1 := (TypeRegistry.Step.producePtr b2 r2).deref_step _ _
        (hl.deref_later _ _ (PtrType.deref_producePtr r hptr b1))
      rw [← he, PtrType.deref_producePtr r2 hptr2 b2] at h1
      simp only [Option.some.injEq, DataType.ptr.injEq, PtrType.mk.injEq] at h1
      exact h1
    · intro he
      subst he
      rw [PtrType.produce_of_find r2 b2 _ (hl.find_later b2 _ (PtrType.find_produce r b2))]

/-- Six calls make the registry of the examples of the empty registry. -/
theorem Example.reg_reachable : Example.reg.Reachable :=
  ((((((Relation.ReflTransGen.refl.tail
    (TypeRegistry.Step.produceBasic BaseType.INT _)).tail
    (TypeRegistry.Step.produceBasic BaseType.BOOL _)).tail
    (TypeRegistry.Step.produceBasic BaseType.VOID _)).tail
    (TypeRegistry.Step.producePtr 0 _)).tail
    (TypeRegistry.Step.newFn [0] 0 _)).tail
    (TypeRegistry.Step.newFn [] 2 _))

/-- The witness of C28, in the registry of the examples (Int at 0, Bool at 1, Void at 2,
pointer-to-Int at 3), which six calls make of the empty registry: `BasicType::produce(INT)`
twice returns one instance and `BasicType::produce(BOOL)` another; `PtrType::produce` of Int
twice returns one instance and `PtrType::produce` of Bool another. -/
theorem C28_produce_interning_witness :
    (BasicType.produce BaseType.INT (BasicType.produce BaseType.INT Example.reg).2).1
      = (BasicType.produce BaseType.INT Example.reg).1 ∧
    (BasicType.produce BaseType.BOOL (BasicType.produce BaseType.INT Example.reg).2).1
      ≠ (BasicType.produce BaseType.INT Example.reg).1 ∧
    (PtrType.produce 0 (PtrType.produce 0 Example.reg).2).1
      = (PtrType.produce 0 Example.reg).1 ∧
    (PtrType.produce 1 (PtrType.produce 0 Example.reg).2).1
      ≠ (PtrType.produce 0 Example.reg).1 := by
  have h := C28_produce_interning Example.reg Example.reg_reachable
  exact ⟨(h.1 BaseType.INT BaseType.INT _ Relation.ReflTransGen.refl).2 rfl,
    fun he => absurd ((h.1 BaseType.INT BaseType.BOOL _ Relation.ReflTransGen.refl).1 he)
      (by decide),
    (h.2 0 0 _ Relation.ReflTransGen.refl).2 rfl,
    fun he => absurd ((h.2 0 1 _ Relation.ReflTransGen.refl).1 he) (by decide)⟩

/-! ## Reference nodes -/

/-- `DerefNode::typeAnalysis` for an identifier of pointer type. -/
theorem DerefNode.typeAnalysis_ptr (d : DerefNode) (st : State) (p : PtrType)
    (ho : st.deref d.myID.getSymbol.getDataType = Except.ok (DataType.ptr p)) :
    d.typeAnalysis st
      = Except.ok ((d.myID.typeAnalysis st).setNodeType d.addr (some p.getBase)) := by
  have hid : (d.myID.typeAnalysis st).nodeType d.myID.addr
      = Except.ok d.myID.getSymbol.getDataType := by
    simp [IDNode.typeAnalysis, State.nodeType_setNodeType_self]
  have hd : (d.myID.typeAnalysis st).deref d.myID.getSymbol.getDataType
      = Except.ok (DataType.ptr p) := ho
  simp only [DerefNode.typeAnalysis, hid, hd, DataType.asPtr, bind, Except.bind, pure,
    Except.pure]

/-- C23: the analysis of a reference node `&id` always returns, raises no diagnostic, and
records for the node the instance `PtrType::produce(t)` returns for the identifier's type `t`,
which is a pointer type whose base is `t`; and a dereference of an identifier whose type is
that instance raises nothing and is recorded with `t`. -/
theorem C23_ref_node (self : RefNode) (st : State) (hreg : st.reg.PtrOK) :
    ∃ st2 : State, self.typeAnalysis st = Except.ok st2 ∧
      st2.reports = st.reports ∧
      st2.nodeType self.addr
        = Except.ok (PtrType.produce self.myID.getSymbol.getDataType st.reg).1 ∧
      st2.deref (PtrType.produce self.myID.getSymbol.getDataType st.reg).1
        = Except.ok (DataType.ptr { myBase := self.myID.getSymbol.getDataType }) ∧
      ∀ d : DerefNode,
        d.myID.getSymbol.getDataType
          = (PtrType.produce self.myID.getSymbol.getDataType st.reg).1 →
        ∃ st3 : State, d.typeAnalysis st2 = Except.ok st3 ∧ st3.reports = st2.reports ∧
          st3.nodeType d.addr = Except.ok self.myID.getSymbol.getDataType := by
  have hid : (self.myID.typeAnalysis st).nodeType self.myID.addr
      = Except.ok self.myID.getSymbol.getDataType := by
    simp [IDNode.typeAnalysis, State.nodeType_setNodeType_self]
  have hder : ({ (self.myID.typeAnalysis st) with
      reg := (PtrType.produce self.myID.getSymbol.getDataType st.reg).2 }.setNodeType self.addr
        (some (PtrType.produce self.myID.getSymbol.getDataType st.reg).1)).deref
      (PtrType.produce self.myID.getSymbol.getDataType st.reg).1
      = Except.ok (DataType.ptr { myBase := self.myID.getSymbol.getDataType }) := by
    rw [State.deref_ok_iff]
    exact PtrType.deref_producePtr st.reg hreg _
  refine ⟨{ (self.myID.typeAnalysis st) with
      reg := (PtrType.produce self.myID.getSymbol.getDataType st.reg).2 }.setNodeType self.addr
        (some (PtrType.produce self.myID.getSymbol.getDataType st.reg).1), ?_, rfl,
    State.nodeType_setNodeType_self _ _ _, hder, ?_⟩
  · simp only [RefNode.typeAnalysis, hid, bind, Except.bind, pure, Except.pure]
    rfl
  · intro d hd
    rw [← hd] at hder
    exact ⟨_, DerefNode.typeAnalysis_ptr d _ { myBase := self.myID.getSymbol.getDataType } hder,
      rfl, State.nodeType_setNodeType_self _ d.addr _⟩

/-- The witness of C23: `&x` for `int x` raises nothing and is recorded with the instance at
address 3, the pointer type with base Int (address 0), and `*p` for an identifier `p` of that
type is recorded with Int again. -/
theorem C23_ref_node_witness :
    ∃ st2 : State, (Example.refOf 0).typeAnalysis Example.st = Except.ok st2 ∧
      st2.reports = [] ∧ st2.nodeType 51 = Except.ok 3 ∧
      st2.deref 3 = Except.ok (DataType.ptr { myBase := 0 }) ∧
      ∃ st3 : State, (Example.derefOf 3).typeAnalysis st2 = Except.ok st3 ∧
        st3.reports = st2.reports ∧ st3.nodeType 61 = Except.ok 0 := by
  obtain ⟨st2, h1, h2, h3, h4, h5⟩ := C23_ref_node (Example.refOf 0) Example.st
    (by
      intro k v h
      simp only [Example.st, Example.reg, PtrType.find] at h
      split at h
      · rename_i hk
        cases h
        subst hk
        rfl
      · cases h)
  exact ⟨st2, h1, h2, h3, h4, h5 (Example.derefOf 3) rfl⟩

/-! ## Function types -/

theorem TypeNode.getType_later (t : TypeNode) :
    ∀ r : TypeRegistry, TypeRegistry.Later r (t.getType r).2 := by
  induction t with
  | voidTypeNode n => intro r; exact (TypeRegistry.Step.produceBasic _ r).later
  | intTypeNode n => intro r; exact (TypeRegistry.Step.produceBasic _ r).later
  | shortTypeNode n => intro r; exact (TypeRegistry.Step.produceBasic _ r).later
  | boolTypeNode n => intro r; exact (TypeRegistry.Step.produceBasic _ r).later
  | stringTypeNode n => intro r; exact (TypeRegistry.Step.produceBasic _ r).later
  | ptrTypeNode n b ih =>
    intro r
    exact (ih r).later_trans (TypeRegistry.Step.producePtr _ _).later

theorem FnDeclNode.formalTypes_later (l : List FormalDeclNode) :
    ∀ r : TypeRegistry, TypeRegistry.Later r (FnDeclNode.formalTypes l r).2 := by
  induction l with
  | nil => intro r; exact Relation.ReflTransGen.refl
  | cons f rest ih =>
    intro r
    exact (TypeNode.getType_later f.getTypeNode r).later_trans (ih _)

/-- An annotation that spells the same type as an earlier one gets the instance the earlier
one got, whatever calls into `types.hpp` were made in between. -/
theorem TypeNode.getType_stable (t1 : TypeNode) :
    ∀ (t2 : TypeNode) (r r2 : TypeRegistry), t1.sameType t2 = true → r.FlyOK →
      TypeRegistry.Later (t1.getType r).2 r2 → (t2.getType r2).1 = (t1.getType r).1 := by
  have hbasic : ∀ (k : BaseType) (r r2 : TypeRegistry), r.FlyOK →
      TypeRegistry.Later (BasicType.produce k r).2 r2 →
      (BasicType.produce k r2).1 = (BasicType.produce k r).1 := by
    intro k r r2 hfly hl
    rw [BasicType.produce_of_findFly r2 k _
      (hl.findFly_later ((TypeRegistry.Step.produceBasic k r).flyOK_step hfly) k _
        (BasicType.findFly_produce r hfly k))]
  induction t1 with
  | voidTypeNode n =>
    intro t2 r r2 hs hfly hl
    cases t2 <;> simp only [TypeNode.sameType, Bool.false_eq_true] at hs
    exact hbasic _ r r2 hfly hl
  | intTypeNode n =>
    intro t2 r r2 hs hfly hl
    cases t2 <;> simp only [TypeNode.sameType, Bool.false_eq_true] at hs
    exact hbasic _ r r2 hfly hl
  | shortTypeNode n =>
    intro t2 r r2 hs hfly hl
    cases t2 <;> simp only [TypeNode.sameType, Bool.false_eq_true] at hs
    exact hbasic _ r r2 hfly hl
  | boolTypeNode n =>
    intro t2 r r2 hs hfly hl
    cases t2 <;> simp only [TypeNode.sameType, Bool.false_eq_true] at hs
    exact hbasic _ r r2 hfly hl
  | stringTypeNode n =>
    intro t2 r r2 hs hfly hl
    cases t2 <;> simp only [TypeNode.sameType, Bool.false_eq_true] at hs
    exact hbasic _ r r2 hfly hl
  | ptrTypeNode n b1 ih =>
    intro t2 r r2 hs hfly hl
    cases t2 <;> simp only [TypeNode.sameType, Bool.false_eq_true] at hs
    rename_i n2 b2
    have hl1 : TypeRegistry.Later (b1.getType r).2 r2 :=
      (TypeRegistry.Step.producePtr _ _).later.later_trans hl
    have hb := ih b2 r r2 hs hfly hl1
    have hfind := (hl.later_trans (TypeNode.getType_later b2 r2)).find_later _ _
      (PtrType.find_produce (b1.getType r).2 (b1.getType r).1)
    simp only [TypeNode.getType]
    rw [hb, PtrType.produce_of_find _ _ _ hfind]

theorem FnDeclNode.formalTypes_stable (fs1 : List FormalDeclNode) :
    ∀ (fs2 : List FormalDeclNode) (r r2 : TypeRegistry),
      FnDeclNode.sameFormals fs1 fs2 = true → r.FlyOK →
      TypeRegistry.Later (FnDeclNode.formalTypes fs1 r).2 r2 →
      (FnDeclNode.formalTypes fs2 r2).1 = (FnDeclNode.formalTypes fs1 r).1 := by
  induction fs1 with
  | nil =>
    intro fs2 r r2 hs _ _
    cases fs2 with
    | nil => rfl
    | cons g gs => simp [FnDeclNode.sameFormals] at hs
  | cons f rest ih =>
    intro fs2 r r2 hs hfly hl
    cases fs2 with
    | nil => simp [FnDeclNode.sameFormals] at hs
    | cons g gs =>
      simp only [FnDeclNode.sameFormals, Bool.and_eq_true] at hs
      have hl1 : TypeRegistry.Later (f.getTypeNode.getType r).2 r2 :=
        (FnDeclNode.formalTypes_later rest _).later_trans hl
      have hhead := TypeNode.getType_stable f.getTypeNode g.getTypeNode r r2 hs.1 hfly hl1
      have htail := ih gs (f.getTypeNode.getType r).2 (g.getTypeNode.getType r2).2 hs.2
        (TypeRegistry.Later.flyOK_later (TypeNode.getType_later _ r) hfly)
        (hl.later_trans (TypeNode.getType_later _ r2))
      simp only [FnDeclNode.formalTypes]
      rw [hhead, htail]

theorem FnDeclNode.enter_fnType (n : ASTNode) (ret : TypeNode) (fs : List FormalDeclNode)
    (st : State) :
    (FnDeclNode.enter n ret fs st).getCurrentFnType
        = some (ret.getType (FnDeclNode.formalTypes fs st.reg).2).2.heap.length ∧
      (FnDeclNode.enter n ret fs st).reg.deref
          (ret.getType (FnDeclNode.formalTypes fs st.reg).2).2.heap.length
        = some (DataType.fn
            { myFormalTypes := (FnDeclNode.formalTypes fs st.reg).1,
              myRetType := (ret.getType (FnDeclNode.formalTypes fs st.reg).2).1 }) ∧
      TypeRegistry.Later st.reg (ret.getType (FnDeclNode.formalTypes fs st.reg).2).2 ∧
      TypeRegistry.Later (ret.getType (FnDeclNode.formalTypes fs st.reg).2).2
        (FnDeclNode.enter n ret fs st).reg :=
  ⟨rfl, TypeRegistry.deref_alloc_new _ _,
    (FnDeclNode.formalTypes_later fs st.reg).later_trans (TypeNode.getType_later ret _),
    (TypeRegistry.Step.newFn _ _ _).later⟩

/-- C29: function types are never interned. Take a function declaration entered by
`FnDeclNode::typeAnalysis` from a state whose registry was built by calls into `types.hpp`, and
a second one (any declaration, the same one included) entered at any later point of the
registry. Each installs a `Fn` instance as the current function type, the two instances are at
different addresses, and if the two declarations spell the same formal types and the same
return type, the two instances hold the same list of formal types and the same return type. -/
theorem C29_fn_types_not_interned (n1 n2 : ASTNode) (ret1 ret2 : TypeNode)
    (fs1 fs2 : List FormalDeclNode) (st st2 : State) (hr : st.reg.Reachable)
    (hl : TypeRegistry.Later (FnDeclNode.enter n1 ret1 fs1 st).reg st2.reg) :
    ∃ (a1 a2 : Addr) (fn1 fn2 : FnType),
      (FnDeclNode.enter n1 ret1 fs1 st).getCurrentFnType = some a1 ∧
      (FnDeclNode.enter n2 ret2 fs2 st2).getCurrentFnType = some a2 ∧
      a1 ≠ a2 ∧
      (FnDeclNode.enter n1 ret1 fs1 st).deref a1 = Except.ok (DataType.fn fn1) ∧
      (FnDeclNode.enter n2 ret2 fs2 st2).deref a1 = Except.ok (DataType.fn fn1) ∧
      (FnDeclNode.enter n2 ret2 fs2 st2).deref a2 = Except.ok (DataType.fn fn2) ∧
      (ret1.sameType ret2 = true → FnDeclNode.sameFormals fs1 fs2 = true → fn2 = fn1) := by
  obtain ⟨hc1, hd1, hl1, hn1⟩ := FnDeclNode.enter_fnType n1 ret1 fs1 st
  obtain ⟨hc2, hd2, hl2, hn2⟩ := FnDeclNode.enter_fnType n2 ret2 fs2 st2
  have hfly : st.reg.FlyOK := (TypeRegistry.Reachable.sound hr).1
  have hlt : (ret1.getType (FnDeclNode.formalTypes fs1 st.reg).2).2.heap.length
      < (ret2.getType (FnDeclNode.formalTypes fs2 st2.reg).2).2.heap.length :=
    Nat.lt_of_lt_of_le (TypeRegistry.deref_lt _ _ _ hd1)
      (TypeRegistry.Later.length_le (hl.later_trans hl2))
  have hd12 := TypeRegistry.Later.deref_later ((hl.later_trans hl2).later_trans hn2) _ _ hd1
  refine ⟨_, _,
    { myFormalTypes := (FnDeclNode.formalTypes fs1 st.reg).1,
      myRetType := (ret1.getType (FnDeclNode.formalTypes fs1 st.reg).2).1 },
    { myFormalTypes := (FnDeclNode.formalTypes fs2 st2.reg).1,
      myRetType := (ret2.getType (FnDeclNode.formalTypes fs2 st2.reg).2).1 },
    hc1, hc2, Nat.ne_of_lt hlt, ?_, ?_, ?_, ?_⟩
  · simp only [State.deref, hd1]
  · simp only [State.deref, hd12]
  · simp only [State.deref, hd2]
  · intro hret hfs
    have hF := FnDeclNode.formalTypes_stable fs1 fs2 st.reg st2.reg hfs hfly
      (((TypeNode.getType_later ret1 _).later_trans hn1).later_trans hl)
    have hR := TypeNode.getType_stable ret1 ret2 (FnDeclNode.formalTypes fs1 st.reg).2
      (FnDeclNode.formalTypes fs2 st2.reg).2 hret
      (TypeRegistry.Later.flyOK_later (FnDeclNode.formalTypes_later fs1 st.reg) hfly)
      ((hn1.later_trans hl).later_trans (FnDeclNode.formalTypes_later fs2 st2.reg))
    rw [hF, hR]

/-- The witness of C29: `int f(int a)` entered from the state of the examples and then a
second declaration `int h(int b)` entered right after it. The first installs the instance at
address 6 and the second the one at address 7, and both hold the formal types `[Int]` and the
return type Int. -/
theorem C29_fn_types_not_interned_witness :
    (FnDeclNode.enter (Example.node 7) (TypeNode.intTypeNode (Example.node 6))
        [Example.formalA] Example.st).getCurrentFnType = some 6 ∧
    (FnDeclNode.enter (Example.node 18) (TypeNode.intTypeNode (Example.node 19))
        [Example.formalB]
        (FnDeclNode.enter (Example.node 7) (TypeNode.intTypeNode (Example.node 6))
          [Example.formalA] Example.st)).getCurrentFnType = some 7 ∧
    ∃ fn : FnType,
      (FnDeclNode.enter (Example.node 18) (TypeNode.intTypeNode (Example.node 19))
        [Example.formalB]
        (FnDeclNode.enter (Example.node 7) (TypeNode.intTypeNode (Example.node 6))
          [Example.formalA] Example.st)).deref 6 = Except.ok (DataType.fn fn) ∧
      (FnDeclNode.enter (Example.node 18) (TypeNode.intTypeNode (Example.node 19))
        [Example.formalB]
        (FnDeclNode.enter (Example.node 7) (TypeNode.intTypeNode (Example.node 6))
          [Example.formalA] Example.st)).deref 7 = Except.ok (DataType.fn fn) := by
  obtain ⟨a1, a2, fn1, fn2, h1, h2, _, _, hd12, hd2, heq⟩ :=
    C29_fn_types_not_interned (Example.node 7) (Example.node 18)
      (TypeNode.intTypeNode (Example.node 6)) (TypeNode.intTypeNode (Example.node 19))
      [Example.formalA] [Example.formalB] Example.st
      (FnDeclNode.enter (Example.node 7) (TypeNode.intTypeNode (Example.node 6))
        [Example.formalA] Example.st)
      Example.reg_reachable Relation.ReflTransGen.refl
  have e1 : (6 : Addr) = a1 := Option.some.inj ((rfl : _ = some (6 : Addr)).symm.trans h1)
  have e2 : (7 : Addr) = a2 := Option.some.inj ((rfl : _ = some (7 : Addr)).symm.trans h2)
  subst e1
  subst e2
  rw [heq rfl rfl] at hd2
  exact ⟨rfl, rfl, fn1, hd12, hd2⟩

/-! ## The frame of the equality members -/

theorem ErrorType.error_produce (r : TypeRegistry) :
    (ErrorType.produce r).2.error = some (ErrorType.produce r).1 := by
  unfold ErrorType.produce
  cases he : r.error with
  | some a => simpa using he
  | none => simp

/-- The static of `ErrorType::produce`, once set, is never changed. -/
theorem TypeRegistry.Step.error_step {r r2 : TypeRegistry} (h : TypeRegistry.Step r r2)
    (a : Addr) (ha : r.error = some a) : r2.error = some a := by
  cases h with
  | produceError => simp [ErrorType.produce, ha]
  | produceBasic base =>
    unfold BasicType.produce
    split <;> simpa [TypeRegistry.alloc] using ha
  | producePtr baseType =>
    unfold PtrType.produce
    split <;> simpa [TypeRegistry.alloc] using ha
  | newFn formalsIn retTypeIn => simpa [FnType.new, TypeRegistry.alloc] using ha

theorem TypeRegistry.Later.error_later {r r2 : TypeRegistry} (h : TypeRegistry.Later r r2)
    (a : Addr) (ha : r.error = some a) : r2.error = some a := by
  induction h with
  | refl => exact ha
  | tail _ hstep ih => exact hstep.error_step a ih

/-- The pass changes the registry by calls into `types.hpp` only. -/
theorem State.later_closed :
    State.Closed (fun st st2 => TypeRegistry.Later st.reg st2.reg) where
  refl := fun _ => Relation.ReflTransGen.refl
  trans := fun _ _ _ hab hbc => hab.later_trans hbc
  setNodeType := fun _ _ _ => Relation.ReflTransGen.refl
  recordFnType := fun _ _ => Relation.ReflTransGen.refl
  report := fun _ _ _ => Relation.ReflTransGen.refl
  setCurrentFnType := fun _ _ => Relation.ReflTransGen.refl
  setReg := fun _ _ hstep => hstep.later

theorem State.later_setError (st : State) (node : Nat) :
    TypeRegistry.Later st.reg (st.setError node).reg :=
  (TypeRegistry.Step.produceError st.reg).later

theorem State.later_setBasic (st : State) (node : Nat) (base : BaseType) :
    TypeRegistry.Later st.reg (st.setBasic node base).reg :=
  (TypeRegistry.Step.produceBasic base st.reg).later

theorem State.nodeType_setError_ne (st : State) (node other : Nat) (hne : other ≠ node) :
    (st.setError node).nodeType other = st.nodeType other := by
  simp only [State.setError]
  rw [State.nodeType_setNodeType_ne _ _ _ _ hne]
  rfl

theorem State.nodeType_setBasic_ne (st : State) (node other : Nat) (base : BaseType)
    (hne : other ≠ node) :
    (st.setBasic node base).nodeType other = st.nodeType other := by
  simp only [State.setBasic]
  rw [State.nodeType_setNodeType_ne _ _ _ _ hne]
  rfl

/-- The state in which a `==` or `!=` node returns, by the outcome of its two operands. -/
theorem EqualsNode.equalsNode_eq (e : ExpNode) (n : ASTNode) (myExp1 myExp2 : ExpNode)
    (st s1 s2 : State) (t1 t2 : Addr) (o1 o2 : DataType)
    (he : e = ExpNode.equalsNode n myExp1 myExp2 ∨ e = ExpNode.notEqualsNode n myExp1 myExp2)
    (h1 : myExp1.typeAnalysis st = Except.ok s1)
    (ht1 : s1.nodeType myExp1.toASTNode.addr = Except.ok t1)
    (ho1 : s1.deref t1 = Except.ok o1)
    (h2 : myExp2.typeAnalysis
      (if o1.isInt || o1.isBool then s1
       else (s1.report ErrorKind.errEqOpd myExp1.toASTNode.myPos).setError
        myExp1.toASTNode.addr) = Except.ok s2)
    (ht2 : s2.nodeType myExp2.toASTNode.addr = Except.ok t2)
    (ho2 : s2.deref t2 = Except.ok o2)
    (hkeep : s2.nodeType myExp1.toASTNode.addr =
      (if o1.isInt || o1.isBool then s1
       else (s1.report ErrorKind.errEqOpd myExp1.toASTNode.myPos).setError
        myExp1.toASTNode.addr).nodeType myExp1.toASTNode.addr) :
    e.typeAnalysis st = Except.ok
      (if (o1.isInt || o1.isBool) = true ∧ (o2.isInt || o2.isBool) = true ∧ t2 ≠ t1 then
        (s2.report ErrorKind.errEqOpr n.myPos).setError n.addr
       else
        (if o2.isInt || o2.isBool then s2
         else (s2.report ErrorKind.errEqOpd myExp2.toASTNode.myPos).setError
          myExp2.toASTNode.addr).setBasic n.addr BaseType.BOOL) := by
  have hopd1 := opdTypeAnalysis_notEqYes (ExpNode.typeAnalysis myExp1) myExp1.toASTNode st s1 t1
    o1 h1 ht1 ho1
  have hopd2 := opdTypeAnalysis_notEqYes (ExpNode.typeAnalysis myExp2) myExp2.toASTNode _ s2 t2
    o2 h2 ht2 ho2
  cases hc1 : (o1.isInt || o1.isBool) <;> cases hc2 : (o2.isInt || o2.isBool) <;>
    simp only [hc1, hc2, if_true, if_false, Bool.false_eq_true, false_and, and_false,
      true_and] at h2 hkeep hopd1 hopd2 ⊢
  · have hr := EqualsNode.equalsRule_eq n myExp1.toASTNode myExp2.toASTNode false false
      ((s2.report ErrorKind.errEqOpd myExp2.toASTNode.myPos).setError myExp2.toASTNode.addr)
      t1 t2 (fun h => by cases h) (fun h => by cases h)
    simp only [Bool.false_eq_true, false_and, if_false] at hr
    rcases he with h | h <;> subst h <;>
      simp only [ExpNode.typeAnalysis, hopd1, hopd2, bind, Except.bind]
    · exact hr.1
    · exact hr.2
  · have hr := EqualsNode.equalsRule_eq n myExp1.toASTNode myExp2.toASTNode false true s2
      t1 t2 (fun h => by cases h) (fun h => by cases h)
    simp only [Bool.false_eq_true, false_and, if_false] at hr
    rcases he with h | h <;> subst h <;>
      simp only [ExpNode.typeAnalysis, hopd1, hopd2, bind, Except.bind]
    · exact hr.1
    · exact hr.2
  · have hr := EqualsNode.equalsRule_eq n myExp1.toASTNode myExp2.toASTNode true false
      ((s2.report ErrorKind.errEqOpd myExp2.toASTNode.myPos).setError myExp2.toASTNode.addr)
      t1 t2 (fun _ h => by cases h) (fun _ h => by cases h)
    simp only [Bool.false_eq_true, false_and, and_false, if_false] at hr
    rcases he with h | h <;> subst h <;>
      simp only [ExpNode.typeAnalysis, hopd1, hopd2, bind, Except.bind]
    · exact hr.1
    · exact hr.2
  · have hr := EqualsNode.equalsRule_eq n myExp1.toASTNode myExp2.toASTNode true true s2
      t1 t2 (fun _ _ => hkeep.trans ht1) (fun _ _ => ht2)
    simp only [true_and] at hr
    rcases he with h | h <;> subst h <;>
      simp only [ExpNode.typeAnalysis, hopd1, hopd2, bind, Except.bind]
    · exact hr.1
    · exact hr.2

/-- C30: take a `==` or `!=` node whose operands are analysed and have recorded types, the
second operand's analysis leaving the first operand's record in place, the node and its two
operands being three different nodes, in a registry whose Error static is sound. The node
returns, and in the state it returns in: an operand whose type is neither Int nor Bool is
recorded with the canonical Error instance (the one the static of `ErrorType::produce` holds)
and the node is recorded with a Bool instance; and when both operands are Int or Bool but their
recorded types are different instances, the two operands keep their recorded types and the node
is recorded with the canonical Error instance. -/
theorem C30_equality_frame (e : ExpNode) (n : ASTNode) (myExp1 myExp2 : ExpNode)
    (st s1 s2 : State) (t1 t2 : Addr) (o1 o2 : DataType)
    (he : e = ExpNode.equalsNode n myExp1 myExp2 ∨ e = ExpNode.notEqualsNode n myExp1 myExp2)
    (h1 : myExp1.typeAnalysis st = Except.ok s1)
    (ht1 : s1.nodeType myExp1.toASTNode.addr = Except.ok t1)
    (ho1 : s1.deref t1 = Except.ok o1)
    (h2 : myExp2.typeAnalysis
      (if o1.isInt || o1.isBool then s1
       else (s1.report ErrorKind.errEqOpd myExp1.toASTNode.myPos).setError
        myExp1.toASTNode.addr) = Except.ok s2)
    (ht2 : s2.nodeType myExp2.toASTNode.addr = Except.ok t2)
    (ho2 : s2.deref t2 = Except.ok o2)
    (hkeep : s2.nodeType myExp1.toASTNode.addr =
      (if o1.isInt || o1.isBool then s1
       else (s1.report ErrorKind.errEqOpd myExp1.toASTNode.myPos).setError
        myExp1.toASTNode.addr).nodeType myExp1.toASTNode.addr)
    (hreg : s1.reg.ErrorOK)
    (hn1 : myExp1.toASTNode.addr ≠ n.addr) (hn2 : myExp2.toASTNode.addr ≠ n.addr)
    (h12 : myExp1.toASTNode.addr ≠ myExp2.toASTNode.addr) :
    ∃ st2 : State,
      e.typeAnalysis st = Except.ok st2 ∧
      ((o1.isInt || o1.isBool) = false →
        st2.nodeType myExp1.toASTNode.addr = Except.ok (ErrorType.produce s1.reg).1 ∧
        st2.reg.error = some (ErrorType.produce s1.reg).1 ∧
        st2.deref (ErrorType.produce s1.reg).1 = Except.ok DataType.error ∧
        ∃ b : Addr, st2.nodeType n.addr = Except.ok b ∧
          st2.deref b = Except.ok (DataType.basic { myBaseType := BaseType.BOOL })) ∧
      ((o2.isInt || o2.isBool) = false →
        st2.nodeType myExp2.toASTNode.addr = Except.ok (ErrorType.produce s2.reg).1 ∧
        st2.reg.error = some (ErrorType.produce s2.reg).1 ∧
        st2.deref (ErrorType.produce s2.reg).1 = Except.ok DataType.error ∧
        ∃ b : Addr, st2.nodeType n.addr = Except.ok b ∧
          st2.deref b = Except.ok (DataType.basic { myBaseType := BaseType.BOOL })) ∧
      ((o1.isInt || o1.isBool) = true → (o2.isInt || o2.isBool) = true → t2 ≠ t1 →
        st2.nodeType myExp1.toASTNode.addr = Except.ok t1 ∧
        st2.nodeType myExp2.toASTNode.addr = Except.ok t2 ∧
        st2.deref t1 = Except.ok o1 ∧ st2.deref t2 = Except.ok o2 ∧
        st2.nodeType n.addr = Except.ok (ErrorType.produce s2.reg).1 ∧
        st2.reg.error = some (ErrorType.produce s2.reg).1 ∧
        st2.deref (ErrorType.produce s2.reg).1 = Except.ok DataType.error) := by
  have hfinal := EqualsNode.equalsNode_eq e n myExp1 myExp2 st s1 s2 t1 t2 o1 o2 he h1 ht1 ho1
    h2 ht2 ho2 hkeep
  have hmid : (if o1.isInt || o1.isBool then s1
       else (s1.report ErrorKind.errEqOpd myExp1.toASTNode.myPos).setError
        myExp1.toASTNode.addr).reg.ErrorOK := by
    split
    · exact hreg
    · exact TypeRegistry.errorOK_step _ _ (TypeRegistry.Step.produceError s1.reg) hreg
  have hreg2 : s2.reg.ErrorOK := ExpNode.expNode_closed State.errorOK_closed myExp2 _ s2 h2 hmid
  have hlater2 := ExpNode.expNode_closed State.later_closed myExp2 _ s2 h2
  have hl1 : TypeRegistry.Later s1.reg s2.reg := by
    refine TypeRegistry.Later.later_trans ?_ hlater2
    split
    · exact Relation.ReflTransGen.refl
    · exact State.later_setError (s1.report ErrorKind.errEqOpd myExp1.toASTNode.myPos)
        myExp1.toASTNode.addr
  refine ⟨_, hfinal, ?_, ?_, ?_⟩
  · intro hc1
    simp only [hc1, Bool.false_eq_true, false_and, if_false] at hkeep h2 hlater2 ⊢
    have hk : s2.nodeType myExp1.toASTNode.addr = Except.ok (ErrorType.produce s1.reg).1 :=
      hkeep.trans (State.nodeType_setError_self _ _)
    have hm2 : (if (o2.isInt || o2.isBool) = true then s2
        else (s2.report ErrorKind.errEqOpd myExp2.toASTNode.myPos).setError
          myExp2.toASTNode.addr).nodeType myExp1.toASTNode.addr
        = Except.ok (ErrorType.produce s1.reg).1 := by
      split
      · exact hk
      · rw [State.nodeType_setError_ne _ _ _ h12]
        exact hk
    have hl2 : TypeRegistry.Later s2.reg
        ((if (o2.isInt || o2.isBool) = true then s2
          else (s2.report ErrorKind.errEqOpd myExp2.toASTNode.myPos).setError
            myExp2.toASTNode.addr).setBasic n.addr BaseType.BOOL).reg := by
      refine TypeRegistry.Later.later_trans ?_ (State.later_setBasic _ _ _)
      split
      · exact Relation.ReflTransGen.refl
      · exact State.later_setError (s2.report ErrorKind.errEqOpd myExp2.toASTNode.myPos)
          myExp2.toASTNode.addr
    have hl := TypeRegistry.Later.later_trans hlater2 hl2
    refine ⟨?_, ?_, ?_, _, State.nodeType_setBasic_self _ _ _, State.deref_setBasic_self _ _ _⟩
    · rw [State.nodeType_setBasic_ne _ _ _ _ hn1]
      exact hm2
    · exact TypeRegistry.Later.error_later hl _ (ErrorType.error_produce s1.reg)
    · rw [State.deref_ok_iff]
      exact TypeRegistry.Later.deref_later hl _ _ (ErrorType.deref_produceError s1.reg hreg)
  · intro hc2
    simp only [hc2, Bool.false_eq_true, false_and, and_false, if_false]
    have hl : TypeRegistry.Later
        ((s2.report ErrorKind.errEqOpd myExp2.toASTNode.myPos).setError
          myExp2.toASTNode.addr).reg
        (((s2.report ErrorKind.errEqOpd myExp2.toASTNode.myPos).setError
          myExp2.toASTNode.addr).setBasic n.addr BaseType.BOOL).reg :=
      State.later_setBasic _ _ _
    refine ⟨?_, ?_, ?_, _, State.nodeType_setBasic_self _ _ _, State.deref_setBasic_self _ _ _⟩
    · rw [State.nodeType_setBasic_ne _ _ _ _ hn2]
      exact State.nodeType_setError_self _ _
    · exact TypeRegistry.Later.error_later hl _ (ErrorType.error_produce s2.reg)
    · rw [State.deref_ok_iff]
      exact TypeRegistry.Later.deref_later hl _ _ (ErrorType.deref_produceError s2.reg hreg2)
  · intro hc1 hc2 hne
    simp only [hc1, hc2, hne, ne_eq, not_false_eq_true, and_self, if_true] at hkeep ⊢
    have hl : TypeRegistry.Later s2.reg
        ((s2.report ErrorKind.errEqOpr n.myPos).setError n.addr).reg :=
      State.later_setError (s2.report ErrorKind.errEqOpr n.myPos) n.addr
    refine ⟨?_, ?_, ?_, ?_, State.nodeType_setError_self _ _, ?_, ?_⟩
    · rw [State.nodeType_setError_ne _ _ _ hn1]
      exact hkeep.trans ht1
    · rw [State.nodeType_setError_ne _ _ _ hn2]
      exact ht2
    · rw [State.deref_ok_iff] at ho1 ⊢
      exact TypeRegistry.Later.deref_later (hl1.later_trans hl) _ _ ho1
    · rw [State.deref_ok_iff] at ho2 ⊢
      exact TypeRegistry.Later.deref_later hl _ _ ho2
    · exact ErrorType.error_produce s2.reg
    · exact State.deref_setError_self _ _ hreg2

/-- The witness of C30: in `p != 1` for `int *p` the operand `p` (node 81) ends recorded with
the Error instance (address 6, which the static then holds) and the node (80) with a Bool
instance; in `1 == true` the operands (81, 82) keep Int (address 0) and Bool (address 1) and
the node is recorded with the Error instance. -/
theorem C30_equality_frame_witness :
    (∃ st2 : State, Example.neqPtrOne.typeAnalysis Example.st = Except.ok st2 ∧
      st2.nodeType 81 = Except.ok 6 ∧ st2.reg.error = some 6 ∧
      st2.deref 6 = Except.ok DataType.error ∧
      ∃ b : Addr, st2.nodeType 80 = Except.ok b ∧
        st2.deref b = Except.ok (DataType.basic { myBaseType := BaseType.BOOL })) ∧
    (∃ st2 : State, Example.eqOneTrue.typeAnalysis Example.st = Except.ok st2 ∧
      st2.nodeType 81 = Except.ok 0 ∧ st2.nodeType 82 = Except.ok 1 ∧
      st2.deref 0 = Except.ok (DataType.basic { myBaseType := BaseType.INT }) ∧
      st2.deref 1 = Except.ok (DataType.basic { myBaseType := BaseType.BOOL }) ∧
      st2.nodeType 80 = Except.ok 6 ∧ st2.reg.error = some 6 ∧
      st2.deref 6 = Except.ok DataType.error) :=
  ⟨(C30_equality_frame Example.neqPtrOne (Example.node 80)
      (Example.idExp 81 3) (ExpNode.intLitNode (Example.node 82)) Example.st
      ((Example.ident 81 3).typeAnalysis Example.st)
      (IntLitNode.typeAnalysis (Example.node 82)
        ((((Example.ident 81 3).typeAnalysis Example.st).report ErrorKind.errEqOpd 181).setError
          81))
      3 0 (DataType.ptr { myBase := 0 })
      (DataType.basic { myBaseType := BaseType.INT })
      (Or.inr rfl) rfl rfl rfl rfl rfl rfl rfl (fun _ h => by cases h)
      (by decide) (by decide) (by decide)).imp fun _ h => ⟨h.1, h.2.1 rfl⟩,
   (C30_equality_frame Example.eqOneTrue (Example.node 80)
      (ExpNode.intLitNode (Example.node 81)) (ExpNode.trueNode (Example.node 82)) Example.st
      (IntLitNode.typeAnalysis (Example.node 81) Example.st)
      (TrueNode.typeAnalysis (Example.node 82)
        (IntLitNode.typeAnalysis (Example.node 81) Example.st))
      0 1 (DataType.basic { myBaseType := BaseType.INT })
      (DataType.basic { myBaseType := BaseType.BOOL })
      (Or.inl rfl) rfl rfl rfl rfl rfl rfl rfl (fun _ h => by cases h)
      (by decide) (by decide) (by decide)).imp
        fun _ h => ⟨h.1, h.2.2.2 rfl rfl (by decide)⟩⟩

/-! ## The frame of a piece of the pass -/

namespace State.Local

variable {P : Nat → Prop} {R : State → State → Prop}

theorem and_setNodeType (hR : State.Local P R) {st x : State} {node : Nat} (type : Addr)
    (hn : P node) (h : R st x) : R st (x.setNodeType node (some type)) :=
  hR.trans _ _ _ h (hR.setNodeType x node type hn)

theorem and_report (hR : State.Local P R) {st x : State} (kind : ErrorKind) (pos : Position)
    (h : R st x) : R st (x.report kind pos) :=
  hR.trans _ _ _ h (hR.report x kind pos)

theorem and_setError (hR : State.Local P R) {st x : State} {node : Nat} (hn : P node)
    (h : R st x) : R st (x.setError node) :=
  hR.trans _ _ _ h (hR.trans _ _ _ (hR.setReg x _ (TypeRegistry.Step.produceError x.reg))
    (hR.setNodeType _ node _ hn))

theorem and_setBasic (hR : State.Local P R) {st x : State} {node : Nat} (base : BaseType)
    (hn : P node) (h : R st x) : R st (x.setBasic node base) :=
  hR.trans _ _ _ h (hR.trans _ _ _ (hR.setReg x _ (TypeRegistry.Step.produceBasic base x.reg))
    (hR.setNodeType _ node _ hn))

end State.Local

theorem State.frame_local (P : Nat → Prop) : State.Local P (State.Frame P) where
  refl := fun _ => ⟨rfl, fun _ _ => rfl⟩
  trans := fun _ _ _ hab hbc =>
    ⟨hbc.1.trans hab.1, fun k hk => (hbc.2 k hk).trans (hab.2 k hk)⟩
  setNodeType := fun st node type hn =>
    ⟨rfl, fun k hk => TypeAnalysis.find_insert_ne node k (some type) st.ta.nodeToType
      (fun he => hk (he ▸ hn))⟩
  report := fun _ _ _ => ⟨rfl, fun _ _ => rfl⟩
  setReg := fun _ _ _ => ⟨rfl, fun _ _ => rfl⟩

section rules

variable {P : Nat → Prop} {R : State → State → Prop}

theorem AssignExpNode.assignExpNodeRule_local (hR : State.Local P R)
    (self myDst mySrc : ASTNode) (st st2 : State) (hs : P self.addr)
    (h : AssignExpNode.typeRule self myDst mySrc st = Except.ok st2) : R st st2 := by
  simp only [AssignExpNode.typeRule, bind, Except.bind, pure, Except.pure] at h
  repeat' split at h
  all_goals cases h
  all_goals
    repeat' first
      | exact hR.refl _
      | apply hR.and_setError hs
      | apply hR.and_setNodeType _ hs
      | apply hR.and_report

theorem State.intOperand_local (hR : State.Local P R)
    (st st2 : State) (opd : Addr) (kind : ErrorKind) (pos : Position)
    (h : st.intOperand opd kind pos = Except.ok st2) : R st st2 := by
  simp only [State.intOperand, bind, Except.bind, pure, Except.pure] at h
  repeat' split at h
  all_goals cases h
  all_goals
    repeat' first
      | exact hR.refl _
      | apply hR.and_report

theorem binaryIntRule_local (hR : State.Local P R)
    (kind : ErrorKind) (pos1 pos2 : Position) (result : BaseType)
    (self myExp1 myExp2 : ASTNode) (st st2 : State) (hs : P self.addr)
    (h : binaryIntRule kind pos1 pos2 result self myExp1 myExp2 st = Except.ok st2) :
    R st st2 := by
  simp only [binaryIntRule, Except.bind_ok_iff, Except.pure_ok_iff] at h
  obtain ⟨left, _, right, _, st3, h3, st4, h4, h5⟩ := h
  subst h5
  have h34 := hR.trans _ _ _ (State.intOperand_local hR _ _ _ _ _ h3)
    (State.intOperand_local hR _ _ _ _ _ h4)
  apply hR.and_setBasic _ hs
  split
  · exact hR.and_setError hs h34
  · exact h34

theorem IDNode.iDNode_local (hR : State.Local P R)
    (self : IDNode) (st : State) (hs : P self.addr) : R st (self.typeAnalysis st) :=
  hR.setNodeType st _ _ hs

theorem DerefNode.derefNode_local (hR : State.Local P R)
    (self : DerefNode) (st st2 : State) (hs : P self.addr) (hi : P self.myID.addr)
    (h : self.typeAnalysis st = Except.ok st2) : R st st2 := by
  simp only [DerefNode.typeAnalysis, IDNode.typeAnalysis, bind, Except.bind, pure,
    Except.pure] at h
  repeat' split at h
  all_goals cases h
  all_goals
    repeat' first
      | exact hR.refl _
      | apply hR.and_setError hs
      | apply hR.and_setNodeType _ hs
      | apply hR.and_setNodeType _ hi
      | apply hR.and_report

theorem LValNode.lValNode_local (hR : State.Local P R) {p : ASTNode → Bool}
    {q : IDNode → Bool} (hp : ∀ x, p x = true → P x.addr)
    (self : LValNode) (st st2 : State) (ha : self.all p q = true)
    (h : self.typeAnalysis st = Except.ok st2) : R st st2 := by
  cases self with
  | idNode n =>
    simp only [LValNode.all, IDNode.all, Bool.and_eq_true] at ha
    simp only [LValNode.typeAnalysis, Except.pure_ok_iff] at h
    subst h
    exact IDNode.iDNode_local hR n st (hp _ ha.1)
  | derefNode n =>
    simp only [LValNode.all, IDNode.all, Bool.and_eq_true] at ha
    exact DerefNode.derefNode_local hR n st st2 (hp _ ha.1) (hp _ ha.2.1) h

theorem RefNode.refNode_local (hR : State.Local P R)
    (self : RefNode) (st st2 : State) (hs : P self.addr) (hi : P self.myID.addr)
    (h : self.typeAnalysis st = Except.ok st2) : R st st2 := by
  simp only [RefNode.typeAnalysis, Except.bind_ok_iff, Except.pure_ok_iff] at h
  obtain ⟨base, _, h2⟩ := h
  subst h2
  apply hR.and_setNodeType _ hs
  exact hR.trans _ _ _ (IDNode.iDNode_local hR self.myID st hi)
    (hR.setReg _ _ (TypeRegistry.Step.producePtr base _))

theorem CallExpNode.matchArgs_local (hR : State.Local P R)
    (self : ASTNode) : ∀ (myArgs : List ASTNode) (formals : List Addr) (st st2 : State),
      CallExpNode.matchArgs self myArgs formals st = Except.ok st2 → R st st2 := by
  intro myArgs
  induction myArgs with
  | nil =>
    intro formals st st2 h
    simp only [CallExpNode.matchArgs, Except.pure_ok_iff] at h
    subst h
    exact hR.refl _
  | cons arg rest ih =>
    intro formals st st2 h
    cases formals with
    | nil => simp [CallExpNode.matchArgs, throw, throwThe, MonadExceptOf.throw] at h
    | cons f formals =>
      simp only [CallExpNode.matchArgs, Except.bind_ok_iff] at h
      obtain ⟨actualType, _, actualObj, _, st3, h3, h4⟩ := h
      refine hR.trans _ _ _ ?_ (ih formals st3 st2 h4)
      simp only [bind, Except.bind, pure, Except.pure] at h3
      repeat' split at h3
      all_goals cases h3
      all_goals
        repeat' first
          | exact hR.refl _
          | apply hR.and_report

theorem CallExpNode.callExpNodeRule_local (hR : State.Local P R)
    (self : ASTNode) (myID : IDNode) (myArgs : List ASTNode) (st st2 : State)
    (hs : P self.addr)
    (h : CallExpNode.typeRule self myID myArgs st = Except.ok st2) : R st st2 := by
  simp only [CallExpNode.typeRule, Except.bind_ok_iff] at h
  obtain ⟨idObj, _, h2⟩ := h
  split at h2
  · simp only [Except.bind_ok_iff, Except.pure_ok_iff] at h2
    obtain ⟨st3, h3, h4⟩ := h2
    subst h4
    apply hR.and_setNodeType _ hs
    split at h3
    · simp only [Except.pure_ok_iff] at h3
      subst h3
      exact hR.and_setError hs (hR.report _ _ _)
    · exact CallExpNode.matchArgs_local hR self _ _ _ _ h3
  · simp only [Except.pure_ok_iff] at h2
    subst h2
    exact hR.and_setError hs (hR.report _ _ _)

theorem AndNode.andNodeRule_local (hR : State.Local P R)
    (self myExp1 myExp2 : ASTNode) (st st2 : State) (hs : P self.addr)
    (h : AndNode.typeRule self myExp1 myExp2 st = Except.ok st2) : R st st2 := by
  simp only [AndNode.typeRule, bind, Except.bind, pure, Except.pure] at h
  repeat' split at h
  all_goals cases h
  all_goals
    repeat' first
      | exact hR.refl _
      | apply hR.and_setError hs
      | apply hR.and_report

theorem OrNode.orNodeRule_local (hR : State.Local P R)
    (self myExp1 myExp2 : ASTNode) (st st2 : State) (hs : P self.addr)
    (h : OrNode.typeRule self myExp1 myExp2 st = Except.ok st2) : R st st2 := by
  simp only [OrNode.typeRule, bind, Except.bind, pure, Except.pure] at h
  repeat' split at h
  all_goals cases h
  all_goals
    repeat' first
      | exact hR.refl _
      | apply hR.and_setError hs
      | apply hR.and_report

theorem NegNode.negNodeRule_local (hR : State.Local P R)
    (self myExp : ASTNode) (st st2 : State) (hs : P self.addr)
    (h : NegNode.typeRule self myExp st = Except.ok st2) : R st st2 := by
  simp only [NegNode.typeRule, bind, Except.bind, pure, Except.pure] at h
  repeat' split at h
  all_goals cases h
  all_goals
    repeat' first
      | exact hR.refl _
      | apply hR.and_setError hs
      | apply hR.and_setNodeType _ hs
      | apply hR.and_report

theorem NotNode.notNodeRule_local (hR : State.Local P R)
    (self myExp : ASTNode) (st st2 : State) (hs : P self.addr)
    (h : NotNode.typeRule self myExp st = Except.ok st2) : R st st2 := by
  simp only [NotNode.typeRule, bind, Except.bind, pure, Except.pure] at h
  repeat' split at h
  all_goals cases h
  all_goals
    repeat' first
      | exact hR.refl _
      | apply hR.and_setError hs
      | apply hR.and_setNodeType _ hs
      | apply hR.and_report

theorem opdScenario_local (hR : State.Local P R)
    (opd : ASTNode) (which : Addr) (accepts : DataType → Bool) (kind : ErrorKind)
    (st : State) (r : Bool × State) (ho : P opd.addr)
    (h : opdScenario opd which accepts kind st = Except.ok r) : R st r.2 := by
  simp only [opdScenario, bind, Except.bind, pure, Except.pure] at h
  repeat' split at h
  all_goals cases h
  all_goals
    repeat' first
      | exact hR.refl _
      | apply hR.and_setError ho
      | apply hR.and_report

theorem opdTypeAnalysis_local (hR : State.Local P R)
    (analyse : State → Except Crash State) (opd : ASTNode) (scenarioOpd : String)
    (st : State) (r : Bool × State) (ho : P opd.addr)
    (hana : ∀ a b, analyse a = Except.ok b → R a b)
    (h : opdTypeAnalysis analyse opd scenarioOpd st = Except.ok r) : R st r.2 := by
  simp only [opdTypeAnalysis, Except.bind_ok_iff, Except.pure_ok_iff] at h
  obtain ⟨st1, h1, which, _, r1, h2, r2, h3, r3, h4, r4, h5, h6⟩ := h
  subst h6
  have s1 : R st1 r1.2 := by
    split at h2
    · exact opdScenario_local hR _ _ _ _ _ _ ho h2
    · simp only [Except.pure_ok_iff] at h2; subst h2; exact hR.refl _
  have s2 : R r1.2 r2.2 := by
    split at h3
    · exact opdScenario_local hR _ _ _ _ _ _ ho h3
    · simp only [Except.pure_ok_iff] at h3; subst h3; exact hR.refl _
  have s3 : R r2.2 r3.2 := by
    split at h4
    · exact opdScenario_local hR _ _ _ _ _ _ ho h4
    · simp only [Except.pure_ok_iff] at h4; subst h4; exact hR.refl _
  have s4 : R r3.2 r4.2 := by
    split at h5
    · exact opdScenario_local hR _ _ _ _ _ _ ho h5
    · simp only [Except.pure_ok_iff] at h5; subst h5; exact hR.refl _
  exact hR.trans _ _ _ (hana _ _ h1) (hR.trans _ _ _ s1 (hR.trans _ _ _ s2 (hR.trans _ _ _ s3 s4)))

theorem EqualsNode.equalsNodeRule_local (hR : State.Local P R)
    (self myExp1 myExp2 : ASTNode) (tmp1 tmp2 : Bool) (st st2 : State) (hs : P self.addr)
    (h : EqualsNode.typeRule self myExp1 myExp2 tmp1 tmp2 st = Except.ok st2) : R st st2 := by
  simp only [EqualsNode.typeRule, bind, Except.bind, pure, Except.pure] at h
  repeat' split at h
  all_goals cases h
  all_goals
    repeat' first
      | exact hR.refl _
      | apply hR.and_setError hs
      | apply hR.and_setBasic _ hs
      | apply hR.and_report

theorem NotEqualsNode.notEqualsNodeRule_local (hR : State.Local P R)
    (self myExp1 myExp2 : ASTNode) (tmp1 tmp2 : Bool) (st st2 : State) (hs : P self.addr)
    (h : NotEqualsNode.typeRule self myExp1 myExp2 tmp1 tmp2 st = Except.ok st2) :
    R st st2 := by
  simp only [NotEqualsNode.typeRule, bind, Except.bind, pure, Except.pure] at h
  repeat' split at h
  all_goals cases h
  all_goals
    repeat' first
      | exact hR.refl _
      | apply hR.and_setError hs
      | apply hR.and_setBasic _ hs
      | apply hR.and_report

end rules

section induction

variable {P : Nat → Prop} {R : State → State → Prop} {p : ASTNode → Bool} {q : IDNode → Bool}

mutual
theorem ExpNode.expNode_local (hR : State.Local P R) (hp : ∀ x, p x = true → P x.addr) :
    ∀ (e : ExpNode) (st st2 : State), e.all p q = true →
      e.typeAnalysis st = Except.ok st2 → R st st2
  | .lval l, st, st2, ha, h => by
    simp only [ExpNode.all] at ha
    simp only [ExpNode.typeAnalysis] at h
    exact LValNode.lValNode_local hR hp l st st2 ha h
  | .assignExp a, st, st2, ha, h => by
    simp only [ExpNode.all] at ha
    simp only [ExpNode.typeAnalysis] at h
    exact AssignExpNode.assignExpNode_local hR hp a st st2 ha h
  | .callExp c, st, st2, ha, h => by
    simp only [ExpNode.all] at ha
    simp only [ExpNode.typeAnalysis] at h
    exact CallExpNode.callExpNode_local hR hp c st st2 ha h
  | .plusNode n e1 e2, st, st2, ha, h => by
    simp only [ExpNode.all, Bool.and_eq_true] at ha
    simp only [ExpNode.typeAnalysis, Except.bind_ok_iff] at h
    obtain ⟨s1, h1, s2, h2, h3⟩ := h
    exact hR.trans _ _ _ (ExpNode.expNode_local hR hp e1 _ _ ha.1.2 h1)
      (hR.trans _ _ _ (ExpNode.expNode_local hR hp e2 _ _ ha.2 h2)
        (binaryIntRule_local hR _ _ _ _ _ _ _ _ _ (hp _ ha.1.1) h3))
  | .minusNode n e1 e2, st, st2, ha, h => by
    simp only [ExpNode.all, Bool.and_eq_true] at ha
    simp only [ExpNode.typeAnalysis, Except.bind_ok_iff] at h
    obtain ⟨s1, h1, s2, h2, h3⟩ := h
    exact hR.trans _ _ _ (ExpNode.expNode_local hR hp e1 _ _ ha.1.2 h1)
      (hR.trans _ _ _ (ExpNode.expNode_local hR hp e2 _ _ ha.2 h2)
        (binaryIntRule_local hR _ _ _ _ _ _ _ _ _ (hp _ ha.1.1) h3))
  | .timesNode n e1 e2, st, st2, ha, h => by
    simp only [ExpNode.all, Bool.and_eq_true] at ha
    simp only [ExpNode.typeAnalysis, Except.bind_ok_iff] at h
    obtain ⟨s1, h1, s2, h2, h3⟩ := h
    exact hR.trans _ _ _ (ExpNode.expNode_local hR hp e1 _ _ ha.1.2 h1)
      (hR.trans _ _ _ (ExpNode.expNode_local hR hp e2 _ _ ha.2 h2)
        (binaryIntRule_local hR _ _ _ _ _ _ _ _ _ (hp _ ha.1.1) h3))
  | .divideNode n e1 e2, st, st2, ha, h => by
    simp only [ExpNode.all, Bool.and_eq_true] at ha
    simp only [ExpNode.typeAnalysis, Except.bind_ok_iff] at h
    obtain ⟨s1, h1, s2, h2, h3⟩ := h
    exact hR.trans _ _ _ (ExpNode.expNode_local hR hp e1 _ _ ha.1.2 h1)
      (hR.trans _ _ _ (ExpNode.expNode_local hR hp e2 _ _ ha.2 h2)
        (binaryIntRule_local hR _ _ _ _ _ _ _ _ _ (hp _ ha.1.1) h3))
  | .lessNode n e1 e2, st, st2, ha, h => by
    simp only [ExpNode.all, Bool.and_eq_true] at ha
    simp only [ExpNode.typeAnalysis, Except.bind_ok_iff] at h
    obtain ⟨s1, h1, s2, h2, h3⟩ := h
    exact hR.trans _ _ _ (ExpNode.expNode_local hR hp e1 _ _ ha.1.2 h1)
      (hR.trans _ _ _ (ExpNode.expNode_local hR hp e2 _ _ ha.2 h2)
        (binaryIntRule_local hR _ _ _ _ _ _ _ _ _ (hp _ ha.1.1) h3))
  | .lessEqNode n e1 e2, st, st2, ha, h => by
    simp only [ExpNode.all, Bool.and_eq_true] at ha
    simp only [ExpNode.typeAnalysis, Except.bind_ok_iff] at h
    obtain ⟨s1, h1, s2, h2, h3⟩ := h
    exact hR.trans _ _ _ (ExpNode.expNode_local hR hp e1 _ _ ha.1.2 h1)
      (hR.trans _ _ _ (ExpNode.expNode_local hR hp e2 _ _ ha.2 h2)
        (binaryIntRule_local hR _ _ _ _ _ _ _ _ _ (hp _ ha.1.1) h3))
  | .greaterNode n e1 e2, st, st2, ha, h => by
    simp only [ExpNode.all, Bool.and_eq_true] at ha
    simp only [ExpNode.typeAnalysis, Except.bind_ok_iff] at h
    obtain ⟨s1, h1, s2, h2, h3⟩ := h
    exact hR.trans _ _ _ (ExpNode.expNode_local hR hp e1 _ _ ha.1.2 h1)
      (hR.trans _ _ _ (ExpNode.expNode_local hR hp e2 _ _ ha.2 h2)
        (binaryIntRule_local hR _ _ _ _ _ _ _ _ _ (hp _ ha.1.1) h3))
  | .greaterEqNode n e1 e2, st, st2, ha, h => by
    simp only [ExpNode.all, Bool.and_eq_true] at ha
    simp only [ExpNode.typeAnalysis, Except.bind_ok_iff] at h
    obtain ⟨s1, h1, s2, h2, h3⟩ := h
    exact hR.trans _ _ _ (ExpNode.expNode_local hR hp e1 _ _ ha.1.2 h1)
      (hR.trans _ _ _ (ExpNode.expNode_local hR hp e2 _ _ ha.2 h2)
        (binaryIntRule_local hR _ _ _ _ _ _ _ _ _ (hp _ ha.1.1) h3))
  | .andNode n e1 e2, st, st2, ha, h => by
    simp only [ExpNode.all, Bool.and_eq_true] at ha
    simp only [ExpNode.typeAnalysis, Except.bind_ok_iff] at h
    obtain ⟨s1, h1, s2, h2, h3⟩ := h
    exact hR.trans _ _ _ (ExpNode.expNode_local hR hp e1 _ _ ha.1.2 h1)
      (hR.trans _ _ _ (ExpNode.expNode_local hR hp e2 _ _ ha.2 h2)
        (AndNode.andNodeRule_local hR _ _ _ _ _ (hp _ ha.1.1) h3))
  | .orNode n e1 e2, st, st2, ha, h => by
    simp only [ExpNode.all, Bool.and_eq_true] at ha
    simp only [ExpNode.typeAnalysis, Except.bind_ok_iff] at h
    obtain ⟨s1, h1, s2, h2, h3⟩ := h
    exact hR.trans _ _ _ (ExpNode.expNode_local hR hp e1 _ _ ha.1.2 h1)
      (hR.trans _ _ _ (ExpNode.expNode_local hR hp e2 _ _ ha.2 h2)
        (OrNode.orNodeRule_local hR _ _ _ _ _ (hp _ ha.1.1) h3))
  | .equalsNode n e1 e2, st, st2, ha, h => by
    simp only [ExpNode.all, Bool.and_eq_true] at ha
    simp only [ExpNode.typeAnalysis, Except.bind_ok_iff] at h
    obtain ⟨r1, h1, r2, h2, h3⟩ := h
    exact hR.trans _ _ _
      (opdTypeAnalysis_local hR _ _ _ _ _ (hp _ (ExpNode.expNode_root p q _ ha.1.2))
        (fun a b hab => ExpNode.expNode_local hR hp e1 a b ha.1.2 hab) h1)
      (hR.trans _ _ _
        (opdTypeAnalysis_local hR _ _ _ _ _ (hp _ (ExpNode.expNode_root p q _ ha.2))
          (fun a b hab => ExpNode.expNode_local hR hp e2 a b ha.2 hab) h2)
        (EqualsNode.equalsNodeRule_local hR _ _ _ _ _ _ _ (hp _ ha.1.1) h3))
  | .notEqualsNode n e1 e2, st, st2, ha, h => by
    simp only [ExpNode.all, Bool.and_eq_true] at ha
    simp only [ExpNode.typeAnalysis, Except.bind_ok_iff] at h
    obtain ⟨r1, h1, r2, h2, h3⟩ := h
    exact hR.trans _ _ _
      (opdTypeAnalysis_local hR _ _ _ _ _ (hp _ (ExpNode.expNode_root p q _ ha.1.2))
        (fun a b hab => ExpNode.expNode_local hR hp e1 a b ha.1.2 hab) h1)
      (hR.trans _ _ _
        (opdTypeAnalysis_local hR _ _ _ _ _ (hp _ (ExpNode.expNode_root p q _ ha.2))
          (fun a b hab => ExpNode.expNode_local hR hp e2 a b ha.2 hab) h2)
        (NotEqualsNode.notEqualsNodeRule_local hR _ _ _ _ _ _ _ (hp _ ha.1.1) h3))
  | .refNode r, st, st2, ha, h => by
    simp only [ExpNode.all, IDNode.all, Bool.and_eq_true] at ha
    simp only [ExpNode.typeAnalysis] at h
    exact RefNode.refNode_local hR r st st2 (hp _ ha.1) (hp _ ha.2.1) h
  | .negNode n e, st, st2, ha, h => by
    simp only [ExpNode.all, Bool.and_eq_true] at ha
    simp only [ExpNode.typeAnalysis, Except.bind_ok_iff] at h
    obtain ⟨s1, h1, h2⟩ := h
    exact hR.trans _ _ _ (ExpNode.expNode_local hR hp e _ _ ha.2 h1)
      (NegNode.negNodeRule_local hR _ _ _ _ (hp _ ha.1) h2)
  | .notNode n e, st, st2, ha, h => by
    simp only [ExpNode.all, Bool.and_eq_true] at ha
    simp only [ExpNode.typeAnalysis, Except.bind_ok_iff] at h
    obtain ⟨s1, h1, h2⟩ := h
    exact hR.trans _ _ _ (ExpNode.expNode_local hR hp e _ _ ha.2 h1)
      (NotNode.notNodeRule_local hR _ _ _ _ (hp _ ha.1) h2)
  | .shortLitNode n, st, st2, ha, h => by
    simp only [ExpNode.all] at ha
    simp only [ExpNode.typeAnalysis, Except.pure_ok_iff] at h
    subst h
    exact hR.and_setBasic _ (hp _ ha) (hR.refl _)
  | .intLitNode n, st, st2, ha, h => by
    simp only [ExpNode.all] at ha
    simp only [ExpNode.typeAnalysis, Except.pure_ok_iff] at h
    subst h
    exact hR.and_setBasic _ (hp _ ha) (hR.refl _)
  | .strLitNode n, st, st2, ha, h => by
    simp only [ExpNode.all] at ha
    simp only [ExpNode.typeAnalysis, Except.pure_ok_iff] at h
    subst h
    exact hR.and_setBasic _ (hp _ ha) (hR.refl _)
  | .trueNode n, st, st2, ha, h => by
    simp only [ExpNode.all] at ha
    simp only [ExpNode.typeAnalysis, Except.pure_ok_iff] at h
    subst h
    exact hR.and_setBasic _ (hp _ ha) (hR.refl _)
  | .falseNode n, st, st2, ha, h => by
    simp only [ExpNode.all] at ha
    simp only [ExpNode.typeAnalysis, Except.pure_ok_iff] at h
    subst h
    exact hR.and_setBasic _ (hp _ ha) (hR.refl _)
theorem AssignExpNode.assignExpNode_local (hR : State.Local P R)
    (hp : ∀ x, p x = true → P x.addr) :
    ∀ (a : AssignExpNode) (st st2 : State), a.all p q = true →
      a.typeAnalysis st = Except.ok st2 → R st st2
  | .mk n myDst mySrc, st, st2, ha, h => by
    simp only [AssignExpNode.all, Bool.and_eq_true] at ha
    simp only [AssignExpNode.typeAnalysis, Except.bind_ok_iff] at h
    obtain ⟨s1, h1, s2, h2, h3⟩ := h
    exact hR.trans _ _ _ (LValNode.lValNode_local hR hp myDst _ _ ha.1.2 h1)
      (hR.trans _ _ _ (ExpNode.expNode_local hR hp mySrc _ _ ha.2 h2)
        (AssignExpNode.assignExpNodeRule_local hR _ _ _ _ _ (hp _ ha.1.1) h3))
theorem CallExpNode.callExpNode_local (hR : State.Local P R)
    (hp : ∀ x, p x = true → P x.addr) :
    ∀ (c : CallExpNode) (st st2 : State), c.all p q = true →
      c.typeAnalysis st = Except.ok st2 → R st st2
  | .mk n myID myArgs, st, st2, ha, h => by
    simp only [CallExpNode.all, Bool.and_eq_true] at ha
    simp only [CallExpNode.typeAnalysis, Except.bind_ok_iff] at h
    obtain ⟨s1, h1, h2⟩ := h
    exact hR.trans _ _ _ (CallExpNode.analyseArgs_local hR hp myArgs _ _ ha.2 h1)
      (CallExpNode.callExpNodeRule_local hR _ _ _ _ _ (hp _ ha.1.1) h2)
theorem CallExpNode.analyseArgs_local (hR : State.Local P R)
    (hp : ∀ x, p x = true → P x.addr) :
    ∀ (myArgs : List ExpNode) (st st2 : State), ExpNode.allList p q myArgs = true →
      CallExpNode.analyseArgs myArgs st = Except.ok st2 → R st st2
  | [], st, st2, _, h => by
    simp only [CallExpNode.analyseArgs, Except.pure_ok_iff] at h
    subst h
    exact hR.refl _
  | arg :: myArgs, st, st2, ha, h => by
    simp only [ExpNode.allList, Bool.and_eq_true] at ha
    simp only [CallExpNode.analyseArgs, Except.bind_ok_iff] at h
    obtain ⟨s1, h1, h2⟩ := h
    exact hR.trans _ _ _ (ExpNode.expNode_local hR hp arg _ _ ha.1 h1)
      (CallExpNode.analyseArgs_local hR hp myArgs _ _ ha.2 h2)
end

end induction

section rules

variable {P : Nat → Prop} {R : State → State → Prop} {p : ASTNode → Bool} {q : IDNode → Bool}

theorem AssignStmtNode.assignStmtNode_local (hR : State.Local P R)
    (hp : ∀ x, p x = true → P x.addr)
    (self : AssignStmtNode) (st st2 : State) (hs : P self.addr)
    (ha : self.myExp.all p q = true)
    (h : self.typeAnalysis st = Except.ok st2) : R st st2 := by
  simp only [AssignStmtNode.typeAnalysis, Except.bind_ok_iff] at h
  obtain ⟨s1, h1, subType, _, obj, _, h2⟩ := h
  refine hR.trans _ _ _ (AssignExpNode.assignExpNode_local hR hp _ _ _ ha h1) ?_
  split at h2 <;> simp only [Except.pure_ok_iff] at h2 <;> subst h2
  · exact hR.setNodeType _ _ _ hs
  · exact hR.and_setBasic _ hs (hR.refl _)

theorem CallStmtNode.callStmtNode_local (hR : State.Local P R)
    (hp : ∀ x, p x = true → P x.addr)
    (self : CallStmtNode) (st st2 : State) (hs : P self.addr)
    (ha : self.myCallExp.all p q = true)
    (h : self.typeAnalysis st = Except.ok st2) : R st st2 := by
  simp only [CallStmtNode.typeAnalysis, Except.bind_ok_iff, Except.pure_ok_iff] at h
  obtain ⟨s1, h1, h2⟩ := h
  subst h2
  exact hR.and_setBasic _ hs (CallExpNode.callExpNode_local hR hp _ _ _ ha h1)

theorem ReturnStmtNode.returnStmtNode_local (hR : State.Local P R)
    (hp : ∀ x, p x = true → P x.addr)
    (self : ReturnStmtNode) (st st2 : State) (hs : P self.addr)
    (ha : ∀ e, self.myExp = some e → e.all p q = true)
    (h : self.typeAnalysis st = Except.ok st2) : R st st2 := by
  have hvoid : R st { st with reg := (BasicType.VOID st.reg).2 } :=
    hR.setReg st _ (TypeRegistry.Step.produceBasic BaseType.VOID st.reg)
  simp only [ReturnStmtNode.typeAnalysis, Except.bind_ok_iff] at h
  obtain ⟨fn, _, h2⟩ := h
  split at h2
  · rename_i myExp hm
    have hall := ha myExp hm
    split at h2
    · simp only [Except.bind_ok_iff] at h2
      obtain ⟨s1, h1, subType, _, h3⟩ := h2
      have he := hR.trans _ _ _ hvoid (ExpNode.expNode_local hR hp myExp _ _ hall h1)
      split at h3
      · simp only [Except.bind_ok_iff] at h3
        obtain ⟨obj, _, h4⟩ := h3
        split at h4 <;> simp only [Except.pure_ok_iff] at h4 <;> subst h4
        · exact hR.and_setError hs (hR.and_report _ _ he)
        · exact hR.and_setBasic _ hs he
      · simp only [Except.pure_ok_iff] at h3
        subst h3
        exact hR.and_setBasic _ hs he
    · simp only [Except.bind_ok_iff, Except.pure_ok_iff] at h2
      obtain ⟨s1, h1, h3⟩ := h2
      subst h3
      exact hR.and_setError hs (hR.and_report _ _
        (hR.trans _ _ _ hvoid (ExpNode.expNode_local hR hp myExp _ _ hall h1)))
  · split at h2 <;> simp only [Except.pure_ok_iff] at h2 <;> subst h2
    · exact hR.and_setError hs (hR.and_report _ _ hvoid)
    · exact hR.and_setBasic _ hs hvoid

theorem condRule_local (hR : State.Local P R)
    (kind : ErrorKind) (self myCond : ASTNode) (st st2 : State) (hs : P self.addr)
    (h : condRule kind self myCond st = Except.ok st2) : R st st2 := by
  simp only [condRule, bind, Except.bind, pure, Except.pure] at h
  repeat' split at h
  all_goals cases h
  all_goals
    repeat' first
      | exact hR.refl _
      | apply hR.and_setError hs
      | apply hR.and_report

theorem PostDecStmtNode.postDecStmtNode_local (hR : State.Local P R)
    (hp : ∀ x, p x = true → P x.addr)
    (self : PostDecStmtNode) (st st2 : State) (hs : P self.addr)
    (ha : self.myLVal.all p q = true)
    (h : self.typeAnalysis st = Except.ok st2) : R st st2 := by
  simp only [PostDecStmtNode.typeAnalysis, Except.bind_ok_iff, Except.pure_ok_iff] at h
  obtain ⟨s1, h1, lValType, _, obj, _, h2⟩ := h
  subst h2
  have hl := LValNode.lValNode_local hR hp _ _ _ ha h1
  apply hR.and_setBasic _ hs
  split
  · exact hR.and_setError hs (hR.and_report _ _ hl)
  · exact hl

theorem PostIncStmtNode.postIncStmtNode_local (hR : State.Local P R)
    (hp : ∀ x, p x = true → P x.addr)
    (self : PostIncStmtNode) (st st2 : State) (hs : P self.addr)
    (ha : self.myLVal.all p q = true)
    (h : self.typeAnalysis st = Except.ok st2) : R st st2 := by
  simp only [PostIncStmtNode.typeAnalysis, Except.bind_ok_iff, Except.pure_ok_iff] at h
  obtain ⟨s1, h1, lValType, _, obj, _, h2⟩ := h
  subst h2
  have hl := LValNode.lValNode_local hR hp _ _ _ ha h1
  apply hR.and_setBasic _ hs
  split
  · exact hR.and_setError hs (hR.and_report _ _ hl)
  · exact hl

theorem WriteStmtNode.writeStmtNode_local (hR : State.Local P R)
    (hp : ∀ x, p x = true → P x.addr)
    (self : WriteStmtNode) (st st2 : State) (hs : P self.addr)
    (ha : self.mySrc.all p q = true)
    (h : self.typeAnalysis st = Except.ok st2) : R st st2 := by
  simp only [WriteStmtNode.typeAnalysis, Except.bind_ok_iff] at h
  obtain ⟨s1, h1, subType, _, obj, _, h2⟩ := h
  have he := ExpNode.expNode_local hR hp _ _ _ ha h1
  repeat' split at h2
  all_goals simp only [Except.pure_ok_iff] at h2
  all_goals subst h2
  all_goals
    first
      | exact hR.and_setError hs (hR.and_report _ _ he)
      | exact hR.and_setBasic _ hs he

theorem ReadStmtNode.readStmtNode_local (hR : State.Local P R)
    (hp : ∀ x, p x = true → P x.addr)
    (self : ReadStmtNode) (st st2 : State) (hs : P self.addr)
    (ha : self.myDst.all p q = true)
    (h : self.typeAnalysis st = Except.ok st2) : R st st2 := by
  simp only [ReadStmtNode.typeAnalysis, Except.bind_ok_iff] at h
  obtain ⟨s1, h1, subType, _, obj, _, h2⟩ := h
  have he := LValNode.lValNode_local hR hp _ _ _ ha h1
  repeat' split at h2
  all_goals simp only [Except.pure_ok_iff] at h2
  all_goals subst h2
  all_goals
    first
      | exact hR.and_setError hs (hR.and_report _ _ he)
      | exact hR.and_setBasic _ hs he

end rules

section induction

variable {P : Nat → Prop} {R : State → State → Prop} {p : ASTNode → Bool} {q : IDNode → Bool}

mutual
theorem StmtNode.stmtNode_local (hR : State.Local P R) (hp : ∀ x, p x = true → P x.addr) :
    ∀ (s : StmtNode) (st st2 : State), s.all p q = true → s.noFnDecl = true →
      s.typeAnalysis st = Except.ok st2 → R st st2
  | .decl d, st, st2, ha, hn, h => by
    cases d with
    | varDecl v =>
      simp only [StmtNode.all, DeclNode.all] at ha
      simp only [StmtNode.typeAnalysis, DeclNode.typeAnalysis, Except.pure_ok_iff] at h
      subst h
      exact hR.and_setBasic _ (hp _ ha) (hR.refl _)
    | fnDecl n myRetType myID myFormals myBody =>
      simp [StmtNode.noFnDecl] at hn
  | .assignStmt s, st, st2, ha, _, h => by
    simp only [StmtNode.all, Bool.and_eq_true] at ha
    simp only [StmtNode.typeAnalysis] at h
    exact AssignStmtNode.assignStmtNode_local hR hp s st st2 (hp _ ha.1) ha.2 h
  | .readStmt s, st, st2, ha, _, h => by
    simp only [StmtNode.all, Bool.and_eq_true] at ha
    simp only [StmtNode.typeAnalysis] at h
    exact ReadStmtNode.readStmtNode_local hR hp s st st2 (hp _ ha.1) ha.2 h
  | .writeStmt s, st, st2, ha, _, h => by
    simp only [StmtNode.all, Bool.and_eq_true] at ha
    simp only [StmtNode.typeAnalysis] at h
    exact WriteStmtNode.writeStmtNode_local hR hp s st st2 (hp _ ha.1) ha.2 h
  | .postDecStmt s, st, st2, ha, _, h => by
    simp only [StmtNode.all, Bool.and_eq_true] at ha
    simp only [StmtNode.typeAnalysis] at h
    exact PostDecStmtNode.postDecStmtNode_local hR hp s st st2 (hp _ ha.1) ha.2 h
  | .postIncStmt s, st, st2, ha, _, h => by
    simp only [StmtNode.all, Bool.and_eq_true] at ha
    simp only [StmtNode.typeAnalysis] at h
    exact PostIncStmtNode.postIncStmtNode_local hR hp s st st2 (hp _ ha.1) ha.2 h
  | .ifStmt n myCond myBody, st, st2, ha, hn, h => by
    simp only [StmtNode.all, Bool.and_eq_true] at ha
    simp only [StmtNode.noFnDecl] at hn
    simp only [StmtNode.typeAnalysis, Except.bind_ok_iff, Except.pure_ok_iff] at h
    obtain ⟨s1, h1, s2, h2, s3, h3, h4⟩ := h
    subst h4
    exact hR.and_setBasic _ (hp _ ha.1.1)
      (hR.trans _ _ _ (ExpNode.expNode_local hR hp _ _ _ ha.1.2 h1)
        (hR.trans _ _ _ (condRule_local hR _ _ _ _ _ (hp _ ha.1.1) h2)
          (StmtNode.analyseList_local hR hp myBody _ _ ha.2 hn h3)))
  | .ifElseStmt n myCond myBodyTrue myBodyFalse, st, st2, ha, hn, h => by
    simp only [StmtNode.all, Bool.and_eq_true] at ha
    simp only [StmtNode.noFnDecl, Bool.and_eq_true] at hn
    simp only [StmtNode.typeAnalysis, Except.bind_ok_iff, Except.pure_ok_iff] at h
    obtain ⟨s1, h1, s2, h2, s3, h3, s4, h4, h5⟩ := h
    subst h5
    exact hR.and_setBasic _ (hp _ ha.1.1.1)
      (hR.trans _ _ _ (ExpNode.expNode_local hR hp _ _ _ ha.1.1.2 h1)
        (hR.trans _ _ _ (condRule_local hR _ _ _ _ _ (hp _ ha.1.1.1) h2)
          (hR.trans _ _ _ (StmtNode.analyseList_local hR hp myBodyTrue _ _ ha.1.2 hn.1 h3)
            (StmtNode.analyseList_local hR hp myBodyFalse _ _ ha.2 hn.2 h4))))
  | .whileStmt n myCond myBody, st, st2, ha, hn, h => by
    simp only [StmtNode.all, Bool.and_eq_true] at ha
    simp only [StmtNode.noFnDecl] at hn
    simp only [StmtNode.typeAnalysis, Except.bind_ok_iff, Except.pure_ok_iff] at h
    obtain ⟨s1, h1, s2, h2, s3, h3, h4⟩ := h
    subst h4
    exact hR.and_setBasic _ (hp _ ha.1.1)
      (hR.trans _ _ _ (ExpNode.expNode_local hR hp _ _ _ ha.1.2 h1)
        (hR.trans _ _ _ (condRule_local hR _ _ _ _ _ (hp _ ha.1.1) h2)
          (StmtNode.analyseList_local hR hp myBody _ _ ha.2 hn h3)))
  | .returnStmt s, st, st2, ha, _, h => by
    simp only [StmtNode.all, Bool.and_eq_true] at ha
    simp only [StmtNode.typeAnalysis] at h
    refine ReturnStmtNode.returnStmtNode_local (q := q) hR hp s st st2 (hp _ ha.1) ?_ h
    intro e he
    have h2 := ha.2
    rw [he] at h2
    exact h2
  | .callStmt s, st, st2, ha, _, h => by
    simp only [StmtNode.all, Bool.and_eq_true] at ha
    simp only [StmtNode.typeAnalysis] at h
    exact CallStmtNode.callStmtNode_local hR hp s st st2 (hp _ ha.1) ha.2 h
theorem StmtNode.analyseList_local (hR : State.Local P R)
    (hp : ∀ x, p x = true → P x.addr) :
    ∀ (body : List StmtNode) (st st2 : State), StmtNode.allList p q body = true →
      StmtNode.noFnDeclList body = true →
      StmtNode.analyseList body st = Except.ok st2 → R st st2
  | [], st, st2, _, _, h => by
    simp only [StmtNode.analyseList, Except.pure_ok_iff] at h
    subst h
    exact hR.refl _
  | stmt :: body, st, st2, ha, hn, h => by
    simp only [StmtNode.allList, Bool.and_eq_true] at ha
    simp only [StmtNode.noFnDeclList, Bool.and_eq_true] at hn
    simp only [StmtNode.analyseList, Except.bind_ok_iff] at h
    obtain ⟨s1, h1, h2⟩ := h
    exact hR.trans _ _ _ (StmtNode.stmtNode_local hR hp stmt _ _ ha.1 hn.1 h1)
      (StmtNode.analyseList_local hR hp body _ _ ha.2 hn.2 h2)
end

end induction

/-! ## The type recorded for a function declaration -/

theorem FnDeclNode.enter_record (n : ASTNode) (ret : TypeNode) (fs : List FormalDeclNode)
    (st : State) :
    TypeAnalysis.find n.addr (FnDeclNode.enter n ret fs st).ta.nodeToType
      = some st.getCurrentFnType :=
  TypeAnalysis.find_insert_self n.addr st.getCurrentFnType st.ta.nodeToType

/-- C31: take a function declaration whose body holds no function declaration and no node that
is the declaration's own, analysed from a state whose current function type, when set, is an
allocated instance. When its analysis returns, the context holds for the declaration's node the
value the current-function-type slot had before (null when the slot was unset); the slot now
holds a new instance `a`, which did not exist before, is the `Fn` type built from the
declaration's formals and return annotation, and is not what is recorded for the node. -/
theorem C31_fn_decl_records_previous_type (n : ASTNode) (myRetType : TypeNode) (myID : IDNode)
    (myFormals : List FormalDeclNode) (myBody : List StmtNode) (st st2 : State)
    (hcur : ∀ a, st.getCurrentFnType = some a → a < st.reg.heap.length)
    (hbody : StmtNode.allList (fun x => x.addr != n.addr) (fun _ => true) myBody = true)
    (hno : StmtNode.noFnDeclList myBody = true)
    (h : (DeclNode.fnDecl n myRetType myID myFormals myBody).typeAnalysis st = Except.ok st2) :
    TypeAnalysis.find n.addr st2.ta.nodeToType = some st.getCurrentFnType ∧
    ∃ a : Addr,
      (FnDeclNode.enter n myRetType myFormals st).getCurrentFnType = some a ∧
      st2.getCurrentFnType = some a ∧
      st.reg.deref a = none ∧
      st.getCurrentFnType ≠ some a ∧
      TypeAnalysis.find n.addr st2.ta.nodeToType ≠ some (some a) ∧
      st2.deref a = Except.ok (DataType.fn
        { myFormalTypes := (FnDeclNode.formalTypes myFormals st.reg).1,
          myRetType := (myRetType.getType (FnDeclNode.formalTypes myFormals st.reg).2).1 }) := by
  simp only [DeclNode.typeAnalysis] at h
  obtain ⟨hc, hd, hl1, hl2⟩ := FnDeclNode.enter_fnType n myRetType myFormals st
  have hframe : State.Frame (fun k => k ≠ n.addr)
      (FnDeclNode.enter n myRetType myFormals st) st2 :=
    StmtNode.analyseList_local (State.frame_local _)
      (fun x hx => by simpa using hx) myBody _ _ hbody hno h
  have hlater : TypeRegistry.Later (FnDeclNode.enter n myRetType myFormals st).reg st2.reg :=
    StmtNode.analyseList_closed State.later_closed myBody _ _ h
  have hrec : TypeAnalysis.find n.addr st2.ta.nodeToType = some st.getCurrentFnType :=
    (hframe.2 n.addr (fun hk => hk rfl)).trans (FnDeclNode.enter_record n myRetType myFormals st)
  have hle : st.reg.heap.length
      ≤ (myRetType.getType (FnDeclNode.formalTypes myFormals st.reg).2).2.heap.length :=
    TypeRegistry.Later.length_le hl1
  have hne : st.getCurrentFnType
      ≠ some (myRetType.getType (FnDeclNode.formalTypes myFormals st.reg).2).2.heap.length := by
    intro he
    exact Nat.lt_irrefl _ (Nat.lt_of_lt_of_le (hcur _ he) hle)
  refine ⟨hrec, _, hc, hframe.1.trans hc, ?_, hne, ?_, ?_⟩
  · simp only [TypeRegistry.deref]
    exact List.getElem?_eq_none hle
  · rw [hrec]
    intro he
    exact hne (Option.some.inj he)
  · rw [State.deref_ok_iff]
    exact TypeRegistry.Later.deref_later hlater _ _ hd

/-- The witness of C31: `void g(){ x = 5; return; }` analysed after `int f(int a)`, whose type
(address 4) is the current function type, ends with the type of `f` recorded for the node of
`g` (node 5) and the new type of `g` (address 6) as the current function type; analysed as the
first function, it ends with a null pointer recorded for its node. -/
theorem C31_fn_decl_records_previous_type_witness :
    (∃ st2 : State, Example.declG.typeAnalysis Example.stF = Except.ok st2 ∧
      TypeAnalysis.find 5 st2.ta.nodeToType = some (some 4) ∧
      st2.getCurrentFnType = some 6 ∧
      st2.deref 6 = Except.ok (DataType.fn { myFormalTypes := [], myRetType := 2 })) ∧
    (∃ st2 : State, Example.declG.typeAnalysis Example.st = Except.ok st2 ∧
      TypeAnalysis.find 5 st2.ta.nodeToType = some none ∧
      st2.getCurrentFnType = some 6 ∧
      st2.deref 6 = Except.ok (DataType.fn { myFormalTypes := [], myRetType := 2 })) := by
  have h1 := C31_fn_decl_records_previous_type (Example.node 5)
    (TypeNode.voidTypeNode (Example.node 6)) (Example.ident 7 5) []
    [StmtNode.assignStmt Example.intAssign, StmtNode.returnStmt Example.returnNothing]
    Example.stF _ (fun a ha => by cases ha; decide) (by decide) (by decide) rfl
  have h2 := C31_fn_decl_records_previous_type (Example.node 5)
    (TypeNode.voidTypeNode (Example.node 6)) (Example.ident 7 5) []
    [StmtNode.assignStmt Example.intAssign, StmtNode.returnStmt Example.returnNothing]
    Example.st _ (fun a ha => by cases ha) (by decide) (by decide) rfl
  refine ⟨⟨_, rfl, h1.1, ?_⟩, ⟨_, rfl, h2.1, ?_⟩⟩
  · obtain ⟨a, hc, h3, -, -, -, h4⟩ := h1.2
    have e : (6 : Addr) = a := Option.some.inj ((rfl : _ = some (6 : Addr)).symm.trans hc)
    subst e
    exact ⟨h3, h4⟩
  · obtain ⟨a, hc, h3, -, -, -, h4⟩ := h2.2
    have e : (6 : Addr) = a := Option.some.inj ((rfl : _ = some (6 : Addr)).symm.trans hc)
    subst e
    exact ⟨h3, h4⟩

/-! ## The kind predicates of `BasicType` -/

/-- C32 (the code departs from the claim): in every registry the instance
`BasicType::produce(SHORT)` returns is a `BasicType` object that answers false to `isShort`, and
to the four other kind predicates as well: `BasicType` overrides `isInt`, `isBool`, `isString`
and `isVoid` but not `isShort`, which stays the `DataType` default. For every kind `k` the
instance answers the four overridden predicates with true exactly for its own kind. -/
theorem C32_short_instance_answers_no_kind (r : TypeRegistry) :
    (∃ o : DataType,
      (BasicType.produce BaseType.SHORT r).2.deref (BasicType.produce BaseType.SHORT r).1
        = some o ∧
      o.isShort = false ∧ o.isInt = false ∧ o.isBool = false ∧ o.isString = false ∧
      o.isVoid = false) ∧
    ∀ k : BaseType, ∃ o : DataType,
      (BasicType.produce k r).2.deref (BasicType.produce k r).1 = some o ∧
      o.isInt = decide (k = BaseType.INT) ∧
      o.isBool = decide (k = BaseType.BOOL) ∧
      o.isString = decide (k = BaseType.STRING) ∧
      o.isVoid = decide (k = BaseType.VOID) ∧
      o.isShort = false := by
  refine ⟨⟨_, BasicType.deref_produceBasic BaseType.SHORT r, rfl, rfl, rfl, rfl, rfl⟩, ?_⟩
  intro k
  refine ⟨_, BasicType.deref_produceBasic k r, ?_, ?_, ?_, ?_, rfl⟩ <;> cases k <;> rfl

/-! ## The failure flag is not an input of the analysis -/

/-- Instances that correspond in two runs stand for the same type. -/
theorem TypeRegistry.Sim.typeAt_eq {base : Nat} {ρ : Addr → Addr} {r1 r2 : TypeRegistry}
    (h : TypeRegistry.Sim base ρ r1 r2) :
    ∀ (depth : Nat) (a : Addr), a < r1.heap.length →
      r2.typeAt depth (ρ a) = r1.typeAt depth a := by
  intro depth
  induction depth with
  | zero => intro a _; rfl
  | succ d ih =>
    intro a ha
    obtain ⟨obj, ho⟩ := r1.deref_of_lt a ha
    have ho2 := h.obj a obj ho
    have hl := h.objLive a obj ho
    cases obj with
    | error => simp only [TypeRegistry.typeAt, ho, ho2, DataType.rename]
    | basic b => simp only [TypeRegistry.typeAt, ho, ho2, DataType.rename]
    | ptr p =>
      simp only [DataType.live, decide_eq_true_eq] at hl
      simp only [TypeRegistry.typeAt, ho, ho2, DataType.rename, ih _ hl]
    | fn f =>
      simp only [DataType.live, Bool.and_eq_true, List.all_eq_true, decide_eq_true_eq] at hl
      have hf : (f.myFormalTypes.map ρ).map (r2.typeAt d)
          = f.myFormalTypes.map (r1.typeAt d) := by
        rw [List.map_map]
        exact List.map_congr_left (fun x hx => ih x (hl.1 x hx))
      simp only [TypeRegistry.typeAt, ho, ho2, DataType.rename, hf, ih _ hl.2]

theorem State.SameOutcome.outcome_symm {p1 p2 : List Diagnostic} {a b : State}
    (h : State.SameOutcome p1 p2 a b) : State.SameOutcome p2 p1 b a :=
  ⟨h.1.imp fun _ hd => ⟨hd.2, hd.1⟩, fun depth k => (h.2.1 depth k).symm,
    fun k1 k2 => (h.2.2 k1 k2).symm⟩

/-- Two runs that correspond on every node have the same outcome. -/
theorem State.Sim.sameOutcome {base : Nat} {p1 p2 : List Diagnostic} {ρ : Addr → Addr}
    {a b : State} (h : State.Sim base (fun _ => False) p1 p2 ρ a b) :
    State.SameOutcome p1 p2 a b := by
  have hn : ∀ k, TypeAnalysis.find k b.ta.nodeToType
      = (TypeAnalysis.find k a.ta.nodeToType).map (Option.map ρ) :=
    fun k => h.nodes k (fun hf => hf)
  refine ⟨h.reports, ?_, ?_⟩
  · intro depth k
    simp only [State.recordedType, hn k]
    cases hf : TypeAnalysis.find k a.ta.nodeToType with
    | none => rfl
    | some v =>
      cases v with
      | none => rfl
      | some x =>
        simp only [Option.map_some', h.reg.typeAt_eq depth x (h.nodesLive k x hf)]
  · intro k1 k2
    rw [hn k1, hn k2]
    constructor
    · intro he
      rw [he]
    · intro he
      cases hf1 : TypeAnalysis.find k1 a.ta.nodeToType with
      | none =>
        cases hf2 : TypeAnalysis.find k2 a.ta.nodeToType with
        | none => rfl
        | some v2 => rw [hf1, hf2] at he; cases he
      | some v1 =>
        cases hf2 : TypeAnalysis.find k2 a.ta.nodeToType with
        | none => rw [hf1, hf2] at he; cases he
        | some v2 =>
          rw [hf1, hf2] at he
          simp only [Option.map_some', Option.some.injEq] at he
          cases v1 with
          | none =>
            cases v2 with
            | none => rfl
            | some y => cases he
          | some x =>
            cases v2 with
            | none => cases he
            | some y =>
              simp only [Option.map_some', Option.some.injEq] at he
              rw [h.reg.inj x y (h.nodesLive k1 x hf1) (h.nodesLive k2 y hf2) he]

/-- Two contexts that differ in the failure flag and the collected diagnostics only
correspond, when the second has its flag set if the first has. -/
theorem State.Sim.of_agree (a b : State) (hlive : a.live = true) (hreg : b.reg = a.reg)
    (hnodes : b.ta.nodeToType = a.ta.nodeToType)
    (hcur : b.ta.currentFnType = a.ta.currentFnType)
    (hflag : a.ta.hasError = true → b.ta.hasError = true) (D : Nat → Prop) :
    State.Sim a.reg.heap.length D a.reports b.reports (fun x => x) a b := by
  have h0 := State.Sim.sim_of_live a hlive D
  exact
    { reg := hreg ▸ h0.reg
      nodes := fun k hk => by rw [hnodes]; exact h0.nodes k hk
      nodesLive := h0.nodesLive
      cur := by rw [hcur]; exact h0.cur
      curLive := h0.curLive
      flag := hflag
      reports := ⟨[], by simp, by simp⟩ }

theorem Except.Rel.flip {α β : Type} {P : α → β → Prop}
    {x : Except Crash α} {y : Except Crash β} (h : Except.Rel P x y) :
    Except.Rel (fun b a => P a b) y x := by
  cases x with
  | error e =>
    cases y with
    | error e2 => trivial
    | ok b => exact h.elim
  | ok a =>
    cases y with
    | error e2 => exact h.elim
    | ok b => exact h

theorem State.live_of_agree (a b : State) (hlive : a.live = true) (hreg : b.reg = a.reg)
    (hnodes : b.ta.nodeToType = a.ta.nodeToType)
    (hcur : b.ta.currentFnType = a.ta.currentFnType) : b.live = true := by
  simp only [State.live, hreg, hnodes, hcur] at hlive ⊢
  exact hlive

/-- Whatever both runs of an analysis do from every pair of corresponding states, they do the
same from two contexts that differ in the failure flag and the diagnostics only. -/
theorem State.sameOutcome_of_sim (analyse : State → Except Crash State) (s1 s2 : State)
    (hlive : s1.live = true) (hreg : s2.reg = s1.reg)
    (hnodes : s2.ta.nodeToType = s1.ta.nodeToType)
    (hcur : s2.ta.currentFnType = s1.ta.currentFnType)
    (hsim : ∀ (p1 p2 : List Diagnostic) (a b : State),
      State.Sim s1.reg.heap.length (fun _ => False) p1 p2 (fun x => x) a b →
      Except.Rel (State.Next s1.reg.heap.length (fun _ => False) p1 p2 (fun x => x) a)
        (analyse a) (analyse b)) :
    Except.Rel (State.SameOutcome s1.reports s2.reports) (analyse s1) (analyse s2) := by
  by_cases hflag : s1.ta.hasError = true → s2.ta.hasError = true
  · exact (hsim _ _ _ _
      (State.Sim.of_agree s1 s2 hlive hreg hnodes hcur hflag _)).mono
        (fun a b hn => by
          obtain ⟨ρ2, -, -, hs⟩ := hn
          exact hs.sameOutcome)
  · have hflag2 : s2.ta.hasError = true → s1.ta.hasError = true := by
      intro _
      by_contra hc
      exact hflag (fun h1 => absurd h1 hc)
    have h0 := State.Sim.of_agree s2 s1 (State.live_of_agree s1 s2 hlive hreg hnodes hcur)
      hreg.symm hnodes.symm hcur.symm hflag2 (fun _ => False)
    rw [hreg] at h0
    exact ((hsim _ _ _ _ h0).mono
        (fun a b hn => by
          obtain ⟨ρ2, -, -, hs⟩ := hn
          exact hs.sameOutcome.outcome_symm)).flip

/-- C33: take two contexts that agree on the registry, on every recorded type and on the
current function type, and differ at most in the failure flag and in the diagnostics collected
so far, the first without a dangling type pointer. For every expression, statement and
declaration whose identifiers have allocated symbol types, the two analyses both stop or both
return, and when they return they have reported the same new diagnostics, every node has the
same recorded type in both, and two nodes share an instance in one exactly when they do in the
other. -/
theorem C33_flag_independence (s1 s2 : State) (hlive : s1.live = true)
    (hreg : s2.reg = s1.reg) (hnodes : s2.ta.nodeToType = s1.ta.nodeToType)
    (hcur : s2.ta.currentFnType = s1.ta.currentFnType) :
    (∀ e : ExpNode,
      e.all (fun _ => true) (fun i => decide (i.mySymbol.myType < s1.reg.heap.length)) = true →
      Except.Rel (State.SameOutcome s1.reports s2.reports)
        (e.typeAnalysis s1) (e.typeAnalysis s2)) ∧
    (∀ s : StmtNode,
      s.all (fun _ => true) (fun i => decide (i.mySymbol.myType < s1.reg.heap.length)) = true →
      Except.Rel (State.SameOutcome s1.reports s2.reports)
        (s.typeAnalysis s1) (s.typeAnalysis s2)) ∧
    (∀ d : DeclNode,
      d.all (fun _ => true) (fun i => decide (i.mySymbol.myType < s1.reg.heap.length)) = true →
      Except.Rel (State.SameOutcome s1.reports s2.reports)
        (d.typeAnalysis s1) (d.typeAnalysis s2)) := by
  have hp : ∀ x : ASTNode, (fun _ : ASTNode => true) x = true → ¬ (fun _ : Nat => False) x.addr :=
    fun _ _ hf => hf
  have hq : ∀ i : IDNode,
      (fun i : IDNode => decide (i.mySymbol.myType < s1.reg.heap.length)) i = true →
      i.mySymbol.myType < s1.reg.heap.length :=
    fun i hi => of_decide_eq_true hi
  refine ⟨?_, ?_, ?_⟩
  · intro e ha
    exact State.sameOutcome_of_sim e.typeAnalysis s1 s2 hlive hreg hnodes hcur
      (fun p1 p2 a b hs => ExpNode.expNode_sim hp hq e _ a b hs ha)
  · intro s ha
    exact State.sameOutcome_of_sim s.typeAnalysis s1 s2 hlive hreg hnodes hcur
      (fun p1 p2 a b hs => StmtNode.stmtNode_sim hp hq s _ a b hs ha)
  · intro d ha
    exact State.sameOutcome_of_sim d.typeAnalysis s1 s2 hlive hreg hnodes hcur
      (fun p1 p2 a b hs => DeclNode.declNode_sim hp hq d _ a b hs ha)

/-- The witness of C33: `(1 + 1) + &b` for `bool b`, analysed from the state of the examples
and from the same state after an earlier diagnostic. Both runs return and report one new
diagnostic, MathOperand at the outer sum. In the second run the `passed()` test of the inner sum
creates the Error instance first, so the pointer type recorded for `&b` is the instance at
address 7 instead of 6; in both runs it is the type pointer-to-Bool, and every node has the
same recorded type. -/
theorem C33_flag_independence_witness :
    Except.Rel (State.SameOutcome [] [{ kind := ErrorKind.errWriteVoid, pos := 100 }])
      (Example.sumRef.typeAnalysis Example.st) (Example.sumRef.typeAnalysis Example.stFailed) ∧
    ∃ a b : State,
      Example.sumRef.typeAnalysis Example.st = Except.ok a ∧
      Example.sumRef.typeAnalysis Example.stFailed = Except.ok b ∧
      a.reports = [{ kind := ErrorKind.errMathOpd, pos := 190 }] ∧
      b.reports = [{ kind := ErrorKind.errWriteVoid, pos := 100 },
        { kind := ErrorKind.errMathOpd, pos := 190 }] ∧
      a.nodeType 51 = Except.ok 6 ∧ b.nodeType 51 = Except.ok 7 ∧
      a.recordedType 2 51 = some (some (some (Ty.ptr (Ty.basic BaseType.BOOL)))) ∧
      b.recordedType 2 51 = some (some (some (Ty.ptr (Ty.basic BaseType.BOOL)))) :=
  ⟨(C33_flag_independence Example.st Example.stFailed rfl rfl rfl rfl).1 Example.sumRef rfl,
    _, _, rfl, rfl, rfl, rfl, rfl, rfl, rfl, rfl⟩

end cminusminus
